import Mathlib

/-!
The two-phase reconciliation engine of netris-operator.

A shallow embedding of the controllers of `netris-operator` (package `controllers`,
`api/v1alpha1`, `netrisstorage`).

* Go `int` / `int64` values are `Int`; only comparison and assignment are performed on them.
* A Go `error` is the text of its `Error()`; a nil-able error is an `Option String`.
* Calls to the Kubernetes client and to the Netris web API are answered by the fields of the
  reconciler value (one answer per argument) and are recorded, in call order, in the trace
  that every operation returns.
* A pointer receiver that is mutated is returned as a new value.
-/

namespace NetrisOperator

/-! ## Kubernetes object model -/

/-- The key `types.NamespacedName` of an object in the store. -/
structure NamespacedName where
  Namespace : String
  Name : String
deriving DecidableEq, Repr

/-- The part of `metav1.ObjectMeta` the controllers read or write.  A nil finalizer slice and a
nil annotation map are `none`. -/
structure ObjectMeta where
  Name : String
  Namespace : String
  UID : String
  Generation : Int
  DeletionTimestamp : Option Nat
  Finalizers : Option (List String)
  Annotations : Option (List (String × String))
deriving DecidableEq, Repr

/-- The zero `ObjectMeta` with a name and a namespace, as in
`metav1.ObjectMeta{Name: ..., Namespace: ...}`. -/
def ObjectMeta.named (name ns : String) : ObjectMeta :=
  { Name := name, Namespace := ns, UID := "", Generation := 0, DeletionTimestamp := none,
    Finalizers := none, Annotations := none }

/-- Go map read `m[key]` returning `(value, ok)`; reading a nil map misses. -/
def mapGet (m : Option (List (String × String))) (key : String) : Option String :=
  match m with
  | none => none
  | some l => l.lookup key

/-- Go map write `m[key] = value` on a non-nil map: the key is bound to the value, every other
key keeps its binding. -/
def mapSet (l : List (String × String)) (key value : String) : List (String × String) :=
  (key, value) :: l.filter (fun p => p.1 != key)

/-- The value of `ctrl.Result`. -/
structure Result where
  Requeue : Bool
  RequeueAfter : Nat
deriving DecidableEq, Repr

/-- The value `ctrl.Result{}`. -/
def Result.empty : Result := { Requeue := false, RequeueAfter := 0 }

/-- The value `ctrl.Result{RequeueAfter: d}`. -/
def Result.after (d : Nat) : Result := { Requeue := false, RequeueAfter := d }

/-- What `client.Get` answers: the object, a NotFound error, or another error. -/
inductive GetResult (α : Type) where
  | found (obj : α)
  | notFound (msg : String)
  | error (msg : String)
deriving Repr

/-- The Kubernetes client of a reconciler, for a desired resource type `CR` and its twin type
`Meta`: the answer of the API server to each call.  `Get` yields the stored object, the
writing calls yield their error (`none` for success). -/
structure Client (CR Meta : Type) where
  GetCR : NamespacedName → GetResult CR
  GetMeta : NamespacedName → GetResult Meta
  PatchCR : CR → Option String
  UpdateCR : CR → Option String
  CreateMeta : Meta → Option String
  UpdateMeta : Meta → Option String
  PatchMeta : Meta → Option String
  DeleteMeta : Meta → Option String

/-! ## Netris web API (client library `netriswebapi`, used through its exported types) -/

/-- The envelope `http.ParseAPIResponse` returns; `StatusCode` is `resp.Meta.StatusCode`. -/
structure APIResponse where
  IsSuccess : Bool
  StatusCode : Int
  Message : String
deriving DecidableEq, Repr

/-- The result of `reply.Parse()`: the message and, when `Data` is a JSON object with a numeric
`id`, that id (`data.Data.(map[string]interface{})["id"].(float64)` panics otherwise). -/
structure ParsedData where
  Message : String
  id : Option Int
deriving DecidableEq, Repr

/-- A reply of the web API: its HTTP status code and its body under the two parsers the
controllers apply to it. -/
structure Reply where
  StatusCode : Int
  Parse : Except String ParsedData
  ParseAPIResponse : Except String APIResponse

/-- The write calls of the Netris client for one entity kind, with add payload `AddP` and
update payload `UpdP`. -/
structure Remote (AddP UpdP : Type) where
  Delete : Int → Except String Reply
  Add : AddP → Except String Reply
  Update : Int → UpdP → Except String Reply

/-- The caches of `netrisstorage.Storage`, by entity kind. -/
inductive Store where
  | sites
  | tenants
  | ports
  | hws
  | vpcs
  | inventoryProfiles
  | serverClusters
  | serverClusterTemplates
deriving DecidableEq, Repr

/-- A call on a cache of `netrisstorage`: a lookup, or the download of the list of a kind from
the web API. -/
inductive CacheCall where
  | findByName (s : Store) (name : String)
  | findByID (s : Store) (id : Int)
  | download (s : Store)
deriving DecidableEq, Repr

/-- The observable calls of one reconcile, in call order: cache calls, writes to the
Kubernetes store and write calls to the web API. -/
inductive Event (CR Meta AddP UpdP : Type) where
  | cache (c : CacheCall)
  | patchCR (cr : CR)
  | updateCR (cr : CR)
  | patchStatus (cr : CR) (status message : String)
  | createMeta (m : Meta)
  | updateMeta (m : Meta)
  | patchMeta (m : Meta)
  | deleteMeta (m : Meta)
  | remoteDelete (id : Int)
  | remoteAdd (p : AddP)
  | remoteUpdate (id : Int) (p : UpdP)
deriving DecidableEq, Repr

/-- How a Go call ends: it returns `(ctrl.Result, error)` or the goroutine panics. -/
inductive Ret where
  | returned (res : Result) (err : Option String)
  | panicked
deriving DecidableEq, Repr

/-- The outcome of a reconcile: how it ended and the calls it made. -/
structure Outcome (Ev : Type) where
  ret : Ret
  trace : List Ev
deriving Repr

/-- The calls `pre` were made before the outcome `o` was produced. -/
def Outcome.after {Ev : Type} (pre : List Ev) (o : Outcome Ev) : Outcome Ev :=
  { o with trace := pre ++ o.trace }

/-- The annotation key of the import flag. -/
def importAnnotation : String := "resource.k8s.netris.ai/import"

/-- The annotation key of the reclaim policy. -/
def reclaimAnnotation : String := "resource.k8s.netris.ai/reclaimPolicy"

/-- The finalizer token. -/
def deleteFinalizer : String := "resource.k8s.netris.ai/delete"

/-! ## Entities of the web API -/

/-- The pair `inventory.IDName`. -/
structure IDName where
  ID : Int
  Name : String
deriving DecidableEq, Repr

/-- The zero `IDName` with an id, as in `inventory.IDName{ID: id}`. -/
def IDName.ofID (id : Int) : IDName := { ID := id, Name := "" }

/-- The zero `IDName` with a name, as in `inventory.IDName{Name: name}`. -/
def IDName.ofName (name : String) : IDName := { ID := 0, Name := name }

/-- A link `inventory.HWLink` between a server NIC and a switch port. -/
structure HWLink where
  Local : IDName
  Remote : IDName
deriving DecidableEq, Repr

/-- The value of the `interface{}` field `Asn` of a server payload: an integer or a string. -/
inductive AsnValue where
  | int (n : Int)
  | str (s : String)
deriving DecidableEq, Repr

/-- The server payload `inventory.HWServer` of the add and update calls. -/
structure HWServer where
  Name : String
  Description : String
  Tenant : IDName
  Site : IDName
  Profile : IDName
  Asn : AsnValue
  MainAddress : String
  MgmtAddress : String
  PortCount : Int
  UUID : String
  Links : List HWLink
  CustomData : String
  Tags : List String
  SRVRole : String
deriving DecidableEq, Repr

/-- An address field of a remote server (`apiServer.MainIP`, `apiServer.MgmtIP`). -/
structure HWAddress where
  Address : String
deriving DecidableEq, Repr

/-- The remote server `inventory.HW` as the cache returns it. -/
structure HW where
  ID : Int
  Name : String
  Description : String
  Tenant : IDName
  Site : IDName
  Profile : IDName
  Asn : Int
  MainIP : HWAddress
  MgmtIP : HWAddress
  PortCount : Int
  UUID : String
  Links : List HWLink
  CustomData : String
  Tags : List String
  SRVRole : String
deriving DecidableEq, Repr

/-- A cached site. -/
structure Site where
  ID : Int
  Name : String
deriving DecidableEq, Repr

/-- A cached tenant. -/
structure Tenant where
  ID : Int
  Name : String
deriving DecidableEq, Repr

/-- A cached switch port; `Port_` is its port name. -/
structure Port where
  ID : Int
  Port_ : String
deriving DecidableEq, Repr

/-- An inventory profile as `Cred.InventoryProfile().Get()` lists it. -/
structure InventoryProfile where
  ID : Int
  Name : String
deriving DecidableEq, Repr

/-! ## `api/v1alpha1`: InventoryServer and InventoryServerMeta -/

/-- A link between server NIC and switch port; `Remote` is "portName@switchName". -/
structure InventoryServerLink where
  Local : String
  Remote : String
deriving DecidableEq, Repr

/-- The desired state of InventoryServer. -/
structure InventoryServerSpec where
  Tenant : String
  Description : String
  Site : String
  Profile : String
  MainIP : String
  MgmtIP : String
  ASN : Int
  PortsCount : Int
  UUID : String
  Links : List InventoryServerLink
  CustomData : String
  Tags : List String
  SRVRole : String
deriving DecidableEq, Repr

/-- The observed state of a desired resource, as in `InventoryServerStatus`,
`ServerClusterTemplateStatus`. -/
structure ResourceStatus where
  Status : String
  Message : String
deriving DecidableEq, Repr

/-- The InventoryServer resource. -/
structure InventoryServer where
  ObjectMeta : ObjectMeta
  Spec : InventoryServerSpec
  Status : ResourceStatus
deriving DecidableEq, Repr

/-- The resolved state `InventoryServerMetaSpec`. -/
structure InventoryServerMetaSpec where
  Imported : Bool
  Reclaim : Bool
  InventoryServerCRGeneration : Int
  ID : Int
  InventoryServerName : String
  TenantID : Int
  Description : String
  SiteID : Int
  ProfileID : Int
  MainIP : String
  MgmtIP : String
  ASN : Int
  PortsCount : Int
  UUID : String
  Links : List HWLink
  CustomData : String
  Tags : List String
  SRVRole : String
deriving DecidableEq, Repr

/-- The InventoryServerMeta resource (the twin of an InventoryServer). -/
structure InventoryServerMeta where
  ObjectMeta : ObjectMeta
  Spec : InventoryServerMetaSpec
deriving DecidableEq, Repr

/-! ## `api/v1alpha1`: ServerCluster and ServerClusterMeta -/

/-- A server reference within a cluster. -/
structure ServerClusterServer where
  Name : String
  Shared : Bool
deriving DecidableEq, Repr

/-- The desired state of ServerCluster. -/
structure ServerClusterSpec where
  Site : String
  Admin : String
  VPC : String
  Template : String
  Tags : List String
  Servers : List ServerClusterServer
deriving DecidableEq, Repr

/-- The ServerCluster resource; of its status the fields `Status` and `Message`. -/
structure ServerCluster where
  ObjectMeta : ObjectMeta
  Spec : ServerClusterSpec
  Status : ResourceStatus
deriving DecidableEq, Repr

/-- A member `servercluster.Servers` of a cluster payload, with the fields the translation
sets. -/
structure Servers where
  ID : Int
  Name : String
deriving DecidableEq, Repr

/-- The resolved state `ServerClusterMetaSpec`. -/
structure ServerClusterMetaSpec where
  Imported : Bool
  Reclaim : Bool
  ServerClusterCRGeneration : Int
  ID : Int
  ServerClusterName : String
  SiteID : Int
  SiteName : String
  AdminID : Int
  AdminName : String
  VPCID : Int
  VPCName : String
  TemplateID : Int
  TemplateName : String
  Tags : List String
  Servers : List Servers
deriving DecidableEq, Repr

/-- The ServerClusterMeta resource (the twin of a ServerCluster). -/
structure ServerClusterMeta where
  ObjectMeta : ObjectMeta
  Spec : ServerClusterMetaSpec
deriving DecidableEq, Repr

/-- The add payload `servercluster.ServerClusterW`. -/
structure ServerClusterW where
  Name : String
  Admin : IDName
  Site : IDName
  VPC : IDName
  SrvClusterTemplate : IDName
  Tags : List String
  Servers : List Servers
deriving DecidableEq, Repr

/-- The update payload `servercluster.ServerClusterU`. -/
structure ServerClusterU where
  Tags : List String
  Servers : List Servers
deriving DecidableEq, Repr

/-- The remote cluster `servercluster.ServerCluster` as the cache holds it. -/
structure RemoteServerCluster where
  ID : Int
  Name : String
  Admin : IDName
  Site : IDName
  VPC : IDName
  SrvClusterTemplate : IDName
  Tags : List String
  Servers : List Servers
deriving DecidableEq, Repr

/-! ## `api/v1alpha1`: ServerClusterTemplate and ServerClusterTemplateMeta -/

/-- The IPv4/IPv6 gateway configuration of a VNet. -/
structure ServerClusterTemplateVNetGateway where
  AssignType : String
  Allocation : String
  ChildSubnetPrefixLength : Int
  Hostnum : Int
deriving DecidableEq, Repr

/-- A VNet configuration within the template; a nil gateway pointer is `none`. -/
structure ServerClusterTemplateVNet where
  Postfix : String
  Type_ : String
  ServerNics : List String
  Vlan : String
  VlanID : String
  IPv4Gateway : Option ServerClusterTemplateVNetGateway
  IPv6Gateway : Option ServerClusterTemplateVNetGateway
  IPv4DhcpEnabled : Bool
  IPv6DhcpEnabled : Bool
deriving DecidableEq, Repr

/-- The desired state of ServerClusterTemplate. -/
structure ServerClusterTemplateSpec where
  VNets : List ServerClusterTemplateVNet
deriving DecidableEq, Repr

/-- The ServerClusterTemplate resource. -/
structure ServerClusterTemplate where
  ObjectMeta : ObjectMeta
  Spec : ServerClusterTemplateSpec
  Status : ResourceStatus
deriving DecidableEq, Repr

/-- The resolved state `ServerClusterTemplateMetaSpec`. -/
structure ServerClusterTemplateMetaSpec where
  Imported : Bool
  Reclaim : Bool
  ServerClusterTemplateCRGeneration : Int
  ID : Int
  ServerClusterTemplateName : String
  VNets : List ServerClusterTemplateVNet
deriving DecidableEq, Repr

/-- The ServerClusterTemplateMeta resource (the twin of a ServerClusterTemplate). -/
structure ServerClusterTemplateMeta where
  ObjectMeta : ObjectMeta
  Spec : ServerClusterTemplateMetaSpec
deriving DecidableEq, Repr

/-- A value stored in a gateway map `map[string]interface{}`. -/
inductive GatewayValue where
  | str (s : String)
  | int (n : Int)
deriving DecidableEq, Repr

/-- A value stored in a VNet map `map[string]interface{}`. -/
inductive VNetValue where
  | str (s : String)
  | bool (b : Bool)
  | strs (l : List String)
  | gateway (m : List (String × GatewayValue))
deriving DecidableEq, Repr

/-- The payload `serverclustertemplate.ServerClusterTemplateW`; each element of `Vnets` is a
map from key to value, listed in the order the keys were written. -/
structure ServerClusterTemplateW where
  Name : String
  Vnets : List (List (String × VNetValue))
deriving DecidableEq, Repr

/-- The remote template `serverclustertemplate.ServerClusterTemplate` as the cache holds it. -/
structure RemoteServerClusterTemplate where
  ID : Int
  Name : String
  Vnets : List (List (String × VNetValue))
deriving DecidableEq, Repr

/-! ## `api/v1alpha1`: VPC and VPCMeta -/

/-- The desired state of VPC, with the fields `VPCToMeta` reads. -/
structure VPCSpec where
  AdminTenant : String
  GuestTenants : List String
  Tags : List String
deriving DecidableEq, Repr

/-- The VPC resource. -/
structure VPC where
  ObjectMeta : ObjectMeta
  Spec : VPCSpec
  Status : ResourceStatus
deriving DecidableEq, Repr

/-- A tenant with access to the VPC. -/
structure VPCGuestTenant where
  ID : Int
  Name : String
deriving DecidableEq, Repr

/-- The resolved state `VPCMetaSpec`. -/
structure VPCMetaSpec where
  Imported : Bool
  Reclaim : Bool
  VPCCRGeneration : Int
  ID : Int
  VPCName : String
  AdminTenantID : Int
  AdminTenantName : String
  GuestTenants : List VPCGuestTenant
  Tags : List String
deriving DecidableEq, Repr

/-- The VPCMeta resource (the twin of a VPC). -/
structure VPCMeta where
  ObjectMeta : ObjectMeta
  Spec : VPCMetaSpec
deriving DecidableEq, Repr

/-- The payload `vpc.VPCw` of the add and update calls; `AdminTenant` is `vpc.AdminTenant`
and the elements of `GuestTenant` are `vpc.GuestTenant`, both an id with a name. -/
structure VPCw where
  Name : String
  AdminTenant : IDName
  GuestTenant : List IDName
  Tags : List String
deriving DecidableEq, Repr

/-- The remote VPC `vpc.VPC` as the cache returns it. -/
structure RemoteVPC where
  ID : Int
  Name : String
  AdminTenant : IDName
  GuestTenant : List IDName
  Tags : List String
deriving DecidableEq, Repr

/-! ## The Netris client and the caches -/

/-- The client `api.Clientset`: per entity kind the write calls and the list call `Get()`.
`Inventory.Delete id` is `Inventory().Delete("server", id)`, `Inventory.Add` is `AddServer`,
`Inventory.Update` is `UpdateServer`.  `Errorf` is `fmt.Errorf(format).Error()` for a format
given without arguments. -/
structure Clientset where
  Inventory : Remote HWServer HWServer
  InventoryProfileGet : Except String (List InventoryProfile)
  ServerCluster : Remote ServerClusterW ServerClusterU
  ServerClusterGet : Except String (List RemoteServerCluster)
  ServerClusterTemplate : Remote ServerClusterTemplateW ServerClusterTemplateW
  ServerClusterTemplateGet : Except String (List RemoteServerClusterTemplate)
  VPC : Remote VPCw VPCw
  Errorf : String → String

/-- Modelled from the spec: a cache of `netrisstorage` whose source is not among the files
(sites, tenants, ports, VPCs).  `FindByName` and `FindByID` are the answers of the lookup,
after the one re-download a miss triggers. -/
structure Cache (α : Type) where
  FindByName : String → Option α
  FindByID : Int → Option α

/-- Modelled from the spec: the hardware cache `HWsStorage`, whose source is not among the
files, with the answers of its two server lookups. -/
structure HWsStorage where
  FindServerByName : String → Option HW
  FindServerByID : Int → Option HW

/-- The cache `ServerClusterStorage`: its snapshot. -/
structure ServerClusterStorage where
  Clusters : List RemoteServerCluster
deriving DecidableEq, Repr

/-- The cache `ServerClusterTemplateStorage`: its snapshot. -/
structure ServerClusterTemplateStorage where
  Templates : List RemoteServerClusterTemplate
deriving DecidableEq, Repr

namespace ServerClusterStorage

/-- The constructor `NewServerClusterStorage`. -/
def New : ServerClusterStorage := { Clusters := [] }

/-- The method `GetAll`: the current snapshot, the cache after the call and the calls
made. -/
def GetAll (s : ServerClusterStorage) :
    List RemoteServerCluster × ServerClusterStorage × List CacheCall :=
  (s.Clusters, s, [])

/-- The method `findByName`: the first cluster of the snapshot with the name. -/
def findByName (s : ServerClusterStorage) (name : String) : Option RemoteServerCluster :=
  s.Clusters.find? (fun c => c.Name == name)

/-- The method `findByID`: the first cluster of the snapshot with the id. -/
def findByID (s : ServerClusterStorage) (id : Int) : Option RemoteServerCluster :=
  s.Clusters.find? (fun c => c.ID == id)

/-- The method `storeAll`. -/
def storeAll (_s : ServerClusterStorage) (items : List RemoteServerCluster) :
    ServerClusterStorage :=
  { Clusters := items }

/-- The method `download`, where `get` is the answer of `Cred.ServerCluster().Get()`: the new
cache, the error returned and the call made. -/
def download (s : ServerClusterStorage) (get : Except String (List RemoteServerCluster)) :
    ServerClusterStorage × Option String × List CacheCall :=
  match get with
  | .error err => (s, some err, [.download .serverClusters])
  | .ok items => (s.storeAll items, none, [.download .serverClusters])

/-- The method `Download`. -/
def Download (s : ServerClusterStorage) (get : Except String (List RemoteServerCluster)) :
    ServerClusterStorage × Option String × List CacheCall :=
  s.download get

/-- The method `FindByName`: the entry found (`none` for `ok == false`), the new cache and the
calls made. -/
def FindByName (s : ServerClusterStorage) (get : Except String (List RemoteServerCluster))
    (name : String) : Option RemoteServerCluster × ServerClusterStorage × List CacheCall :=
  match s.findByName name with
  | none =>
    let d := s.download get
    (d.1.findByName name, d.1, .findByName .serverClusters name :: d.2.2)
  | some item => (some item, s, [.findByName .serverClusters name])

/-- The method `FindByID`. -/
def FindByID (s : ServerClusterStorage) (get : Except String (List RemoteServerCluster))
    (id : Int) : Option RemoteServerCluster × ServerClusterStorage × List CacheCall :=
  match s.findByID id with
  | none =>
    let d := s.download get
    (d.1.findByID id, d.1, .findByID .serverClusters id :: d.2.2)
  | some item => (some item, s, [.findByID .serverClusters id])

end ServerClusterStorage

namespace ServerClusterTemplateStorage

/-- The constructor `NewServerClusterTemplateStorage`. -/
def New : ServerClusterTemplateStorage := { Templates := [] }

/-- The method `GetAll`: the current snapshot, the cache after the call and the calls
made. -/
def GetAll (s : ServerClusterTemplateStorage) :
    List RemoteServerClusterTemplate × ServerClusterTemplateStorage × List CacheCall :=
  (s.Templates, s, [])

/-- The method `findByName`: the first template of the snapshot with the name. -/
def findByName (s : ServerClusterTemplateStorage) (name : String) :
    Option RemoteServerClusterTemplate :=
  s.Templates.find? (fun t => t.Name == name)

/-- The method `findByID`: the first template of the snapshot with the id. -/
def findByID (s : ServerClusterTemplateStorage) (id : Int) :
    Option RemoteServerClusterTemplate :=
  s.Templates.find? (fun t => t.ID == id)

/-- The method `storeAll`. -/
def storeAll (_s : ServerClusterTemplateStorage) (items : List RemoteServerClusterTemplate) :
    ServerClusterTemplateStorage :=
  { Templates := items }

/-- The method `download`, where `get` is the answer of `Cred.ServerClusterTemplate().Get()`:
the new cache, the error returned and the call made. -/
def download (s : ServerClusterTemplateStorage)
    (get : Except String (List RemoteServerClusterTemplate)) :
    ServerClusterTemplateStorage × Option String × List CacheCall :=
  match get with
  | .error err => (s, some err, [.download .serverClusterTemplates])
  | .ok items => (s.storeAll items, none, [.download .serverClusterTemplates])

/-- The method `Download`. -/
def Download (s : ServerClusterTemplateStorage)
    (get : Except String (List RemoteServerClusterTemplate)) :
    ServerClusterTemplateStorage × Option String × List CacheCall :=
  s.download get

/-- The method `FindByName`: the entry found (`none` for `ok == false`), the new cache and the
calls made. -/
def FindByName (s : ServerClusterTemplateStorage)
    (get : Except String (List RemoteServerClusterTemplate)) (name : String) :
    Option RemoteServerClusterTemplate × ServerClusterTemplateStorage × List CacheCall :=
  match s.findByName name with
  | none =>
    let d := s.download get
    (d.1.findByName name, d.1, .findByName .serverClusterTemplates name :: d.2.2)
  | some item => (some item, s, [.findByName .serverClusterTemplates name])

/-- The method `FindByID`. -/
def FindByID (s : ServerClusterTemplateStorage)
    (get : Except String (List RemoteServerClusterTemplate)) (id : Int) :
    Option RemoteServerClusterTemplate × ServerClusterTemplateStorage × List CacheCall :=
  match s.findByID id with
  | none =>
    let d := s.download get
    (d.1.findByID id, d.1, .findByID .serverClusterTemplates id :: d.2.2)
  | some item => (some item, s, [.findByID .serverClusterTemplates id])

end ServerClusterTemplateStorage

/-- The caches `netrisstorage.Storage` a reconciler holds, with the client `Cred` of the
package `netrisstorage`. -/
structure Storage where
  Cred : Clientset
  SitesStorage : Cache Site
  TenantsStorage : Cache Tenant
  PortsStorage : Cache Port
  HWsStorage : HWsStorage
  VPCStorage : Cache RemoteVPC
  ServerClusterStorage : ServerClusterStorage
  ServerClusterTemplateStorage : ServerClusterTemplateStorage

/-! ## Shared pieces of the controllers -/

/-- A step of a translation: its value or error, with the cache calls it made. -/
abbrev Resolved (α : Type) : Type := Except String α × List CacheCall

/-- Sequencing of translation steps: an error of the first step is returned at once (the Go
`return nil, err`), otherwise the second step runs after it. -/
def Resolved.andThen {α β : Type} (x : Resolved α) (f : α → Resolved β) : Resolved β :=
  match x.1 with
  | .error err => (.error err, x.2)
  | .ok a => ((f a).1, x.2 ++ (f a).2)

/-- The flag `imported` the translations and comparisons compute: the import annotation is
present and equals "true". -/
def importedOf (o : ObjectMeta) : Bool :=
  match mapGet o.Annotations importAnnotation with
  | some i => i == "true"
  | none => false

/-- The flag `reclaim` the translations and comparisons compute: the reclaim policy annotation
is present and equals "retain". -/
def reclaimOf (o : ObjectMeta) : Bool :=
  match mapGet o.Annotations reclaimAnnotation with
  | some i => i == "retain"
  | none => false

/-- The return `(ctrl.Result, error)` of a helper method, with the object it was given as the
method leaves it and the calls it made. -/
structure Step (α Ev : Type) where
  obj : α
  res : Result
  err : Option String
  trace : List Ev

/-- The calls `pre` were made before the step `s`. -/
def Step.after {α Ev : Type} (pre : List Ev) (s : Step α Ev) : Step α Ev :=
  { s with trace := pre ++ s.trace }

/-- How a call of a create method `createX` ends: it returns `(ctrl.Result{}, nil, nil)`, it
returns the errors `(err, errMsg)`, or it panics. -/
inductive CallEnd where
  | ok
  | failed (err errMsg : String)
  | panicked
deriving DecidableEq, Repr

/-- The end of a create method, with the twin as the method leaves it and the calls made. -/
structure Call (α Ev : Type) where
  obj : α
  ending : CallEnd
  trace : List Ev

/-- The helper struct `uniReconciler` of a reconcile, with the package-level
`requeueInterval`. -/
structure uniReconciler (CR Meta : Type) where
  Client : Client CR Meta
  Cred : Clientset
  NStorage : Storage
  requeueInterval : Nat

/-! ## `inventoryserver_translations.go` -/

/-- The calls of the InventoryServer controllers. -/
abbrev InventoryServerEvent : Type :=
  Event InventoryServer InventoryServerMeta HWServer HWServer

/-- The reconciler `InventoryServerReconciler`, with the package-level `requeueInterval`. -/
structure InventoryServerReconciler where
  Client : Client InventoryServer InventoryServerMeta
  Cred : Clientset
  NStorage : Storage
  requeueInterval : Nat

namespace InventoryServerReconciler

/-- The site step of `InventoryServerToInventoryServerMeta`. -/
def resolveSite (r : InventoryServerReconciler) (inventoryServer : InventoryServer) :
    Resolved Int :=
  match r.NStorage.SitesStorage.FindByName inventoryServer.Spec.Site with
  | some site => (.ok site.ID, [.findByName .sites inventoryServer.Spec.Site])
  | none => (.error ("invalid site '" ++ inventoryServer.Spec.Site ++ "'"),
      [.findByName .sites inventoryServer.Spec.Site])

/-- The tenant step of `InventoryServerToInventoryServerMeta`. -/
def resolveTenant (r : InventoryServerReconciler) (inventoryServer : InventoryServer) :
    Resolved Int :=
  if inventoryServer.Spec.Tenant != "" then
    match r.NStorage.TenantsStorage.FindByName inventoryServer.Spec.Tenant with
    | some tenant => (.ok tenant.ID, [.findByName .tenants inventoryServer.Spec.Tenant])
    | none => (.error ("invalid tenant '" ++ inventoryServer.Spec.Tenant ++ "'"),
        [.findByName .tenants inventoryServer.Spec.Tenant])
  else (.ok 0, [])

/-- The loop over `profiles` of `InventoryServerToInventoryServerMeta`: the id of the last
profile with the name, 0 without one. -/
def profileIDOf (profiles : List InventoryProfile) (name : String) : Int :=
  profiles.foldl (fun profileID p => if p.Name == name then p.ID else profileID) 0

/-- The profile step of `InventoryServerToInventoryServerMeta`. -/
def resolveProfile (r : InventoryServerReconciler) (inventoryServer : InventoryServer) :
    Resolved Int :=
  if inventoryServer.Spec.Profile != "" then
    match r.Cred.InventoryProfileGet with
    | .error err => (.error err, [.download .inventoryProfiles])
    | .ok profiles =>
      if profileIDOf profiles inventoryServer.Spec.Profile == 0 then
        (.error ("invalid profile '" ++ inventoryServer.Spec.Profile ++ "'"),
          [.download .inventoryProfiles])
      else (.ok (profileIDOf profiles inventoryServer.Spec.Profile),
          [.download .inventoryProfiles])
  else (.ok 0, [])

/-- The loop over `Spec.Links` of `InventoryServerToInventoryServerMeta`. -/
def resolveLinks (r : InventoryServerReconciler) : List InventoryServerLink → Resolved (List HWLink)
  | [] => (.ok [], [])
  | link :: rest =>
    match r.NStorage.PortsStorage.FindByName link.Remote with
    | none => (.error ("port '" ++ link.Remote ++ "' not found"),
        [.findByName .ports link.Remote])
    | some port =>
      ((resolveLinks r rest).1.map (fun links =>
          { Local := IDName.ofName link.Local,
            Remote := { ID := port.ID, Name := port.Port_ } } :: links),
        .findByName .ports link.Remote :: (resolveLinks r rest).2)

/-- The method `InventoryServerToInventoryServerMeta`: converts the InventoryServer resource
to InventoryServerMeta type. -/
def InventoryServerToInventoryServerMeta (r : InventoryServerReconciler)
    (inventoryServer : InventoryServer) : Resolved InventoryServerMeta :=
  Resolved.andThen (r.resolveSite inventoryServer) fun siteID =>
  Resolved.andThen (r.resolveTenant inventoryServer) fun tenantID =>
  Resolved.andThen (r.resolveProfile inventoryServer) fun profileID =>
  Resolved.andThen (r.resolveLinks inventoryServer.Spec.Links) fun links =>
    (.ok
      { ObjectMeta := ObjectMeta.named inventoryServer.ObjectMeta.UID
          inventoryServer.ObjectMeta.Namespace
        Spec :=
          { Imported := importedOf inventoryServer.ObjectMeta
            Reclaim := reclaimOf inventoryServer.ObjectMeta
            InventoryServerCRGeneration := 0
            ID := 0
            InventoryServerName := inventoryServer.ObjectMeta.Name
            Description := inventoryServer.Spec.Description
            TenantID := tenantID
            SiteID := siteID
            ASN := inventoryServer.Spec.ASN
            ProfileID := profileID
            MainIP := inventoryServer.Spec.MainIP
            MgmtIP := inventoryServer.Spec.MgmtIP
            PortsCount := inventoryServer.Spec.PortsCount
            UUID := inventoryServer.Spec.UUID
            Links := links
            CustomData := inventoryServer.Spec.CustomData
            Tags := inventoryServer.Spec.Tags
            SRVRole := inventoryServer.Spec.SRVRole } }, [])

end InventoryServerReconciler

/-- The function `inventoryServerCompareFieldsForNewMeta`. -/
def inventoryServerCompareFieldsForNewMeta (inventoryServer : InventoryServer)
    (inventoryServerMeta : InventoryServerMeta) : Bool :=
  inventoryServer.ObjectMeta.Generation != inventoryServerMeta.Spec.InventoryServerCRGeneration
    || importedOf inventoryServer.ObjectMeta != inventoryServerMeta.Spec.Imported
    || reclaimOf inventoryServer.ObjectMeta != inventoryServerMeta.Spec.Reclaim

/-- The body shared by the functions `xMustUpdateAnnotations`, on the object metadata. -/
def mustUpdateAnnotations (o : ObjectMeta) : Bool :=
  let update := false
  let update :=
    match mapGet o.Annotations importAnnotation with
    | some i => if !(i == "true" || i == "false") then true else update
    | none => true
  let update :=
    match mapGet o.Annotations reclaimAnnotation with
    | some i => if !(i == "retain" || i == "delete") then true else update
    | none => true
  update

/-- The body shared by the functions `xUpdateDefaultAnnotations`, on the object metadata. -/
def updateDefaultAnnotations (o : ObjectMeta) : ObjectMeta :=
  let imported := if importedOf o then "true" else "false"
  let reclaim := if reclaimOf o then "retain" else "delete"
  let annotations :=
    match o.Annotations with
    | none => []
    | some annotations => annotations
  let annotations := mapSet annotations importAnnotation imported
  let annotations := mapSet annotations reclaimAnnotation reclaim
  { o with Annotations := some annotations }

/-- The function `inventoryServerMustUpdateAnnotations`. -/
def inventoryServerMustUpdateAnnotations (inventoryServer : InventoryServer) : Bool :=
  mustUpdateAnnotations inventoryServer.ObjectMeta

/-- The function `inventoryServerUpdateDefaultAnnotations`. -/
def inventoryServerUpdateDefaultAnnotations (inventoryServer : InventoryServer) :
    InventoryServer :=
  { inventoryServer with ObjectMeta := updateDefaultAnnotations inventoryServer.ObjectMeta }

/-- The function `InventoryServerMetaToNetris`: converts the k8s InventoryServer resource to
Netris type for add API call. -/
def InventoryServerMetaToNetris (inventoryServerMeta : InventoryServerMeta) :
    Except String HWServer :=
  let mainIP :=
    if inventoryServerMeta.Spec.MainIP == "" then "auto" else inventoryServerMeta.Spec.MainIP
  let mgmtIP :=
    if inventoryServerMeta.Spec.MgmtIP == "" then "auto" else inventoryServerMeta.Spec.MgmtIP
  let asn : AsnValue :=
    if inventoryServerMeta.Spec.ASN == 0 then .str "auto" else .int inventoryServerMeta.Spec.ASN
  .ok
    { Name := inventoryServerMeta.Spec.InventoryServerName
      Description := inventoryServerMeta.Spec.Description
      Tenant := IDName.ofID inventoryServerMeta.Spec.TenantID
      Site := IDName.ofID inventoryServerMeta.Spec.SiteID
      Profile := IDName.ofID inventoryServerMeta.Spec.ProfileID
      Asn := asn
      MainAddress := mainIP
      MgmtAddress := mgmtIP
      PortCount := inventoryServerMeta.Spec.PortsCount
      UUID := inventoryServerMeta.Spec.UUID
      Links := inventoryServerMeta.Spec.Links
      CustomData := inventoryServerMeta.Spec.CustomData
      Tags := inventoryServerMeta.Spec.Tags
      SRVRole := inventoryServerMeta.Spec.SRVRole }

/-- The function `InventoryServerMetaToNetrisUpdate`: converts the k8s InventoryServer
resource to Netris type for update API call. -/
def InventoryServerMetaToNetrisUpdate (inventoryServerMeta : InventoryServerMeta) :
    Except String HWServer :=
  let mainIP :=
    if inventoryServerMeta.Spec.MainIP == "" then "auto" else inventoryServerMeta.Spec.MainIP
  let mgmtIP :=
    if inventoryServerMeta.Spec.MgmtIP == "" then "auto" else inventoryServerMeta.Spec.MgmtIP
  let asn : AsnValue :=
    if inventoryServerMeta.Spec.ASN == 0 then .str "auto" else .int inventoryServerMeta.Spec.ASN
  .ok
    { Name := inventoryServerMeta.Spec.InventoryServerName
      Description := inventoryServerMeta.Spec.Description
      Tenant := IDName.ofID inventoryServerMeta.Spec.TenantID
      Site := IDName.ofID inventoryServerMeta.Spec.SiteID
      Profile := IDName.ofID inventoryServerMeta.Spec.ProfileID
      Asn := asn
      MainAddress := mainIP
      MgmtAddress := mgmtIP
      PortCount := inventoryServerMeta.Spec.PortsCount
      UUID := inventoryServerMeta.Spec.UUID
      Links := inventoryServerMeta.Spec.Links
      CustomData := inventoryServerMeta.Spec.CustomData
      Tags := inventoryServerMeta.Spec.Tags
      SRVRole := inventoryServerMeta.Spec.SRVRole }

/-- The function `compareInventoryServerMetaAPIServer`. -/
def compareInventoryServerMetaAPIServer (inventoryServerMeta : InventoryServerMeta)
    (apiServer : HW) : Bool :=
  if apiServer.Name != inventoryServerMeta.Spec.InventoryServerName then false
  else if apiServer.Description != inventoryServerMeta.Spec.Description then false
  else if apiServer.Tenant.ID != inventoryServerMeta.Spec.TenantID then false
  else if apiServer.Site.ID != inventoryServerMeta.Spec.SiteID then false
  else if apiServer.Profile.ID != inventoryServerMeta.Spec.ProfileID then false
  else if apiServer.MainIP.Address != inventoryServerMeta.Spec.MainIP then false
  else if apiServer.MgmtIP.Address != inventoryServerMeta.Spec.MgmtIP then false
  else if apiServer.PortCount != inventoryServerMeta.Spec.PortsCount then false
  else if apiServer.UUID != inventoryServerMeta.Spec.UUID then false
  else if apiServer.CustomData != inventoryServerMeta.Spec.CustomData then false
  else if apiServer.SRVRole != inventoryServerMeta.Spec.SRVRole then false
  else true

/-! ## `inventoryserver_controller.go` -/

/-- The remote step of `deleteInventoryServer`, `deleteServerCluster` and
`deleteServerClusterTemplate`, taken when the twin is not nil, its id is positive and
`Reclaim` is false; `tag` is the name of the method in braces.  The result is `none` when the remote
entity is deleted or was absent
(404), otherwise the error returned. -/
def remoteDeleteStep (cred : Clientset) (remote : Int → Except String Reply) (tag : String)
    (id : Int) : Option String :=
  match remote id with
  | .error err => some (tag ++ err)
  | .ok reply =>
    match reply.ParseAPIResponse with
    | .error err => some err
    | .ok resp =>
      if !resp.IsSuccess && resp.StatusCode != 404 then
        some (tag ++ cred.Errorf resp.Message)
      else none

/-- Modelled from the spec: the method `uniReconciler.patchInventoryServerStatus`, whose source
is not among the files.  The Status Reporter sets the observed status {state, message} on the
desired resource and patches it; the reconcile is retried after the fixed poll interval. -/
def uniReconciler.patchInventoryServerStatus
    (u : uniReconciler InventoryServer InventoryServerMeta) (inventoryServer : InventoryServer)
    (status message : String) : Outcome InventoryServerEvent :=
  { ret := .returned (Result.after u.requeueInterval) none
    trace := [.patchStatus
        { inventoryServer with Status := { Status := status, Message := message } }
      status message] }

namespace InventoryServerReconciler

/-- The value `u` built at the start of `Reconcile`. -/
def uni (r : InventoryServerReconciler) : uniReconciler InventoryServer InventoryServerMeta :=
  { Client := r.Client, Cred := r.Cred, NStorage := r.NStorage,
    requeueInterval := r.requeueInterval }

/-- The method `deleteInventoryServerCR`. -/
def deleteInventoryServerCR (r : InventoryServerReconciler) (inventoryServer : InventoryServer) :
    Step InventoryServer InventoryServerEvent :=
  let inventoryServer : InventoryServer :=
    { inventoryServer with ObjectMeta := { inventoryServer.ObjectMeta with Finalizers := none } }
  match r.Client.UpdateCR inventoryServer with
  | some err =>
    { obj := inventoryServer, res := Result.empty,
      err := some ("\x7bdeleteInventoryServerCR\x7d " ++ err),
      trace := [.updateCR inventoryServer] }
  | none =>
    { obj := inventoryServer, res := Result.empty, err := none,
      trace := [.updateCR inventoryServer] }

/-- The method `deleteInventoryServerMetaCR`. -/
def deleteInventoryServerMetaCR (r : InventoryServerReconciler)
    (inventoryServerMeta : InventoryServerMeta) :
    Step InventoryServerMeta InventoryServerEvent :=
  match r.Client.DeleteMeta inventoryServerMeta with
  | some err =>
    { obj := inventoryServerMeta, res := Result.empty,
      err := some ("\x7bdeleteInventoryServerMetaCR\x7d " ++ err),
      trace := [.deleteMeta inventoryServerMeta] }
  | none =>
    { obj := inventoryServerMeta, res := Result.empty, err := none,
      trace := [.deleteMeta inventoryServerMeta] }

/-- The method `deleteCRs`; a nil `inventoryServerMeta` is `none`. -/
def deleteCRs (r : InventoryServerReconciler) (inventoryServer : InventoryServer)
    (inventoryServerMeta : Option InventoryServerMeta) :
    Step InventoryServer InventoryServerEvent :=
  match inventoryServerMeta with
  | some m =>
    match (r.deleteInventoryServerMetaCR m).err with
    | some err =>
      { obj := inventoryServer, res := Result.empty, err := some ("\x7bdeleteCRs\x7d " ++ err),
        trace := (r.deleteInventoryServerMetaCR m).trace }
    | none =>
      (r.deleteInventoryServerCR inventoryServer).after (r.deleteInventoryServerMetaCR m).trace
  | none => r.deleteInventoryServerCR inventoryServer

/-- The method `deleteInventoryServer`; a nil `inventoryServerMeta` is `none`. -/
def deleteInventoryServer (r : InventoryServerReconciler) (inventoryServer : InventoryServer)
    (inventoryServerMeta : Option InventoryServerMeta) :
    Step InventoryServer InventoryServerEvent :=
  match inventoryServerMeta with
  | some m =>
    if m.Spec.ID > 0 && !m.Spec.Reclaim then
      match remoteDeleteStep r.Cred r.Cred.Inventory.Delete "\x7bdeleteInventoryServer\x7d "
          m.Spec.ID with
      | some err =>
        { obj := inventoryServer, res := Result.empty, err := some err,
          trace := [.remoteDelete m.Spec.ID] }
      | none => (r.deleteCRs inventoryServer (some m)).after [.remoteDelete m.Spec.ID]
    else r.deleteCRs inventoryServer (some m)
  | none => r.deleteCRs inventoryServer none

/-- The branch `metaFound` of `Reconcile`. -/
def reconcileFound (r : InventoryServerReconciler) (inventoryServer : InventoryServer)
    (inventoryServerMeta : InventoryServerMeta) : Outcome InventoryServerEvent :=
  if inventoryServerCompareFieldsForNewMeta inventoryServer inventoryServerMeta then
    let inventoryServerID := inventoryServerMeta.Spec.ID
    match r.InventoryServerToInventoryServerMeta inventoryServer with
    | (.error err, calls) =>
      (r.uni.patchInventoryServerStatus inventoryServer "Failure" err).after
        (calls.map .cache)
    | (.ok newInventoryServerMeta, calls) =>
      let inventoryServerMeta : InventoryServerMeta :=
        { inventoryServerMeta with
          Spec := { newInventoryServerMeta.Spec with
            ID := inventoryServerID
            InventoryServerCRGeneration := inventoryServer.ObjectMeta.Generation } }
      match r.Client.UpdateMeta inventoryServerMeta with
      | some _ =>
        { ret := .returned (Result.after r.requeueInterval) none
          trace := calls.map .cache ++ [.updateMeta inventoryServerMeta] }
      | none =>
        { ret := .returned (Result.after r.requeueInterval) none
          trace := calls.map .cache ++ [.updateMeta inventoryServerMeta] }
  else { ret := .returned (Result.after r.requeueInterval) none, trace := [] }

/-- The branch `!metaFound` of `Reconcile`. -/
def reconcileNotFound (r : InventoryServerReconciler) (inventoryServer : InventoryServer) :
    Outcome InventoryServerEvent :=
  if inventoryServer.ObjectMeta.Finalizers = none then
    let inventoryServer : InventoryServer :=
      { inventoryServer with
        ObjectMeta := { inventoryServer.ObjectMeta with Finalizers := some [deleteFinalizer] } }
    match r.Client.PatchCR inventoryServer with
    | some _ =>
      { ret := .returned (Result.after r.requeueInterval) none
        trace := [.patchCR inventoryServer] }
    | none => { ret := .returned Result.empty none, trace := [.patchCR inventoryServer] }
  else
    match r.InventoryServerToInventoryServerMeta inventoryServer with
    | (.error err, calls) =>
      (r.uni.patchInventoryServerStatus inventoryServer "Failure" err).after
        (calls.map .cache)
    | (.ok inventoryServerMeta, calls) =>
      let inventoryServerMeta : InventoryServerMeta :=
        { inventoryServerMeta with
          Spec := { inventoryServerMeta.Spec with
            InventoryServerCRGeneration := inventoryServer.ObjectMeta.Generation } }
      match r.Client.CreateMeta inventoryServerMeta with
      | some _ =>
        { ret := .returned (Result.after r.requeueInterval) none
          trace := calls.map .cache ++ [.createMeta inventoryServerMeta] }
      | none =>
        { ret := .returned (Result.after r.requeueInterval) none
          trace := calls.map .cache ++ [.createMeta inventoryServerMeta] }

/-- The part of `Reconcile` after the desired resource and its twin (`none` when not found)
are loaded. -/
def reconcileLoaded (r : InventoryServerReconciler) (inventoryServer : InventoryServer)
    (inventoryServerMeta : Option InventoryServerMeta) : Outcome InventoryServerEvent :=
  if inventoryServer.ObjectMeta.DeletionTimestamp.isSome then
    match (r.deleteInventoryServer inventoryServer inventoryServerMeta).err with
    | some err =>
      (r.uni.patchInventoryServerStatus
        (r.deleteInventoryServer inventoryServer inventoryServerMeta).obj "Failure" err).after
        (r.deleteInventoryServer inventoryServer inventoryServerMeta).trace
    | none =>
      { ret := .returned Result.empty none
        trace := (r.deleteInventoryServer inventoryServer inventoryServerMeta).trace }
  else if inventoryServerMustUpdateAnnotations inventoryServer then
    match r.Client.PatchCR (inventoryServerUpdateDefaultAnnotations inventoryServer) with
    | some _ =>
      { ret := .returned (Result.after r.requeueInterval) none
        trace := [.patchCR (inventoryServerUpdateDefaultAnnotations inventoryServer)] }
    | none =>
      { ret := .returned Result.empty none
        trace := [.patchCR (inventoryServerUpdateDefaultAnnotations inventoryServer)] }
  else
    match inventoryServerMeta with
    | some m => r.reconcileFound inventoryServer m
    | none => r.reconcileNotFound inventoryServer

/-- The method `Reconcile` of `InventoryServerReconciler`. -/
def Reconcile (r : InventoryServerReconciler) (req : NamespacedName) :
    Outcome InventoryServerEvent :=
  match r.Client.GetCR req with
  | .notFound _ => { ret := .returned Result.empty none, trace := [] }
  | .error err => { ret := .returned Result.empty (some err), trace := [] }
  | .found inventoryServer =>
    match r.Client.GetMeta { req with Name := inventoryServer.ObjectMeta.UID } with
    | .error err => { ret := .returned Result.empty (some err), trace := [] }
    | .notFound _ => r.reconcileLoaded inventoryServer none
    | .found inventoryServerMeta => r.reconcileLoaded inventoryServer (some inventoryServerMeta)

end InventoryServerReconciler

/-! ## `inventoryservermeta_controller.go` -/

/-- Modelled from the spec: the method `uniReconciler.patchInventoryServer`, whose source is
not among the files: it persists the desired resource with a patch and returns the error of
that patch. -/
def uniReconciler.patchInventoryServer (u : uniReconciler InventoryServer InventoryServerMeta)
    (inventoryServerCR : InventoryServer) : Step InventoryServer InventoryServerEvent :=
  { obj := inventoryServerCR, res := Result.empty, err := u.Client.PatchCR inventoryServerCR,
    trace := [.patchCR inventoryServerCR] }

/-- The assignments of `updateInventoryServerIfNecessary`: the desired resource after them
and the flag `shouldUpdateCR`. -/
def backfill (inventoryServerCR : InventoryServer) (inventoryServerMeta : InventoryServerMeta) :
    InventoryServer × Bool :=
  let shouldUpdateCR := false
  let c1 := inventoryServerCR.Spec.MainIP == ""
    && inventoryServerCR.Spec.MainIP != inventoryServerMeta.Spec.MainIP
  let inventoryServerCR : InventoryServer :=
    if c1 then
      { inventoryServerCR with
        Spec := { inventoryServerCR.Spec with MainIP := inventoryServerMeta.Spec.MainIP } }
    else inventoryServerCR
  let shouldUpdateCR := if c1 then true else shouldUpdateCR
  let c2 := inventoryServerCR.Spec.MgmtIP == ""
    && inventoryServerCR.Spec.MgmtIP != inventoryServerMeta.Spec.MgmtIP
  let inventoryServerCR : InventoryServer :=
    if c2 then
      { inventoryServerCR with
        Spec := { inventoryServerCR.Spec with MgmtIP := inventoryServerMeta.Spec.MgmtIP } }
    else inventoryServerCR
  let shouldUpdateCR := if c2 then true else shouldUpdateCR
  let c3 := inventoryServerCR.Spec.ASN == 0
    && inventoryServerCR.Spec.ASN != inventoryServerMeta.Spec.ASN
  let inventoryServerCR : InventoryServer :=
    if c3 then
      { inventoryServerCR with
        Spec := { inventoryServerCR.Spec with ASN := inventoryServerMeta.Spec.ASN } }
    else inventoryServerCR
  let shouldUpdateCR := if c3 then true else shouldUpdateCR
  (inventoryServerCR, shouldUpdateCR)

/-- The method `uniReconciler.updateInventoryServerIfNecessary`. -/
def uniReconciler.updateInventoryServerIfNecessary
    (u : uniReconciler InventoryServer InventoryServerMeta) (inventoryServerCR : InventoryServer)
    (inventoryServerMeta : InventoryServerMeta) : Step InventoryServer InventoryServerEvent :=
  if (backfill inventoryServerCR inventoryServerMeta).2 then
    match (u.patchInventoryServer (backfill inventoryServerCR inventoryServerMeta).1).err with
    | some err =>
      { obj := (backfill inventoryServerCR inventoryServerMeta).1, res := Result.empty
        err := some err
        trace := (u.patchInventoryServer (backfill inventoryServerCR inventoryServerMeta).1).trace }
    | none =>
      { obj := (backfill inventoryServerCR inventoryServerMeta).1, res := Result.empty
        err := none
        trace := (u.patchInventoryServer (backfill inventoryServerCR inventoryServerMeta).1).trace }
  else
    { obj := (backfill inventoryServerCR inventoryServerMeta).1, res := Result.empty, err := none
      trace := [] }

/-- The function `updateInventoryServer`: the errors `(err, errMsg)` it returns (`none` for
nil) and the call it makes. -/
def updateInventoryServer (id : Int) (serverH : HWServer) (cred : Clientset) :
    Option (String × String) × List InventoryServerEvent :=
  match cred.Inventory.Update id serverH with
  | .error err => (some ("\x7bupdateInventoryServer\x7d " ++ err, err), [.remoteUpdate id serverH])
  | .ok reply =>
    match reply.ParseAPIResponse with
    | .error err => (some (err, err), [.remoteUpdate id serverH])
    | .ok resp =>
      if !resp.IsSuccess then
        (some ("\x7bupdateInventoryServer\x7d " ++ cred.Errorf resp.Message,
          cred.Errorf resp.Message), [.remoteUpdate id serverH])
      else (none, [.remoteUpdate id serverH])

/-- The reconciler `InventoryServerMetaReconciler`, with the package-level
`requeueInterval`. -/
structure InventoryServerMetaReconciler where
  Client : Client InventoryServer InventoryServerMeta
  Cred : Clientset
  NStorage : Storage
  requeueInterval : Nat

namespace InventoryServerMetaReconciler

/-- The value `u` built at the start of `Reconcile`. -/
def uni (r : InventoryServerMetaReconciler) :
    uniReconciler InventoryServer InventoryServerMeta :=
  { Client := r.Client, Cred := r.Cred, NStorage := r.NStorage,
    requeueInterval := r.requeueInterval }

/-- The method `createInventoryServer`. -/
def createInventoryServer (r : InventoryServerMetaReconciler)
    (inventoryServerMeta : InventoryServerMeta) :
    Call InventoryServerMeta InventoryServerEvent :=
  match InventoryServerMetaToNetris inventoryServerMeta with
  | .error err => { obj := inventoryServerMeta, ending := .failed err err, trace := [] }
  | .ok serverAdd =>
    match r.Cred.Inventory.Add serverAdd with
    | .error err =>
      { obj := inventoryServerMeta, ending := .failed err err, trace := [.remoteAdd serverAdd] }
    | .ok reply =>
      match reply.Parse with
      | .error err =>
        { obj := inventoryServerMeta, ending := .failed err err,
          trace := [.remoteAdd serverAdd] }
      | .ok data =>
        if reply.StatusCode != 200 then
          { obj := inventoryServerMeta
            ending := .failed (r.Cred.Errorf data.Message) (r.Cred.Errorf data.Message)
            trace := [.remoteAdd serverAdd] }
        else
          match data.id with
          | none =>
            { obj := inventoryServerMeta, ending := .panicked, trace := [.remoteAdd serverAdd] }
          | some id =>
            let inventoryServerMeta : InventoryServerMeta :=
              { inventoryServerMeta with Spec := { inventoryServerMeta.Spec with ID := id } }
            match r.Client.PatchMeta inventoryServerMeta with
            | some err =>
              { obj := inventoryServerMeta, ending := .failed err err,
                trace := [.remoteAdd serverAdd, .patchMeta inventoryServerMeta] }
            | none =>
              { obj := inventoryServerMeta, ending := .ok,
                trace := [.remoteAdd serverAdd, .patchMeta inventoryServerMeta] }

/-- The end of `Reconcile` (from `updateInventoryServerIfNecessary` on), after the calls
`pre`. -/
def finish (r : InventoryServerMetaReconciler) (inventoryServerCR : InventoryServer)
    (inventoryServerMeta : InventoryServerMeta) (pre : List InventoryServerEvent) :
    Outcome InventoryServerEvent :=
  match (r.uni.updateInventoryServerIfNecessary inventoryServerCR inventoryServerMeta).err with
  | some err =>
    (r.uni.patchInventoryServerStatus
      (r.uni.updateInventoryServerIfNecessary inventoryServerCR inventoryServerMeta).obj
      "Failure" err).after
      (pre ++ (r.uni.updateInventoryServerIfNecessary inventoryServerCR inventoryServerMeta).trace)
  | none =>
    (r.uni.patchInventoryServerStatus
      (r.uni.updateInventoryServerIfNecessary inventoryServerCR inventoryServerMeta).obj
      "OK" "Success").after
      (pre ++ (r.uni.updateInventoryServerIfNecessary inventoryServerCR inventoryServerMeta).trace)

/-- The two places of `Reconcile` that call `createInventoryServer`, and the end of
`Reconcile` after them, after the calls `pre`. -/
def createThenFinish (r : InventoryServerMetaReconciler) (inventoryServerCR : InventoryServer)
    (inventoryServerMeta : InventoryServerMeta) (pre : List InventoryServerEvent) :
    Outcome InventoryServerEvent :=
  match (r.createInventoryServer inventoryServerMeta).ending with
  | .panicked =>
    { ret := .panicked, trace := pre ++ (r.createInventoryServer inventoryServerMeta).trace }
  | .failed _ errMsg =>
    (r.uni.patchInventoryServerStatus inventoryServerCR "Failure" errMsg).after
      (pre ++ (r.createInventoryServer inventoryServerMeta).trace)
  | .ok =>
    r.finish inventoryServerCR (r.createInventoryServer inventoryServerMeta).obj
      (pre ++ (r.createInventoryServer inventoryServerMeta).trace)

/-- The assignments of `Reconcile` before the comparison: an empty `MainIP`, an empty `MgmtIP`
and a zero `ASN` of the twin take the remote value. -/
def fillFromAPI (inventoryServerMeta : InventoryServerMeta) (apiServer : HW) :
    InventoryServerMeta :=
  let inventoryServerMeta : InventoryServerMeta :=
    if inventoryServerMeta.Spec.MainIP == "" then
      { inventoryServerMeta with
        Spec := { inventoryServerMeta.Spec with MainIP := apiServer.MainIP.Address } }
    else inventoryServerMeta
  let inventoryServerMeta : InventoryServerMeta :=
    if inventoryServerMeta.Spec.MgmtIP == "" then
      { inventoryServerMeta with
        Spec := { inventoryServerMeta.Spec with MgmtIP := apiServer.MgmtIP.Address } }
    else inventoryServerMeta
  if inventoryServerMeta.Spec.ASN == 0 then
    { inventoryServerMeta with Spec := { inventoryServerMeta.Spec with ASN := apiServer.Asn } }
  else inventoryServerMeta

/-- The branch `Spec.ID != 0` of `Reconcile` with the remote server found, after the calls
`pre`. -/
def syncFound (r : InventoryServerMetaReconciler) (inventoryServerCR : InventoryServer)
    (inventoryServerMeta : InventoryServerMeta) (apiServer : HW)
    (pre : List InventoryServerEvent) : Outcome InventoryServerEvent :=
  let inventoryServerMeta := fillFromAPI inventoryServerMeta apiServer
  if compareInventoryServerMetaAPIServer inventoryServerMeta apiServer then
    r.finish inventoryServerCR inventoryServerMeta pre
  else
    match InventoryServerMetaToNetrisUpdate inventoryServerMeta with
    | .error err => (r.uni.patchInventoryServerStatus inventoryServerCR "Failure" err).after pre
    | .ok serverUpdate =>
      match updateInventoryServer inventoryServerMeta.Spec.ID serverUpdate r.Cred with
      | (some (_, errMsg), calls) =>
        (r.uni.patchInventoryServerStatus inventoryServerCR "Failure" errMsg).after
          (pre ++ calls)
      | (none, calls) => r.finish inventoryServerCR inventoryServerMeta (pre ++ calls)

/-- The branch `Spec.ID == 0` with `Spec.Imported` of `Reconcile`. -/
def importByName (r : InventoryServerMetaReconciler) (inventoryServerCR : InventoryServer)
    (inventoryServerMeta : InventoryServerMeta) : Outcome InventoryServerEvent :=
  match r.NStorage.HWsStorage.FindServerByName inventoryServerMeta.Spec.InventoryServerName with
  | some serverH =>
    let patched : InventoryServerMeta :=
      { inventoryServerMeta with
        Spec := { inventoryServerMeta.Spec with
          ID := serverH.ID
          MainIP := serverH.MainIP.Address
          MgmtIP := serverH.MgmtIP.Address
          ASN := serverH.Asn } }
    match r.Client.PatchMeta patched with
    | some err =>
      (r.uni.patchInventoryServerStatus inventoryServerCR "Failure" err).after
        [.cache (.findByName .hws inventoryServerMeta.Spec.InventoryServerName),
         .patchMeta patched]
    | none =>
      { ret := .returned (Result.after r.requeueInterval) none
        trace := [.cache (.findByName .hws inventoryServerMeta.Spec.InventoryServerName),
          .patchMeta patched] }
  | none =>
    r.createThenFinish inventoryServerCR inventoryServerMeta
      [.cache (.findByName .hws inventoryServerMeta.Spec.InventoryServerName)]

/-- The part of `Reconcile` after the twin and its desired resource are loaded. -/
def reconcileLoaded (r : InventoryServerMetaReconciler) (inventoryServerCR : InventoryServer)
    (inventoryServerMeta : InventoryServerMeta) : Outcome InventoryServerEvent :=
  if inventoryServerMeta.ObjectMeta.DeletionTimestamp.isSome then
    { ret := .returned Result.empty none, trace := [] }
  else if inventoryServerMeta.Spec.ID == 0 then
    if inventoryServerMeta.Spec.Imported then
      r.importByName inventoryServerCR inventoryServerMeta
    else r.createThenFinish inventoryServerCR inventoryServerMeta []
  else
    match r.NStorage.HWsStorage.FindServerByID inventoryServerMeta.Spec.ID with
    | some apiServer =>
      r.syncFound inventoryServerCR inventoryServerMeta apiServer
        [.cache (.findByID .hws inventoryServerMeta.Spec.ID)]
    | none =>
      r.createThenFinish inventoryServerCR inventoryServerMeta
        [.cache (.findByID .hws inventoryServerMeta.Spec.ID)]

/-- The method `Reconcile` of `InventoryServerMetaReconciler`. -/
def Reconcile (r : InventoryServerMetaReconciler) (req : NamespacedName) :
    Outcome InventoryServerEvent :=
  match r.Client.GetMeta req with
  | .notFound _ => { ret := .returned Result.empty none, trace := [] }
  | .error err => { ret := .returned Result.empty (some err), trace := [] }
  | .found inventoryServerMeta =>
    match r.Client.GetCR { req with Name := inventoryServerMeta.Spec.InventoryServerName } with
    | .notFound _ => { ret := .returned Result.empty none, trace := [] }
    | .error err => { ret := .returned Result.empty (some err), trace := [] }
    | .found inventoryServerCR => r.reconcileLoaded inventoryServerCR inventoryServerMeta

end InventoryServerMetaReconciler

/-! ## `servercluster_translations.go` -/

/-- The calls of the ServerCluster controllers. -/
abbrev ServerClusterEvent : Type :=
  Event ServerCluster ServerClusterMeta ServerClusterW ServerClusterU

/-- The reconciler `ServerClusterReconciler`, with the package-level `requeueInterval`. -/
structure ServerClusterReconciler where
  Client : Client ServerCluster ServerClusterMeta
  Cred : Clientset
  NStorage : Storage
  requeueInterval : Nat

namespace ServerClusterReconciler

/-- The site step of `ServerClusterToMeta`: the id and name of the site. -/
def resolveSite (r : ServerClusterReconciler) (cluster : ServerCluster) :
    Resolved (Int × String) :=
  match r.NStorage.SitesStorage.FindByName cluster.Spec.Site with
  | some site => (.ok (site.ID, site.Name), [.findByName .sites cluster.Spec.Site])
  | none => (.error ("couldn't find site '" ++ cluster.Spec.Site ++ "'"),
      [.findByName .sites cluster.Spec.Site])

/-- The VPC step of `ServerClusterToMeta`. -/
def resolveVPC (r : ServerClusterReconciler) (cluster : ServerCluster) :
    Resolved (Int × String) :=
  if cluster.Spec.VPC != "" then
    match r.NStorage.VPCStorage.FindByName cluster.Spec.VPC with
    | some vpc => (.ok (vpc.ID, vpc.Name), [.findByName .vpcs cluster.Spec.VPC])
    | none => (.error ("couldn't find vpc '" ++ cluster.Spec.VPC ++ "'"),
        [.findByName .vpcs cluster.Spec.VPC])
  else (.ok (0, ""), [])

/-- The template step of `ServerClusterToMeta`, with the template cache after it. -/
def resolveTemplate (r : ServerClusterReconciler) (cluster : ServerCluster) :
    Resolved (Int × String) × ServerClusterTemplateStorage :=
  if cluster.Spec.Template != "" then
    match r.NStorage.ServerClusterTemplateStorage.FindByName
        r.NStorage.Cred.ServerClusterTemplateGet cluster.Spec.Template with
    | (some template, storage, calls) => ((.ok (template.ID, template.Name), calls), storage)
    | (none, storage, calls) =>
      ((.error ("couldn't find server cluster template '" ++ cluster.Spec.Template ++ "'"),
        calls), storage)
  else ((.ok (0, ""), []), r.NStorage.ServerClusterTemplateStorage)

/-- The admin tenant step of `ServerClusterToMeta`. -/
def resolveAdmin (r : ServerClusterReconciler) (cluster : ServerCluster) :
    Resolved (Int × String) :=
  if cluster.Spec.Admin != "" then
    match r.NStorage.TenantsStorage.FindByName cluster.Spec.Admin with
    | some tenant => (.ok (tenant.ID, tenant.Name), [.findByName .tenants cluster.Spec.Admin])
    | none => (.error ("couldn't find admin tenant '" ++ cluster.Spec.Admin ++ "'"),
        [.findByName .tenants cluster.Spec.Admin])
  else (.ok (0, ""), [])

/-- The loop over `Spec.Servers` of `ServerClusterToMeta`. -/
def resolveServers (r : ServerClusterReconciler) :
    List ServerClusterServer → Resolved (List Servers)
  | [] => (.ok [], [])
  | srv :: rest =>
    match r.NStorage.HWsStorage.FindServerByName srv.Name with
    | none => (.error ("couldn't find server '" ++ srv.Name ++ "'"),
        [.findByName .hws srv.Name])
    | some hw =>
      ((resolveServers r rest).1.map (fun servers => { ID := hw.ID, Name := srv.Name } :: servers),
        .findByName .hws srv.Name :: (resolveServers r rest).2)

/-- The method `ServerClusterToMeta`: converts the ServerCluster resource to Meta type.  The
second component is the template cache after the call: the cache after the template step
when the site and VPC steps before it succeeded, the cache as it was otherwise. -/
def ServerClusterToMeta (r : ServerClusterReconciler) (cluster : ServerCluster) :
    Resolved ServerClusterMeta × ServerClusterTemplateStorage :=
  (Resolved.andThen (r.resolveSite cluster) fun site =>
    Resolved.andThen (r.resolveVPC cluster) fun vpc =>
    Resolved.andThen (r.resolveTemplate cluster).1 fun template =>
    Resolved.andThen (r.resolveAdmin cluster) fun admin =>
    Resolved.andThen (r.resolveServers cluster.Spec.Servers) fun servers =>
      (.ok
        { ObjectMeta := ObjectMeta.named cluster.ObjectMeta.UID cluster.ObjectMeta.Namespace
          Spec :=
            { Imported := importedOf cluster.ObjectMeta
              Reclaim := reclaimOf cluster.ObjectMeta
              ServerClusterCRGeneration := 0
              ID := 0
              ServerClusterName := cluster.ObjectMeta.Name
              SiteID := site.1
              SiteName := site.2
              AdminID := admin.1
              AdminName := admin.2
              VPCID := vpc.1
              VPCName := vpc.2
              TemplateID := template.1
              TemplateName := template.2
              Tags := cluster.Spec.Tags
              Servers := servers } }, []),
    match (r.resolveSite cluster).1, (r.resolveVPC cluster).1 with
    | .ok _, .ok _ => (r.resolveTemplate cluster).2
    | _, _ => r.NStorage.ServerClusterTemplateStorage)

end ServerClusterReconciler

/-- The function `serverClusterCompareFieldsForNewMeta`. -/
def serverClusterCompareFieldsForNewMeta (cluster : ServerCluster)
    (clusterMeta : ServerClusterMeta) : Bool :=
  cluster.ObjectMeta.Generation != clusterMeta.Spec.ServerClusterCRGeneration
    || importedOf cluster.ObjectMeta != clusterMeta.Spec.Imported
    || reclaimOf cluster.ObjectMeta != clusterMeta.Spec.Reclaim

/-- The function `serverClusterMustUpdateAnnotations`. -/
def serverClusterMustUpdateAnnotations (cluster : ServerCluster) : Bool :=
  mustUpdateAnnotations cluster.ObjectMeta

/-- The function `serverClusterUpdateDefaultAnnotations`. -/
def serverClusterUpdateDefaultAnnotations (cluster : ServerCluster) : ServerCluster :=
  { cluster with ObjectMeta := updateDefaultAnnotations cluster.ObjectMeta }

/-- The function `ServerClusterMetaToNetris`: converts Meta to Netris API type. -/
def ServerClusterMetaToNetris (clusterMeta : ServerClusterMeta) : ServerClusterW :=
  { Name := clusterMeta.Spec.ServerClusterName
    Admin := { ID := clusterMeta.Spec.AdminID, Name := clusterMeta.Spec.AdminName }
    Site := { ID := clusterMeta.Spec.SiteID, Name := clusterMeta.Spec.SiteName }
    VPC := { ID := clusterMeta.Spec.VPCID, Name := clusterMeta.Spec.VPCName }
    SrvClusterTemplate :=
      { ID := clusterMeta.Spec.TemplateID, Name := clusterMeta.Spec.TemplateName }
    Tags := clusterMeta.Spec.Tags
    Servers := clusterMeta.Spec.Servers }

/-- The function `ServerClusterMetaToNetrisUpdate`: converts Meta to Netris API update type. -/
def ServerClusterMetaToNetrisUpdate (clusterMeta : ServerClusterMeta) : ServerClusterU :=
  { Tags := clusterMeta.Spec.Tags, Servers := clusterMeta.Spec.Servers }

/-- The function `compareServerClusterMetaAPI`. -/
def compareServerClusterMetaAPI (clusterMeta : ServerClusterMeta)
    (apiCluster : RemoteServerCluster) : Bool :=
  if apiCluster.Name != clusterMeta.Spec.ServerClusterName then false
  else if apiCluster.Site.ID != clusterMeta.Spec.SiteID then false
  else if apiCluster.VPC.ID != clusterMeta.Spec.VPCID then false
  else if apiCluster.SrvClusterTemplate.ID != clusterMeta.Spec.TemplateID then false
  else true

/-! ## `servercluster_controller.go` -/

/-- Modelled from the spec: the method `uniReconciler.patchServerClusterStatus`, whose source
is not among the files.  The Status Reporter sets the observed status {state, message} on the
desired resource and patches it; the reconcile is retried after the fixed poll interval. -/
def uniReconciler.patchServerClusterStatus
    (u : uniReconciler ServerCluster ServerClusterMeta) (cluster : ServerCluster)
    (status message : String) : Outcome ServerClusterEvent :=
  { ret := .returned (Result.after u.requeueInterval) none
    trace := [.patchStatus { cluster with Status := { Status := status, Message := message } }
      status message] }

namespace ServerClusterReconciler

/-- The value `u` built at the start of `Reconcile`. -/
def uni (r : ServerClusterReconciler) : uniReconciler ServerCluster ServerClusterMeta :=
  { Client := r.Client, Cred := r.Cred, NStorage := r.NStorage,
    requeueInterval := r.requeueInterval }

/-- The method `deleteServerClusterCR`. -/
def deleteServerClusterCR (r : ServerClusterReconciler) (cluster : ServerCluster) :
    Step ServerCluster ServerClusterEvent :=
  let cluster : ServerCluster :=
    { cluster with ObjectMeta := { cluster.ObjectMeta with Finalizers := none } }
  match r.Client.UpdateCR cluster with
  | some err =>
    { obj := cluster, res := Result.empty,
      err := some ("\x7bdeleteServerClusterCR\x7d " ++ err), trace := [.updateCR cluster] }
  | none => { obj := cluster, res := Result.empty, err := none, trace := [.updateCR cluster] }

/-- The method `deleteServerClusterMetaCR`. -/
def deleteServerClusterMetaCR (r : ServerClusterReconciler) (clusterMeta : ServerClusterMeta) :
    Step ServerClusterMeta ServerClusterEvent :=
  match r.Client.DeleteMeta clusterMeta with
  | some err =>
    { obj := clusterMeta, res := Result.empty,
      err := some ("\x7bdeleteServerClusterMetaCR\x7d " ++ err),
      trace := [.deleteMeta clusterMeta] }
  | none =>
    { obj := clusterMeta, res := Result.empty, err := none, trace := [.deleteMeta clusterMeta] }

/-- The method `deleteCRs`; a nil `clusterMeta` is `none`. -/
def deleteCRs (r : ServerClusterReconciler) (cluster : ServerCluster)
    (clusterMeta : Option ServerClusterMeta) : Step ServerCluster ServerClusterEvent :=
  match clusterMeta with
  | some m =>
    match (r.deleteServerClusterMetaCR m).err with
    | some err =>
      { obj := cluster, res := Result.empty, err := some ("\x7bdeleteCRs\x7d " ++ err),
        trace := (r.deleteServerClusterMetaCR m).trace }
    | none => (r.deleteServerClusterCR cluster).after (r.deleteServerClusterMetaCR m).trace
  | none => r.deleteServerClusterCR cluster

/-- The method `deleteServerCluster`; a nil `clusterMeta` is `none`. -/
def deleteServerCluster (r : ServerClusterReconciler) (cluster : ServerCluster)
    (clusterMeta : Option ServerClusterMeta) : Step ServerCluster ServerClusterEvent :=
  match clusterMeta with
  | some m =>
    if m.Spec.ID > 0 && !m.Spec.Reclaim then
      match remoteDeleteStep r.Cred r.Cred.ServerCluster.Delete "\x7bdeleteServerCluster\x7d "
          m.Spec.ID with
      | some err =>
        { obj := cluster, res := Result.empty, err := some err,
          trace := [.remoteDelete m.Spec.ID] }
      | none => (r.deleteCRs cluster (some m)).after [.remoteDelete m.Spec.ID]
    else r.deleteCRs cluster (some m)
  | none => r.deleteCRs cluster none

/-- The branch `metaFound` of `Reconcile`, with the template cache after it. -/
def reconcileFound (r : ServerClusterReconciler) (cluster : ServerCluster)
    (clusterMeta : ServerClusterMeta) :
    Outcome ServerClusterEvent × ServerClusterTemplateStorage :=
  if serverClusterCompareFieldsForNewMeta cluster clusterMeta then
    let clusterID := clusterMeta.Spec.ID
    match r.ServerClusterToMeta cluster with
    | ((.error err, calls), storage) =>
      ((r.uni.patchServerClusterStatus cluster "Failure" err).after (calls.map .cache), storage)
    | ((.ok newClusterMeta, calls), storage) =>
      let clusterMeta : ServerClusterMeta :=
        { clusterMeta with
          Spec := { newClusterMeta.Spec with
            ID := clusterID
            ServerClusterCRGeneration := cluster.ObjectMeta.Generation } }
      match r.Client.UpdateMeta clusterMeta with
      | some _ =>
        ({ ret := .returned (Result.after r.requeueInterval) none
           trace := calls.map .cache ++ [.updateMeta clusterMeta] }, storage)
      | none =>
        ({ ret := .returned (Result.after r.requeueInterval) none
           trace := calls.map .cache ++ [.updateMeta clusterMeta] }, storage)
  else ({ ret := .returned (Result.after r.requeueInterval) none, trace := [] },
    r.NStorage.ServerClusterTemplateStorage)

/-- The branch `!metaFound` of `Reconcile`, with the template cache after it. -/
def reconcileNotFound (r : ServerClusterReconciler) (cluster : ServerCluster) :
    Outcome ServerClusterEvent × ServerClusterTemplateStorage :=
  if cluster.ObjectMeta.Finalizers = none then
    let cluster : ServerCluster :=
      { cluster with
        ObjectMeta := { cluster.ObjectMeta with Finalizers := some [deleteFinalizer] } }
    match r.Client.PatchCR cluster with
    | some _ =>
      ({ ret := .returned (Result.after r.requeueInterval) none, trace := [.patchCR cluster] },
        r.NStorage.ServerClusterTemplateStorage)
    | none =>
      ({ ret := .returned Result.empty none, trace := [.patchCR cluster] },
        r.NStorage.ServerClusterTemplateStorage)
  else
    match r.ServerClusterToMeta cluster with
    | ((.error err, calls), storage) =>
      ((r.uni.patchServerClusterStatus cluster "Failure" err).after (calls.map .cache), storage)
    | ((.ok clusterMeta, calls), storage) =>
      let clusterMeta : ServerClusterMeta :=
        { clusterMeta with
          Spec := { clusterMeta.Spec with
            ServerClusterCRGeneration := cluster.ObjectMeta.Generation } }
      match r.Client.CreateMeta clusterMeta with
      | some _ =>
        ({ ret := .returned (Result.after r.requeueInterval) none
           trace := calls.map .cache ++ [.createMeta clusterMeta] }, storage)
      | none =>
        ({ ret := .returned (Result.after r.requeueInterval) none
           trace := calls.map .cache ++ [.createMeta clusterMeta] }, storage)

/-- The part of `Reconcile` after the desired resource and its twin (`none` when not found)
are loaded, with the template cache after it. -/
def reconcileLoaded (r : ServerClusterReconciler) (cluster : ServerCluster)
    (clusterMeta : Option ServerClusterMeta) :
    Outcome ServerClusterEvent × ServerClusterTemplateStorage :=
  if cluster.ObjectMeta.DeletionTimestamp.isSome then
    match (r.deleteServerCluster cluster clusterMeta).err with
    | some err =>
      ((r.uni.patchServerClusterStatus (r.deleteServerCluster cluster clusterMeta).obj
          "Failure" err).after (r.deleteServerCluster cluster clusterMeta).trace,
        r.NStorage.ServerClusterTemplateStorage)
    | none =>
      ({ ret := .returned Result.empty none
         trace := (r.deleteServerCluster cluster clusterMeta).trace },
        r.NStorage.ServerClusterTemplateStorage)
  else if serverClusterMustUpdateAnnotations cluster then
    match r.Client.PatchCR (serverClusterUpdateDefaultAnnotations cluster) with
    | some _ =>
      ({ ret := .returned (Result.after r.requeueInterval) none
         trace := [.patchCR (serverClusterUpdateDefaultAnnotations cluster)] },
        r.NStorage.ServerClusterTemplateStorage)
    | none =>
      ({ ret := .returned Result.empty none
         trace := [.patchCR (serverClusterUpdateDefaultAnnotations cluster)] },
        r.NStorage.ServerClusterTemplateStorage)
  else
    match clusterMeta with
    | some m => r.reconcileFound cluster m
    | none => r.reconcileNotFound cluster

/-- The method `Reconcile` of `ServerClusterReconciler`, with the template cache after it. -/
def Reconcile (r : ServerClusterReconciler) (req : NamespacedName) :
    Outcome ServerClusterEvent × ServerClusterTemplateStorage :=
  match r.Client.GetCR req with
  | .notFound _ =>
    ({ ret := .returned Result.empty none, trace := [] }, r.NStorage.ServerClusterTemplateStorage)
  | .error err =>
    ({ ret := .returned Result.empty (some err), trace := [] },
      r.NStorage.ServerClusterTemplateStorage)
  | .found cluster =>
    match r.Client.GetMeta { req with Name := cluster.ObjectMeta.UID } with
    | .error err =>
      ({ ret := .returned Result.empty (some err), trace := [] },
        r.NStorage.ServerClusterTemplateStorage)
    | .notFound _ => r.reconcileLoaded cluster none
    | .found clusterMeta => r.reconcileLoaded cluster (some clusterMeta)

end ServerClusterReconciler

/-! ## `serverclustertemplate_translations.go` -/

/-- The calls of the ServerClusterTemplate controllers. -/
abbrev ServerClusterTemplateEvent : Type :=
  Event ServerClusterTemplate ServerClusterTemplateMeta ServerClusterTemplateW
    ServerClusterTemplateW

/-- The reconciler `ServerClusterTemplateReconciler`, with the package-level
`requeueInterval`. -/
structure ServerClusterTemplateReconciler where
  Client : Client ServerClusterTemplate ServerClusterTemplateMeta
  Cred : Clientset
  NStorage : Storage
  requeueInterval : Nat

/-- The method `ServerClusterTemplateToMeta`: converts the ServerClusterTemplate resource to
Meta type. -/
def ServerClusterTemplateReconciler.ServerClusterTemplateToMeta
    (_r : ServerClusterTemplateReconciler) (template : ServerClusterTemplate) :
    Resolved ServerClusterTemplateMeta :=
  (.ok
    { ObjectMeta := ObjectMeta.named template.ObjectMeta.UID template.ObjectMeta.Namespace
      Spec :=
        { Imported := importedOf template.ObjectMeta
          Reclaim := reclaimOf template.ObjectMeta
          ServerClusterTemplateCRGeneration := 0
          ID := 0
          ServerClusterTemplateName := template.ObjectMeta.Name
          VNets := template.Spec.VNets } }, [])

/-- The function `serverClusterTemplateCompareFieldsForNewMeta`. -/
def serverClusterTemplateCompareFieldsForNewMeta (template : ServerClusterTemplate)
    (templateMeta : ServerClusterTemplateMeta) : Bool :=
  template.ObjectMeta.Generation != templateMeta.Spec.ServerClusterTemplateCRGeneration
    || importedOf template.ObjectMeta != templateMeta.Spec.Imported
    || reclaimOf template.ObjectMeta != templateMeta.Spec.Reclaim

/-- The function `serverClusterTemplateMustUpdateAnnotations`. -/
def serverClusterTemplateMustUpdateAnnotations (template : ServerClusterTemplate) : Bool :=
  mustUpdateAnnotations template.ObjectMeta

/-- The function `serverClusterTemplateUpdateDefaultAnnotations`. -/
def serverClusterTemplateUpdateDefaultAnnotations (template : ServerClusterTemplate) :
    ServerClusterTemplate :=
  { template with ObjectMeta := updateDefaultAnnotations template.ObjectMeta }

/-- The map `gw` that `ServerClusterTemplateMetaToNetris` builds from a non-nil gateway. -/
def gatewayMap (g : ServerClusterTemplateVNetGateway) : List (String × GatewayValue) :=
  let gw : List (String × GatewayValue) := []
  let gw := if g.AssignType != "" then gw ++ [("assignType", .str g.AssignType)] else gw
  let gw := if g.Allocation != "" then gw ++ [("allocation", .str g.Allocation)] else gw
  let gw :=
    if g.ChildSubnetPrefixLength > 0 then
      gw ++ [("childSubnetPrefixLength", .int g.ChildSubnetPrefixLength)]
    else gw
  let gw := if g.Hostnum > 0 then gw ++ [("hostnum", .int g.Hostnum)] else gw
  gw

/-- The gateway entry of a VNet map: for a non-nil gateway with a non-empty map `gw`, the
binding of `key` to `gw`. -/
def gatewayEntry (key : String) (g : Option ServerClusterTemplateVNetGateway) :
    List (String × VNetValue) :=
  match g with
  | none => []
  | some g => if (gatewayMap g).length > 0 then [(key, .gateway (gatewayMap g))] else []

/-- The map `vnetMap` that `ServerClusterTemplateMetaToNetris` builds from one VNet. -/
def vnetMap (vnet : ServerClusterTemplateVNet) : List (String × VNetValue) :=
  let m : List (String × VNetValue) :=
    [("postfix", .str vnet.Postfix), ("type", .str vnet.Type_),
     ("serverNics", .strs vnet.ServerNics)]
  let m := if vnet.Vlan != "" then m ++ [("vlan", .str vnet.Vlan)] else m
  let m := if vnet.VlanID != "" then m ++ [("vlanID", .str vnet.VlanID)] else m
  let m :=
    if vnet.IPv4DhcpEnabled then m ++ [("ipv4DhcpEnabled", .bool vnet.IPv4DhcpEnabled)] else m
  let m :=
    if vnet.IPv6DhcpEnabled then m ++ [("ipv6DhcpEnabled", .bool vnet.IPv6DhcpEnabled)] else m
  let m := m ++ gatewayEntry "ipv4Gateway" vnet.IPv4Gateway
  let m := m ++ gatewayEntry "ipv6Gateway" vnet.IPv6Gateway
  m

/-- The function `ServerClusterTemplateMetaToNetris`: converts Meta to Netris API type. -/
def ServerClusterTemplateMetaToNetris (templateMeta : ServerClusterTemplateMeta) :
    ServerClusterTemplateW :=
  { Name := templateMeta.Spec.ServerClusterTemplateName
    Vnets := templateMeta.Spec.VNets.map vnetMap }

/-- The function `compareServerClusterTemplateMetaAPI`. -/
def compareServerClusterTemplateMetaAPI (templateMeta : ServerClusterTemplateMeta)
    (apiTemplate : RemoteServerClusterTemplate) : Bool :=
  if apiTemplate.Name != templateMeta.Spec.ServerClusterTemplateName then false
  else true

/-! ## `serverclustertemplate_controller.go` -/

/-- Modelled from the spec: the method `uniReconciler.patchServerClusterTemplateStatus`, whose
source is not among the files.  The Status Reporter sets the observed status {state, message}
on the desired resource and patches it; the reconcile is retried after the fixed poll
interval. -/
def uniReconciler.patchServerClusterTemplateStatus
    (u : uniReconciler ServerClusterTemplate ServerClusterTemplateMeta)
    (template : ServerClusterTemplate) (status message : String) :
    Outcome ServerClusterTemplateEvent :=
  { ret := .returned (Result.after u.requeueInterval) none
    trace := [.patchStatus { template with Status := { Status := status, Message := message } }
      status message] }

namespace ServerClusterTemplateReconciler

/-- The value `u` built at the start of `Reconcile`. -/
def uni (r : ServerClusterTemplateReconciler) :
    uniReconciler ServerClusterTemplate ServerClusterTemplateMeta :=
  { Client := r.Client, Cred := r.Cred, NStorage := r.NStorage,
    requeueInterval := r.requeueInterval }

/-- The method `deleteServerClusterTemplateCR`. -/
def deleteServerClusterTemplateCR (r : ServerClusterTemplateReconciler)
    (template : ServerClusterTemplate) :
    Step ServerClusterTemplate ServerClusterTemplateEvent :=
  let template : ServerClusterTemplate :=
    { template with ObjectMeta := { template.ObjectMeta with Finalizers := none } }
  match r.Client.UpdateCR template with
  | some err =>
    { obj := template, res := Result.empty,
      err := some ("\x7bdeleteServerClusterTemplateCR\x7d " ++ err),
      trace := [.updateCR template] }
  | none => { obj := template, res := Result.empty, err := none, trace := [.updateCR template] }

/-- The method `deleteServerClusterTemplateMetaCR`. -/
def deleteServerClusterTemplateMetaCR (r : ServerClusterTemplateReconciler)
    (templateMeta : ServerClusterTemplateMeta) :
    Step ServerClusterTemplateMeta ServerClusterTemplateEvent :=
  match r.Client.DeleteMeta templateMeta with
  | some err =>
    { obj := templateMeta, res := Result.empty,
      err := some ("\x7bdeleteServerClusterTemplateMetaCR\x7d " ++ err),
      trace := [.deleteMeta templateMeta] }
  | none =>
    { obj := templateMeta, res := Result.empty, err := none,
      trace := [.deleteMeta templateMeta] }

/-- The method `deleteCRs`; a nil `templateMeta` is `none`. -/
def deleteCRs (r : ServerClusterTemplateReconciler) (template : ServerClusterTemplate)
    (templateMeta : Option ServerClusterTemplateMeta) :
    Step ServerClusterTemplate ServerClusterTemplateEvent :=
  match templateMeta with
  | some m =>
    match (r.deleteServerClusterTemplateMetaCR m).err with
    | some err =>
      { obj := template, res := Result.empty, err := some ("\x7bdeleteCRs\x7d " ++ err),
        trace := (r.deleteServerClusterTemplateMetaCR m).trace }
    | none =>
      (r.deleteServerClusterTemplateCR template).after
        (r.deleteServerClusterTemplateMetaCR m).trace
  | none => r.deleteServerClusterTemplateCR template

/-- The method `deleteServerClusterTemplate`; a nil `templateMeta` is `none`. -/
def deleteServerClusterTemplate (r : ServerClusterTemplateReconciler)
    (template : ServerClusterTemplate) (templateMeta : Option ServerClusterTemplateMeta) :
    Step ServerClusterTemplate ServerClusterTemplateEvent :=
  match templateMeta with
  | some m =>
    if m.Spec.ID > 0 && !m.Spec.Reclaim then
      match remoteDeleteStep r.Cred r.Cred.ServerClusterTemplate.Delete
          "\x7bdeleteServerClusterTemplate\x7d " m.Spec.ID with
      | some err =>
        { obj := template, res := Result.empty, err := some err,
          trace := [.remoteDelete m.Spec.ID] }
      | none => (r.deleteCRs template (some m)).after [.remoteDelete m.Spec.ID]
    else r.deleteCRs template (some m)
  | none => r.deleteCRs template none

/-- The branch `metaFound` of `Reconcile`. -/
def reconcileFound (r : ServerClusterTemplateReconciler) (template : ServerClusterTemplate)
    (templateMeta : ServerClusterTemplateMeta) : Outcome ServerClusterTemplateEvent :=
  if serverClusterTemplateCompareFieldsForNewMeta template templateMeta then
    let templateID := templateMeta.Spec.ID
    match r.ServerClusterTemplateToMeta template with
    | (.error err, calls) =>
      (r.uni.patchServerClusterTemplateStatus template "Failure" err).after (calls.map .cache)
    | (.ok newTemplateMeta, calls) =>
      let templateMeta : ServerClusterTemplateMeta :=
        { templateMeta with
          Spec := { newTemplateMeta.Spec with
            ID := templateID
            ServerClusterTemplateCRGeneration := template.ObjectMeta.Generation } }
      match r.Client.UpdateMeta templateMeta with
      | some _ =>
        { ret := .returned (Result.after r.requeueInterval) none
          trace := calls.map .cache ++ [.updateMeta templateMeta] }
      | none =>
        { ret := .returned (Result.after r.requeueInterval) none
          trace := calls.map .cache ++ [.updateMeta templateMeta] }
  else { ret := .returned (Result.after r.requeueInterval) none, trace := [] }

/-- The branch `!metaFound` of `Reconcile`. -/
def reconcileNotFound (r : ServerClusterTemplateReconciler)
    (template : ServerClusterTemplate) : Outcome ServerClusterTemplateEvent :=
  if template.ObjectMeta.Finalizers = none then
    let template : ServerClusterTemplate :=
      { template with
        ObjectMeta := { template.ObjectMeta with Finalizers := some [deleteFinalizer] } }
    match r.Client.PatchCR template with
    | some _ =>
      { ret := .returned (Result.after r.requeueInterval) none, trace := [.patchCR template] }
    | none => { ret := .returned Result.empty none, trace := [.patchCR template] }
  else
    match r.ServerClusterTemplateToMeta template with
    | (.error err, calls) =>
      (r.uni.patchServerClusterTemplateStatus template "Failure" err).after (calls.map .cache)
    | (.ok templateMeta, calls) =>
      let templateMeta : ServerClusterTemplateMeta :=
        { templateMeta with
          Spec := { templateMeta.Spec with
            ServerClusterTemplateCRGeneration := template.ObjectMeta.Generation } }
      match r.Client.CreateMeta templateMeta with
      | some _ =>
        { ret := .returned (Result.after r.requeueInterval) none
          trace := calls.map .cache ++ [.createMeta templateMeta] }
      | none =>
        { ret := .returned (Result.after r.requeueInterval) none
          trace := calls.map .cache ++ [.createMeta templateMeta] }

/-- The part of `Reconcile` after the desired resource and its twin (`none` when not found)
are loaded. -/
def reconcileLoaded (r : ServerClusterTemplateReconciler) (template : ServerClusterTemplate)
    (templateMeta : Option ServerClusterTemplateMeta) : Outcome ServerClusterTemplateEvent :=
  if template.ObjectMeta.DeletionTimestamp.isSome then
    match (r.deleteServerClusterTemplate template templateMeta).err with
    | some err =>
      (r.uni.patchServerClusterTemplateStatus
        (r.deleteServerClusterTemplate template templateMeta).obj "Failure" err).after
        (r.deleteServerClusterTemplate template templateMeta).trace
    | none =>
      { ret := .returned Result.empty none
        trace := (r.deleteServerClusterTemplate template templateMeta).trace }
  else if serverClusterTemplateMustUpdateAnnotations template then
    match r.Client.PatchCR (serverClusterTemplateUpdateDefaultAnnotations template) with
    | some _ =>
      { ret := .returned (Result.after r.requeueInterval) none
        trace := [.patchCR (serverClusterTemplateUpdateDefaultAnnotations template)] }
    | none =>
      { ret := .returned Result.empty none
        trace := [.patchCR (serverClusterTemplateUpdateDefaultAnnotations template)] }
  else
    match templateMeta with
    | some m => r.reconcileFound template m
    | none => r.reconcileNotFound template

/-- The method `Reconcile` of `ServerClusterTemplateReconciler`. -/
def Reconcile (r : ServerClusterTemplateReconciler) (req : NamespacedName) :
    Outcome ServerClusterTemplateEvent :=
  match r.Client.GetCR req with
  | .notFound _ => { ret := .returned Result.empty none, trace := [] }
  | .error err => { ret := .returned Result.empty (some err), trace := [] }
  | .found template =>
    match r.Client.GetMeta { req with Name := template.ObjectMeta.UID } with
    | .error err => { ret := .returned Result.empty (some err), trace := [] }
    | .notFound _ => r.reconcileLoaded template none
    | .found templateMeta => r.reconcileLoaded template (some templateMeta)

end ServerClusterTemplateReconciler

/-! ## `serverclustermeta_controller.go` -/

/-- The function `updateServerCluster`: the errors `(err, errMsg)` it returns (`none` for nil) and
the
call it makes. -/
def updateServerCluster (id : Int) (cluster : ServerClusterU) (cred : Clientset) :
    Option (String × String) × List ServerClusterEvent :=
  match cred.ServerCluster.Update id cluster with
  | .error err => (some ("\x7bupdateServerCluster\x7d " ++ err, err), [.remoteUpdate id cluster])
  | .ok reply =>
    match reply.ParseAPIResponse with
    | .error err => (some (err, err), [.remoteUpdate id cluster])
    | .ok resp =>
      if !resp.IsSuccess then
        (some ("\x7bupdateServerCluster\x7d " ++ cred.Errorf resp.Message, cred.Errorf
            resp.Message),
          [.remoteUpdate id cluster])
      else (none, [.remoteUpdate id cluster])

/-- The reconciler `ServerClusterMetaReconciler`, with the package-level `requeueInterval`. -/
structure ServerClusterMetaReconciler where
  Client : Client ServerCluster ServerClusterMeta
  Cred : Clientset
  NStorage : Storage
  requeueInterval : Nat

namespace ServerClusterMetaReconciler

/-- The value `u` built at the start of `Reconcile`. -/
def uni (r : ServerClusterMetaReconciler) : uniReconciler ServerCluster ServerClusterMeta :=
  { Client := r.Client, Cred := r.Cred, NStorage := r.NStorage,
    requeueInterval := r.requeueInterval }

/-- The method `createServerCluster`. -/
def createServerCluster (r : ServerClusterMetaReconciler) (clusterMeta : ServerClusterMeta) : Call
    ServerClusterMeta ServerClusterEvent :=
  match r.Cred.ServerCluster.Add (ServerClusterMetaToNetris clusterMeta) with
  | .error err =>
    { obj := clusterMeta, ending := .failed err err, trace :=
        [.remoteAdd (ServerClusterMetaToNetris clusterMeta)] }
  | .ok reply =>
    match reply.Parse with
    | .error err =>
      { obj := clusterMeta, ending := .failed err err, trace :=
          [.remoteAdd (ServerClusterMetaToNetris clusterMeta)] }
    | .ok data =>
      if reply.StatusCode != 200 then
        { obj := clusterMeta
          ending := .failed (r.Cred.Errorf data.Message) (r.Cred.Errorf data.Message)
          trace := [.remoteAdd (ServerClusterMetaToNetris clusterMeta)] }
      else
        match data.id with
        | none =>
          { obj := clusterMeta, ending := .panicked, trace :=
              [.remoteAdd (ServerClusterMetaToNetris clusterMeta)] }
        | some id =>
          let patched : ServerClusterMeta :=
              { clusterMeta with Spec := { clusterMeta.Spec with ID := id } }
          match r.Client.PatchMeta patched with
          | some err =>
            { obj := patched, ending := .failed err err,
              trace := [.remoteAdd (ServerClusterMetaToNetris clusterMeta), .patchMeta patched] }
          | none =>
            { obj := patched, ending := .ok,
              trace := [.remoteAdd (ServerClusterMetaToNetris clusterMeta), .patchMeta patched] }

/-- The two places of `Reconcile` that call `createServerCluster`, and the end of `Reconcile` after
them, after the calls `pre`. -/
def createThenFinish (r : ServerClusterMetaReconciler) (clusterCR : ServerCluster)
    (clusterMeta : ServerClusterMeta)
    (pre : List ServerClusterEvent) : Outcome ServerClusterEvent :=
  match (r.createServerCluster clusterMeta).ending with
  | .panicked => { ret := .panicked, trace := pre ++ (r.createServerCluster clusterMeta).trace }
  | .failed _ errMsg =>
    (r.uni.patchServerClusterStatus clusterCR "Failure" errMsg).after
        (pre ++ (r.createServerCluster clusterMeta).trace)
  | .ok =>
    (r.uni.patchServerClusterStatus clusterCR "OK" "Success").after
        (pre ++ (r.createServerCluster clusterMeta).trace)

/-- The branch `Spec.ID != 0` of `Reconcile` with the remote entity found, after the calls
`pre`. -/
def syncFound (r : ServerClusterMetaReconciler) (clusterCR : ServerCluster)
    (clusterMeta : ServerClusterMeta) (apiCluster : RemoteServerCluster)
    (pre : List ServerClusterEvent) : Outcome ServerClusterEvent :=
  if compareServerClusterMetaAPI clusterMeta apiCluster then
    (r.uni.patchServerClusterStatus clusterCR "OK" "Success").after pre
  else
    match updateServerCluster clusterMeta.Spec.ID (ServerClusterMetaToNetrisUpdate clusterMeta)
        r.Cred with
    | (some (_, errMsg), calls) =>
      (r.uni.patchServerClusterStatus clusterCR "Failure" errMsg).after (pre ++ calls)
    | (none, calls) => (r.uni.patchServerClusterStatus clusterCR "OK" "Success").after
        (pre ++ calls)

/-- The branch `Spec.ID == 0` with `Spec.Imported` of `Reconcile`, once the lookup by name
has answered `found`, after the calls `pre`. -/
def importByName (r : ServerClusterMetaReconciler) (clusterCR : ServerCluster)
    (clusterMeta : ServerClusterMeta)
    (found : Option RemoteServerCluster) (pre : List ServerClusterEvent) : Outcome
        ServerClusterEvent :=
  match found with
  | some apiCluster =>
    let patched : ServerClusterMeta :=
        { clusterMeta with Spec := { clusterMeta.Spec with ID := apiCluster.ID } }
    match r.Client.PatchMeta patched with
    | some err =>
      (r.uni.patchServerClusterStatus clusterCR "Failure" err).after (pre ++ [.patchMeta patched])
    | none =>
      { ret := .returned (Result.after r.requeueInterval) none
        trace := pre ++ [.patchMeta patched] }
  | none => r.createThenFinish clusterCR clusterMeta pre

/-- The part of `Reconcile` after the twin and its desired resource are loaded, with the cache after
it. -/
def reconcileLoaded (r : ServerClusterMetaReconciler) (clusterCR : ServerCluster)
    (clusterMeta : ServerClusterMeta) :
    Outcome ServerClusterEvent × ServerClusterStorage :=
  if clusterMeta.ObjectMeta.DeletionTimestamp.isSome then
    ({ ret := .returned Result.empty none, trace := [] }, r.NStorage.ServerClusterStorage)
  else if clusterMeta.Spec.ID == 0 then
    if clusterMeta.Spec.Imported then
      match r.NStorage.ServerClusterStorage.FindByName r.NStorage.Cred.ServerClusterGet
          clusterMeta.Spec.ServerClusterName with
      | (found, storage, calls) =>
        (r.importByName clusterCR clusterMeta found (calls.map .cache), storage)
    else (r.createThenFinish clusterCR clusterMeta [], r.NStorage.ServerClusterStorage)
  else
    match r.NStorage.ServerClusterStorage.FindByID r.NStorage.Cred.ServerClusterGet
        clusterMeta.Spec.ID with
    | (some apiCluster, storage, calls) =>
      (r.syncFound clusterCR clusterMeta apiCluster (calls.map .cache), storage)
    | (none, storage, calls) =>
        (r.createThenFinish clusterCR clusterMeta (calls.map .cache), storage)

/-- The method `Reconcile` of `ServerClusterMetaReconciler`, with the cache after it. -/
def Reconcile (r : ServerClusterMetaReconciler) (req : NamespacedName) :
    Outcome ServerClusterEvent × ServerClusterStorage :=
  match r.Client.GetMeta req with
  | .notFound _ =>
      ({ ret := .returned Result.empty none, trace := [] }, r.NStorage.ServerClusterStorage)
  | .error err =>
      ({ ret := .returned Result.empty (some err), trace := [] }, r.NStorage.ServerClusterStorage)
  | .found clusterMeta =>
    match r.Client.GetCR { req with Name := clusterMeta.Spec.ServerClusterName } with
    | .notFound _ =>
        ({ ret := .returned Result.empty none, trace := [] }, r.NStorage.ServerClusterStorage)
    | .error err =>
        ({ ret := .returned Result.empty (some err), trace := [] }, r.NStorage.ServerClusterStorage)
    | .found clusterCR => r.reconcileLoaded clusterCR clusterMeta

end ServerClusterMetaReconciler

/-! ## `serverclustertemplateMeta_controller.go` -/

/-- The function `updateServerClusterTemplate`: the errors `(err, errMsg)` it returns
(`none` for nil) and the
call it makes. -/
def updateServerClusterTemplate (id : Int) (template : ServerClusterTemplateW) (cred : Clientset) :
    Option (String × String) × List ServerClusterTemplateEvent :=
  match cred.ServerClusterTemplate.Update id template with
  | .error err =>
      (some ("\x7bupdateServerClusterTemplate\x7d " ++ err, err), [.remoteUpdate id template])
  | .ok reply =>
    match reply.ParseAPIResponse with
    | .error err => (some (err, err), [.remoteUpdate id template])
    | .ok resp =>
      if !resp.IsSuccess then
        (some ("\x7bupdateServerClusterTemplate\x7d " ++ cred.Errorf resp.Message, cred.Errorf
            resp.Message),
          [.remoteUpdate id template])
      else (none, [.remoteUpdate id template])

/-- The reconciler `ServerClusterTemplateMetaReconciler`, with the package-level `requeueInterval`.
-/
structure ServerClusterTemplateMetaReconciler where
  Client : Client ServerClusterTemplate ServerClusterTemplateMeta
  Cred : Clientset
  NStorage : Storage
  requeueInterval : Nat

namespace ServerClusterTemplateMetaReconciler

/-- The value `u` built at the start of `Reconcile`. -/
def uni (r : ServerClusterTemplateMetaReconciler) : uniReconciler ServerClusterTemplate
    ServerClusterTemplateMeta :=
  { Client := r.Client, Cred := r.Cred, NStorage := r.NStorage,
    requeueInterval := r.requeueInterval }

/-- The method `createServerClusterTemplate`. -/
def createServerClusterTemplate (r : ServerClusterTemplateMetaReconciler)
    (templateMeta : ServerClusterTemplateMeta) : Call ServerClusterTemplateMeta
    ServerClusterTemplateEvent :=
  match r.Cred.ServerClusterTemplate.Add (ServerClusterTemplateMetaToNetris templateMeta) with
  | .error err =>
    { obj := templateMeta, ending := .failed err err, trace :=
        [.remoteAdd (ServerClusterTemplateMetaToNetris templateMeta)] }
  | .ok reply =>
    match reply.Parse with
    | .error err =>
      { obj := templateMeta, ending := .failed err err, trace :=
          [.remoteAdd (ServerClusterTemplateMetaToNetris templateMeta)] }
    | .ok data =>
      if reply.StatusCode != 200 then
        { obj := templateMeta
          ending := .failed (r.Cred.Errorf data.Message) (r.Cred.Errorf data.Message)
          trace := [.remoteAdd (ServerClusterTemplateMetaToNetris templateMeta)] }
      else
        match data.id with
        | none =>
          { obj := templateMeta, ending := .panicked, trace :=
              [.remoteAdd (ServerClusterTemplateMetaToNetris templateMeta)] }
        | some id =>
          let patched : ServerClusterTemplateMeta :=
              { templateMeta with Spec := { templateMeta.Spec with ID := id } }
          match r.Client.PatchMeta patched with
          | some err =>
            { obj := patched, ending := .failed err err,
              trace := [.remoteAdd (ServerClusterTemplateMetaToNetris templateMeta), .patchMeta
                  patched] }
          | none =>
            { obj := patched, ending := .ok,
              trace := [.remoteAdd (ServerClusterTemplateMetaToNetris templateMeta), .patchMeta
                  patched] }

/-- The two places of `Reconcile` that call `createServerClusterTemplate`, and the end of
`Reconcile` after
them, after the calls `pre`. -/
def createThenFinish (r : ServerClusterTemplateMetaReconciler) (templateCR : ServerClusterTemplate)
    (templateMeta : ServerClusterTemplateMeta)
    (pre : List ServerClusterTemplateEvent) : Outcome ServerClusterTemplateEvent :=
  match (r.createServerClusterTemplate templateMeta).ending with
  | .panicked =>
      { ret := .panicked, trace := pre ++ (r.createServerClusterTemplate templateMeta).trace }
  | .failed _ errMsg =>
    (r.uni.patchServerClusterTemplateStatus templateCR "Failure" errMsg).after
        (pre ++ (r.createServerClusterTemplate templateMeta).trace)
  | .ok =>
    (r.uni.patchServerClusterTemplateStatus templateCR "OK" "Success").after
        (pre ++ (r.createServerClusterTemplate templateMeta).trace)

/-- The branch `Spec.ID != 0` of `Reconcile` with the remote entity found, after the calls
`pre`. -/
def syncFound (r : ServerClusterTemplateMetaReconciler) (templateCR : ServerClusterTemplate)
    (templateMeta : ServerClusterTemplateMeta) (apiTemplate : RemoteServerClusterTemplate)
    (pre : List ServerClusterTemplateEvent) : Outcome ServerClusterTemplateEvent :=
  if compareServerClusterTemplateMetaAPI templateMeta apiTemplate then
    (r.uni.patchServerClusterTemplateStatus templateCR "OK" "Success").after pre
  else
    match updateServerClusterTemplate templateMeta.Spec.ID
        (ServerClusterTemplateMetaToNetris templateMeta) r.Cred with
    | (some (_, errMsg), calls) =>
      (r.uni.patchServerClusterTemplateStatus templateCR "Failure" errMsg).after (pre ++ calls)
    | (none, calls) => (r.uni.patchServerClusterTemplateStatus templateCR "OK" "Success").after
        (pre ++ calls)

/-- The branch `Spec.ID == 0` with `Spec.Imported` of `Reconcile`, once the lookup by name
has answered `found`, after the calls `pre`. -/
def importByName (r : ServerClusterTemplateMetaReconciler) (templateCR : ServerClusterTemplate)
    (templateMeta : ServerClusterTemplateMeta)
    (found : Option RemoteServerClusterTemplate) (pre : List ServerClusterTemplateEvent) : Outcome
        ServerClusterTemplateEvent :=
  match found with
  | some apiTemplate =>
    let patched : ServerClusterTemplateMeta :=
        { templateMeta with Spec := { templateMeta.Spec with ID := apiTemplate.ID } }
    match r.Client.PatchMeta patched with
    | some err =>
      (r.uni.patchServerClusterTemplateStatus templateCR "Failure" err).after
          (pre ++ [.patchMeta patched])
    | none =>
      { ret := .returned (Result.after r.requeueInterval) none
        trace := pre ++ [.patchMeta patched] }
  | none => r.createThenFinish templateCR templateMeta pre

/-- The part of `Reconcile` after the twin and its desired resource are loaded, with the cache after
it. -/
def reconcileLoaded (r : ServerClusterTemplateMetaReconciler) (templateCR : ServerClusterTemplate)
    (templateMeta : ServerClusterTemplateMeta) :
    Outcome ServerClusterTemplateEvent × ServerClusterTemplateStorage :=
  if templateMeta.ObjectMeta.DeletionTimestamp.isSome then
    ({ ret := .returned Result.empty none, trace := [] }, r.NStorage.ServerClusterTemplateStorage)
  else if templateMeta.Spec.ID == 0 then
    if templateMeta.Spec.Imported then
      match r.NStorage.ServerClusterTemplateStorage.FindByName
          r.NStorage.Cred.ServerClusterTemplateGet templateMeta.Spec.ServerClusterTemplateName with
      | (found, storage, calls) =>
        (r.importByName templateCR templateMeta found (calls.map .cache), storage)
    else (r.createThenFinish templateCR templateMeta [], r.NStorage.ServerClusterTemplateStorage)
  else
    match r.NStorage.ServerClusterTemplateStorage.FindByID r.NStorage.Cred.ServerClusterTemplateGet
        templateMeta.Spec.ID with
    | (some apiTemplate, storage, calls) =>
      (r.syncFound templateCR templateMeta apiTemplate (calls.map .cache), storage)
    | (none, storage, calls) =>
        (r.createThenFinish templateCR templateMeta (calls.map .cache), storage)

/-- The method `Reconcile` of `ServerClusterTemplateMetaReconciler`, with the cache after it. -/
def Reconcile (r : ServerClusterTemplateMetaReconciler) (req : NamespacedName) :
    Outcome ServerClusterTemplateEvent × ServerClusterTemplateStorage :=
  match r.Client.GetMeta req with
  | .notFound _ =>
      ({ ret := .returned Result.empty none, trace := [] }, r.NStorage.ServerClusterTemplateStorage)
  | .error err =>
      ({ ret := .returned Result.empty (some err), trace := [] },
      r.NStorage.ServerClusterTemplateStorage)
  | .found templateMeta =>
    match r.Client.GetCR { req with Name := templateMeta.Spec.ServerClusterTemplateName } with
    | .notFound _ =>
        ({ ret := .returned Result.empty none, trace := [] },
        r.NStorage.ServerClusterTemplateStorage)
    | .error err =>
        ({ ret := .returned Result.empty (some err), trace := [] },
        r.NStorage.ServerClusterTemplateStorage)
    | .found templateCR => r.reconcileLoaded templateCR templateMeta

end ServerClusterTemplateMetaReconciler

/-! ## `vpc_translations.go` -/

/-- The calls of the VPC controllers. -/
abbrev VPCEvent : Type := Event VPC VPCMeta VPCw VPCw

/-- The reconciler `VPCReconciler`, with the package-level `requeueInterval`. -/
structure VPCReconciler where
  Client : Client VPC VPCMeta
  Cred : Clientset
  NStorage : Storage
  requeueInterval : Nat

namespace VPCReconciler

/-- The admin tenant step of `VPCToMeta`: the id and name of the tenant. -/
def resolveAdminTenant (r : VPCReconciler) (vpcCR : VPC) : Resolved (Int × String) :=
  match r.NStorage.TenantsStorage.FindByName vpcCR.Spec.AdminTenant with
  | some tenant => (.ok (tenant.ID, tenant.Name), [.findByName .tenants vpcCR.Spec.AdminTenant])
  | none => (.error ("couldn't find admin tenant '" ++ vpcCR.Spec.AdminTenant ++ "'"),
      [.findByName .tenants vpcCR.Spec.AdminTenant])

/-- The loop over `Spec.GuestTenants` of `VPCToMeta`. -/
def resolveGuestTenants (r : VPCReconciler) : List String → Resolved (List VPCGuestTenant)
  | [] => (.ok [], [])
  | tenantName :: rest =>
    match r.NStorage.TenantsStorage.FindByName tenantName with
    | none => (.error ("couldn't find guest tenant '" ++ tenantName ++ "'"),
        [.findByName .tenants tenantName])
    | some tenant =>
      ((resolveGuestTenants r rest).1.map (fun guestTenants =>
          { ID := tenant.ID, Name := tenant.Name } :: guestTenants),
        .findByName .tenants tenantName :: (resolveGuestTenants r rest).2)

/-- The method `VPCToMeta`: converts the VPC resource to Meta type. -/
def VPCToMeta (r : VPCReconciler) (vpcCR : VPC) : Resolved VPCMeta :=
  Resolved.andThen (r.resolveAdminTenant vpcCR) fun adminTenant =>
  Resolved.andThen (r.resolveGuestTenants vpcCR.Spec.GuestTenants) fun guestTenants =>
    (.ok
      { ObjectMeta := ObjectMeta.named vpcCR.ObjectMeta.UID vpcCR.ObjectMeta.Namespace
        Spec :=
          { Imported := importedOf vpcCR.ObjectMeta
            Reclaim := reclaimOf vpcCR.ObjectMeta
            VPCCRGeneration := 0
            ID := 0
            VPCName := vpcCR.ObjectMeta.Name
            AdminTenantID := adminTenant.1
            AdminTenantName := adminTenant.2
            GuestTenants := guestTenants
            Tags := vpcCR.Spec.Tags } }, [])

end VPCReconciler

/-- The function `vpcCompareFieldsForNewMeta`. -/
def vpcCompareFieldsForNewMeta (vpcCR : VPC) (vpcMeta : VPCMeta) : Bool :=
  vpcCR.ObjectMeta.Generation != vpcMeta.Spec.VPCCRGeneration
    || importedOf vpcCR.ObjectMeta != vpcMeta.Spec.Imported
    || reclaimOf vpcCR.ObjectMeta != vpcMeta.Spec.Reclaim

/-- The function `vpcMustUpdateAnnotations`. -/
def vpcMustUpdateAnnotations (vpcCR : VPC) : Bool :=
  mustUpdateAnnotations vpcCR.ObjectMeta

/-- The function `vpcUpdateDefaultAnnotations`. -/
def vpcUpdateDefaultAnnotations (vpcCR : VPC) : VPC :=
  { vpcCR with ObjectMeta := updateDefaultAnnotations vpcCR.ObjectMeta }

/-- The function `VPCMetaToNetris`: converts Meta to Netris API type. -/
def VPCMetaToNetris (vpcMeta : VPCMeta) : VPCw :=
  { Name := vpcMeta.Spec.VPCName
    AdminTenant := { ID := vpcMeta.Spec.AdminTenantID, Name := vpcMeta.Spec.AdminTenantName }
    GuestTenant := vpcMeta.Spec.GuestTenants.map
        (fun guest => { ID := guest.ID, Name := guest.Name })
    Tags := vpcMeta.Spec.Tags }

/-- The function `compareVPCMetaAPI`. -/
def compareVPCMetaAPI (vpcMeta : VPCMeta) (apiVPC : RemoteVPC) : Bool :=
  if apiVPC.Name != vpcMeta.Spec.VPCName then false
  else if apiVPC.AdminTenant.ID != vpcMeta.Spec.AdminTenantID then false
  else if apiVPC.GuestTenant.length != vpcMeta.Spec.GuestTenants.length then false
  else true

/-- Modelled from the spec: the method `uniReconciler.patchVPCStatus`, whose source is not
among the files.  The Status Reporter sets the observed status {state, message} on the
desired resource and patches it; the reconcile is retried after the fixed poll interval. -/
def uniReconciler.patchVPCStatus (u : uniReconciler VPC VPCMeta) (vpcCR : VPC)
    (status message : String) : Outcome VPCEvent :=
  { ret := .returned (Result.after u.requeueInterval) none
    trace := [.patchStatus { vpcCR with Status := { Status := status, Message := message } }
      status message] }

/-! ## `vpcmeta_controller.go` -/

/-- The function `updateVPC`: the errors `(err, errMsg)` it returns (`none` for nil) and the
call it makes. -/
def updateVPC (id : Int) (vpcW : VPCw) (cred : Clientset) :
    Option (String × String) × List VPCEvent :=
  match cred.VPC.Update id vpcW with
  | .error err => (some ("\x7bupdateVPC\x7d " ++ err, err), [.remoteUpdate id vpcW])
  | .ok reply =>
    match reply.ParseAPIResponse with
    | .error err => (some (err, err), [.remoteUpdate id vpcW])
    | .ok resp =>
      if !resp.IsSuccess then
        (some ("\x7bupdateVPC\x7d " ++ cred.Errorf resp.Message, cred.Errorf resp.Message),
          [.remoteUpdate id vpcW])
      else (none, [.remoteUpdate id vpcW])

/-- The reconciler `VPCMetaReconciler`, with the package-level `requeueInterval`. -/
structure VPCMetaReconciler where
  Client : Client VPC VPCMeta
  Cred : Clientset
  NStorage : Storage
  requeueInterval : Nat

namespace VPCMetaReconciler

/-- The value `u` built at the start of `Reconcile`. -/
def uni (r : VPCMetaReconciler) : uniReconciler VPC VPCMeta :=
  { Client := r.Client, Cred := r.Cred, NStorage := r.NStorage,
    requeueInterval := r.requeueInterval }

/-- The method `createVPC`. -/
def createVPC (r : VPCMetaReconciler) (vpcMeta : VPCMeta) : Call VPCMeta VPCEvent :=
  match r.Cred.VPC.Add (VPCMetaToNetris vpcMeta) with
  | .error err =>
    { obj := vpcMeta, ending := .failed err err, trace := [.remoteAdd (VPCMetaToNetris vpcMeta)] }
  | .ok reply =>
    match reply.Parse with
    | .error err =>
      { obj := vpcMeta, ending := .failed err err, trace := [.remoteAdd (VPCMetaToNetris vpcMeta)] }
    | .ok data =>
      if reply.StatusCode != 200 then
        { obj := vpcMeta
          ending := .failed (r.Cred.Errorf data.Message) (r.Cred.Errorf data.Message)
          trace := [.remoteAdd (VPCMetaToNetris vpcMeta)] }
      else
        match data.id with
        | none =>
          { obj := vpcMeta, ending := .panicked, trace := [.remoteAdd (VPCMetaToNetris vpcMeta)] }
        | some id =>
          let patched : VPCMeta := { vpcMeta with Spec := { vpcMeta.Spec with ID := id } }
          match r.Client.PatchMeta patched with
          | some err =>
            { obj := patched, ending := .failed err err,
              trace := [.remoteAdd (VPCMetaToNetris vpcMeta), .patchMeta patched] }
          | none =>
            { obj := patched, ending := .ok,
              trace := [.remoteAdd (VPCMetaToNetris vpcMeta), .patchMeta patched] }

/-- The two places of `Reconcile` that call `createVPC`, and the end of `Reconcile` after
them, after the calls `pre`. -/
def createThenFinish (r : VPCMetaReconciler) (vpcCR : VPC) (vpcMeta : VPCMeta)
    (pre : List VPCEvent) : Outcome VPCEvent :=
  match (r.createVPC vpcMeta).ending with
  | .panicked => { ret := .panicked, trace := pre ++ (r.createVPC vpcMeta).trace }
  | .failed _ errMsg =>
    (r.uni.patchVPCStatus vpcCR "Failure" errMsg).after (pre ++ (r.createVPC vpcMeta).trace)
  | .ok =>
    (r.uni.patchVPCStatus vpcCR "OK" "Success").after (pre ++ (r.createVPC vpcMeta).trace)

/-- The branch `Spec.ID != 0` of `Reconcile` with the remote entity found, after the calls
`pre`. -/
def syncFound (r : VPCMetaReconciler) (vpcCR : VPC) (vpcMeta : VPCMeta) (apiVPC : RemoteVPC)
    (pre : List VPCEvent) : Outcome VPCEvent :=
  if compareVPCMetaAPI vpcMeta apiVPC then
    (r.uni.patchVPCStatus vpcCR "OK" "Success").after pre
  else
    match updateVPC vpcMeta.Spec.ID (VPCMetaToNetris vpcMeta) r.Cred with
    | (some (_, errMsg), calls) =>
      (r.uni.patchVPCStatus vpcCR "Failure" errMsg).after (pre ++ calls)
    | (none, calls) => (r.uni.patchVPCStatus vpcCR "OK" "Success").after (pre ++ calls)

/-- The branch `Spec.ID == 0` with `Spec.Imported` of `Reconcile`, once the lookup by name
has answered `found`, after the calls `pre`. -/
def importByName (r : VPCMetaReconciler) (vpcCR : VPC) (vpcMeta : VPCMeta)
    (found : Option RemoteVPC) (pre : List VPCEvent) : Outcome VPCEvent :=
  match found with
  | some apiVPC =>
    let patched : VPCMeta := { vpcMeta with Spec := { vpcMeta.Spec with ID := apiVPC.ID } }
    match r.Client.PatchMeta patched with
    | some err =>
      (r.uni.patchVPCStatus vpcCR "Failure" err).after (pre ++ [.patchMeta patched])
    | none =>
      { ret := .returned (Result.after r.requeueInterval) none
        trace := pre ++ [.patchMeta patched] }
  | none => r.createThenFinish vpcCR vpcMeta pre

/-- The part of `Reconcile` after the twin and its desired resource are loaded. -/
def reconcileLoaded (r : VPCMetaReconciler) (vpcCR : VPC) (vpcMeta : VPCMeta) :
    Outcome VPCEvent :=
  if vpcMeta.ObjectMeta.DeletionTimestamp.isSome then
    { ret := .returned Result.empty none, trace := [] }
  else if vpcMeta.Spec.ID == 0 then
    if vpcMeta.Spec.Imported then
      r.importByName vpcCR vpcMeta (r.NStorage.VPCStorage.FindByName vpcMeta.Spec.VPCName)
        [.cache (.findByName .vpcs vpcMeta.Spec.VPCName)]
    else r.createThenFinish vpcCR vpcMeta []
  else
    match r.NStorage.VPCStorage.FindByID vpcMeta.Spec.ID with
    | some apiVPC =>
      r.syncFound vpcCR vpcMeta apiVPC [.cache (.findByID .vpcs vpcMeta.Spec.ID)]
    | none => r.createThenFinish vpcCR vpcMeta [.cache (.findByID .vpcs vpcMeta.Spec.ID)]

/-- The method `Reconcile` of `VPCMetaReconciler`. -/
def Reconcile (r : VPCMetaReconciler) (req : NamespacedName) :
    Outcome VPCEvent :=
  match r.Client.GetMeta req with
  | .notFound _ => { ret := .returned Result.empty none, trace := [] }
  | .error err => { ret := .returned Result.empty (some err), trace := [] }
  | .found vpcMeta =>
    match r.Client.GetCR { req with Name := vpcMeta.Spec.VPCName } with
    | .notFound _ => { ret := .returned Result.empty none, trace := [] }
    | .error err => { ret := .returned Result.empty (some err), trace := [] }
    | .found vpcCR => r.reconcileLoaded vpcCR vpcMeta

end VPCMetaReconciler

/-! ## Concrete scenarios -/

namespace Scenario

/-- A reply with HTTP status `code` whose envelope has that status code and whose data carries
the id `id`. -/
def reply (code : Int) (id : Option Int) : Reply :=
  { StatusCode := code
    Parse := .ok { Message := "reply", id := id }
    ParseAPIResponse := .ok { IsSuccess := code == 200, StatusCode := code, Message := "reply" } }

/-- A remote kind that answers every write call with status `code` and the id 42. -/
def remote (AddP UpdP : Type) (code : Int) : Remote AddP UpdP :=
  { Delete := fun _ => .ok (reply code (some 42))
    Add := fun _ => .ok (reply code (some 42))
    Update := fun _ _ => .ok (reply code (some 42)) }

/-- A client whose write calls are answered with status `code`; one inventory profile "gold"
exists, no cluster and no template. -/
def cred (code : Int) : Clientset :=
  { Inventory := remote HWServer HWServer code
    InventoryProfileGet := .ok [{ ID := 3, Name := "gold" }]
    ServerCluster := remote ServerClusterW ServerClusterU code
    ServerClusterGet := .ok []
    ServerClusterTemplate := remote ServerClusterTemplateW ServerClusterTemplateW code
    ServerClusterTemplateGet := .ok []
    VPC := remote VPCw VPCw code
    Errorf := fun format => format }

/-- The caches: site "sfo1" (1), tenant "admin" (2), port "swp1@leaf01" (11), the remote
servers `hws`, the remote VPCs `vpcs`, and the snapshots `clusters` and `templates`. -/
def storage (code : Int) (hws : List HW) (vpcs : List RemoteVPC)
    (clusters : List RemoteServerCluster) (templates : List RemoteServerClusterTemplate) :
    Storage :=
  { Cred := cred code
    SitesStorage :=
      { FindByName := fun n => if n == "sfo1" then some { ID := 1, Name := "sfo1" } else none
        FindByID := fun i => if i == 1 then some { ID := 1, Name := "sfo1" } else none }
    TenantsStorage :=
      { FindByName := fun n => if n == "admin" then some { ID := 2, Name := "admin" } else none
        FindByID := fun i => if i == 2 then some { ID := 2, Name := "admin" } else none }
    PortsStorage :=
      { FindByName := fun n =>
          if n == "swp1@leaf01" then some { ID := 11, Port_ := "swp1" } else none
        FindByID := fun i => if i == 11 then some { ID := 11, Port_ := "swp1" } else none }
    HWsStorage :=
      { FindServerByName := fun n => hws.find? (fun h => h.Name == n)
        FindServerByID := fun i => hws.find? (fun h => h.ID == i) }
    VPCStorage :=
      { FindByName := fun n => vpcs.find? (fun v => v.Name == n)
        FindByID := fun i => vpcs.find? (fun v => v.ID == i) }
    ServerClusterStorage := { Clusters := clusters }
    ServerClusterTemplateStorage := { Templates := templates } }

/-- A Kubernetes client that holds the desired resource `cr` and the twin `twin` (`none`: not
found) and answers every write call with `writeErr`. -/
def client {CR Meta : Type} (cr : CR) (twin : Option Meta) (writeErr : Option String) :
    Client CR Meta :=
  { GetCR := fun _ => .found cr
    GetMeta := fun _ =>
      match twin with
      | some m => .found m
      | none => .notFound "not found"
    PatchCR := fun _ => writeErr
    UpdateCR := fun _ => writeErr
    CreateMeta := fun _ => writeErr
    UpdateMeta := fun _ => writeErr
    PatchMeta := fun _ => writeErr
    DeleteMeta := fun _ => writeErr }

/-- Object metadata with valid annotations (import "false", reclaim policy "delete"), the
finalizer attached and generation `gen`; `deleting` sets the deletion marker. -/
def objectMeta (name uid : String) (gen : Int) (deleting : Bool) : ObjectMeta :=
  { Name := name, Namespace := "default", UID := uid, Generation := gen
    DeletionTimestamp := if deleting then some 1 else none
    Finalizers := some [deleteFinalizer]
    Annotations := some [( importAnnotation, "false"), ( reclaimAnnotation, "delete")] }

/-- The request key of the desired resource `name`. -/
def request (name : String) : NamespacedName := { Namespace := "default", Name := name }

/-- An InventoryServer "srv1" at site `site` with description `description`. -/
def inventoryServer (site description : String) (gen : Int) (deleting : Bool) :
    InventoryServer :=
  { ObjectMeta := objectMeta "srv1" "uid-1" gen deleting
    Spec :=
      { Tenant := "admin", Description := description, Site := site, Profile := "gold"
        MainIP := "", MgmtIP := "", ASN := 0, PortsCount := 2, UUID := "u-1"
        Links := [{ Local := "eth0", Remote := "swp1@leaf01" }], CustomData := ""
        Tags := ["a"], SRVRole := "compute" }
    Status := { Status := "", Message := "" } }

/-- The twin of `inventoryServer` with remote id `id`, source generation `gen` and addresses
`mainIP` (also the management address). -/
def inventoryServerMeta (id gen : Int) (description mainIP : String) (imported reclaim : Bool) :
    InventoryServerMeta :=
  { ObjectMeta := ObjectMeta.named "uid-1" "default"
    Spec :=
      { Imported := imported, Reclaim := reclaim, InventoryServerCRGeneration := gen, ID := id
        InventoryServerName := "srv1", TenantID := 2, Description := description, SiteID := 1
        ProfileID := 3, MainIP := mainIP, MgmtIP := mainIP, ASN := 65000, PortsCount := 2
        UUID := "u-1"
        Links := [{ Local := IDName.ofName "eth0", Remote := { ID := 11, Name := "swp1" } }]
        CustomData := "", Tags := ["a"], SRVRole := "compute" } }

/-- The remote server with id `id` that matches `inventoryServerMeta` but for its
description. -/
def hw (id : Int) (description mainIP : String) : HW :=
  { ID := id, Name := "srv1", Description := description, Tenant := IDName.ofID 2
    Site := IDName.ofID 1, Profile := IDName.ofID 3, Asn := 65000
    MainIP := { Address := mainIP }, MgmtIP := { Address := mainIP }, PortCount := 2
    UUID := "u-1"
    Links := [{ Local := IDName.ofName "eth0", Remote := { ID := 11, Name := "swp1" } }]
    CustomData := "", Tags := ["a"], SRVRole := "compute" }

/-- A ServerCluster "c1" at site `site` that uses the template "t1". -/
def serverCluster (site : String) (gen : Int) (deleting : Bool) : ServerCluster :=
  { ObjectMeta := objectMeta "c1" "uid-2" gen deleting
    Spec :=
      { Site := site, Admin := "admin", VPC := "", Template := "t1", Tags := []
        Servers := [] }
    Status := { Status := "", Message := "" } }

/-- The twin of `serverCluster` with remote id `id` and source generation `gen`. -/
def serverClusterMeta (id gen : Int) (imported reclaim : Bool) : ServerClusterMeta :=
  { ObjectMeta := ObjectMeta.named "uid-2" "default"
    Spec :=
      { Imported := imported, Reclaim := reclaim, ServerClusterCRGeneration := gen, ID := id
        ServerClusterName := "c1", SiteID := 1, SiteName := "sfo1", AdminID := 2
        AdminName := "admin", VPCID := 0, VPCName := "", TemplateID := 5, TemplateName := "t1"
        Tags := [], Servers := [] } }

/-- The remote cluster with id `id` that matches `serverClusterMeta`. -/
def remoteCluster (id : Int) : RemoteServerCluster :=
  { ID := id, Name := "c1", Admin := { ID := 2, Name := "admin" }
    Site := { ID := 1, Name := "sfo1" }, VPC := { ID := 0, Name := "" }
    SrvClusterTemplate := { ID := 5, Name := "t1" }, Tags := [], Servers := [] }

/-- A VNet of a template. -/
def vnet : ServerClusterTemplateVNet :=
  { Postfix := "east", Type_ := "l2vpn", ServerNics := ["eth0"], Vlan := "tagged"
    VlanID := "auto", IPv4Gateway := none, IPv6Gateway := none, IPv4DhcpEnabled := false
    IPv6DhcpEnabled := false }

/-- A ServerClusterTemplate "t1" with one VNet. -/
def template (gen : Int) (deleting : Bool) : ServerClusterTemplate :=
  { ObjectMeta := objectMeta "t1" "uid-3" gen deleting
    Spec := { VNets := [vnet] }
    Status := { Status := "", Message := "" } }

/-- The twin of `template` with remote id `id` and source generation `gen`. -/
def templateMeta (id gen : Int) (imported reclaim : Bool) : ServerClusterTemplateMeta :=
  { ObjectMeta := ObjectMeta.named "uid-3" "default"
    Spec :=
      { Imported := imported, Reclaim := reclaim, ServerClusterTemplateCRGeneration := gen
        ID := id, ServerClusterTemplateName := "t1", VNets := [vnet] } }

/-- The remote template "t1" with id `id`. -/
def remoteTemplate (id : Int) : RemoteServerClusterTemplate :=
  { ID := id, Name := "t1", Vnets := [] }

/-- A VPC "v1" administered by the tenant `admin`. -/
def vpc (admin : String) (gen : Int) : VPC :=
  { ObjectMeta := objectMeta "v1" "uid-4" gen false
    Spec := { AdminTenant := admin, GuestTenants := [], Tags := [] }
    Status := { Status := "", Message := "" } }

/-- The twin of `vpc` with remote id `id`. -/
def vpcMeta (id gen : Int) (imported : Bool) : VPCMeta :=
  { ObjectMeta := ObjectMeta.named "uid-4" "default"
    Spec :=
      { Imported := imported, Reclaim := false, VPCCRGeneration := gen, ID := id
        VPCName := "v1", AdminTenantID := 2, AdminTenantName := "admin", GuestTenants := []
        Tags := [] } }

/-- The remote VPC "v1" with id `id`. -/
def remoteVPC (id : Int) : RemoteVPC :=
  { ID := id, Name := "v1", AdminTenant := { ID := 2, Name := "admin" }, GuestTenant := []
    Tags := [] }

/-- An InventoryServer reconciler over `storage`. -/
def inventoryServerReconciler (cr : InventoryServer)
    (twin : Option InventoryServerMeta) (writeErr : Option String) (code : Int) :
    InventoryServerReconciler :=
  { Client := client cr twin writeErr, Cred := cred code
    NStorage := storage code [] [] [] [], requeueInterval := 10 }

/-- A ServerCluster reconciler over `storage` whose template cache holds "t1". -/
def serverClusterReconciler (cr : ServerCluster) (twin : Option ServerClusterMeta)
    (writeErr : Option String) (code : Int) : ServerClusterReconciler :=
  { Client := client cr twin writeErr, Cred := cred code
    NStorage := storage code [] [] [] [remoteTemplate 5]
    requeueInterval := 10 }

/-- A ServerClusterTemplate reconciler over `storage`. -/
def templateReconciler (cr : ServerClusterTemplate)
    (twin : Option ServerClusterTemplateMeta) (writeErr : Option String) (code : Int) :
    ServerClusterTemplateReconciler :=
  { Client := client cr twin writeErr, Cred := cred code
    NStorage := storage code [] [] [] [], requeueInterval := 10 }

/-- An InventoryServerMeta reconciler over `Scenario.storage` with the remote servers
`hws`. -/
def inventoryServerMetaReconciler (cr : InventoryServer) (twin : InventoryServerMeta)
    (writeErr : Option String) (code : Int) (hws : List HW) : InventoryServerMetaReconciler :=
  { Client := client cr (some twin) writeErr, Cred := cred code
    NStorage := storage code hws [] [] [], requeueInterval := 10 }

/-- A ServerClusterMeta reconciler over `Scenario.storage` with the snapshot `clusters`. -/
def serverClusterMetaReconciler (cr : ServerCluster) (twin : ServerClusterMeta)
    (writeErr : Option String) (code : Int) (clusters : List RemoteServerCluster) :
    ServerClusterMetaReconciler :=
  { Client := client cr (some twin) writeErr, Cred := cred code
    NStorage := storage code [] [] clusters [], requeueInterval := 10 }

/-- A ServerClusterTemplateMeta reconciler over `Scenario.storage` with the snapshot
`templates`. -/
def templateMetaReconciler (cr : ServerClusterTemplate) (twin : ServerClusterTemplateMeta)
    (writeErr : Option String) (code : Int) (templates : List RemoteServerClusterTemplate) :
    ServerClusterTemplateMetaReconciler :=
  { Client := client cr (some twin) writeErr, Cred := cred code
    NStorage := storage code [] [] [] templates, requeueInterval := 10 }

/-- A VPCMeta reconciler over `Scenario.storage` with the remote VPCs `vpcs`. -/
def vpcMetaReconciler (cr : VPC) (twin : VPCMeta) (writeErr : Option String) (code : Int)
    (vpcs : List RemoteVPC) : VPCMetaReconciler :=
  { Client := client cr (some twin) writeErr, Cred := cred code
    NStorage := storage code [] vpcs [] [], requeueInterval := 10 }

/-- A VPC reconciler over `Scenario.storage`. -/
def vpcReconciler (cr : VPC) (twin : Option VPCMeta) (writeErr : Option String) (code : Int) :
    VPCReconciler :=
  { Client := client cr twin writeErr, Cred := cred code
    NStorage := storage code [] [] [] [], requeueInterval := 10 }

/-- The InventoryServer "srv1" of generation 1 with the finalizer list `finalizers` and the
annotations `annotations`. -/
def inventoryServerWith (finalizers : Option (List String))
    (annotations : Option (List (String × String))) : InventoryServer :=
  { inventoryServer "sfo1" "d" 1 false with
    ObjectMeta :=
      { objectMeta "srv1" "uid-1" 1 false with
        Finalizers := finalizers, Annotations := annotations } }

/-- The ServerCluster "c1" of generation 1 with the finalizer list `finalizers` and the
annotations `annotations`. -/
def serverClusterWith (finalizers : Option (List String))
    (annotations : Option (List (String × String))) : ServerCluster :=
  { serverCluster "sfo1" 1 false with
    ObjectMeta :=
      { objectMeta "c1" "uid-2" 1 false with
        Finalizers := finalizers, Annotations := annotations } }

/-- The ServerClusterTemplate "t1" of generation 1 with the finalizer list `finalizers` and
the annotations `annotations`. -/
def templateWith (finalizers : Option (List String))
    (annotations : Option (List (String × String))) : ServerClusterTemplate :=
  { template 1 false with
    ObjectMeta :=
      { objectMeta "t1" "uid-3" 1 false with
        Finalizers := finalizers, Annotations := annotations } }

/-- The valid annotations of `objectMeta`. -/
def validAnnotations : Option (List (String × String)) :=
  some [( importAnnotation, "false"), ( reclaimAnnotation, "delete")]

end Scenario


/-! ## Unfolding lemmas -/

/-- The last call of a trace that ends with the call `a`. -/
theorem getLast?_append_one {α : Type} (l : List α) (a : α) : (l ++ [a]).getLast? = some a := by
  simp

/-- Once the twin and its desired resource are loaded, the Meta-phase `Reconcile` of an
InventoryServerMeta is `reconcileLoaded`. -/
theorem InventoryServerMetaReconciler.Reconcile_loaded_inventoryServerMeta (r : InventoryServerMetaReconciler)
    (req : NamespacedName) (cr : InventoryServer) (twin : InventoryServerMeta)
    (hTwin : r.Client.GetMeta req = .found twin)
    (hCR : r.Client.GetCR { req with Name := twin.Spec.InventoryServerName } = .found cr) :
    r.Reconcile req = r.reconcileLoaded cr twin := by
  simp only [InventoryServerMetaReconciler.Reconcile, hTwin, hCR]

/-- Once the twin and its desired resource are loaded, the Meta-phase `Reconcile` of a
ServerClusterMeta is `reconcileLoaded`. -/
theorem ServerClusterMetaReconciler.Reconcile_loaded_serverClusterMeta (r : ServerClusterMetaReconciler)
    (req : NamespacedName) (cr : ServerCluster) (twin : ServerClusterMeta)
    (hTwin : r.Client.GetMeta req = .found twin)
    (hCR : r.Client.GetCR { req with Name := twin.Spec.ServerClusterName } = .found cr) :
    r.Reconcile req = r.reconcileLoaded cr twin := by
  simp only [ServerClusterMetaReconciler.Reconcile, hTwin, hCR]

/-- Once the twin and its desired resource are loaded, the Meta-phase `Reconcile` of a
ServerClusterTemplateMeta is `reconcileLoaded`. -/
theorem ServerClusterTemplateMetaReconciler.Reconcile_loaded_templateMeta
    (r : ServerClusterTemplateMetaReconciler) (req : NamespacedName)
    (cr : ServerClusterTemplate) (twin : ServerClusterTemplateMeta)
    (hTwin : r.Client.GetMeta req = .found twin)
    (hCR : r.Client.GetCR { req with Name := twin.Spec.ServerClusterTemplateName }
      = .found cr) :
    r.Reconcile req = r.reconcileLoaded cr twin := by
  simp only [ServerClusterTemplateMetaReconciler.Reconcile, hTwin, hCR]

/-- Once the twin and its desired resource are loaded, the Meta-phase `Reconcile` of a
VPCMeta is `reconcileLoaded`. -/
theorem VPCMetaReconciler.Reconcile_loaded_vpcMeta (r : VPCMetaReconciler) (req : NamespacedName)
    (cr : VPC) (twin : VPCMeta) (hTwin : r.Client.GetMeta req = .found twin)
    (hCR : r.Client.GetCR { req with Name := twin.Spec.VPCName } = .found cr) :
    r.Reconcile req = r.reconcileLoaded cr twin := by
  simp only [VPCMetaReconciler.Reconcile, hTwin, hCR]

/-- The back-fill of the desired InventoryServer makes at most one call, a patch of the
desired resource. -/
theorem uniReconciler.updateInventoryServerIfNecessary_trace
    (u : uniReconciler InventoryServer InventoryServerMeta) (cr : InventoryServer)
    (m : InventoryServerMeta) :
    (u.updateInventoryServerIfNecessary cr m).trace = []
      ∨ ∃ c, (u.updateInventoryServerIfNecessary cr m).trace = [.patchCR c] := by
  unfold uniReconciler.updateInventoryServerIfNecessary
  split
  · right
    split <;> exact ⟨_, rfl⟩
  · left
    rfl

/-- The end of the InventoryServerMeta `Reconcile` when the back-fill returns no error:
after the calls `pre` come the calls of the back-fill and the status patch OK / "Success". -/
theorem InventoryServerMetaReconciler.finish_trace_ok (r : InventoryServerMetaReconciler)
    (cr : InventoryServer) (m : InventoryServerMeta) (pre : List InventoryServerEvent)
    (h : (r.uni.updateInventoryServerIfNecessary cr m).err = none) :
    r.finish cr m pre =
      { ret := .returned (Result.after r.requeueInterval) none
        trace := pre ++ (r.uni.updateInventoryServerIfNecessary cr m).trace ++
          [.patchStatus
            { (r.uni.updateInventoryServerIfNecessary cr m).obj with
              Status := { Status := "OK", Message := "Success" } } "OK" "Success"] } := by
  unfold InventoryServerMetaReconciler.finish
  rw [h]
  simp [Outcome.after, uniReconciler.patchInventoryServerStatus,
    InventoryServerMetaReconciler.uni]

/-- The end of the InventoryServerMeta `Reconcile` when the back-fill returns the error `err`:
after the calls `pre` come the calls of the back-fill and the status patch "Failure" with
`err`. -/
theorem InventoryServerMetaReconciler.finish_trace_err (r : InventoryServerMetaReconciler)
    (cr : InventoryServer) (m : InventoryServerMeta) (pre : List InventoryServerEvent)
    (err : String) (h : (r.uni.updateInventoryServerIfNecessary cr m).err = some err) :
    r.finish cr m pre =
      { ret := .returned (Result.after r.requeueInterval) none
        trace := pre ++ (r.uni.updateInventoryServerIfNecessary cr m).trace ++
          [.patchStatus
            { (r.uni.updateInventoryServerIfNecessary cr m).obj with
              Status := { Status := "Failure", Message := err } } "Failure" err] } := by
  unfold InventoryServerMetaReconciler.finish
  rw [h]
  simp [Outcome.after, uniReconciler.patchInventoryServerStatus,
    InventoryServerMetaReconciler.uni]

/-- The function `updateInventoryServer` makes one call, the remote update. -/
theorem updateInventoryServer_calls (id : Int) (p : HWServer) (cred : Clientset) :
    (updateInventoryServer id p cred).2 = [.remoteUpdate id p] := by
  unfold updateInventoryServer
  split
  · rfl
  · split
    · rfl
    · split <;> rfl

/-- The function `updateInventoryServer` returns no error on a successful reply. -/
theorem updateInventoryServer_ok (id : Int) (p : HWServer) (cred : Clientset) (reply : Reply)
    (resp : APIResponse) (hUpd : cred.Inventory.Update id p = .ok reply)
    (hParse : reply.ParseAPIResponse = .ok resp) (hOK : resp.IsSuccess = true) :
    (updateInventoryServer id p cred).1 = none := by
  simp [updateInventoryServer, hUpd, hParse, hOK]


/-- The calls of `deleteCRs` of `InventoryServerReconciler` on an existing twin: the deletion of the
twin and, when it succeeds, the `Update` of the desired resource with its finalizer list
cleared. -/
theorem InventoryServerReconciler.deleteCRs_trace_inventoryServer (r : InventoryServerReconciler)
    (cr : InventoryServer) (m : InventoryServerMeta) :
    (r.deleteCRs cr (some m)).trace
      = .deleteMeta m ::
        (match r.Client.DeleteMeta m with
          | none => [.updateCR { cr with ObjectMeta := { cr.ObjectMeta with Finalizers := none } }]
          | some _ => []) := by
  cases h : r.Client.DeleteMeta m with
  | some e => simp
      [InventoryServerReconciler.deleteCRs, InventoryServerReconciler.deleteInventoryServerMetaCR,
      h]
  | none =>
    cases h2 : r.Client.UpdateCR { cr with ObjectMeta := { cr.ObjectMeta with Finalizers := none } }
        <;>
      simp [InventoryServerReconciler.deleteCRs,
          InventoryServerReconciler.deleteInventoryServerMetaCR,
          InventoryServerReconciler.deleteInventoryServerCR, h, h2, Step.after]

/-- The method `deleteInventoryServer` of `InventoryServerReconciler` skips the remote step when the
    id of the twin is not
positive or `Reclaim` is set. -/
theorem InventoryServerReconciler.deleteInventoryServer_skip (r : InventoryServerReconciler)
    (cr : InventoryServer) (m : InventoryServerMeta)
    (h : ¬ (0 < m.Spec.ID) ∨ m.Spec.Reclaim = true) :
    r.deleteInventoryServer cr (some m) = r.deleteCRs cr (some m) := by
  unfold InventoryServerReconciler.deleteInventoryServer
  have hc : (decide (m.Spec.ID > 0) && !m.Spec.Reclaim) = false := by
    rcases h with h | h
    · simp [h]
    · simp [h]
  simp only [hc]
  rfl

/-- The method `deleteInventoryServer` of `InventoryServerReconciler` on a twin with positive id and
    `Reclaim` false: the
remote Delete call is made first; its error ends the protocol, otherwise `deleteCRs`
follows. -/
theorem InventoryServerReconciler.deleteInventoryServer_remote (r : InventoryServerReconciler)
    (cr : InventoryServer) (m : InventoryServerMeta)
    (hID : 0 < m.Spec.ID) (hReclaim : m.Spec.Reclaim = false) :
    r.deleteInventoryServer cr (some m) =
      match remoteDeleteStep r.Cred r.Cred.Inventory.Delete "\x7bdeleteInventoryServer\x7d "
          m.Spec.ID with
      | some err =>
        { obj := cr, res := Result.empty, err := some err, trace := [.remoteDelete m.Spec.ID] }
      | none => (r.deleteCRs cr (some m)).after [.remoteDelete m.Spec.ID] := by
  unfold InventoryServerReconciler.deleteInventoryServer
  have hc : (decide (m.Spec.ID > 0) && !m.Spec.Reclaim) = true := by
    simp [hID, hReclaim]
  simp only [hc]
  rfl

/-- The calls of `deleteCRs` of `ServerClusterReconciler` on an existing twin: the deletion of the
twin and, when it succeeds, the `Update` of the desired resource with its finalizer list
cleared. -/
theorem ServerClusterReconciler.deleteCRs_trace_serverCluster (r : ServerClusterReconciler) (cr : ServerCluster)
    (m : ServerClusterMeta) :
    (r.deleteCRs cr (some m)).trace
      = .deleteMeta m ::
        (match r.Client.DeleteMeta m with
          | none => [.updateCR { cr with ObjectMeta := { cr.ObjectMeta with Finalizers := none } }]
          | some _ => []) := by
  cases h : r.Client.DeleteMeta m with
  | some e => simp
      [ServerClusterReconciler.deleteCRs, ServerClusterReconciler.deleteServerClusterMetaCR, h]
  | none =>
    cases h2 : r.Client.UpdateCR { cr with ObjectMeta := { cr.ObjectMeta with Finalizers := none } }
        <;>
      simp [ServerClusterReconciler.deleteCRs, ServerClusterReconciler.deleteServerClusterMetaCR,
          ServerClusterReconciler.deleteServerClusterCR, h, h2, Step.after]

/-- The method `deleteServerCluster` of `ServerClusterReconciler` skips the remote step when the id
    of the twin is not
positive or `Reclaim` is set. -/
theorem ServerClusterReconciler.deleteServerCluster_skip (r : ServerClusterReconciler)
    (cr : ServerCluster) (m : ServerClusterMeta)
    (h : ¬ (0 < m.Spec.ID) ∨ m.Spec.Reclaim = true) :
    r.deleteServerCluster cr (some m) = r.deleteCRs cr (some m) := by
  unfold ServerClusterReconciler.deleteServerCluster
  have hc : (decide (m.Spec.ID > 0) && !m.Spec.Reclaim) = false := by
    rcases h with h | h
    · simp [h]
    · simp [h]
  simp only [hc]
  rfl

/-- The method `deleteServerCluster` of `ServerClusterReconciler` on a twin with positive id and
    `Reclaim` false: the
remote Delete call is made first; its error ends the protocol, otherwise `deleteCRs`
follows. -/
theorem ServerClusterReconciler.deleteServerCluster_remote (r : ServerClusterReconciler)
    (cr : ServerCluster) (m : ServerClusterMeta)
    (hID : 0 < m.Spec.ID) (hReclaim : m.Spec.Reclaim = false) :
    r.deleteServerCluster cr (some m) =
      match remoteDeleteStep r.Cred r.Cred.ServerCluster.Delete "\x7bdeleteServerCluster\x7d "
          m.Spec.ID with
      | some err =>
        { obj := cr, res := Result.empty, err := some err, trace := [.remoteDelete m.Spec.ID] }
      | none => (r.deleteCRs cr (some m)).after [.remoteDelete m.Spec.ID] := by
  unfold ServerClusterReconciler.deleteServerCluster
  have hc : (decide (m.Spec.ID > 0) && !m.Spec.Reclaim) = true := by
    simp [hID, hReclaim]
  simp only [hc]
  rfl

/-- The calls of `deleteCRs` of `ServerClusterTemplateReconciler` on an existing twin: the deletion
    of the
twin and, when it succeeds, the `Update` of the desired resource with its finalizer list
cleared. -/
theorem ServerClusterTemplateReconciler.deleteCRs_trace_template (r : ServerClusterTemplateReconciler)
    (cr : ServerClusterTemplate) (m : ServerClusterTemplateMeta) :
    (r.deleteCRs cr (some m)).trace
      = .deleteMeta m ::
        (match r.Client.DeleteMeta m with
          | none => [.updateCR { cr with ObjectMeta := { cr.ObjectMeta with Finalizers := none } }]
          | some _ => []) := by
  cases h : r.Client.DeleteMeta m with
  | some e => simp
      [ServerClusterTemplateReconciler.deleteCRs,
      ServerClusterTemplateReconciler.deleteServerClusterTemplateMetaCR, h]
  | none =>
    cases h2 : r.Client.UpdateCR { cr with ObjectMeta := { cr.ObjectMeta with Finalizers := none } }
        <;>
      simp [ServerClusterTemplateReconciler.deleteCRs,
          ServerClusterTemplateReconciler.deleteServerClusterTemplateMetaCR,
          ServerClusterTemplateReconciler.deleteServerClusterTemplateCR, h, h2, Step.after]

/-- The method `deleteServerClusterTemplate` of `ServerClusterTemplateReconciler` skips the remote
    step when the id of the twin is not
positive or `Reclaim` is set. -/
theorem ServerClusterTemplateReconciler.deleteServerClusterTemplate_skip
    (r : ServerClusterTemplateReconciler) (cr : ServerClusterTemplate)
    (m : ServerClusterTemplateMeta)
    (h : ¬ (0 < m.Spec.ID) ∨ m.Spec.Reclaim = true) :
    r.deleteServerClusterTemplate cr (some m) = r.deleteCRs cr (some m) := by
  unfold ServerClusterTemplateReconciler.deleteServerClusterTemplate
  have hc : (decide (m.Spec.ID > 0) && !m.Spec.Reclaim) = false := by
    rcases h with h | h
    · simp [h]
    · simp [h]
  simp only [hc]
  rfl

/-- The method `deleteServerClusterTemplate` of `ServerClusterTemplateReconciler` on a twin with
    positive id and `Reclaim` false: the
remote Delete call is made first; its error ends the protocol, otherwise `deleteCRs`
follows. -/
theorem ServerClusterTemplateReconciler.deleteServerClusterTemplate_remote
    (r : ServerClusterTemplateReconciler) (cr : ServerClusterTemplate)
    (m : ServerClusterTemplateMeta)
    (hID : 0 < m.Spec.ID) (hReclaim : m.Spec.Reclaim = false) :
    r.deleteServerClusterTemplate cr (some m) =
      match remoteDeleteStep r.Cred r.Cred.ServerClusterTemplate.Delete
          "\x7bdeleteServerClusterTemplate\x7d " m.Spec.ID with
      | some err =>
        { obj := cr, res := Result.empty, err := some err, trace := [.remoteDelete m.Spec.ID] }
      | none => (r.deleteCRs cr (some m)).after [.remoteDelete m.Spec.ID] := by
  unfold ServerClusterTemplateReconciler.deleteServerClusterTemplate
  have hc : (decide (m.Spec.ID > 0) && !m.Spec.Reclaim) = true := by
    simp [hID, hReclaim]
  simp only [hc]
  rfl


/-! ## Lemmas on the translation steps -/

/-- The value of two sequenced steps. -/
theorem Resolved.andThen_fst {α β : Type} (x : Resolved α) (f : α → Resolved β) :
    (x.andThen f).1 = match x.1 with
      | .ok a => (f a).1
      | .error err => .error err := by
  unfold Resolved.andThen
  cases x.1 <;> rfl

/-- The calls of two sequenced steps. -/
theorem Resolved.andThen_snd {α β : Type} (x : Resolved α) (f : α → Resolved β) :
    (x.andThen f).2 = x.2 ++ match x.1 with
      | .ok a => (f a).2
      | .error _ => [] := by
  unfold Resolved.andThen
  cases x.1 <;> simp

/-- Two sequenced steps return a value only when both do. -/
theorem Resolved.andThen_ok {α β : Type} (x : Resolved α) (f : α → Resolved β) (b : β)
    (h : (x.andThen f).1 = .ok b) : ∃ a, x.1 = .ok a ∧ (f a).1 = .ok b := by
  rw [Resolved.andThen_fst] at h
  cases hx : x.1 with
  | ok a => rw [hx] at h; exact ⟨a, rfl, h⟩
  | error err => rw [hx] at h; cases h

/-- A call `c` whose occurrence in either of two sequenced steps makes that step fail with a
message that quotes `name` makes the sequence fail with such a message. -/
theorem Resolved.andThen_miss {α β : Type} (x : Resolved α) (f : α → Resolved β)
    (c : CacheCall) (name : String)
    (hx : c ∈ x.2 → ∃ msg, x.1 = .error msg
      ∧ ∃ pre post : String, msg = pre ++ "'" ++ name ++ "'" ++ post)
    (hf : ∀ a, x.1 = .ok a → c ∈ (f a).2 → ∃ msg, (f a).1 = .error msg
      ∧ ∃ pre post : String, msg = pre ++ "'" ++ name ++ "'" ++ post) :
    c ∈ (x.andThen f).2 → ∃ msg, (x.andThen f).1 = .error msg
      ∧ ∃ pre post : String, msg = pre ++ "'" ++ name ++ "'" ++ post := by
  intro hc
  rw [Resolved.andThen_snd] at hc
  rw [Resolved.andThen_fst]
  cases hx1 : x.1 with
  | error err =>
    rw [hx1] at hc
    simp only [List.append_nil] at hc
    obtain ⟨msg, hmsg, hq⟩ := hx hc
    rw [hx1] at hmsg
    refine ⟨msg, ?_, hq⟩
    simpa using hmsg
  | ok a =>
    rw [hx1] at hc
    rcases List.mem_append.1 hc with h | h
    · obtain ⟨msg, hmsg, _⟩ := hx h
      rw [hx1] at hmsg
      cases hmsg
    · exact hf a hx1 h

/-- The text `head ++ "'" ++ name ++ "'" ++ tail` contains `name` in single quotes. -/
theorem quoted (head tail name : String) :
    ∃ pre post : String, head ++ "'" ++ name ++ "'" ++ tail = pre ++ "'" ++ name ++ "'" ++ post :=
  ⟨head, tail, rfl⟩

/-- The message of an unresolved site of an InventoryServer quotes the name. -/
theorem quoted_invalid_site (name : String) :
    ∃ pre post : String, "invalid site '" ++ name ++ "'" = pre ++ "'" ++ name ++ "'" ++ post :=
  ⟨"invalid site ", "", by
    have h : "invalid site '" = "invalid site " ++ "'" := by decide
    rw [h]; simp [String.append_assoc]⟩

/-- The message of an unresolved tenant of an InventoryServer quotes the name. -/
theorem quoted_invalid_tenant (name : String) :
    ∃ pre post : String, "invalid tenant '" ++ name ++ "'" = pre ++ "'" ++ name ++ "'" ++ post :=
  ⟨"invalid tenant ", "", by
    have h : "invalid tenant '" = "invalid tenant " ++ "'" := by decide
    rw [h]; simp [String.append_assoc]⟩

/-- The message of an unresolved profile of an InventoryServer quotes the name. -/
theorem quoted_invalid_profile (name : String) :
    ∃ pre post : String,
      "invalid profile '" ++ name ++ "'" = pre ++ "'" ++ name ++ "'" ++ post :=
  ⟨"invalid profile ", "", by
    have h : "invalid profile '" = "invalid profile " ++ "'" := by decide
    rw [h]; simp [String.append_assoc]⟩

/-- The message of an unresolved link port quotes the name. -/
theorem quoted_port (name : String) :
    ∃ pre post : String, "port '" ++ name ++ "' not found" = pre ++ "'" ++ name ++ "'" ++ post :=
  ⟨"port ", " not found", by
    have h1 : "port '" = "port " ++ "'" := by decide
    have h2 : "' not found" = "'" ++ " not found" := by decide
    rw [h1, h2]; simp [String.append_assoc]⟩

/-- The message "couldn't find <kind> '<name>'" quotes the name, for the kinds of reference of
ServerCluster and VPC. -/
theorem quoted_couldnt_find (name : String) :
    (∃ pre post : String,
      "couldn't find site '" ++ name ++ "'" = pre ++ "'" ++ name ++ "'" ++ post)
    ∧ (∃ pre post : String,
      "couldn't find vpc '" ++ name ++ "'" = pre ++ "'" ++ name ++ "'" ++ post)
    ∧ (∃ pre post : String,
      "couldn't find server cluster template '" ++ name ++ "'"
        = pre ++ "'" ++ name ++ "'" ++ post)
    ∧ (∃ pre post : String,
      "couldn't find admin tenant '" ++ name ++ "'" = pre ++ "'" ++ name ++ "'" ++ post)
    ∧ (∃ pre post : String,
      "couldn't find server '" ++ name ++ "'" = pre ++ "'" ++ name ++ "'" ++ post)
    ∧ (∃ pre post : String,
      "couldn't find guest tenant '" ++ name ++ "'" = pre ++ "'" ++ name ++ "'" ++ post) := by
  refine ⟨⟨"couldn't find site ", "", ?_⟩, ⟨"couldn't find vpc ", "", ?_⟩,
    ⟨"couldn't find server cluster template ", "", ?_⟩, ⟨"couldn't find admin tenant ", "", ?_⟩,
    ⟨"couldn't find server ", "", ?_⟩, ⟨"couldn't find guest tenant ", "", ?_⟩⟩
  · have h : "couldn't find site '" = "couldn't find site " ++ "'" := by decide
    rw [h]; simp [String.append_assoc]
  · have h : "couldn't find vpc '" = "couldn't find vpc " ++ "'" := by decide
    rw [h]; simp [String.append_assoc]
  · have h : "couldn't find server cluster template '"
        = "couldn't find server cluster template " ++ "'" := by decide
    rw [h]; simp [String.append_assoc]
  · have h : "couldn't find admin tenant '" = "couldn't find admin tenant " ++ "'" := by decide
    rw [h]; simp [String.append_assoc]
  · have h : "couldn't find server '" = "couldn't find server " ++ "'" := by decide
    rw [h]; simp [String.append_assoc]
  · have h : "couldn't find guest tenant '" = "couldn't find guest tenant " ++ "'" := by decide
    rw [h]; simp [String.append_assoc]

/-- A port lookup of the link loop that misses ends the loop with a message that quotes the
port. -/
theorem InventoryServerReconciler.resolveLinks_miss (r : InventoryServerReconciler)
    (name : String) (hMiss : r.NStorage.PortsStorage.FindByName name = none) :
    ∀ links : List InventoryServerLink,
      CacheCall.findByName .ports name ∈ (r.resolveLinks links).2 →
      ∃ msg, (r.resolveLinks links).1 = .error msg
        ∧ ∃ pre post : String, msg = pre ++ "'" ++ name ++ "'" ++ post
  | [] => by simp [InventoryServerReconciler.resolveLinks]
  | link :: rest => by
    intro h
    unfold InventoryServerReconciler.resolveLinks at h ⊢
    cases hp : r.NStorage.PortsStorage.FindByName link.Remote with
    | none =>
      simp only [hp, List.mem_singleton, CacheCall.findByName.injEq, true_and] at h
      subst h
      exact ⟨_, rfl, quoted_port _⟩
    | some port =>
      simp only [hp, List.mem_cons, CacheCall.findByName.injEq, true_and] at h
      rcases h with h | h
      · subst h; rw [hMiss] at hp; cases hp
      · obtain ⟨msg, hmsg, hq⟩ := resolveLinks_miss r name hMiss rest h
        exact ⟨msg, by simp [hmsg, Except.map], hq⟩

/-- The link loop makes port lookups only. -/
theorem InventoryServerReconciler.resolveLinks_calls (r : InventoryServerReconciler) :
    ∀ (links : List InventoryServerLink), ∀ c ∈ (r.resolveLinks links).2,
      ∃ name, c = .findByName .ports name
  | [] => by simp [InventoryServerReconciler.resolveLinks]
  | link :: rest => by
    intro c hc
    unfold InventoryServerReconciler.resolveLinks at hc
    cases hp : r.NStorage.PortsStorage.FindByName link.Remote with
    | none =>
      simp only [hp, List.mem_singleton] at hc
      exact ⟨_, hc⟩
    | some port =>
      simp only [hp, List.mem_cons] at hc
      rcases hc with hc | hc
      · exact ⟨_, hc⟩
      · exact resolveLinks_calls r rest c hc

/-- The link loop returns links only when every port resolves. -/
theorem InventoryServerReconciler.resolveLinks_ok (r : InventoryServerReconciler) :
    ∀ (links : List InventoryServerLink) (out : List HWLink),
      (r.resolveLinks links).1 = .ok out →
      ∀ link ∈ links, r.NStorage.PortsStorage.FindByName link.Remote ≠ none
  | [], _ => by simp
  | link :: rest, out => by
    intro h
    unfold InventoryServerReconciler.resolveLinks at h
    cases hp : r.NStorage.PortsStorage.FindByName link.Remote with
    | none => simp [hp] at h
    | some port =>
      simp only [hp] at h
      cases hrest : (r.resolveLinks rest).1 with
      | error err => simp [hrest, Except.map] at h
      | ok out' =>
        intro l hl
        rcases List.mem_cons.1 hl with hl | hl
        · subst hl; simp [hp]
        · exact resolveLinks_ok r rest out' hrest l hl

/-- A server lookup of the server loop that misses ends the loop with a message that quotes
the server. -/
theorem ServerClusterReconciler.resolveServers_miss (r : ServerClusterReconciler)
    (name : String) (hMiss : r.NStorage.HWsStorage.FindServerByName name = none) :
    ∀ servers : List ServerClusterServer,
      CacheCall.findByName .hws name ∈ (r.resolveServers servers).2 →
      ∃ msg, (r.resolveServers servers).1 = .error msg
        ∧ ∃ pre post : String, msg = pre ++ "'" ++ name ++ "'" ++ post
  | [] => by simp [ServerClusterReconciler.resolveServers]
  | srv :: rest => by
    intro h
    unfold ServerClusterReconciler.resolveServers at h ⊢
    cases hp : r.NStorage.HWsStorage.FindServerByName srv.Name with
    | none =>
      simp only [hp, List.mem_singleton, CacheCall.findByName.injEq, true_and] at h
      subst h
      exact ⟨_, rfl, (quoted_couldnt_find _).2.2.2.2.1⟩
    | some hw =>
      simp only [hp, List.mem_cons, CacheCall.findByName.injEq, true_and] at h
      rcases h with h | h
      · subst h; rw [hMiss] at hp; cases hp
      · obtain ⟨msg, hmsg, hq⟩ := resolveServers_miss r name hMiss rest h
        exact ⟨msg, by simp [hmsg, Except.map], hq⟩

/-- The server loop makes server lookups only. -/
theorem ServerClusterReconciler.resolveServers_calls (r : ServerClusterReconciler) :
    ∀ (servers : List ServerClusterServer), ∀ c ∈ (r.resolveServers servers).2,
      ∃ name, c = .findByName .hws name
  | [] => by simp [ServerClusterReconciler.resolveServers]
  | srv :: rest => by
    intro c hc
    unfold ServerClusterReconciler.resolveServers at hc
    cases hp : r.NStorage.HWsStorage.FindServerByName srv.Name with
    | none =>
      simp only [hp, List.mem_singleton] at hc
      exact ⟨_, hc⟩
    | some hw =>
      simp only [hp, List.mem_cons] at hc
      rcases hc with hc | hc
      · exact ⟨_, hc⟩
      · exact resolveServers_calls r rest c hc

/-- The server loop returns servers only when every server resolves. -/
theorem ServerClusterReconciler.resolveServers_ok (r : ServerClusterReconciler) :
    ∀ (servers : List ServerClusterServer) (out : List Servers),
      (r.resolveServers servers).1 = .ok out →
      ∀ srv ∈ servers, r.NStorage.HWsStorage.FindServerByName srv.Name ≠ none
  | [], _ => by simp
  | srv :: rest, out => by
    intro h
    unfold ServerClusterReconciler.resolveServers at h
    cases hp : r.NStorage.HWsStorage.FindServerByName srv.Name with
    | none => simp [hp] at h
    | some hw =>
      simp only [hp] at h
      cases hrest : (r.resolveServers rest).1 with
      | error err => simp [hrest, Except.map] at h
      | ok out' =>
        intro l hl
        rcases List.mem_cons.1 hl with hl | hl
        · subst hl; simp [hp]
        · exact resolveServers_ok r rest out' hrest l hl

/-- A tenant lookup of the guest tenant loop that misses ends the loop with a message that
quotes the tenant. -/
theorem VPCReconciler.resolveGuestTenants_miss (r : VPCReconciler)
    (name : String) (hMiss : r.NStorage.TenantsStorage.FindByName name = none) :
    ∀ names : List String,
      CacheCall.findByName .tenants name ∈ (r.resolveGuestTenants names).2 →
      ∃ msg, (r.resolveGuestTenants names).1 = .error msg
        ∧ ∃ pre post : String, msg = pre ++ "'" ++ name ++ "'" ++ post
  | [] => by simp [VPCReconciler.resolveGuestTenants]
  | tenantName :: rest => by
    intro h
    unfold VPCReconciler.resolveGuestTenants at h ⊢
    cases hp : r.NStorage.TenantsStorage.FindByName tenantName with
    | none =>
      simp only [hp, List.mem_singleton, CacheCall.findByName.injEq, true_and] at h
      subst h
      exact ⟨_, rfl, (quoted_couldnt_find _).2.2.2.2.2⟩
    | some tenant =>
      simp only [hp, List.mem_cons, CacheCall.findByName.injEq, true_and] at h
      rcases h with h | h
      · subst h; rw [hMiss] at hp; cases hp
      · obtain ⟨msg, hmsg, hq⟩ := resolveGuestTenants_miss r name hMiss rest h
        exact ⟨msg, by simp [hmsg, Except.map], hq⟩

/-- The guest tenant loop returns tenants only when every guest tenant resolves. -/
theorem VPCReconciler.resolveGuestTenants_ok (r : VPCReconciler) :
    ∀ (names : List String) (out : List VPCGuestTenant),
      (r.resolveGuestTenants names).1 = .ok out →
      ∀ name ∈ names, r.NStorage.TenantsStorage.FindByName name ≠ none
  | [], _ => by simp
  | tenantName :: rest, out => by
    intro h
    unfold VPCReconciler.resolveGuestTenants at h
    cases hp : r.NStorage.TenantsStorage.FindByName tenantName with
    | none => simp [hp] at h
    | some tenant =>
      simp only [hp] at h
      cases hrest : (r.resolveGuestTenants rest).1 with
      | error err => simp [hrest, Except.map] at h
      | ok out' =>
        intro l hl
        rcases List.mem_cons.1 hl with hl | hl
        · subst hl; simp [hp]
        · exact resolveGuestTenants_ok r rest out' hrest l hl

/-- The calls of `FindByName` on the template cache: the lookup, and after a miss the
download. -/
theorem ServerClusterTemplateStorage.FindByName_calls_templates (s : ServerClusterTemplateStorage)
    (get : Except String (List RemoteServerClusterTemplate)) (name : String) :
    (s.FindByName get name).2.2 = [.findByName .serverClusterTemplates name]
    ∨ (s.FindByName get name).2.2
      = [.findByName .serverClusterTemplates name, .download .serverClusterTemplates] := by
  unfold ServerClusterTemplateStorage.FindByName
  cases s.findByName name with
  | some item => exact Or.inl rfl
  | none =>
    right
    unfold ServerClusterTemplateStorage.download
    cases get <;> rfl

/-- The calls of `FindByName` on the cluster cache: the lookup, and after a miss the
download. -/
theorem ServerClusterStorage.FindByName_calls_clusters (s : ServerClusterStorage)
    (get : Except String (List RemoteServerCluster)) (name : String) :
    (s.FindByName get name).2.2 = [.findByName .serverClusters name]
    ∨ (s.FindByName get name).2.2
      = [.findByName .serverClusters name, .download .serverClusters] := by
  unfold ServerClusterStorage.FindByName
  cases s.findByName name with
  | some item => exact Or.inl rfl
  | none =>
    right
    unfold ServerClusterStorage.download
    cases get <;> rfl

/-- The calls of `FindByID` on the template cache: the lookup, and after a miss the
download. -/
theorem ServerClusterTemplateStorage.FindByID_calls_templates (s : ServerClusterTemplateStorage)
    (get : Except String (List RemoteServerClusterTemplate)) (id : Int) :
    (s.FindByID get id).2.2 = [.findByID .serverClusterTemplates id]
    ∨ (s.FindByID get id).2.2
      = [.findByID .serverClusterTemplates id, .download .serverClusterTemplates] := by
  unfold ServerClusterTemplateStorage.FindByID
  cases s.findByID id with
  | some item => exact Or.inl rfl
  | none =>
    right
    unfold ServerClusterTemplateStorage.download
    cases get <;> rfl

/-- The calls of `FindByID` on the cluster cache: the lookup, and after a miss the
download. -/
theorem ServerClusterStorage.FindByID_calls_clusters (s : ServerClusterStorage)
    (get : Except String (List RemoteServerCluster)) (id : Int) :
    (s.FindByID get id).2.2 = [.findByID .serverClusters id]
    ∨ (s.FindByID get id).2.2 = [.findByID .serverClusters id, .download .serverClusters] := by
  unfold ServerClusterStorage.FindByID
  cases s.findByID id with
  | some item => exact Or.inl rfl
  | none =>
    right
    unfold ServerClusterStorage.download
    cases get <;> rfl


/-! ## The end of a Meta-phase reconcile -/

/-- A status patch of an InventoryServer is the last call of the reconcile that ends with
it. -/
theorem uniReconciler.patchInventoryServerStatus_last
    (u : uniReconciler InventoryServer InventoryServerMeta) (cr : InventoryServer)
    (status message : String) (pre : List InventoryServerEvent) :
    ((u.patchInventoryServerStatus cr status message).after pre).trace.getLast?
      = some (.patchStatus { cr with Status := { Status := status, Message := message } }
          status message) := by
  simp [Outcome.after, uniReconciler.patchInventoryServerStatus]

/-- The end of the InventoryServerMeta `Reconcile`, from the back-fill on, ends with a status
patch. -/
theorem InventoryServerMetaReconciler.finish_ends (r : InventoryServerMetaReconciler)
    (cr : InventoryServer) (m : InventoryServerMeta) (pre : List InventoryServerEvent) :
    ∃ cr' status message,
      (r.finish cr m pre).trace.getLast? = some (.patchStatus cr' status message)
      ∧ (status = "OK" ∨ status = "Failure") := by
  unfold InventoryServerMetaReconciler.finish
  split
  · exact ⟨_, _, _, uniReconciler.patchInventoryServerStatus_last _ _ _ _ _, Or.inr rfl⟩
  · exact ⟨_, _, _, uniReconciler.patchInventoryServerStatus_last _ _ _ _ _, Or.inl rfl⟩

/-- The branches of the InventoryServerMeta `Reconcile` that create the remote server either
panic or end with a status patch. -/
theorem InventoryServerMetaReconciler.createThenFinish_ends_inventoryServerMeta
    (r : InventoryServerMetaReconciler) (cr : InventoryServer) (m : InventoryServerMeta)
    (pre : List InventoryServerEvent) :
    (r.createThenFinish cr m pre).ret = .panicked
    ∨ ∃ cr' status message,
        (r.createThenFinish cr m pre).trace.getLast? = some (.patchStatus cr' status message)
        ∧ (status = "OK" ∨ status = "Failure") := by
  unfold InventoryServerMetaReconciler.createThenFinish
  split
  · exact Or.inl rfl
  · exact Or.inr
      ⟨_, _, _, uniReconciler.patchInventoryServerStatus_last _ _ _ _ _, Or.inr rfl⟩
  · exact Or.inr (r.finish_ends _ _ _)

/-- The branch of the InventoryServerMeta `Reconcile` that found the remote server by id ends
with a status patch. -/
theorem InventoryServerMetaReconciler.syncFound_ends_inventoryServerMeta (r : InventoryServerMetaReconciler)
    (cr : InventoryServer) (m : InventoryServerMeta) (api : HW)
    (pre : List InventoryServerEvent) :
    ∃ cr' status message,
      (r.syncFound cr m api pre).trace.getLast? = some (.patchStatus cr' status message)
      ∧ (status = "OK" ∨ status = "Failure") := by
  simp only [InventoryServerMetaReconciler.syncFound]
  split
  · exact r.finish_ends _ _ _
  · split
    · exact ⟨_, _, _, uniReconciler.patchInventoryServerStatus_last _ _ _ _ _, Or.inr rfl⟩
    · split
      · exact ⟨_, _, _, uniReconciler.patchInventoryServerStatus_last _ _ _ _ _, Or.inr rfl⟩
      · exact r.finish_ends _ _ _

/-- A status patch of a VPC is the last call of the reconcile that ends with it. -/
theorem uniReconciler.patchVPCStatus_last (u : uniReconciler VPC VPCMeta)
    (cr : VPC) (status message : String) (pre : List VPCEvent) :
    ((u.patchVPCStatus cr status message).after pre).trace.getLast?
      = some (.patchStatus { cr with Status := { Status := status, Message := message } }
          status message) := by
  simp [Outcome.after, uniReconciler.patchVPCStatus]

/-- The branches of the VPCMeta `Reconcile` that create the remote entity
either panic or end with a status patch. -/
theorem VPCMetaReconciler.createThenFinish_ends_vpcMeta (r : VPCMetaReconciler)
    (cr : VPC) (m : VPCMeta) (pre : List VPCEvent) :
    (r.createThenFinish cr m pre).ret = .panicked
    ∨ ∃ cr' status message,
        (r.createThenFinish cr m pre).trace.getLast? = some (.patchStatus cr' status message)
        ∧ (status = "OK" ∨ status = "Failure") := by
  unfold VPCMetaReconciler.createThenFinish
  split
  · exact Or.inl rfl
  · exact Or.inr ⟨_, _, _, uniReconciler.patchVPCStatus_last _ _ _ _ _, Or.inr rfl⟩
  · exact Or.inr ⟨_, _, _, uniReconciler.patchVPCStatus_last _ _ _ _ _, Or.inl rfl⟩

/-- The branch of the VPCMeta `Reconcile` that found the remote entity by id
ends with a status patch. -/
theorem VPCMetaReconciler.syncFound_ends_vpcMeta (r : VPCMetaReconciler)
    (cr : VPC) (m : VPCMeta) (api : RemoteVPC) (pre : List VPCEvent) :
    ∃ cr' status message,
      (r.syncFound cr m api pre).trace.getLast? = some (.patchStatus cr' status message)
      ∧ (status = "OK" ∨ status = "Failure") := by
  unfold VPCMetaReconciler.syncFound
  split
  · exact ⟨_, _, _, uniReconciler.patchVPCStatus_last _ _ _ _ _, Or.inl rfl⟩
  · split
    · exact ⟨_, _, _, uniReconciler.patchVPCStatus_last _ _ _ _ _, Or.inr rfl⟩
    · exact ⟨_, _, _, uniReconciler.patchVPCStatus_last _ _ _ _ _, Or.inl rfl⟩

/-- A status patch of a ServerCluster is the last call of the reconcile that ends with it. -/
theorem uniReconciler.patchServerClusterStatus_last
    (u : uniReconciler ServerCluster ServerClusterMeta)
    (cr : ServerCluster) (status message : String) (pre : List ServerClusterEvent) :
    ((u.patchServerClusterStatus cr status message).after pre).trace.getLast?
      = some (.patchStatus { cr with Status := { Status := status, Message := message } }
          status message) := by
  simp [Outcome.after, uniReconciler.patchServerClusterStatus]

/-- The branches of the ServerClusterMeta `Reconcile` that create the remote entity
either panic or end with a status patch. -/
theorem ServerClusterMetaReconciler.createThenFinish_ends_serverClusterMeta (r : ServerClusterMetaReconciler)
    (cr : ServerCluster) (m : ServerClusterMeta) (pre : List ServerClusterEvent) :
    (r.createThenFinish cr m pre).ret = .panicked
    ∨ ∃ cr' status message,
        (r.createThenFinish cr m pre).trace.getLast? = some (.patchStatus cr' status message)
        ∧ (status = "OK" ∨ status = "Failure") := by
  unfold ServerClusterMetaReconciler.createThenFinish
  split
  · exact Or.inl rfl
  · exact Or.inr ⟨_, _, _, uniReconciler.patchServerClusterStatus_last _ _ _ _ _, Or.inr rfl⟩
  · exact Or.inr ⟨_, _, _, uniReconciler.patchServerClusterStatus_last _ _ _ _ _, Or.inl rfl⟩

/-- The branch of the ServerClusterMeta `Reconcile` that found the remote entity by id
ends with a status patch. -/
theorem ServerClusterMetaReconciler.syncFound_ends_serverClusterMeta (r : ServerClusterMetaReconciler)
    (cr : ServerCluster) (m : ServerClusterMeta) (api : RemoteServerCluster)
    (pre : List ServerClusterEvent) :
    ∃ cr' status message,
      (r.syncFound cr m api pre).trace.getLast? = some (.patchStatus cr' status message)
      ∧ (status = "OK" ∨ status = "Failure") := by
  unfold ServerClusterMetaReconciler.syncFound
  split
  · exact ⟨_, _, _, uniReconciler.patchServerClusterStatus_last _ _ _ _ _, Or.inl rfl⟩
  · split
    · exact ⟨_, _, _, uniReconciler.patchServerClusterStatus_last _ _ _ _ _, Or.inr rfl⟩
    · exact ⟨_, _, _, uniReconciler.patchServerClusterStatus_last _ _ _ _ _, Or.inl rfl⟩

/-- A status patch of a ServerClusterTemplate is the last call of the reconcile that ends
with it. -/
theorem uniReconciler.patchServerClusterTemplateStatus_last
    (u : uniReconciler ServerClusterTemplate ServerClusterTemplateMeta)
    (cr : ServerClusterTemplate) (status message : String) (pre : List ServerClusterTemplateEvent) :
    ((u.patchServerClusterTemplateStatus cr status message).after pre).trace.getLast?
      = some (.patchStatus { cr with Status := { Status := status, Message := message } }
          status message) := by
  simp [Outcome.after, uniReconciler.patchServerClusterTemplateStatus]

/-- The branches of the ServerClusterTemplateMeta `Reconcile` that create the remote entity
either panic or end with a status patch. -/
theorem ServerClusterTemplateMetaReconciler.createThenFinish_ends_templateMeta
    (r : ServerClusterTemplateMetaReconciler)
    (cr : ServerClusterTemplate) (m : ServerClusterTemplateMeta)
    (pre : List ServerClusterTemplateEvent) :
    (r.createThenFinish cr m pre).ret = .panicked
    ∨ ∃ cr' status message,
        (r.createThenFinish cr m pre).trace.getLast? = some (.patchStatus cr' status message)
        ∧ (status = "OK" ∨ status = "Failure") := by
  unfold ServerClusterTemplateMetaReconciler.createThenFinish
  split
  · exact Or.inl rfl
  · exact Or.inr
      ⟨_, _, _, uniReconciler.patchServerClusterTemplateStatus_last _ _ _ _ _, Or.inr rfl⟩
  · exact Or.inr
      ⟨_, _, _, uniReconciler.patchServerClusterTemplateStatus_last _ _ _ _ _, Or.inl rfl⟩

/-- The branch of the ServerClusterTemplateMeta `Reconcile` that found the remote entity by id
ends with a status patch. -/
theorem ServerClusterTemplateMetaReconciler.syncFound_ends_templateMeta
    (r : ServerClusterTemplateMetaReconciler)
    (cr : ServerClusterTemplate) (m : ServerClusterTemplateMeta)
    (api : RemoteServerClusterTemplate) (pre : List ServerClusterTemplateEvent) :
    ∃ cr' status message,
      (r.syncFound cr m api pre).trace.getLast? = some (.patchStatus cr' status message)
      ∧ (status = "OK" ∨ status = "Failure") := by
  unfold ServerClusterTemplateMetaReconciler.syncFound
  split
  · exact ⟨_, _, _, uniReconciler.patchServerClusterTemplateStatus_last _ _ _ _ _,
      Or.inl rfl⟩
  · split
    · exact ⟨_, _, _, uniReconciler.patchServerClusterTemplateStatus_last _ _ _ _ _,
        Or.inr rfl⟩
    · exact ⟨_, _, _, uniReconciler.patchServerClusterTemplateStatus_last _ _ _ _ _,
        Or.inl rfl⟩

/-! ## C1: a stale twin is regenerated -/

/-- C1 (InventoryServer, ServerCluster, ServerClusterTemplate): when the desired resource is
loaded with valid annotations and no deletion marker, its twin exists, the desired generation
differs from the source generation of the twin and the translation resolves every reference,
the CR-phase `Reconcile` issues, after the cache calls of the translation, exactly one write:
the `Update` of a twin under the key of the old twin, whose spec is the regenerated one with
the source generation set to the generation of the desired resource and with `Spec.ID` equal
to the `Spec.ID` the twin had before the reconcile. -/
theorem cr_reconcile_regenerates_stale_twin :
    (∀ (r : InventoryServerReconciler) (req : NamespacedName) (cr : InventoryServer)
        (twin newTwin : InventoryServerMeta) (calls : List CacheCall),
        r.Client.GetCR req = .found cr →
        r.Client.GetMeta { req with Name := cr.ObjectMeta.UID } = .found twin →
        cr.ObjectMeta.DeletionTimestamp = none →
        inventoryServerMustUpdateAnnotations cr = false →
        cr.ObjectMeta.Generation ≠ twin.Spec.InventoryServerCRGeneration →
        r.InventoryServerToInventoryServerMeta cr = (.ok newTwin, calls) →
        ∃ m : InventoryServerMeta,
          (r.Reconcile req).trace = calls.map .cache ++ [.updateMeta m]
          ∧ m.ObjectMeta = twin.ObjectMeta
          ∧ m.Spec = { newTwin.Spec with
              ID := twin.Spec.ID, InventoryServerCRGeneration := cr.ObjectMeta.Generation }
          ∧ m.Spec.InventoryServerCRGeneration = cr.ObjectMeta.Generation
          ∧ m.Spec.ID = twin.Spec.ID)
    ∧ (∀ (r : ServerClusterReconciler) (req : NamespacedName) (cr : ServerCluster)
        (twin newTwin : ServerClusterMeta) (calls : List CacheCall),
        r.Client.GetCR req = .found cr →
        r.Client.GetMeta { req with Name := cr.ObjectMeta.UID } = .found twin →
        cr.ObjectMeta.DeletionTimestamp = none →
        serverClusterMustUpdateAnnotations cr = false →
        cr.ObjectMeta.Generation ≠ twin.Spec.ServerClusterCRGeneration →
        (r.ServerClusterToMeta cr).1 = (.ok newTwin, calls) →
        ∃ m : ServerClusterMeta,
          (r.Reconcile req).1.trace = calls.map .cache ++ [.updateMeta m]
          ∧ m.ObjectMeta = twin.ObjectMeta
          ∧ m.Spec = { newTwin.Spec with
              ID := twin.Spec.ID, ServerClusterCRGeneration := cr.ObjectMeta.Generation }
          ∧ m.Spec.ServerClusterCRGeneration = cr.ObjectMeta.Generation
          ∧ m.Spec.ID = twin.Spec.ID)
    ∧ (∀ (r : ServerClusterTemplateReconciler) (req : NamespacedName)
        (cr : ServerClusterTemplate) (twin newTwin : ServerClusterTemplateMeta)
        (calls : List CacheCall),
        r.Client.GetCR req = .found cr →
        r.Client.GetMeta { req with Name := cr.ObjectMeta.UID } = .found twin →
        cr.ObjectMeta.DeletionTimestamp = none →
        serverClusterTemplateMustUpdateAnnotations cr = false →
        cr.ObjectMeta.Generation ≠ twin.Spec.ServerClusterTemplateCRGeneration →
        r.ServerClusterTemplateToMeta cr = (.ok newTwin, calls) →
        ∃ m : ServerClusterTemplateMeta,
          (r.Reconcile req).trace = calls.map .cache ++ [.updateMeta m]
          ∧ m.ObjectMeta = twin.ObjectMeta
          ∧ m.Spec = { newTwin.Spec with
              ID := twin.Spec.ID
              ServerClusterTemplateCRGeneration := cr.ObjectMeta.Generation }
          ∧ m.Spec.ServerClusterTemplateCRGeneration = cr.ObjectMeta.Generation
          ∧ m.Spec.ID = twin.Spec.ID) := by
  refine ⟨?_, ?_, ?_⟩
  · intro r req cr twin newTwin calls hCR hTwin hLive hAnn hGen hRes
    have hcmp : inventoryServerCompareFieldsForNewMeta cr twin = true := by
      simp [inventoryServerCompareFieldsForNewMeta, hGen]
    refine ⟨{ twin with Spec := { newTwin.Spec with
      ID := twin.Spec.ID, InventoryServerCRGeneration := cr.ObjectMeta.Generation } },
      ?_, rfl, rfl, rfl, rfl⟩
    simp only [InventoryServerReconciler.Reconcile, hCR, hTwin,
      InventoryServerReconciler.reconcileLoaded, hLive, hAnn,
      InventoryServerReconciler.reconcileFound, hcmp, hRes]
    cases r.Client.UpdateMeta _ <;> simp
  · intro r req cr twin newTwin calls hCR hTwin hLive hAnn hGen hRes
    have hcmp : serverClusterCompareFieldsForNewMeta cr twin = true := by
      simp [serverClusterCompareFieldsForNewMeta, hGen]
    refine ⟨{ twin with Spec := { newTwin.Spec with
      ID := twin.Spec.ID, ServerClusterCRGeneration := cr.ObjectMeta.Generation } },
      ?_, rfl, rfl, rfl, rfl⟩
    rcases hres : r.ServerClusterToMeta cr with ⟨res, storage⟩
    rw [hres] at hRes
    change res = _ at hRes
    subst hRes
    simp only [ServerClusterReconciler.Reconcile, hCR, hTwin,
      ServerClusterReconciler.reconcileLoaded, hLive, hAnn,
      ServerClusterReconciler.reconcileFound, hcmp, hres]
    cases r.Client.UpdateMeta _ <;> simp
  · intro r req cr twin newTwin calls hCR hTwin hLive hAnn hGen hRes
    have hcmp : serverClusterTemplateCompareFieldsForNewMeta cr twin = true := by
      simp [serverClusterTemplateCompareFieldsForNewMeta, hGen]
    refine ⟨{ twin with Spec := { newTwin.Spec with
      ID := twin.Spec.ID, ServerClusterTemplateCRGeneration := cr.ObjectMeta.Generation } },
      ?_, rfl, rfl, rfl, rfl⟩
    simp only [ServerClusterTemplateReconciler.Reconcile, hCR, hTwin,
      ServerClusterTemplateReconciler.reconcileLoaded, hLive, hAnn,
      ServerClusterTemplateReconciler.reconcileFound, hcmp, hRes]
    cases r.Client.UpdateMeta _ <;> simp

/-- Witness of C1: desired resources of generation 2 whose twins have remote id 7 and source
generation 1 are persisted again with source generation 2 and remote id 7. -/
theorem cr_reconcile_regenerates_stale_twin_witness :
    (∃ m : InventoryServerMeta,
      Event.updateMeta m ∈
        ((Scenario.inventoryServerReconciler (Scenario.inventoryServer "sfo1" "d" 2 false)
          (some (Scenario.inventoryServerMeta 7 1 "d" "" false false)) none 200).Reconcile
          (Scenario.request "srv1")).trace
      ∧ m.Spec.InventoryServerCRGeneration = 2 ∧ m.Spec.ID = 7)
    ∧ (∃ m : ServerClusterMeta,
      Event.updateMeta m ∈
        ((Scenario.serverClusterReconciler (Scenario.serverCluster "sfo1" 2 false)
          (some (Scenario.serverClusterMeta 7 1 false false)) none 200).Reconcile
          (Scenario.request "c1")).1.trace
      ∧ m.Spec.ServerClusterCRGeneration = 2 ∧ m.Spec.ID = 7)
    ∧ (∃ m : ServerClusterTemplateMeta,
      Event.updateMeta m ∈
        ((Scenario.templateReconciler (Scenario.template 2 false)
          (some (Scenario.templateMeta 7 1 false false)) none 200).Reconcile
          (Scenario.request "t1")).trace
      ∧ m.Spec.ServerClusterTemplateCRGeneration = 2 ∧ m.Spec.ID = 7) := by
  refine ⟨?_, ?_, ?_⟩
  · obtain ⟨m, htrace, _, _, hgen, hid⟩ :=
      cr_reconcile_regenerates_stale_twin.1
        (Scenario.inventoryServerReconciler (Scenario.inventoryServer "sfo1" "d" 2 false)
          (some (Scenario.inventoryServerMeta 7 1 "d" "" false false)) none 200)
        (Scenario.request "srv1") _ _ _ _ rfl rfl rfl rfl (by decide) rfl
    exact ⟨m, by simp [htrace], hgen, hid⟩
  · obtain ⟨m, htrace, _, _, hgen, hid⟩ :=
      cr_reconcile_regenerates_stale_twin.2.1
        (Scenario.serverClusterReconciler (Scenario.serverCluster "sfo1" 2 false)
          (some (Scenario.serverClusterMeta 7 1 false false)) none 200)
        (Scenario.request "c1") _ _ _ _ rfl rfl rfl rfl (by decide) rfl
    exact ⟨m, by simp [htrace], hgen, hid⟩
  · obtain ⟨m, htrace, _, _, hgen, hid⟩ :=
      cr_reconcile_regenerates_stale_twin.2.2
        (Scenario.templateReconciler (Scenario.template 2 false)
          (some (Scenario.templateMeta 7 1 false false)) none 200)
        (Scenario.request "t1") _ _ _ _ rfl rfl rfl rfl (by decide) rfl
    exact ⟨m, by simp [htrace], hgen, hid⟩


/-! ## C2: a converged twin causes no remote write -/

/-- C2, as the code has it (InventoryServerMeta, ServerClusterMeta, ServerClusterTemplateMeta,
VPCMeta): in a Meta-phase reconcile that has loaded the twin and its desired resource, for a
twin without deletion marker and with `ID > 0` whose remote entity is found by that id and
compares equal, no remote Add call and no remote Update call is issued and the last call is
the status patch.  The status patched is OK / "Success" for ServerClusterMeta,
ServerClusterTemplateMeta and VPCMeta; for InventoryServerMeta it is OK / "Success" when the
back-fill of the desired resource returns no error, and "Failure" with that error when the
patch of the back-fill fails. -/
theorem meta_reconcile_converged_no_remote_write :
    (∀ (r : InventoryServerMetaReconciler) (req : NamespacedName) (cr : InventoryServer)
        (twin : InventoryServerMeta) (api : HW),
        r.Client.GetMeta req = .found twin →
        r.Client.GetCR { req with Name := twin.Spec.InventoryServerName } = .found cr →
        twin.ObjectMeta.DeletionTimestamp = none →
        0 < twin.Spec.ID →
        r.NStorage.HWsStorage.FindServerByID twin.Spec.ID = some api →
        compareInventoryServerMetaAPIServer
          (InventoryServerMetaReconciler.fillFromAPI twin api) api = true →
        (∀ p, Event.remoteAdd p ∉ (r.Reconcile req).trace)
        ∧ (∀ id p, Event.remoteUpdate id p ∉ (r.Reconcile req).trace)
        ∧ ((r.uni.updateInventoryServerIfNecessary cr
              (InventoryServerMetaReconciler.fillFromAPI twin api)).err = none →
            ∃ cr', (r.Reconcile req).trace.getLast? = some (.patchStatus cr' "OK" "Success"))
        ∧ (∀ err, (r.uni.updateInventoryServerIfNecessary cr
              (InventoryServerMetaReconciler.fillFromAPI twin api)).err = some err →
            ∃ cr', (r.Reconcile req).trace.getLast? = some (.patchStatus cr' "Failure" err)))
    ∧ (∀ (r : ServerClusterMetaReconciler) (req : NamespacedName) (cr : ServerCluster)
        (twin : ServerClusterMeta) (api : RemoteServerCluster),
        r.Client.GetMeta req = .found twin →
        r.Client.GetCR { req with Name := twin.Spec.ServerClusterName } = .found cr →
        twin.ObjectMeta.DeletionTimestamp = none →
        0 < twin.Spec.ID →
        (r.NStorage.ServerClusterStorage.FindByID r.NStorage.Cred.ServerClusterGet
          twin.Spec.ID).1 = some api →
        compareServerClusterMetaAPI twin api = true →
        (∀ p, Event.remoteAdd p ∉ (r.Reconcile req).1.trace)
        ∧ (∀ id p, Event.remoteUpdate id p ∉ (r.Reconcile req).1.trace)
        ∧ ∃ cr', (r.Reconcile req).1.trace.getLast? = some (.patchStatus cr' "OK" "Success"))
    ∧ (∀ (r : ServerClusterTemplateMetaReconciler) (req : NamespacedName)
        (cr : ServerClusterTemplate) (twin : ServerClusterTemplateMeta)
        (api : RemoteServerClusterTemplate),
        r.Client.GetMeta req = .found twin →
        r.Client.GetCR { req with Name := twin.Spec.ServerClusterTemplateName } = .found cr →
        twin.ObjectMeta.DeletionTimestamp = none →
        0 < twin.Spec.ID →
        (r.NStorage.ServerClusterTemplateStorage.FindByID
          r.NStorage.Cred.ServerClusterTemplateGet twin.Spec.ID).1 = some api →
        compareServerClusterTemplateMetaAPI twin api = true →
        (∀ p, Event.remoteAdd p ∉ (r.Reconcile req).1.trace)
        ∧ (∀ id p, Event.remoteUpdate id p ∉ (r.Reconcile req).1.trace)
        ∧ ∃ cr', (r.Reconcile req).1.trace.getLast? = some (.patchStatus cr' "OK" "Success"))
    ∧ (∀ (r : VPCMetaReconciler) (req : NamespacedName) (cr : VPC) (twin : VPCMeta)
        (api : RemoteVPC),
        r.Client.GetMeta req = .found twin →
        r.Client.GetCR { req with Name := twin.Spec.VPCName } = .found cr →
        twin.ObjectMeta.DeletionTimestamp = none →
        0 < twin.Spec.ID →
        r.NStorage.VPCStorage.FindByID twin.Spec.ID = some api →
        compareVPCMetaAPI twin api = true →
        (∀ p, Event.remoteAdd p ∉ (r.Reconcile req).trace)
        ∧ (∀ id p, Event.remoteUpdate id p ∉ (r.Reconcile req).trace)
        ∧ ∃ cr', (r.Reconcile req).trace.getLast? = some (.patchStatus cr' "OK" "Success")) := by
  refine ⟨?_, ?_, ?_, ?_⟩
  · intro r req cr twin api hTwin hCR hLive hID hFind hCmp
    have hne : (twin.Spec.ID == 0) = false := by
      simp only [beq_eq_false_iff_ne, ne_eq]; omega
    have hrec : r.Reconcile req = r.finish cr
        (InventoryServerMetaReconciler.fillFromAPI twin api)
        [.cache (.findByID .hws twin.Spec.ID)] := by
      rw [r.Reconcile_loaded_inventoryServerMeta req cr twin hTwin hCR]
      simp only [InventoryServerMetaReconciler.reconcileLoaded, hLive, hne, hFind,
        InventoryServerMetaReconciler.syncFound, hCmp]
      rfl
    rw [hrec]
    cases herr : (r.uni.updateInventoryServerIfNecessary cr
        (InventoryServerMetaReconciler.fillFromAPI twin api)).err with
    | none =>
      rw [r.finish_trace_ok cr _ _ herr]
      rcases r.uni.updateInventoryServerIfNecessary_trace cr
        (InventoryServerMetaReconciler.fillFromAPI twin api) with h0 | ⟨c, h1⟩
      · rw [h0]
        exact ⟨by simp, by simp, fun _ => ⟨_, getLast?_append_one _ _⟩, fun err he => by simp at he⟩
      · rw [h1]
        exact ⟨by simp, by simp, fun _ => ⟨_, getLast?_append_one _ _⟩, fun err he => by simp at he⟩
    | some e =>
      rw [r.finish_trace_err cr _ _ e herr]
      rcases r.uni.updateInventoryServerIfNecessary_trace cr
        (InventoryServerMetaReconciler.fillFromAPI twin api) with h0 | ⟨c, h1⟩
      · rw [h0]
        refine ⟨by simp, by simp, fun he => by simp at he, fun err he => ?_⟩
        obtain rfl : e = err := by simpa using he
        exact ⟨_, getLast?_append_one _ _⟩
      · rw [h1]
        refine ⟨by simp, by simp, fun he => by simp at he, fun err he => ?_⟩
        obtain rfl : e = err := by simpa using he
        exact ⟨_, getLast?_append_one _ _⟩
  · intro r req cr twin api hTwin hCR hLive hID hFind hCmp
    have hne : (twin.Spec.ID == 0) = false := by
      simp only [beq_eq_false_iff_ne, ne_eq]; omega
    rcases hf : r.NStorage.ServerClusterStorage.FindByID r.NStorage.Cred.ServerClusterGet
      twin.Spec.ID with ⟨found, storage, calls⟩
    rw [hf] at hFind
    change found = some api at hFind
    subst hFind
    have htrace : (r.Reconcile req).1.trace = calls.map .cache ++
        [.patchStatus { cr with Status := { Status := "OK", Message := "Success" } }
          "OK" "Success"] := by
      rw [r.Reconcile_loaded_serverClusterMeta req cr twin hTwin hCR]
      simp [ServerClusterMetaReconciler.reconcileLoaded, hLive, hne, hf,
        ServerClusterMetaReconciler.syncFound, hCmp, Outcome.after,
        uniReconciler.patchServerClusterStatus]
    rw [htrace]
    exact ⟨by simp, by simp, _, getLast?_append_one _ _⟩
  · intro r req cr twin api hTwin hCR hLive hID hFind hCmp
    have hne : (twin.Spec.ID == 0) = false := by
      simp only [beq_eq_false_iff_ne, ne_eq]; omega
    rcases hf : r.NStorage.ServerClusterTemplateStorage.FindByID
      r.NStorage.Cred.ServerClusterTemplateGet twin.Spec.ID with ⟨found, storage, calls⟩
    rw [hf] at hFind
    change found = some api at hFind
    subst hFind
    have htrace : (r.Reconcile req).1.trace = calls.map .cache ++
        [.patchStatus { cr with Status := { Status := "OK", Message := "Success" } }
          "OK" "Success"] := by
      rw [r.Reconcile_loaded_templateMeta req cr twin hTwin hCR]
      simp [ServerClusterTemplateMetaReconciler.reconcileLoaded, hLive, hne, hf,
        ServerClusterTemplateMetaReconciler.syncFound, hCmp, Outcome.after,
        uniReconciler.patchServerClusterTemplateStatus]
    rw [htrace]
    exact ⟨by simp, by simp, _, getLast?_append_one _ _⟩
  · intro r req cr twin api hTwin hCR hLive hID hFind hCmp
    have hne : (twin.Spec.ID == 0) = false := by
      simp only [beq_eq_false_iff_ne, ne_eq]; omega
    have htrace : (r.Reconcile req).trace = [.cache (.findByID .vpcs twin.Spec.ID)] ++
        [.patchStatus { cr with Status := { Status := "OK", Message := "Success" } }
          "OK" "Success"] := by
      rw [r.Reconcile_loaded_vpcMeta req cr twin hTwin hCR]
      simp [VPCMetaReconciler.reconcileLoaded, hLive, hne, hFind,
        VPCMetaReconciler.syncFound, hCmp, Outcome.after, uniReconciler.patchVPCStatus]
    rw [htrace]
    exact ⟨by simp, by simp, _, getLast?_append_one _ _⟩

/-- Witness of C2: converged twins with remote id 7 of the four kinds; every reconcile ends
with the status patch OK / "Success" and makes no remote Add call. -/
theorem meta_reconcile_converged_no_remote_write_witness :
    ((∀ p, Event.remoteAdd p ∉
        ((Scenario.inventoryServerMetaReconciler (Scenario.inventoryServer "sfo1" "d" 2 false)
          (Scenario.inventoryServerMeta 7 2 "d" "10.0.0.1" false false) none 200
          [Scenario.hw 7 "d" "10.0.0.1"]).Reconcile (Scenario.request "uid-1")).trace)
      ∧ ∃ cr',
        ((Scenario.inventoryServerMetaReconciler (Scenario.inventoryServer "sfo1" "d" 2 false)
          (Scenario.inventoryServerMeta 7 2 "d" "10.0.0.1" false false) none 200
          [Scenario.hw 7 "d" "10.0.0.1"]).Reconcile (Scenario.request "uid-1")).trace.getLast?
          = some (.patchStatus cr' "OK" "Success"))
    ∧ (∃ cr',
        ((Scenario.serverClusterMetaReconciler (Scenario.serverCluster "sfo1" 2 false)
          (Scenario.serverClusterMeta 7 2 false false) none 200
          [Scenario.remoteCluster 7]).Reconcile (Scenario.request "uid-2")).1.trace.getLast?
          = some (.patchStatus cr' "OK" "Success"))
    ∧ (∃ cr',
        ((Scenario.templateMetaReconciler (Scenario.template 2 false)
          (Scenario.templateMeta 7 2 false false) none 200
          [Scenario.remoteTemplate 7]).Reconcile (Scenario.request "uid-3")).1.trace.getLast?
          = some (.patchStatus cr' "OK" "Success"))
    ∧ (∃ cr',
        ((Scenario.vpcMetaReconciler (Scenario.vpc "admin" 2) (Scenario.vpcMeta 7 2 false) none
          200 [Scenario.remoteVPC 7]).Reconcile (Scenario.request "uid-4")).trace.getLast?
          = some (.patchStatus cr' "OK" "Success")) := by
  refine ⟨?_, ?_, ?_, ?_⟩
  · have h := meta_reconcile_converged_no_remote_write.1
      (Scenario.inventoryServerMetaReconciler (Scenario.inventoryServer "sfo1" "d" 2 false)
        (Scenario.inventoryServerMeta 7 2 "d" "10.0.0.1" false false) none 200
        [Scenario.hw 7 "d" "10.0.0.1"]) (Scenario.request "uid-1") _ _ _ rfl rfl rfl
      (by decide) rfl rfl
    exact ⟨h.1, h.2.2.1 rfl⟩
  · exact (meta_reconcile_converged_no_remote_write.2.1
      (Scenario.serverClusterMetaReconciler (Scenario.serverCluster "sfo1" 2 false)
        (Scenario.serverClusterMeta 7 2 false false) none 200 [Scenario.remoteCluster 7])
      (Scenario.request "uid-2") _ _ _ rfl rfl rfl (by decide) rfl rfl).2.2
  · exact (meta_reconcile_converged_no_remote_write.2.2.1
      (Scenario.templateMetaReconciler (Scenario.template 2 false)
        (Scenario.templateMeta 7 2 false false) none 200 [Scenario.remoteTemplate 7])
      (Scenario.request "uid-3") _ _ _ rfl rfl rfl (by decide) rfl rfl).2.2
  · exact (meta_reconcile_converged_no_remote_write.2.2.2
      (Scenario.vpcMetaReconciler (Scenario.vpc "admin" 2) (Scenario.vpcMeta 7 2 false) none
        200 [Scenario.remoteVPC 7]) (Scenario.request "uid-4") _ _ _ rfl rfl rfl
      (by decide) rfl rfl).2.2

/-- Counterexample to C2 as stated: the InventoryServerMeta twin with remote id 7 equals its
remote server in every compared field, the desired resource left its addresses blank, and the
patch that back-fills them fails with "conflict".  No remote write is made, but the reconcile
ends by patching the status "Failure" / "conflict", not OK / "Success". -/
theorem meta_reconcile_converged_counterexample :
    0 < (Scenario.inventoryServerMeta 7 2 "d" "10.0.0.1" false false).Spec.ID
    ∧ (Scenario.inventoryServerMetaReconciler (Scenario.inventoryServer "sfo1" "d" 2 false)
        (Scenario.inventoryServerMeta 7 2 "d" "10.0.0.1" false false) (some "conflict") 200
        [Scenario.hw 7 "d" "10.0.0.1"]).NStorage.HWsStorage.FindServerByID 7
        = some (Scenario.hw 7 "d" "10.0.0.1")
    ∧ compareInventoryServerMetaAPIServer
        (Scenario.inventoryServerMeta 7 2 "d" "10.0.0.1" false false)
        (Scenario.hw 7 "d" "10.0.0.1") = true
    ∧ (∃ cr',
        ((Scenario.inventoryServerMetaReconciler (Scenario.inventoryServer "sfo1" "d" 2 false)
          (Scenario.inventoryServerMeta 7 2 "d" "10.0.0.1" false false) (some "conflict") 200
          [Scenario.hw 7 "d" "10.0.0.1"]).Reconcile (Scenario.request "uid-1")).trace.getLast?
          = some (.patchStatus cr' "Failure" "conflict"))
    ∧ ¬ ∃ cr',
        ((Scenario.inventoryServerMetaReconciler (Scenario.inventoryServer "sfo1" "d" 2 false)
          (Scenario.inventoryServerMeta 7 2 "d" "10.0.0.1" false false) (some "conflict") 200
          [Scenario.hw 7 "d" "10.0.0.1"]).Reconcile (Scenario.request "uid-1")).trace.getLast?
          = some (.patchStatus cr' "OK" "Success") := by
  have hlast : ∃ cr',
      ((Scenario.inventoryServerMetaReconciler (Scenario.inventoryServer "sfo1" "d" 2 false)
        (Scenario.inventoryServerMeta 7 2 "d" "10.0.0.1" false false) (some "conflict") 200
        [Scenario.hw 7 "d" "10.0.0.1"]).Reconcile (Scenario.request "uid-1")).trace.getLast?
        = some (.patchStatus cr' "Failure" "conflict") := ⟨_, rfl⟩
  refine ⟨by decide, rfl, rfl, hlast, ?_⟩
  obtain ⟨x, hx⟩ := hlast
  rintro ⟨cr', h⟩
  rw [hx] at h
  simp at h


/-! ## C3: reclaim skips the remote delete -/

/-- C3, as the code has it (InventoryServer, ServerCluster, ServerClusterTemplate): when the
twin has `Reclaim == true` the deletion protocol issues no remote Delete call, whatever the id
of the twin; it issues the deletion of the twin and, when that deletion succeeds, the `Update`
that clears the finalizer list of the desired resource.  When the deletion of the twin fails
nothing else is called. -/
theorem reclaim_skips_remote_delete :
    (∀ (r : InventoryServerReconciler) (cr : InventoryServer)
        (m : InventoryServerMeta), m.Spec.Reclaim = true →
        (∀ id, Event.remoteDelete id ∉ (r.deleteInventoryServer cr (some m)).trace)
        ∧ (r.deleteInventoryServer cr (some m)).trace
          = .deleteMeta m ::
            (match r.Client.DeleteMeta m with
              | none =>
                [.updateCR
                  { cr with ObjectMeta := { cr.ObjectMeta with Finalizers := none } }]
              | some _ => []))
    ∧ (∀ (r : ServerClusterReconciler) (cr : ServerCluster)
        (m : ServerClusterMeta), m.Spec.Reclaim = true →
        (∀ id, Event.remoteDelete id ∉ (r.deleteServerCluster cr (some m)).trace)
        ∧ (r.deleteServerCluster cr (some m)).trace
          = .deleteMeta m ::
            (match r.Client.DeleteMeta m with
              | none =>
                [.updateCR
                  { cr with ObjectMeta := { cr.ObjectMeta with Finalizers := none } }]
              | some _ => []))
    ∧ (∀ (r : ServerClusterTemplateReconciler) (cr : ServerClusterTemplate)
        (m : ServerClusterTemplateMeta), m.Spec.Reclaim = true →
        (∀ id, Event.remoteDelete id ∉ (r.deleteServerClusterTemplate cr (some m)).trace)
        ∧ (r.deleteServerClusterTemplate cr (some m)).trace
          = .deleteMeta m ::
            (match r.Client.DeleteMeta m with
              | none =>
                [.updateCR
                  { cr with ObjectMeta := { cr.ObjectMeta with Finalizers := none } }]
              | some _ => [])) := by
  refine ⟨?_, ?_, ?_⟩
  · intro r cr m hReclaim
    rw [r.deleteInventoryServer_skip cr m (Or.inr hReclaim), r.deleteCRs_trace_inventoryServer cr m]
    refine ⟨?_, rfl⟩
    intro id
    cases r.Client.DeleteMeta m <;> simp
  · intro r cr m hReclaim
    rw [r.deleteServerCluster_skip cr m (Or.inr hReclaim), r.deleteCRs_trace_serverCluster cr m]
    refine ⟨?_, rfl⟩
    intro id
    cases r.Client.DeleteMeta m <;> simp
  · intro r cr m hReclaim
    rw [r.deleteServerClusterTemplate_skip cr m (Or.inr hReclaim), r.deleteCRs_trace_template cr m]
    refine ⟨?_, rfl⟩
    intro id
    cases r.Client.DeleteMeta m <;> simp

/-- The theorem of C3 at twins with remote id 7 and `Reclaim == true`: the protocol deletes
the twin and clears the finalizer list without a remote call. -/
theorem reclaim_skips_remote_delete_witness :
    (((Scenario.inventoryServerReconciler (Scenario.inventoryServer "sfo1" "d" 2 true)
          (some (Scenario.inventoryServerMeta 7 2 "d" "" false true)) none
              200).deleteInventoryServer
          (Scenario.inventoryServer "sfo1" "d" 2 true)
          (some (Scenario.inventoryServerMeta 7 2 "d" "" false true))).trace
      = [.deleteMeta (Scenario.inventoryServerMeta 7 2 "d" "" false true),
         .updateCR { (Scenario.inventoryServer "sfo1" "d" 2 true) with
           ObjectMeta := { (Scenario.inventoryServer "sfo1" "d" 2 true).ObjectMeta with
             Finalizers := none } }])
    ∧ (((Scenario.serverClusterReconciler (Scenario.serverCluster "sfo1" 2 true)
          (some (Scenario.serverClusterMeta 7 2 false true)) none 200).deleteServerCluster
          (Scenario.serverCluster "sfo1" 2 true)
          (some (Scenario.serverClusterMeta 7 2 false true))).trace
      = [.deleteMeta (Scenario.serverClusterMeta 7 2 false true),
         .updateCR { (Scenario.serverCluster "sfo1" 2 true) with
           ObjectMeta := { (Scenario.serverCluster "sfo1" 2 true).ObjectMeta with
             Finalizers := none } }])
    ∧ (((Scenario.templateReconciler (Scenario.template 2 true)
          (some (Scenario.templateMeta 7 2 false true)) none 200).deleteServerClusterTemplate
          (Scenario.template 2 true)
          (some (Scenario.templateMeta 7 2 false true))).trace
      = [.deleteMeta (Scenario.templateMeta 7 2 false true),
         .updateCR { (Scenario.template 2 true) with
           ObjectMeta := { (Scenario.template 2 true).ObjectMeta with
             Finalizers := none } }]) := by
  refine ⟨?_, ?_, ?_⟩
  · exact (reclaim_skips_remote_delete.1
      (Scenario.inventoryServerReconciler (Scenario.inventoryServer "sfo1" "d" 2 true)
        (some (Scenario.inventoryServerMeta 7 2 "d" "" false true)) none 200)
      (Scenario.inventoryServer "sfo1" "d" 2 true)
          (Scenario.inventoryServerMeta 7 2 "d" "" false true) rfl).2
  · exact (reclaim_skips_remote_delete.2.1
      (Scenario.serverClusterReconciler (Scenario.serverCluster "sfo1" 2 true)
        (some (Scenario.serverClusterMeta 7 2 false true)) none 200)
      (Scenario.serverCluster "sfo1" 2 true) (Scenario.serverClusterMeta 7 2 false true) rfl).2
  · exact (reclaim_skips_remote_delete.2.2
      (Scenario.templateReconciler (Scenario.template 2 true)
        (some (Scenario.templateMeta 7 2 false true)) none 200)
      (Scenario.template 2 true) (Scenario.templateMeta 7 2 false true) rfl).2

/-- C3 as stated fails: the twin of an InventoryServer has `Reclaim == true` and its deletion
fails with "conflict"; the protocol returns an error and the finalizer list of the desired
resource is not cleared (no `Update` is issued). -/
theorem reclaim_skips_remote_delete_counterexample :
    (Scenario.inventoryServerMeta 7 2 "d" "" false true).Spec.Reclaim = true
    ∧ ((Scenario.inventoryServerReconciler (Scenario.inventoryServer "sfo1" "d" 2 true)
          (some (Scenario.inventoryServerMeta 7 2 "d" "" false true)) (some "conflict")
              200).deleteInventoryServer
          (Scenario.inventoryServer "sfo1" "d" 2 true)
          (some (Scenario.inventoryServerMeta 7 2 "d" "" false true))).trace
        = [.deleteMeta (Scenario.inventoryServerMeta 7 2 "d" "" false true)]
    ∧ ((Scenario.inventoryServerReconciler (Scenario.inventoryServer "sfo1" "d" 2 true)
          (some (Scenario.inventoryServerMeta 7 2 "d" "" false true)) (some "conflict")
              200).deleteInventoryServer
          (Scenario.inventoryServer "sfo1" "d" 2 true)
          (some (Scenario.inventoryServerMeta 7 2 "d" "" false true))).err
        = some "\x7bdeleteCRs\x7d \x7bdeleteInventoryServerMetaCR\x7d conflict"
    ∧ ∀ c, Event.updateCR c ∉
        ((Scenario.inventoryServerReconciler (Scenario.inventoryServer "sfo1" "d" 2 true)
          (some (Scenario.inventoryServerMeta 7 2 "d" "" false true)) (some "conflict")
              200).deleteInventoryServer
          (Scenario.inventoryServer "sfo1" "d" 2 true)
          (some (Scenario.inventoryServerMeta 7 2 "d" "" false true))).trace := by
  have htrace : ((Scenario.inventoryServerReconciler (Scenario.inventoryServer "sfo1" "d" 2 true)
          (some (Scenario.inventoryServerMeta 7 2 "d" "" false true)) (some "conflict")
              200).deleteInventoryServer
          (Scenario.inventoryServer "sfo1" "d" 2 true)
          (some (Scenario.inventoryServerMeta 7 2 "d" "" false true))).trace
      = [.deleteMeta (Scenario.inventoryServerMeta 7 2 "d" "" false true)] := rfl
  refine ⟨rfl, htrace, by decide, ?_⟩
  intro c
  rw [htrace]
  simp

/-! ## C4: a remote delete answered 404 counts as success -/

/-- C4 (`deleteInventoryServer`, `deleteServerCluster`, `deleteServerClusterTemplate`): when
the twin exists with a non-zero id and `Reclaim == false`, the remote Delete is called and
returns a parsed non-success envelope, the protocol proceeds to `deleteCRs` (the deletion of
the twin and, after it, the clearing of the finalizer list) if and only if the status code of
the envelope is 404; for any other status code it returns an error right after the remote
call: the twin is not deleted and the finalizer list is not cleared. -/
theorem remote_delete_proceeds_iff_404 :
    (∀ (r : InventoryServerReconciler) (cr : InventoryServer) (m : InventoryServerMeta)
        (reply : Reply) (resp : APIResponse),
        m.Spec.ID ≠ 0 → m.Spec.Reclaim = false →
        Event.remoteDelete m.Spec.ID ∈ (r.deleteInventoryServer cr (some m)).trace →
        r.Cred.Inventory.Delete m.Spec.ID = .ok reply →
        reply.ParseAPIResponse = .ok resp → resp.IsSuccess = false →
        (resp.StatusCode = 404 →
          r.deleteInventoryServer cr (some m)
            = (r.deleteCRs cr (some m)).after [.remoteDelete m.Spec.ID]
          ∧ Event.deleteMeta m ∈ (r.deleteInventoryServer cr (some m)).trace
          ∧ (r.Client.DeleteMeta m = none →
              Event.updateCR
                { cr with ObjectMeta := { cr.ObjectMeta with Finalizers := none } }
                ∈ (r.deleteInventoryServer cr (some m)).trace))
        ∧ (resp.StatusCode ≠ 404 →
          (r.deleteInventoryServer cr (some m)).err
            = some ("\x7bdeleteInventoryServer\x7d " ++ r.Cred.Errorf resp.Message)
          ∧ (r.deleteInventoryServer cr (some m)).trace = [.remoteDelete m.Spec.ID]
          ∧ (∀ t, Event.deleteMeta t ∉ (r.deleteInventoryServer cr (some m)).trace)
          ∧ (∀ c, Event.updateCR c ∉ (r.deleteInventoryServer cr (some m)).trace))
        ∧ (Event.deleteMeta m ∈ (r.deleteInventoryServer cr (some m)).trace
            ↔ resp.StatusCode = 404))
    ∧ (∀ (r : ServerClusterReconciler) (cr : ServerCluster) (m : ServerClusterMeta)
        (reply : Reply) (resp : APIResponse),
        m.Spec.ID ≠ 0 → m.Spec.Reclaim = false →
        Event.remoteDelete m.Spec.ID ∈ (r.deleteServerCluster cr (some m)).trace →
        r.Cred.ServerCluster.Delete m.Spec.ID = .ok reply →
        reply.ParseAPIResponse = .ok resp → resp.IsSuccess = false →
        (resp.StatusCode = 404 →
          r.deleteServerCluster cr (some m)
            = (r.deleteCRs cr (some m)).after [.remoteDelete m.Spec.ID]
          ∧ Event.deleteMeta m ∈ (r.deleteServerCluster cr (some m)).trace
          ∧ (r.Client.DeleteMeta m = none →
              Event.updateCR
                { cr with ObjectMeta := { cr.ObjectMeta with Finalizers := none } }
                ∈ (r.deleteServerCluster cr (some m)).trace))
        ∧ (resp.StatusCode ≠ 404 →
          (r.deleteServerCluster cr (some m)).err
            = some ("\x7bdeleteServerCluster\x7d " ++ r.Cred.Errorf resp.Message)
          ∧ (r.deleteServerCluster cr (some m)).trace = [.remoteDelete m.Spec.ID]
          ∧ (∀ t, Event.deleteMeta t ∉ (r.deleteServerCluster cr (some m)).trace)
          ∧ (∀ c, Event.updateCR c ∉ (r.deleteServerCluster cr (some m)).trace))
        ∧ (Event.deleteMeta m ∈ (r.deleteServerCluster cr (some m)).trace
            ↔ resp.StatusCode = 404))
    ∧ (∀ (r : ServerClusterTemplateReconciler) (cr : ServerClusterTemplate)
        (m : ServerClusterTemplateMeta)
        (reply : Reply) (resp : APIResponse),
        m.Spec.ID ≠ 0 → m.Spec.Reclaim = false →
        Event.remoteDelete m.Spec.ID ∈ (r.deleteServerClusterTemplate cr (some m)).trace →
        r.Cred.ServerClusterTemplate.Delete m.Spec.ID = .ok reply →
        reply.ParseAPIResponse = .ok resp → resp.IsSuccess = false →
        (resp.StatusCode = 404 →
          r.deleteServerClusterTemplate cr (some m)
            = (r.deleteCRs cr (some m)).after [.remoteDelete m.Spec.ID]
          ∧ Event.deleteMeta m ∈ (r.deleteServerClusterTemplate cr (some m)).trace
          ∧ (r.Client.DeleteMeta m = none →
              Event.updateCR
                { cr with ObjectMeta := { cr.ObjectMeta with Finalizers := none } }
                ∈ (r.deleteServerClusterTemplate cr (some m)).trace))
        ∧ (resp.StatusCode ≠ 404 →
          (r.deleteServerClusterTemplate cr (some m)).err
            = some ("\x7bdeleteServerClusterTemplate\x7d " ++ r.Cred.Errorf resp.Message)
          ∧ (r.deleteServerClusterTemplate cr (some m)).trace = [.remoteDelete m.Spec.ID]
          ∧ (∀ t, Event.deleteMeta t ∉ (r.deleteServerClusterTemplate cr (some m)).trace)
          ∧ (∀ c, Event.updateCR c ∉ (r.deleteServerClusterTemplate cr (some m)).trace))
        ∧ (Event.deleteMeta m ∈ (r.deleteServerClusterTemplate cr (some m)).trace
            ↔ resp.StatusCode = 404)) := by
  refine ⟨?_, ?_, ?_⟩
  · intro r cr m reply resp hNonZero hReclaim hCall hDel hParse hFail
    have hID : 0 < m.Spec.ID := by
      by_contra hneg
      rw [r.deleteInventoryServer_skip cr m (Or.inl hneg), r.deleteCRs_trace_inventoryServer cr m] at hCall
      cases hd : r.Client.DeleteMeta m <;> simp [hd] at hCall
    have hstep : ∀ code : Bool, (resp.StatusCode != 404) = code →
        remoteDeleteStep r.Cred r.Cred.Inventory.Delete "\x7bdeleteInventoryServer\x7d "
          m.Spec.ID
          = if code then some ("\x7bdeleteInventoryServer\x7d " ++ r.Cred.Errorf resp.Message)
            else none := by
      intro code hcode
      simp [remoteDeleteStep, hDel, hParse, hFail, hcode]
    have h404 : resp.StatusCode = 404 →
        r.deleteInventoryServer cr (some m)
          = (r.deleteCRs cr (some m)).after [.remoteDelete m.Spec.ID] := by
      intro hc
      rw [r.deleteInventoryServer_remote cr m hID hReclaim, hstep false (by simp [hc])]
      rfl
    have hnot : resp.StatusCode ≠ 404 →
        r.deleteInventoryServer cr (some m) =
          { obj := cr, res := Result.empty
            err := some ("\x7bdeleteInventoryServer\x7d " ++ r.Cred.Errorf resp.Message)
            trace := [.remoteDelete m.Spec.ID] } := by
      intro hc
      rw [r.deleteInventoryServer_remote cr m hID hReclaim, hstep true (by simp [hc])]
      rfl
    refine ⟨?_, ?_, ?_⟩
    · intro hc
      rw [h404 hc]
      refine ⟨rfl, ?_, ?_⟩
      · simp [Step.after, r.deleteCRs_trace_inventoryServer cr m]
      · intro hd
        simp [Step.after, r.deleteCRs_trace_inventoryServer cr m, hd]
    · intro hc
      rw [hnot hc]
      exact ⟨rfl, rfl, by simp, by simp⟩
    · by_cases hc : resp.StatusCode = 404
      · rw [h404 hc]
        simp [Step.after, r.deleteCRs_trace_inventoryServer cr m, hc]
      · rw [hnot hc]
        simp [hc]
  · intro r cr m reply resp hNonZero hReclaim hCall hDel hParse hFail
    have hID : 0 < m.Spec.ID := by
      by_contra hneg
      rw [r.deleteServerCluster_skip cr m (Or.inl hneg), r.deleteCRs_trace_serverCluster cr m] at hCall
      cases hd : r.Client.DeleteMeta m <;> simp [hd] at hCall
    have hstep : ∀ code : Bool, (resp.StatusCode != 404) = code →
        remoteDeleteStep r.Cred r.Cred.ServerCluster.Delete "\x7bdeleteServerCluster\x7d "
          m.Spec.ID
          = if code then some ("\x7bdeleteServerCluster\x7d " ++ r.Cred.Errorf resp.Message)
            else none := by
      intro code hcode
      simp [remoteDeleteStep, hDel, hParse, hFail, hcode]
    have h404 : resp.StatusCode = 404 →
        r.deleteServerCluster cr (some m)
          = (r.deleteCRs cr (some m)).after [.remoteDelete m.Spec.ID] := by
      intro hc
      rw [r.deleteServerCluster_remote cr m hID hReclaim, hstep false (by simp [hc])]
      rfl
    have hnot : resp.StatusCode ≠ 404 →
        r.deleteServerCluster cr (some m) =
          { obj := cr, res := Result.empty
            err := some ("\x7bdeleteServerCluster\x7d " ++ r.Cred.Errorf resp.Message)
            trace := [.remoteDelete m.Spec.ID] } := by
      intro hc
      rw [r.deleteServerCluster_remote cr m hID hReclaim, hstep true (by simp [hc])]
      rfl
    refine ⟨?_, ?_, ?_⟩
    · intro hc
      rw [h404 hc]
      refine ⟨rfl, ?_, ?_⟩
      · simp [Step.after, r.deleteCRs_trace_serverCluster cr m]
      · intro hd
        simp [Step.after, r.deleteCRs_trace_serverCluster cr m, hd]
    · intro hc
      rw [hnot hc]
      exact ⟨rfl, rfl, by simp, by simp⟩
    · by_cases hc : resp.StatusCode = 404
      · rw [h404 hc]
        simp [Step.after, r.deleteCRs_trace_serverCluster cr m, hc]
      · rw [hnot hc]
        simp [hc]
  · intro r cr m reply resp hNonZero hReclaim hCall hDel hParse hFail
    have hID : 0 < m.Spec.ID := by
      by_contra hneg
      rw [r.deleteServerClusterTemplate_skip cr m (Or.inl hneg), r.deleteCRs_trace_template cr m] at hCall
      cases hd : r.Client.DeleteMeta m <;> simp [hd] at hCall
    have hstep : ∀ code : Bool, (resp.StatusCode != 404) = code →
        remoteDeleteStep r.Cred r.Cred.ServerClusterTemplate.Delete
            "\x7bdeleteServerClusterTemplate\x7d "
          m.Spec.ID
          = if code then some ("\x7bdeleteServerClusterTemplate\x7d " ++ r.Cred.Errorf resp.Message)
            else none := by
      intro code hcode
      simp [remoteDeleteStep, hDel, hParse, hFail, hcode]
    have h404 : resp.StatusCode = 404 →
        r.deleteServerClusterTemplate cr (some m)
          = (r.deleteCRs cr (some m)).after [.remoteDelete m.Spec.ID] := by
      intro hc
      rw [r.deleteServerClusterTemplate_remote cr m hID hReclaim, hstep false (by simp [hc])]
      rfl
    have hnot : resp.StatusCode ≠ 404 →
        r.deleteServerClusterTemplate cr (some m) =
          { obj := cr, res := Result.empty
            err := some ("\x7bdeleteServerClusterTemplate\x7d " ++ r.Cred.Errorf resp.Message)
            trace := [.remoteDelete m.Spec.ID] } := by
      intro hc
      rw [r.deleteServerClusterTemplate_remote cr m hID hReclaim, hstep true (by simp [hc])]
      rfl
    refine ⟨?_, ?_, ?_⟩
    · intro hc
      rw [h404 hc]
      refine ⟨rfl, ?_, ?_⟩
      · simp [Step.after, r.deleteCRs_trace_template cr m]
      · intro hd
        simp [Step.after, r.deleteCRs_trace_template cr m, hd]
    · intro hc
      rw [hnot hc]
      exact ⟨rfl, rfl, by simp, by simp⟩
    · by_cases hc : resp.StatusCode = 404
      · rw [h404 hc]
        simp [Step.after, r.deleteCRs_trace_template cr m, hc]
      · rw [hnot hc]
        simp [hc]

/-- The theorem of C4 at twins with remote id 7 and `Reclaim == false`: under the answer 404
the twin is deleted and the finalizer list cleared, under the answer 500 the protocol stops
after the remote call. -/
theorem remote_delete_proceeds_iff_404_witness :
    ((((Scenario.inventoryServerReconciler (Scenario.inventoryServer "sfo1" "d" 2 true)
          (some (Scenario.inventoryServerMeta 7 2 "d" "" false false)) none
              404).deleteInventoryServer
          (Scenario.inventoryServer "sfo1" "d" 2 true)
          (some (Scenario.inventoryServerMeta 7 2 "d" "" false false))).trace
        = [.remoteDelete 7, .deleteMeta (Scenario.inventoryServerMeta 7 2 "d" "" false false),
           .updateCR { (Scenario.inventoryServer "sfo1" "d" 2 true) with
             ObjectMeta := { (Scenario.inventoryServer "sfo1" "d" 2 true).ObjectMeta with
               Finalizers := none } }])
      ∧ ((Scenario.inventoryServerReconciler (Scenario.inventoryServer "sfo1" "d" 2 true)
          (some (Scenario.inventoryServerMeta 7 2 "d" "" false false)) none
              500).deleteInventoryServer
          (Scenario.inventoryServer "sfo1" "d" 2 true)
          (some (Scenario.inventoryServerMeta 7 2 "d" "" false false))).trace
        = [.remoteDelete 7])
    ∧ ((((Scenario.serverClusterReconciler (Scenario.serverCluster "sfo1" 2 true)
          (some (Scenario.serverClusterMeta 7 2 false false)) none 404).deleteServerCluster
          (Scenario.serverCluster "sfo1" 2 true)
          (some (Scenario.serverClusterMeta 7 2 false false))).trace
        = [.remoteDelete 7, .deleteMeta (Scenario.serverClusterMeta 7 2 false false),
           .updateCR { (Scenario.serverCluster "sfo1" 2 true) with
             ObjectMeta := { (Scenario.serverCluster "sfo1" 2 true).ObjectMeta with
               Finalizers := none } }])
      ∧ ((Scenario.serverClusterReconciler (Scenario.serverCluster "sfo1" 2 true)
          (some (Scenario.serverClusterMeta 7 2 false false)) none 500).deleteServerCluster
          (Scenario.serverCluster "sfo1" 2 true)
          (some (Scenario.serverClusterMeta 7 2 false false))).trace
        = [.remoteDelete 7])
    ∧ ((((Scenario.templateReconciler (Scenario.template 2 true)
          (some (Scenario.templateMeta 7 2 false false)) none 404).deleteServerClusterTemplate
          (Scenario.template 2 true)
          (some (Scenario.templateMeta 7 2 false false))).trace
        = [.remoteDelete 7, .deleteMeta (Scenario.templateMeta 7 2 false false),
           .updateCR { (Scenario.template 2 true) with
             ObjectMeta := { (Scenario.template 2 true).ObjectMeta with
               Finalizers := none } }])
      ∧ ((Scenario.templateReconciler (Scenario.template 2 true)
          (some (Scenario.templateMeta 7 2 false false)) none 500).deleteServerClusterTemplate
          (Scenario.template 2 true)
          (some (Scenario.templateMeta 7 2 false false))).trace
        = [.remoteDelete 7]) := by
  refine ⟨?_, ?_, ?_⟩
  · have h := fun code hcall hc1 hc2 => remote_delete_proceeds_iff_404.1
      (Scenario.inventoryServerReconciler (Scenario.inventoryServer "sfo1" "d" 2 true)
        (some (Scenario.inventoryServerMeta 7 2 "d" "" false false)) none code)
      (Scenario.inventoryServer "sfo1" "d" 2 true)
          (Scenario.inventoryServerMeta 7 2 "d" "" false false)
      (Scenario.reply code (some 42))
      { IsSuccess := code == 200, StatusCode := code, Message := "reply" }
      (by decide) rfl hcall rfl hc1 hc2
    refine ⟨?_, ((h 500 (by decide) rfl rfl).2.1 (by decide)).2.1⟩
    rw [((h 404 (by decide) rfl rfl).1 rfl).1]
    rfl
  · have h := fun code hcall hc1 hc2 => remote_delete_proceeds_iff_404.2.1
      (Scenario.serverClusterReconciler (Scenario.serverCluster "sfo1" 2 true)
        (some (Scenario.serverClusterMeta 7 2 false false)) none code)
      (Scenario.serverCluster "sfo1" 2 true) (Scenario.serverClusterMeta 7 2 false false)
      (Scenario.reply code (some 42))
      { IsSuccess := code == 200, StatusCode := code, Message := "reply" }
      (by decide) rfl hcall rfl hc1 hc2
    refine ⟨?_, ((h 500 (by decide) rfl rfl).2.1 (by decide)).2.1⟩
    rw [((h 404 (by decide) rfl rfl).1 rfl).1]
    rfl
  · have h := fun code hcall hc1 hc2 => remote_delete_proceeds_iff_404.2.2
      (Scenario.templateReconciler (Scenario.template 2 true)
        (some (Scenario.templateMeta 7 2 false false)) none code)
      (Scenario.template 2 true) (Scenario.templateMeta 7 2 false false)
      (Scenario.reply code (some 42))
      { IsSuccess := code == 200, StatusCode := code, Message := "reply" }
      (by decide) rfl hcall rfl hc1 hc2
    refine ⟨?_, ((h 500 (by decide) rfl rfl).2.1 (by decide)).2.1⟩
    rw [((h 404 (by decide) rfl rfl).1 rfl).1]
    rfl

/-! ## C5: the finalizer list is cleared on the happy path only -/

/-- C5 (InventoryServer, ServerCluster, ServerClusterTemplate): when the twin exists and
deleting the twin object fails, `deleteCRs` returns an error and the `Update` that clears the
finalizer list is never issued, neither by `deleteCRs` nor by the deletion protocol around it.
Conversely, whenever the deletion protocol issues an `Update` of the desired resource on an
existing twin, the deletion of the twin has succeeded and the remote step, when it was due
(positive id, `Reclaim == false`), has returned no error. -/
theorem finalizers_cleared_only_after_success :
    (∀ (r : InventoryServerReconciler) (cr : InventoryServer) (m : InventoryServerMeta),
        (∀ e, r.Client.DeleteMeta m = some e →
          (r.deleteCRs cr (some m)).err
            = some ("\x7bdeleteCRs\x7d " ++ ("\x7bdeleteInventoryServerMetaCR\x7d " ++ e))
          ∧ (∀ c, Event.updateCR c ∉ (r.deleteCRs cr (some m)).trace)
          ∧ (r.deleteInventoryServer cr (some m)).err ≠ none
          ∧ (∀ c, Event.updateCR c ∉ (r.deleteInventoryServer cr (some m)).trace))
        ∧ (∀ c, Event.updateCR c ∈ (r.deleteInventoryServer cr (some m)).trace →
          r.Client.DeleteMeta m = none
          ∧ (0 < m.Spec.ID → m.Spec.Reclaim = false →
              remoteDeleteStep r.Cred r.Cred.Inventory.Delete "\x7bdeleteInventoryServer\x7d "
                  m.Spec.ID
                = none)))
    ∧ (∀ (r : ServerClusterReconciler) (cr : ServerCluster) (m : ServerClusterMeta),
        (∀ e, r.Client.DeleteMeta m = some e →
          (r.deleteCRs cr (some m)).err
            = some ("\x7bdeleteCRs\x7d " ++ ("\x7bdeleteServerClusterMetaCR\x7d " ++ e))
          ∧ (∀ c, Event.updateCR c ∉ (r.deleteCRs cr (some m)).trace)
          ∧ (r.deleteServerCluster cr (some m)).err ≠ none
          ∧ (∀ c, Event.updateCR c ∉ (r.deleteServerCluster cr (some m)).trace))
        ∧ (∀ c, Event.updateCR c ∈ (r.deleteServerCluster cr (some m)).trace →
          r.Client.DeleteMeta m = none
          ∧ (0 < m.Spec.ID → m.Spec.Reclaim = false →
              remoteDeleteStep r.Cred r.Cred.ServerCluster.Delete "\x7bdeleteServerCluster\x7d "
                  m.Spec.ID
                = none)))
    ∧ (∀ (r : ServerClusterTemplateReconciler) (cr : ServerClusterTemplate)
        (m : ServerClusterTemplateMeta),
        (∀ e, r.Client.DeleteMeta m = some e →
          (r.deleteCRs cr (some m)).err
            = some ("\x7bdeleteCRs\x7d " ++ ("\x7bdeleteServerClusterTemplateMetaCR\x7d " ++ e))
          ∧ (∀ c, Event.updateCR c ∉ (r.deleteCRs cr (some m)).trace)
          ∧ (r.deleteServerClusterTemplate cr (some m)).err ≠ none
          ∧ (∀ c, Event.updateCR c ∉ (r.deleteServerClusterTemplate cr (some m)).trace))
        ∧ (∀ c, Event.updateCR c ∈ (r.deleteServerClusterTemplate cr (some m)).trace →
          r.Client.DeleteMeta m = none
          ∧ (0 < m.Spec.ID → m.Spec.Reclaim = false →
              remoteDeleteStep r.Cred r.Cred.ServerClusterTemplate.Delete
                  "\x7bdeleteServerClusterTemplate\x7d " m.Spec.ID
                = none))) := by
  refine ⟨?_, ?_, ?_⟩
  · intro r cr m
    have hmain : ∀ c, Event.updateCR c ∈ (r.deleteInventoryServer cr (some m)).trace →
        r.Client.DeleteMeta m = none
        ∧ (0 < m.Spec.ID → m.Spec.Reclaim = false →
            remoteDeleteStep r.Cred r.Cred.Inventory.Delete "\x7bdeleteInventoryServer\x7d "
                m.Spec.ID
              = none) := by
      intro c hc
      by_cases hg : 0 < m.Spec.ID ∧ m.Spec.Reclaim = false
      · rw [r.deleteInventoryServer_remote cr m hg.1 hg.2] at hc
        cases hstep : remoteDeleteStep r.Cred r.Cred.Inventory.Delete
            "\x7bdeleteInventoryServer\x7d "
            m.Spec.ID with
        | some err => rw [hstep] at hc; simp at hc
        | none =>
          rw [hstep] at hc
          cases hd : r.Client.DeleteMeta m with
          | none => exact ⟨rfl, fun _ _ => rfl⟩
          | some e => simp [Step.after, r.deleteCRs_trace_inventoryServer cr m, hd] at hc
      · have hs : ¬ (0 < m.Spec.ID) ∨ m.Spec.Reclaim = true := by
          by_cases h1 : 0 < m.Spec.ID
          · right
            cases hr : m.Spec.Reclaim with
            | true => rfl
            | false => exact absurd ⟨h1, hr⟩ hg
          · exact Or.inl h1
        rw [r.deleteInventoryServer_skip cr m hs] at hc
        cases hd : r.Client.DeleteMeta m with
        | none =>
          refine ⟨rfl, fun h1 h2 => ?_⟩
          rcases hs with hs | hs
          · exact absurd h1 hs
          · rw [h2] at hs; cases hs
        | some e => simp [r.deleteCRs_trace_inventoryServer cr m, hd] at hc
    refine ⟨?_, hmain⟩
    intro e he
    have hno : ∀ c, Event.updateCR c ∉ (r.deleteInventoryServer cr (some m)).trace := by
      intro c hc
      have := (hmain c hc).1
      rw [he] at this
      cases this
    refine ⟨?_, ?_, ?_, hno⟩
    · simp [InventoryServerReconciler.deleteCRs,
        InventoryServerReconciler.deleteInventoryServerMetaCR, he]
    · intro c
      simp [r.deleteCRs_trace_inventoryServer cr m, he]
    · by_cases hg : 0 < m.Spec.ID ∧ m.Spec.Reclaim = false
      · rw [r.deleteInventoryServer_remote cr m hg.1 hg.2]
        cases remoteDeleteStep r.Cred r.Cred.Inventory.Delete "\x7bdeleteInventoryServer\x7d "
            m.Spec.ID with
        | some err => simp
        | none =>
          simp [Step.after, InventoryServerReconciler.deleteCRs,
              InventoryServerReconciler.deleteInventoryServerMetaCR, he]
      · have hs : ¬ (0 < m.Spec.ID) ∨ m.Spec.Reclaim = true := by
          by_cases h1 : 0 < m.Spec.ID
          · right
            cases hr : m.Spec.Reclaim with
            | true => rfl
            | false => exact absurd ⟨h1, hr⟩ hg
          · exact Or.inl h1
        rw [r.deleteInventoryServer_skip cr m hs]
        simp [InventoryServerReconciler.deleteCRs,
            InventoryServerReconciler.deleteInventoryServerMetaCR, he]
  · intro r cr m
    have hmain : ∀ c, Event.updateCR c ∈ (r.deleteServerCluster cr (some m)).trace →
        r.Client.DeleteMeta m = none
        ∧ (0 < m.Spec.ID → m.Spec.Reclaim = false →
            remoteDeleteStep r.Cred r.Cred.ServerCluster.Delete "\x7bdeleteServerCluster\x7d "
                m.Spec.ID
              = none) := by
      intro c hc
      by_cases hg : 0 < m.Spec.ID ∧ m.Spec.Reclaim = false
      · rw [r.deleteServerCluster_remote cr m hg.1 hg.2] at hc
        cases hstep : remoteDeleteStep r.Cred r.Cred.ServerCluster.Delete
            "\x7bdeleteServerCluster\x7d "
            m.Spec.ID with
        | some err => rw [hstep] at hc; simp at hc
        | none =>
          rw [hstep] at hc
          cases hd : r.Client.DeleteMeta m with
          | none => exact ⟨rfl, fun _ _ => rfl⟩
          | some e => simp [Step.after, r.deleteCRs_trace_serverCluster cr m, hd] at hc
      · have hs : ¬ (0 < m.Spec.ID) ∨ m.Spec.Reclaim = true := by
          by_cases h1 : 0 < m.Spec.ID
          · right
            cases hr : m.Spec.Reclaim with
            | true => rfl
            | false => exact absurd ⟨h1, hr⟩ hg
          · exact Or.inl h1
        rw [r.deleteServerCluster_skip cr m hs] at hc
        cases hd : r.Client.DeleteMeta m with
        | none =>
          refine ⟨rfl, fun h1 h2 => ?_⟩
          rcases hs with hs | hs
          · exact absurd h1 hs
          · rw [h2] at hs; cases hs
        | some e => simp [r.deleteCRs_trace_serverCluster cr m, hd] at hc
    refine ⟨?_, hmain⟩
    intro e he
    have hno : ∀ c, Event.updateCR c ∉ (r.deleteServerCluster cr (some m)).trace := by
      intro c hc
      have := (hmain c hc).1
      rw [he] at this
      cases this
    refine ⟨?_, ?_, ?_, hno⟩
    · simp [ServerClusterReconciler.deleteCRs, ServerClusterReconciler.deleteServerClusterMetaCR,
        he]
    · intro c
      simp [r.deleteCRs_trace_serverCluster cr m, he]
    · by_cases hg : 0 < m.Spec.ID ∧ m.Spec.Reclaim = false
      · rw [r.deleteServerCluster_remote cr m hg.1 hg.2]
        cases remoteDeleteStep r.Cred r.Cred.ServerCluster.Delete "\x7bdeleteServerCluster\x7d "
            m.Spec.ID with
        | some err => simp
        | none =>
          simp [Step.after, ServerClusterReconciler.deleteCRs,
              ServerClusterReconciler.deleteServerClusterMetaCR, he]
      · have hs : ¬ (0 < m.Spec.ID) ∨ m.Spec.Reclaim = true := by
          by_cases h1 : 0 < m.Spec.ID
          · right
            cases hr : m.Spec.Reclaim with
            | true => rfl
            | false => exact absurd ⟨h1, hr⟩ hg
          · exact Or.inl h1
        rw [r.deleteServerCluster_skip cr m hs]
        simp [ServerClusterReconciler.deleteCRs, ServerClusterReconciler.deleteServerClusterMetaCR,
            he]
  · intro r cr m
    have hmain : ∀ c, Event.updateCR c ∈ (r.deleteServerClusterTemplate cr (some m)).trace →
        r.Client.DeleteMeta m = none
        ∧ (0 < m.Spec.ID → m.Spec.Reclaim = false →
            remoteDeleteStep r.Cred r.Cred.ServerClusterTemplate.Delete
                "\x7bdeleteServerClusterTemplate\x7d " m.Spec.ID
              = none) := by
      intro c hc
      by_cases hg : 0 < m.Spec.ID ∧ m.Spec.Reclaim = false
      · rw [r.deleteServerClusterTemplate_remote cr m hg.1 hg.2] at hc
        cases hstep : remoteDeleteStep r.Cred r.Cred.ServerClusterTemplate.Delete
            "\x7bdeleteServerClusterTemplate\x7d "
            m.Spec.ID with
        | some err => rw [hstep] at hc; simp at hc
        | none =>
          rw [hstep] at hc
          cases hd : r.Client.DeleteMeta m with
          | none => exact ⟨rfl, fun _ _ => rfl⟩
          | some e => simp [Step.after, r.deleteCRs_trace_template cr m, hd] at hc
      · have hs : ¬ (0 < m.Spec.ID) ∨ m.Spec.Reclaim = true := by
          by_cases h1 : 0 < m.Spec.ID
          · right
            cases hr : m.Spec.Reclaim with
            | true => rfl
            | false => exact absurd ⟨h1, hr⟩ hg
          · exact Or.inl h1
        rw [r.deleteServerClusterTemplate_skip cr m hs] at hc
        cases hd : r.Client.DeleteMeta m with
        | none =>
          refine ⟨rfl, fun h1 h2 => ?_⟩
          rcases hs with hs | hs
          · exact absurd h1 hs
          · rw [h2] at hs; cases hs
        | some e => simp [r.deleteCRs_trace_template cr m, hd] at hc
    refine ⟨?_, hmain⟩
    intro e he
    have hno : ∀ c, Event.updateCR c ∉ (r.deleteServerClusterTemplate cr (some m)).trace := by
      intro c hc
      have := (hmain c hc).1
      rw [he] at this
      cases this
    refine ⟨?_, ?_, ?_, hno⟩
    · simp [ServerClusterTemplateReconciler.deleteCRs,
        ServerClusterTemplateReconciler.deleteServerClusterTemplateMetaCR, he]
    · intro c
      simp [r.deleteCRs_trace_template cr m, he]
    · by_cases hg : 0 < m.Spec.ID ∧ m.Spec.Reclaim = false
      · rw [r.deleteServerClusterTemplate_remote cr m hg.1 hg.2]
        cases remoteDeleteStep r.Cred r.Cred.ServerClusterTemplate.Delete
            "\x7bdeleteServerClusterTemplate\x7d " m.Spec.ID with
        | some err => simp
        | none =>
          simp [Step.after, ServerClusterTemplateReconciler.deleteCRs,
              ServerClusterTemplateReconciler.deleteServerClusterTemplateMetaCR, he]
      · have hs : ¬ (0 < m.Spec.ID) ∨ m.Spec.Reclaim = true := by
          by_cases h1 : 0 < m.Spec.ID
          · right
            cases hr : m.Spec.Reclaim with
            | true => rfl
            | false => exact absurd ⟨h1, hr⟩ hg
          · exact Or.inl h1
        rw [r.deleteServerClusterTemplate_skip cr m hs]
        simp [ServerClusterTemplateReconciler.deleteCRs,
            ServerClusterTemplateReconciler.deleteServerClusterTemplateMetaCR, he]

/-- The theorem of C5 where the deletion of the twin fails with "conflict"; `deleteCRs` returns the
wrapped error and issues no `Update`. -/
theorem finalizers_cleared_only_after_success_witness :
    (((Scenario.inventoryServerReconciler (Scenario.inventoryServer "sfo1" "d" 2 true)
        (some (Scenario.inventoryServerMeta 0 2 "d" "" false false)) (some "conflict")
        200).deleteCRs
        (Scenario.inventoryServer "sfo1" "d" 2 true)
            (some (Scenario.inventoryServerMeta 0 2 "d" "" false false))).err
        = some "\x7bdeleteCRs\x7d \x7bdeleteInventoryServerMetaCR\x7d conflict"
      ∧ ∀ c, Event.updateCR c ∉
        ((Scenario.inventoryServerReconciler (Scenario.inventoryServer "sfo1" "d" 2 true)
            (some (Scenario.inventoryServerMeta 0 2 "d" "" false false)) (some "conflict")
            200).deleteCRs
          (Scenario.inventoryServer "sfo1" "d" 2 true)
              (some (Scenario.inventoryServerMeta 0 2 "d" "" false false))).trace)
    ∧ (((Scenario.serverClusterReconciler (Scenario.serverCluster "sfo1" 2 true)
        (some (Scenario.serverClusterMeta 0 2 false false)) (some "conflict") 200).deleteCRs
        (Scenario.serverCluster "sfo1" 2 true)
            (some (Scenario.serverClusterMeta 0 2 false false))).err
        = some "\x7bdeleteCRs\x7d \x7bdeleteServerClusterMetaCR\x7d conflict"
      ∧ ∀ c, Event.updateCR c ∉
        ((Scenario.serverClusterReconciler (Scenario.serverCluster "sfo1" 2 true)
            (some (Scenario.serverClusterMeta 0 2 false false)) (some "conflict") 200).deleteCRs
          (Scenario.serverCluster "sfo1" 2 true)
              (some (Scenario.serverClusterMeta 0 2 false false))).trace)
    ∧ (((Scenario.templateReconciler (Scenario.template 2 true)
        (some (Scenario.templateMeta 0 2 false false)) (some "conflict") 200).deleteCRs
        (Scenario.template 2 true) (some (Scenario.templateMeta 0 2 false false))).err
        = some "\x7bdeleteCRs\x7d \x7bdeleteServerClusterTemplateMetaCR\x7d conflict"
      ∧ ∀ c, Event.updateCR c ∉
        ((Scenario.templateReconciler (Scenario.template 2 true)
            (some (Scenario.templateMeta 0 2 false false)) (some "conflict") 200).deleteCRs
          (Scenario.template 2 true) (some (Scenario.templateMeta 0 2 false false))).trace) := by
  refine ⟨?_, ?_, ?_⟩
  · have h := (finalizers_cleared_only_after_success.1
      (Scenario.inventoryServerReconciler (Scenario.inventoryServer "sfo1" "d" 2 true)
          (some (Scenario.inventoryServerMeta 0 2 "d" "" false false)) (some "conflict") 200)
          (Scenario.inventoryServer "sfo1" "d" 2 true)
      (Scenario.inventoryServerMeta 0 2 "d" "" false false)).1 "conflict" rfl
    exact ⟨h.1.trans (by decide), h.2.1⟩
  · have h := (finalizers_cleared_only_after_success.2.1
      (Scenario.serverClusterReconciler (Scenario.serverCluster "sfo1" 2 true)
          (some (Scenario.serverClusterMeta 0 2 false false)) (some "conflict") 200)
          (Scenario.serverCluster "sfo1" 2 true)
      (Scenario.serverClusterMeta 0 2 false false)).1 "conflict" rfl
    exact ⟨h.1.trans (by decide), h.2.1⟩
  · have h := (finalizers_cleared_only_after_success.2.2
      (Scenario.templateReconciler (Scenario.template 2 true)
          (some (Scenario.templateMeta 0 2 false false)) (some "conflict") 200)
          (Scenario.template 2 true)
      (Scenario.templateMeta 0 2 false false)).1 "conflict" rfl
    exact ⟨h.1.trans (by decide), h.2.1⟩


/-! ## C6: an unresolved site -/

/-- The calls of `deleteInventoryServer` are the remote Delete, the deletion of the twin and
the `Update` of the desired resource. -/
theorem InventoryServerReconciler.deleteInventoryServer_calls (r : InventoryServerReconciler)
    (cr : InventoryServer) (twin : Option InventoryServerMeta) :
    ∀ e ∈ (r.deleteInventoryServer cr twin).trace,
      (∃ id, e = .remoteDelete id) ∨ (∃ m, e = .deleteMeta m) ∨ (∃ c, e = .updateCR c) := by
  intro e he
  cases twin with
  | none =>
    simp only [InventoryServerReconciler.deleteInventoryServer,
      InventoryServerReconciler.deleteCRs, InventoryServerReconciler.deleteInventoryServerCR]
      at he
    split at he <;> simp at he <;> exact Or.inr (Or.inr ⟨_, he⟩)
  | some m =>
    by_cases hg : 0 < m.Spec.ID ∧ m.Spec.Reclaim = false
    · rw [r.deleteInventoryServer_remote cr m hg.1 hg.2] at he
      split at he
      · simp at he
        exact Or.inl ⟨_, he⟩
      · simp only [Step.after, r.deleteCRs_trace_inventoryServer cr m] at he
        cases hd : r.Client.DeleteMeta m <;> simp [hd] at he
        · rcases he with he | he | he
          · exact Or.inl ⟨_, he⟩
          · exact Or.inr (Or.inl ⟨_, he⟩)
          · exact Or.inr (Or.inr ⟨_, he⟩)
        · rcases he with he | he
          · exact Or.inl ⟨_, he⟩
          · exact Or.inr (Or.inl ⟨_, he⟩)
    · have hs : ¬ (0 < m.Spec.ID) ∨ m.Spec.Reclaim = true := by
        by_cases h1 : 0 < m.Spec.ID
        · right
          cases hr : m.Spec.Reclaim with
          | true => rfl
          | false => exact absurd ⟨h1, hr⟩ hg
        · exact Or.inl h1
      rw [r.deleteInventoryServer_skip cr m hs, r.deleteCRs_trace_inventoryServer cr m] at he
      cases hd : r.Client.DeleteMeta m <;> simp [hd] at he
      · rcases he with he | he
        · exact Or.inr (Or.inl ⟨_, he⟩)
        · exact Or.inr (Or.inr ⟨_, he⟩)
      · exact Or.inr (Or.inl ⟨_, he⟩)

/-- C6: for every InventoryServer whose `Spec.Site` the site cache does not resolve,
`InventoryServerToInventoryServerMeta` returns no twin and the error "invalid site
'<name>'" after the one site lookup.  Every CR-phase `Reconcile` that loads this resource
issues no `Create` and no `Update` of a twin; and the reconcile that reaches the translation
(no deletion marker, valid annotations, and the twin absent with the finalizer list set or the
twin stale) makes, after the site lookup, one call: the status patch "Failure" with that
message. -/
theorem unresolved_site_yields_failure (r : InventoryServerReconciler) (cr : InventoryServer)
    (hSite : r.NStorage.SitesStorage.FindByName cr.Spec.Site = none) :
    r.InventoryServerToInventoryServerMeta cr
        = (.error ("invalid site '" ++ cr.Spec.Site ++ "'"), [.findByName .sites cr.Spec.Site])
    ∧ ∀ req : NamespacedName, r.Client.GetCR req = .found cr →
      ((∀ m, Event.createMeta m ∉ (r.Reconcile req).trace)
        ∧ (∀ m, Event.updateMeta m ∉ (r.Reconcile req).trace))
      ∧ (cr.ObjectMeta.DeletionTimestamp = none →
          inventoryServerMustUpdateAnnotations cr = false →
          ((∃ msg, r.Client.GetMeta { req with Name := cr.ObjectMeta.UID } = .notFound msg)
              ∧ cr.ObjectMeta.Finalizers ≠ none
            ∨ ∃ twin, r.Client.GetMeta { req with Name := cr.ObjectMeta.UID } = .found twin
              ∧ inventoryServerCompareFieldsForNewMeta cr twin = true) →
          (r.Reconcile req).trace
            = [.cache (.findByName .sites cr.Spec.Site),
               .patchStatus
                { cr with Status :=
                    { Status := "Failure"
                      Message := "invalid site '" ++ cr.Spec.Site ++ "'" } }
                "Failure" ("invalid site '" ++ cr.Spec.Site ++ "'")]) := by
  have hTrans : r.InventoryServerToInventoryServerMeta cr
      = (.error ("invalid site '" ++ cr.Spec.Site ++ "'"),
        [.findByName .sites cr.Spec.Site]) := by
    simp [InventoryServerReconciler.InventoryServerToInventoryServerMeta,
      InventoryServerReconciler.resolveSite, hSite, Resolved.andThen]
  have hFound : ∀ twin, inventoryServerCompareFieldsForNewMeta cr twin = true →
      (r.reconcileFound cr twin).trace
        = [.cache (.findByName .sites cr.Spec.Site),
           .patchStatus
            { cr with Status :=
                { Status := "Failure", Message := "invalid site '" ++ cr.Spec.Site ++ "'" } }
            "Failure" ("invalid site '" ++ cr.Spec.Site ++ "'")] := by
    intro twin hcmp
    simp [InventoryServerReconciler.reconcileFound, hcmp, hTrans, Outcome.after,
      uniReconciler.patchInventoryServerStatus]
  have hNotFound : cr.ObjectMeta.Finalizers ≠ none →
      (r.reconcileNotFound cr).trace
        = [.cache (.findByName .sites cr.Spec.Site),
           .patchStatus
            { cr with Status :=
                { Status := "Failure", Message := "invalid site '" ++ cr.Spec.Site ++ "'" } }
            "Failure" ("invalid site '" ++ cr.Spec.Site ++ "'")] := by
    intro hfin
    simp [InventoryServerReconciler.reconcileNotFound, hfin, hTrans, Outcome.after,
      uniReconciler.patchInventoryServerStatus]
  have hNoWrite : ∀ twin : Option InventoryServerMeta,
      (∀ m, Event.createMeta m ∉ (r.reconcileLoaded cr twin).trace)
      ∧ (∀ m, Event.updateMeta m ∉ (r.reconcileLoaded cr twin).trace) := by
    intro twin
    unfold InventoryServerReconciler.reconcileLoaded
    split
    · have hk := r.deleteInventoryServer_calls cr twin
      constructor
      · intro m hm
        cases herr : (r.deleteInventoryServer cr twin).err <;>
          simp [herr, Outcome.after, uniReconciler.patchInventoryServerStatus] at hm <;>
          rcases hk _ hm with ⟨_, h⟩ | ⟨_, h⟩ | ⟨_, h⟩ <;> cases h
      · intro m hm
        cases herr : (r.deleteInventoryServer cr twin).err <;>
          simp [herr, Outcome.after, uniReconciler.patchInventoryServerStatus] at hm <;>
          rcases hk _ hm with ⟨_, h⟩ | ⟨_, h⟩ | ⟨_, h⟩ <;> cases h
    · split
      · constructor <;> intro m <;> split <;> simp
      · cases twin with
        | some twin =>
          by_cases hcmp : inventoryServerCompareFieldsForNewMeta cr twin = true
          · simp only [hFound twin hcmp]
            constructor <;> intro m <;> simp
          · simp [InventoryServerReconciler.reconcileFound, hcmp]
        | none =>
          by_cases hfin : cr.ObjectMeta.Finalizers = none
          · simp only [InventoryServerReconciler.reconcileNotFound, hfin, if_true]
            constructor <;> intro m <;> split <;> simp
          · simp only [hNotFound hfin]
            constructor <;> intro m <;> simp
  refine ⟨hTrans, ?_⟩
  intro req hCR
  constructor
  · simp only [InventoryServerReconciler.Reconcile, hCR]
    cases r.Client.GetMeta { req with Name := cr.ObjectMeta.UID } with
    | found twin => exact hNoWrite (some twin)
    | notFound msg => exact hNoWrite none
    | error err => simp
  · intro hLive hAnn hReach
    simp only [InventoryServerReconciler.Reconcile, hCR]
    rcases hReach with ⟨⟨msg, hGet⟩, hfin⟩ | ⟨twin, hGet, hcmp⟩
    · simp only [hGet, InventoryServerReconciler.reconcileLoaded, hLive, hAnn]
      exact hNotFound hfin
    · simp only [hGet, InventoryServerReconciler.reconcileLoaded, hLive, hAnn]
      exact hFound twin hcmp

/-- Witness of C6: the InventoryServer names the site "nyc1", which the cache does not hold,
and has no twin yet; the reconcile looks the site up and patches the status "Failure" with
"invalid site 'nyc1'". -/
theorem unresolved_site_yields_failure_witness :
    (Scenario.inventoryServerReconciler (Scenario.inventoryServer "nyc1" "d" 1 false) none
        none 200).InventoryServerToInventoryServerMeta (Scenario.inventoryServer "nyc1" "d" 1 false)
      = (.error "invalid site 'nyc1'", [.findByName .sites "nyc1"])
    ∧ ((Scenario.inventoryServerReconciler (Scenario.inventoryServer "nyc1" "d" 1 false) none
        none 200).Reconcile (Scenario.request "srv1")).trace
      = [.cache (.findByName .sites "nyc1"),
         .patchStatus
          { Scenario.inventoryServer "nyc1" "d" 1 false with
            Status := { Status := "Failure", Message := "invalid site 'nyc1'" } }
          "Failure" "invalid site 'nyc1'"] := by
  have h := unresolved_site_yields_failure
    (Scenario.inventoryServerReconciler (Scenario.inventoryServer "nyc1" "d" 1 false) none
      none 200) (Scenario.inventoryServer "nyc1" "d" 1 false) rfl
  refine ⟨h.1.trans rfl, ?_⟩
  have h2 := (h.2 (Scenario.request "srv1") rfl).2 rfl rfl
    (Or.inl ⟨⟨"not found", rfl⟩, by decide⟩)
  exact h2.trans rfl


/-! ## C7: an unresolved reference aborts the translation -/

/-- C7 (`InventoryServerToInventoryServerMeta`, `ServerClusterToMeta`, `VPCToMeta`): whenever
the lookup of a reference is made and misses (site, tenant, link port; site, VPC, template,
admin tenant, server; admin tenant, guest tenant), and whenever the profile list is fetched
and holds no profile of the name with a non-zero id, the function returns an error, hence no
twin, whose message contains the name in single quotes.  The function returns a twin only
when every reference resolved: the site, each non-empty tenant, profile, VPC, template and
admin tenant, and every link port, server and guest tenant. -/
theorem unresolved_reference_aborts_translation :
    (∀ (r : InventoryServerReconciler) (cr : InventoryServer),
      (∀ name, CacheCall.findByName .sites name ∈ (r.InventoryServerToInventoryServerMeta cr).2 →
        r.NStorage.SitesStorage.FindByName name = none →
        ∃ msg, (r.InventoryServerToInventoryServerMeta cr).1 = .error msg
          ∧ ∃ pre post : String, msg = pre ++ "'" ++ name ++ "'" ++ post)
      ∧ (∀ name,
        CacheCall.findByName .tenants name ∈ (r.InventoryServerToInventoryServerMeta cr).2 →
        r.NStorage.TenantsStorage.FindByName name = none →
        ∃ msg, (r.InventoryServerToInventoryServerMeta cr).1 = .error msg
          ∧ ∃ pre post : String, msg = pre ++ "'" ++ name ++ "'" ++ post)
      ∧ (∀ profiles,
        CacheCall.download .inventoryProfiles ∈ (r.InventoryServerToInventoryServerMeta cr).2 →
        r.Cred.InventoryProfileGet = .ok profiles →
        InventoryServerReconciler.profileIDOf profiles cr.Spec.Profile = 0 →
        ∃ msg, (r.InventoryServerToInventoryServerMeta cr).1 = .error msg
          ∧ ∃ pre post : String, msg = pre ++ "'" ++ cr.Spec.Profile ++ "'" ++ post)
      ∧ (∀ name, CacheCall.findByName .ports name ∈ (r.InventoryServerToInventoryServerMeta cr).2 →
        r.NStorage.PortsStorage.FindByName name = none →
        ∃ msg, (r.InventoryServerToInventoryServerMeta cr).1 = .error msg
          ∧ ∃ pre post : String, msg = pre ++ "'" ++ name ++ "'" ++ post)
      ∧ (∀ m, (r.InventoryServerToInventoryServerMeta cr).1 = .ok m →
        r.NStorage.SitesStorage.FindByName cr.Spec.Site ≠ none
        ∧ (cr.Spec.Tenant ≠ "" → r.NStorage.TenantsStorage.FindByName cr.Spec.Tenant ≠ none)
        ∧ (cr.Spec.Profile ≠ "" → ∃ profiles, r.Cred.InventoryProfileGet = .ok profiles
            ∧ InventoryServerReconciler.profileIDOf profiles cr.Spec.Profile ≠ 0)
        ∧ ∀ link ∈ cr.Spec.Links, r.NStorage.PortsStorage.FindByName link.Remote ≠ none))
    ∧ (∀ (r : ServerClusterReconciler) (cr : ServerCluster),
      (∀ name, CacheCall.findByName .sites name ∈ (r.ServerClusterToMeta cr).1.2 →
        r.NStorage.SitesStorage.FindByName name = none →
        ∃ msg, (r.ServerClusterToMeta cr).1.1 = .error msg
          ∧ ∃ pre post : String, msg = pre ++ "'" ++ name ++ "'" ++ post)
      ∧ (∀ name, CacheCall.findByName .vpcs name ∈ (r.ServerClusterToMeta cr).1.2 →
        r.NStorage.VPCStorage.FindByName name = none →
        ∃ msg, (r.ServerClusterToMeta cr).1.1 = .error msg
          ∧ ∃ pre post : String, msg = pre ++ "'" ++ name ++ "'" ++ post)
      ∧ (∀ name,
        CacheCall.findByName .serverClusterTemplates name ∈ (r.ServerClusterToMeta cr).1.2 →
        (r.NStorage.ServerClusterTemplateStorage.FindByName
          r.NStorage.Cred.ServerClusterTemplateGet name).1 = none →
        ∃ msg, (r.ServerClusterToMeta cr).1.1 = .error msg
          ∧ ∃ pre post : String, msg = pre ++ "'" ++ name ++ "'" ++ post)
      ∧ (∀ name, CacheCall.findByName .tenants name ∈ (r.ServerClusterToMeta cr).1.2 →
        r.NStorage.TenantsStorage.FindByName name = none →
        ∃ msg, (r.ServerClusterToMeta cr).1.1 = .error msg
          ∧ ∃ pre post : String, msg = pre ++ "'" ++ name ++ "'" ++ post)
      ∧ (∀ name, CacheCall.findByName .hws name ∈ (r.ServerClusterToMeta cr).1.2 →
        r.NStorage.HWsStorage.FindServerByName name = none →
        ∃ msg, (r.ServerClusterToMeta cr).1.1 = .error msg
          ∧ ∃ pre post : String, msg = pre ++ "'" ++ name ++ "'" ++ post)
      ∧ (∀ m, (r.ServerClusterToMeta cr).1.1 = .ok m →
        r.NStorage.SitesStorage.FindByName cr.Spec.Site ≠ none
        ∧ (cr.Spec.VPC ≠ "" → r.NStorage.VPCStorage.FindByName cr.Spec.VPC ≠ none)
        ∧ (cr.Spec.Template ≠ "" →
            (r.NStorage.ServerClusterTemplateStorage.FindByName
              r.NStorage.Cred.ServerClusterTemplateGet cr.Spec.Template).1 ≠ none)
        ∧ (cr.Spec.Admin ≠ "" → r.NStorage.TenantsStorage.FindByName cr.Spec.Admin ≠ none)
        ∧ ∀ srv ∈ cr.Spec.Servers, r.NStorage.HWsStorage.FindServerByName srv.Name ≠ none))
    ∧ (∀ (r : VPCReconciler) (cr : VPC),
      (∀ name, CacheCall.findByName .tenants name ∈ (r.VPCToMeta cr).2 →
        r.NStorage.TenantsStorage.FindByName name = none →
        ∃ msg, (r.VPCToMeta cr).1 = .error msg
          ∧ ∃ pre post : String, msg = pre ++ "'" ++ name ++ "'" ++ post)
      ∧ (∀ m, (r.VPCToMeta cr).1 = .ok m →
        r.NStorage.TenantsStorage.FindByName cr.Spec.AdminTenant ≠ none
        ∧ ∀ name ∈ cr.Spec.GuestTenants, r.NStorage.TenantsStorage.FindByName name ≠ none)) := by
  refine ⟨?_, ?_, ?_⟩
  · intro r cr
    -- the calls of each step
    have cSite : ∀ c ∈ (r.resolveSite cr).2, c = .findByName .sites cr.Spec.Site := by
      intro c hc
      unfold InventoryServerReconciler.resolveSite at hc
      split at hc <;> simpa using hc
    have cTenant : ∀ c ∈ (r.resolveTenant cr).2, c = .findByName .tenants cr.Spec.Tenant := by
      intro c hc
      unfold InventoryServerReconciler.resolveTenant at hc
      split at hc
      · split at hc <;> simpa using hc
      · simp at hc
    have cProfile : ∀ c ∈ (r.resolveProfile cr).2, c = .download .inventoryProfiles := by
      intro c hc
      unfold InventoryServerReconciler.resolveProfile at hc
      split at hc
      · split at hc
        · simpa using hc
        · split at hc <;> simpa using hc
      · simp at hc
    have cLinks := r.resolveLinks_calls cr.Spec.Links
    refine ⟨?_, ?_, ?_, ?_, ?_⟩
    · intro name hc hMiss
      unfold InventoryServerReconciler.InventoryServerToInventoryServerMeta at hc ⊢
      refine Resolved.andThen_miss _ _ _ name ?_ ?_ hc
      · intro h
        have hn := cSite _ h
        simp only [CacheCall.findByName.injEq, true_and] at hn
        subst hn
        exact ⟨_, by simp [InventoryServerReconciler.resolveSite, hMiss],
          quoted_invalid_site _⟩
      · intro _ _ h
        refine Resolved.andThen_miss _ _ _ name (fun h => ?_) ?_ h
        · have hn := cTenant _ h; simp at hn
        · intro _ _ h
          refine Resolved.andThen_miss _ _ _ name (fun h => ?_) ?_ h
          · have hn := cProfile _ h; simp at hn
          · intro _ _ h
            refine Resolved.andThen_miss _ _ _ name (fun h => ?_) ?_ h
            · obtain ⟨n, hn⟩ := cLinks _ h; simp at hn
            · intro _ _ h; simp at h
    · intro name hc hMiss
      unfold InventoryServerReconciler.InventoryServerToInventoryServerMeta at hc ⊢
      refine Resolved.andThen_miss _ _ _ name (fun h => ?_) ?_ hc
      · have hn := cSite _ h; simp at hn
      · intro _ _ h
        refine Resolved.andThen_miss _ _ _ name ?_ ?_ h
        · intro h
          have hn := cTenant _ h
          simp only [CacheCall.findByName.injEq, true_and] at hn
          subst hn
          unfold InventoryServerReconciler.resolveTenant at h ⊢
          split
          · exact ⟨_, by simp [hMiss], quoted_invalid_tenant _⟩
          · rename_i hne; simp [hne] at h
        · intro _ _ h
          refine Resolved.andThen_miss _ _ _ name (fun h => ?_) ?_ h
          · have hn := cProfile _ h; simp at hn
          · intro _ _ h
            refine Resolved.andThen_miss _ _ _ name (fun h => ?_) ?_ h
            · obtain ⟨n, hn⟩ := cLinks _ h; simp at hn
            · intro _ _ h; simp at h
    · intro profiles hc hGet hZero
      unfold InventoryServerReconciler.InventoryServerToInventoryServerMeta at hc ⊢
      refine Resolved.andThen_miss _ _ _ cr.Spec.Profile (fun h => ?_) ?_ hc
      · have hn := cSite _ h; simp at hn
      · intro _ _ h
        refine Resolved.andThen_miss _ _ _ cr.Spec.Profile (fun h => ?_) ?_ h
        · have hn := cTenant _ h; simp at hn
        · intro _ _ h
          refine Resolved.andThen_miss _ _ _ cr.Spec.Profile ?_ ?_ h
          · intro h
            unfold InventoryServerReconciler.resolveProfile at h ⊢
            split
            · exact ⟨_, by simp [hGet, hZero], quoted_invalid_profile _⟩
            · rename_i hne; simp [hne] at h
          · intro _ _ h
            refine Resolved.andThen_miss _ _ _ cr.Spec.Profile (fun h => ?_) ?_ h
            · obtain ⟨n, hn⟩ := cLinks _ h; simp at hn
            · intro _ _ h; simp at h
    · intro name hc hMiss
      unfold InventoryServerReconciler.InventoryServerToInventoryServerMeta at hc ⊢
      refine Resolved.andThen_miss _ _ _ name (fun h => ?_) ?_ hc
      · have hn := cSite _ h; simp at hn
      · intro _ _ h
        refine Resolved.andThen_miss _ _ _ name (fun h => ?_) ?_ h
        · have hn := cTenant _ h; simp at hn
        · intro _ _ h
          refine Resolved.andThen_miss _ _ _ name (fun h => ?_) ?_ h
          · have hn := cProfile _ h; simp at hn
          · intro _ _ h
            refine Resolved.andThen_miss _ _ _ name ?_ ?_ h
            · exact r.resolveLinks_miss name hMiss cr.Spec.Links
            · intro _ _ h; simp at h
    · intro m hm
      unfold InventoryServerReconciler.InventoryServerToInventoryServerMeta at hm
      obtain ⟨siteID, h1, hm⟩ := Resolved.andThen_ok _ _ _ hm
      obtain ⟨tenantID, h2, hm⟩ := Resolved.andThen_ok _ _ _ hm
      obtain ⟨profileID, h3, hm⟩ := Resolved.andThen_ok _ _ _ hm
      obtain ⟨links, h4, _⟩ := Resolved.andThen_ok _ _ _ hm
      refine ⟨?_, ?_, ?_, r.resolveLinks_ok _ _ h4⟩
      · intro hs
        simp [InventoryServerReconciler.resolveSite, hs] at h1
      · intro hne hs
        simp [InventoryServerReconciler.resolveTenant, hne, hs] at h2
      · intro hne
        unfold InventoryServerReconciler.resolveProfile at h3
        cases hGet : r.Cred.InventoryProfileGet with
        | error err => simp [hne, hGet] at h3
        | ok profiles =>
          refine ⟨profiles, rfl, ?_⟩
          intro hz
          simp [hne, hGet, hz] at h3
  · intro r cr
    have cSite : ∀ c ∈ (r.resolveSite cr).2, c = .findByName .sites cr.Spec.Site := by
      intro c hc
      unfold ServerClusterReconciler.resolveSite at hc
      split at hc <;> simpa using hc
    have cVPC : ∀ c ∈ (r.resolveVPC cr).2, c = .findByName .vpcs cr.Spec.VPC := by
      intro c hc
      unfold ServerClusterReconciler.resolveVPC at hc
      split at hc
      · split at hc <;> simpa using hc
      · simp at hc
    have cTemplate : ∀ c ∈ (r.resolveTemplate cr).1.2,
        c = .findByName .serverClusterTemplates cr.Spec.Template
          ∨ c = .download .serverClusterTemplates := by
      intro c hc
      unfold ServerClusterReconciler.resolveTemplate at hc
      split at hc
      · rcases r.NStorage.ServerClusterTemplateStorage.FindByName_calls_templates
          r.NStorage.Cred.ServerClusterTemplateGet cr.Spec.Template with h | h
        · split at hc <;> rename_i heq <;> rw [heq] at h <;> simp only at h <;>
            simp only [h, List.mem_singleton] at hc <;> exact Or.inl hc
        · split at hc <;> rename_i heq <;> rw [heq] at h <;> simp only at h <;>
            simp only [h, List.mem_cons, List.mem_singleton, List.not_mem_nil, or_false] at hc <;>
            exact hc
      · simp at hc
    have cAdmin : ∀ c ∈ (r.resolveAdmin cr).2, c = .findByName .tenants cr.Spec.Admin := by
      intro c hc
      unfold ServerClusterReconciler.resolveAdmin at hc
      split at hc
      · split at hc <;> simpa using hc
      · simp at hc
    have cServers := r.resolveServers_calls cr.Spec.Servers
    refine ⟨?_, ?_, ?_, ?_, ?_, ?_⟩
    · intro name hc hMiss
      unfold ServerClusterReconciler.ServerClusterToMeta at hc ⊢
      dsimp only at hc ⊢
      refine Resolved.andThen_miss _ _ _ name ?_ ?_ hc
      · intro h
        have hn := cSite _ h
        simp only [CacheCall.findByName.injEq, true_and] at hn
        subst hn
        exact ⟨_, by simp [ServerClusterReconciler.resolveSite, hMiss],
          (quoted_couldnt_find _).1⟩
      · intro _ _ h
        refine Resolved.andThen_miss _ _ _ name (fun h => ?_) ?_ h
        · have hn := cVPC _ h; simp at hn
        · intro _ _ h
          refine Resolved.andThen_miss _ _ _ name (fun h => ?_) ?_ h
          · have hn := cTemplate _ h; simp at hn
          · intro _ _ h
            refine Resolved.andThen_miss _ _ _ name (fun h => ?_) ?_ h
            · have hn := cAdmin _ h; simp at hn
            · intro _ _ h
              refine Resolved.andThen_miss _ _ _ name (fun h => ?_) ?_ h
              · obtain ⟨n, hn⟩ := cServers _ h; simp at hn
              · intro _ _ h; simp at h
    · intro name hc hMiss
      unfold ServerClusterReconciler.ServerClusterToMeta at hc ⊢
      dsimp only at hc ⊢
      refine Resolved.andThen_miss _ _ _ name (fun h => ?_) ?_ hc
      · have hn := cSite _ h; simp at hn
      · intro _ _ h
        refine Resolved.andThen_miss _ _ _ name ?_ ?_ h
        · intro h
          have hn := cVPC _ h
          simp only [CacheCall.findByName.injEq, true_and] at hn
          subst hn
          unfold ServerClusterReconciler.resolveVPC at h ⊢
          split
          · exact ⟨_, by simp [hMiss], (quoted_couldnt_find _).2.1⟩
          · rename_i hne; simp [hne] at h
        · intro _ _ h
          refine Resolved.andThen_miss _ _ _ name (fun h => ?_) ?_ h
          · have hn := cTemplate _ h; simp at hn
          · intro _ _ h
            refine Resolved.andThen_miss _ _ _ name (fun h => ?_) ?_ h
            · have hn := cAdmin _ h; simp at hn
            · intro _ _ h
              refine Resolved.andThen_miss _ _ _ name (fun h => ?_) ?_ h
              · obtain ⟨n, hn⟩ := cServers _ h; simp at hn
              · intro _ _ h; simp at h
    · intro name hc hMiss
      unfold ServerClusterReconciler.ServerClusterToMeta at hc ⊢
      dsimp only at hc ⊢
      refine Resolved.andThen_miss _ _ _ name (fun h => ?_) ?_ hc
      · have hn := cSite _ h; simp at hn
      · intro _ _ h
        refine Resolved.andThen_miss _ _ _ name (fun h => ?_) ?_ h
        · have hn := cVPC _ h; simp at hn
        · intro _ _ h
          refine Resolved.andThen_miss _ _ _ name ?_ ?_ h
          · intro h
            have hn := cTemplate _ h
            simp only [CacheCall.findByName.injEq, true_and, reduceCtorEq, or_false] at hn
            subst hn
            unfold ServerClusterReconciler.resolveTemplate at h ⊢
            split
            · rcases hf : r.NStorage.ServerClusterTemplateStorage.FindByName
                r.NStorage.Cred.ServerClusterTemplateGet cr.Spec.Template with
                    ⟨found, storage, calls⟩
              rw [hf] at hMiss
              simp only at hMiss
              subst hMiss
              exact ⟨_, rfl, (quoted_couldnt_find _).2.2.1⟩
            · rename_i hne; simp [hne] at h
          · intro _ _ h
            refine Resolved.andThen_miss _ _ _ name (fun h => ?_) ?_ h
            · have hn := cAdmin _ h; simp at hn
            · intro _ _ h
              refine Resolved.andThen_miss _ _ _ name (fun h => ?_) ?_ h
              · obtain ⟨n, hn⟩ := cServers _ h; simp at hn
              · intro _ _ h; simp at h
    · intro name hc hMiss
      unfold ServerClusterReconciler.ServerClusterToMeta at hc ⊢
      dsimp only at hc ⊢
      refine Resolved.andThen_miss _ _ _ name (fun h => ?_) ?_ hc
      · have hn := cSite _ h; simp at hn
      · intro _ _ h
        refine Resolved.andThen_miss _ _ _ name (fun h => ?_) ?_ h
        · have hn := cVPC _ h; simp at hn
        · intro _ _ h
          refine Resolved.andThen_miss _ _ _ name (fun h => ?_) ?_ h
          · have hn := cTemplate _ h; simp at hn
          · intro _ _ h
            refine Resolved.andThen_miss _ _ _ name ?_ ?_ h
            · intro h
              have hn := cAdmin _ h
              simp only [CacheCall.findByName.injEq, true_and] at hn
              subst hn
              unfold ServerClusterReconciler.resolveAdmin at h ⊢
              split
              · exact ⟨_, by simp [hMiss], (quoted_couldnt_find _).2.2.2.1⟩
              · rename_i hne; simp [hne] at h
            · intro _ _ h
              refine Resolved.andThen_miss _ _ _ name (fun h => ?_) ?_ h
              · obtain ⟨n, hn⟩ := cServers _ h; simp at hn
              · intro _ _ h; simp at h
    · intro name hc hMiss
      unfold ServerClusterReconciler.ServerClusterToMeta at hc ⊢
      dsimp only at hc ⊢
      refine Resolved.andThen_miss _ _ _ name (fun h => ?_) ?_ hc
      · have hn := cSite _ h; simp at hn
      · intro _ _ h
        refine Resolved.andThen_miss _ _ _ name (fun h => ?_) ?_ h
        · have hn := cVPC _ h; simp at hn
        · intro _ _ h
          refine Resolved.andThen_miss _ _ _ name (fun h => ?_) ?_ h
          · have hn := cTemplate _ h; simp at hn
          · intro _ _ h
            refine Resolved.andThen_miss _ _ _ name (fun h => ?_) ?_ h
            · have hn := cAdmin _ h; simp at hn
            · intro _ _ h
              refine Resolved.andThen_miss _ _ _ name ?_ ?_ h
              · exact r.resolveServers_miss name hMiss cr.Spec.Servers
              · intro _ _ h; simp at h
    · intro m hm
      unfold ServerClusterReconciler.ServerClusterToMeta at hm
      dsimp only at hm
      obtain ⟨site, h1, hm⟩ := Resolved.andThen_ok _ _ _ hm
      obtain ⟨vpc, h2, hm⟩ := Resolved.andThen_ok _ _ _ hm
      obtain ⟨template, h3, hm⟩ := Resolved.andThen_ok _ _ _ hm
      obtain ⟨admin, h4, hm⟩ := Resolved.andThen_ok _ _ _ hm
      obtain ⟨servers, h5, _⟩ := Resolved.andThen_ok _ _ _ hm
      refine ⟨?_, ?_, ?_, ?_, r.resolveServers_ok _ _ h5⟩
      · intro hs
        simp [ServerClusterReconciler.resolveSite, hs] at h1
      · intro hne hs
        simp [ServerClusterReconciler.resolveVPC, hne, hs] at h2
      · intro hne hs
        unfold ServerClusterReconciler.resolveTemplate at h3
        rcases hf : r.NStorage.ServerClusterTemplateStorage.FindByName
          r.NStorage.Cred.ServerClusterTemplateGet cr.Spec.Template with ⟨found, storage, calls⟩
        rw [hf] at hs h3
        simp only at hs
        subst hs
        simp [hne] at h3
      · intro hne hs
        simp [ServerClusterReconciler.resolveAdmin, hne, hs] at h4
  · intro r cr
    have cAdmin : ∀ c ∈ (r.resolveAdminTenant cr).2,
        c = .findByName .tenants cr.Spec.AdminTenant := by
      intro c hc
      unfold VPCReconciler.resolveAdminTenant at hc
      split at hc <;> simpa using hc
    refine ⟨?_, ?_⟩
    · intro name hc hMiss
      unfold VPCReconciler.VPCToMeta at hc ⊢
      refine Resolved.andThen_miss _ _ _ name ?_ ?_ hc
      · intro h
        have hn := cAdmin _ h
        simp only [CacheCall.findByName.injEq, true_and] at hn
        subst hn
        exact ⟨_, by simp [VPCReconciler.resolveAdminTenant, hMiss],
          (quoted_couldnt_find _).2.2.2.1⟩
      · intro _ _ h
        refine Resolved.andThen_miss _ _ _ name ?_ ?_ h
        · exact r.resolveGuestTenants_miss name hMiss cr.Spec.GuestTenants
        · intro _ _ h; simp at h
    · intro m hm
      unfold VPCReconciler.VPCToMeta at hm
      obtain ⟨admin, h1, hm⟩ := Resolved.andThen_ok _ _ _ hm
      obtain ⟨guests, h2, _⟩ := Resolved.andThen_ok _ _ _ hm
      refine ⟨?_, r.resolveGuestTenants_ok _ _ h2⟩
      intro hs
      simp [VPCReconciler.resolveAdminTenant, hs] at h1


/-- Witness of C7: an InventoryServer and a ServerCluster at the unknown site "nyc1" and a VPC
of the unknown admin tenant "ghost"; each translation returns an error that quotes the
name. -/
theorem unresolved_reference_aborts_translation_witness :
    (∃ msg,
      ((Scenario.inventoryServerReconciler (Scenario.inventoryServer "nyc1" "d" 1 false) none
        none 200).InventoryServerToInventoryServerMeta
        (Scenario.inventoryServer "nyc1" "d" 1 false)).1 = .error msg
      ∧ ∃ pre post : String, msg = pre ++ "'" ++ "nyc1" ++ "'" ++ post)
    ∧ (∃ msg,
      ((Scenario.serverClusterReconciler (Scenario.serverCluster "nyc1" 1 false) none
        none 200).ServerClusterToMeta (Scenario.serverCluster "nyc1" 1 false)).1.1 = .error msg
      ∧ ∃ pre post : String, msg = pre ++ "'" ++ "nyc1" ++ "'" ++ post)
    ∧ (∃ msg,
      ((Scenario.vpcReconciler (Scenario.vpc "ghost" 1) none none 200).VPCToMeta
        (Scenario.vpc "ghost" 1)).1 = .error msg
      ∧ ∃ pre post : String, msg = pre ++ "'" ++ "ghost" ++ "'" ++ post) :=
  ⟨(unresolved_reference_aborts_translation.1
      (Scenario.inventoryServerReconciler (Scenario.inventoryServer "nyc1" "d" 1 false) none
        none 200) (Scenario.inventoryServer "nyc1" "d" 1 false)).1 "nyc1" (by decide) rfl,
    (unresolved_reference_aborts_translation.2.1
      (Scenario.serverClusterReconciler (Scenario.serverCluster "nyc1" 1 false) none
        none 200) (Scenario.serverCluster "nyc1" 1 false)).1 "nyc1" (by decide) rfl,
    (unresolved_reference_aborts_translation.2.2
      (Scenario.vpcReconciler (Scenario.vpc "ghost" 1) none none 200)
      (Scenario.vpc "ghost" 1)).1 "ghost" (by decide) rfl⟩


/-! ## C8: a changed description is pushed with one update -/

/-- C8, as the code has it: in an InventoryServerMeta reconcile that has loaded the twin and
its desired resource, for a twin without deletion marker with `ID != 0` whose remote server is
found by id and differs from the twin only in `Description`, the calls are the lookup, then
one remote UpdateServer call with the id of the twin and the payload
`InventoryServerMetaToNetrisUpdate(twin)`, whose `Description` is the one of the twin, then no
further remote Update and no remote Add call.  On a successful reply the reconcile ends with
the status patch OK / "Success" when the back-fill of the desired resource returns no error,
and with the status patch "Failure" with that error when the patch of the back-fill fails. -/
theorem changed_description_issues_one_update (r : InventoryServerMetaReconciler)
    (req : NamespacedName) (cr : InventoryServer) (twin : InventoryServerMeta) (api : HW)
    (payload : HWServer)
    (hTwin : r.Client.GetMeta req = .found twin)
    (hCR : r.Client.GetCR { req with Name := twin.Spec.InventoryServerName } = .found cr)
    (hLive : twin.ObjectMeta.DeletionTimestamp = none)
    (hID : twin.Spec.ID ≠ 0)
    (hFind : r.NStorage.HWsStorage.FindServerByID twin.Spec.ID = some api)
    (hDescription : api.Description ≠ twin.Spec.Description)
    (hName : api.Name = twin.Spec.InventoryServerName)
    (hTenant : api.Tenant.ID = twin.Spec.TenantID)
    (hSite : api.Site.ID = twin.Spec.SiteID)
    (hProfile : api.Profile.ID = twin.Spec.ProfileID)
    (hAsn : api.Asn = twin.Spec.ASN)
    (hMainIP : api.MainIP.Address = twin.Spec.MainIP)
    (hMgmtIP : api.MgmtIP.Address = twin.Spec.MgmtIP)
    (hPorts : api.PortCount = twin.Spec.PortsCount)
    (hUUID : api.UUID = twin.Spec.UUID)
    (hLinks : api.Links = twin.Spec.Links)
    (hCustomData : api.CustomData = twin.Spec.CustomData)
    (hTags : api.Tags = twin.Spec.Tags)
    (hRole : api.SRVRole = twin.Spec.SRVRole)
    (hPayload : InventoryServerMetaToNetrisUpdate twin = .ok payload) :
    payload.Description = twin.Spec.Description
    ∧ ∃ rest, (r.Reconcile req).trace
        = .cache (.findByID .hws twin.Spec.ID) :: .remoteUpdate twin.Spec.ID payload :: rest
      ∧ (∀ id p, Event.remoteUpdate id p ∉ rest)
      ∧ (∀ p, Event.remoteAdd p ∉ (r.Reconcile req).trace)
      ∧ ∀ reply resp, r.Cred.Inventory.Update twin.Spec.ID payload = .ok reply →
          reply.ParseAPIResponse = .ok resp → resp.IsSuccess = true →
          ((r.uni.updateInventoryServerIfNecessary cr twin).err = none →
            ∃ cr', (r.Reconcile req).trace.getLast? = some (.patchStatus cr' "OK" "Success"))
          ∧ ∀ err, (r.uni.updateInventoryServerIfNecessary cr twin).err = some err →
            ∃ cr', (r.Reconcile req).trace.getLast?
              = some (.patchStatus cr' "Failure" err) := by
  have hne : (twin.Spec.ID == 0) = false := by simpa using hID
  have hfill : InventoryServerMetaReconciler.fillFromAPI twin api = twin := by
    obtain ⟨om, spec⟩ := twin
    obtain ⟨_, _, _, _, _, _, _, _, _, mainIP, mgmtIP, asn, _, _, _, _, _, _⟩ := spec
    simp only at hAsn hMainIP hMgmtIP
    subst hAsn hMainIP hMgmtIP
    simp only [InventoryServerMetaReconciler.fillFromAPI]
    split <;> split <;> split <;> rfl
  have hcmp : compareInventoryServerMetaAPIServer twin api = false := by
    simp [compareInventoryServerMetaAPIServer, hName, hDescription]
  have hdesc : payload.Description = twin.Spec.Description := by
    simp only [InventoryServerMetaToNetrisUpdate, Except.ok.injEq] at hPayload
    rw [← hPayload]
  refine ⟨hdesc, ?_⟩
  have hrec : r.Reconcile req =
      match updateInventoryServer twin.Spec.ID payload r.Cred with
      | (some (_, errMsg), calls) =>
        (r.uni.patchInventoryServerStatus cr "Failure" errMsg).after
          ([.cache (.findByID .hws twin.Spec.ID)] ++ calls)
      | (none, calls) => r.finish cr twin ([.cache (.findByID .hws twin.Spec.ID)] ++ calls) := by
    rw [r.Reconcile_loaded_inventoryServerMeta req cr twin hTwin hCR]
    simp only [InventoryServerMetaReconciler.reconcileLoaded, hLive, hne, hFind,
      InventoryServerMetaReconciler.syncFound, hfill, hcmp, hPayload]
    rfl
  rw [hrec]
  have hcalls := updateInventoryServer_calls twin.Spec.ID payload r.Cred
  rcases hu : updateInventoryServer twin.Spec.ID payload r.Cred with ⟨res, calls⟩
  rw [hu] at hcalls
  simp only at hcalls
  subst hcalls
  cases res with
  | some errs =>
    obtain ⟨e, errMsg⟩ := errs
    refine ⟨_, rfl, by simp [uniReconciler.patchInventoryServerStatus],
      by simp [Outcome.after, uniReconciler.patchInventoryServerStatus], ?_⟩
    intro reply resp h1 h2 h3
    have := updateInventoryServer_ok twin.Spec.ID payload r.Cred reply resp h1 h2 h3
    rw [hu] at this
    cases this
  | none =>
    simp only []
    cases herr : (r.uni.updateInventoryServerIfNecessary cr twin).err with
    | none =>
      rw [r.finish_trace_ok cr _ _ herr]
      rcases r.uni.updateInventoryServerIfNecessary_trace cr twin with h0 | ⟨c, h1⟩
      · rw [h0]
        refine ⟨_, rfl, by simp, by simp, ?_⟩
        intro _ _ _ _ _
        exact ⟨fun _ => ⟨_, getLast?_append_one _ _⟩, fun err he => by cases he⟩
      · rw [h1]
        refine ⟨_, rfl, by simp, by simp, ?_⟩
        intro _ _ _ _ _
        exact ⟨fun _ => ⟨_, getLast?_append_one _ _⟩, fun err he => by cases he⟩
    | some e =>
      rw [r.finish_trace_err cr _ _ e herr]
      rcases r.uni.updateInventoryServerIfNecessary_trace cr twin with h0 | ⟨c, h1⟩
      · rw [h0]
        refine ⟨_, rfl, by simp, by simp, ?_⟩
        intro _ _ _ _ _
        refine ⟨fun he => (by cases he), fun err he => ?_⟩
        cases he
        exact ⟨_, getLast?_append_one _ _⟩
      · rw [h1]
        refine ⟨_, rfl, by simp, by simp, ?_⟩
        intro _ _ _ _ _
        refine ⟨fun he => (by cases he), fun err he => ?_⟩
        cases he
        exact ⟨_, getLast?_append_one _ _⟩


/-- The theorem of C8 at the twin 7 with description "new" whose remote server has the
description "old": the remote update is answered with 200, the back-fill patch succeeds and
the reconcile ends with the status patch OK / "Success". -/
theorem changed_description_issues_one_update_witness :
    (Scenario.inventoryServerMeta 7 2 "new" "10.0.0.1" false false).Spec.ID ≠ 0
    ∧ (Scenario.hw 7 "old" "10.0.0.1").Description
        ≠ (Scenario.inventoryServerMeta 7 2 "new" "10.0.0.1" false false).Spec.Description
    ∧ (∃ payload rest, payload.Description = "new"
        ∧ ((Scenario.inventoryServerMetaReconciler (Scenario.inventoryServer "sfo1" "new" 2 false)
            (Scenario.inventoryServerMeta 7 2 "new" "10.0.0.1" false false) none 200
            [Scenario.hw 7 "old" "10.0.0.1"]).Reconcile (Scenario.request "uid-1")).trace
          = .cache (.findByID .hws 7) :: .remoteUpdate 7 payload :: rest
        ∧ ∀ id p, Event.remoteUpdate id p ∉ rest)
    ∧ ∃ cr',
        ((Scenario.inventoryServerMetaReconciler (Scenario.inventoryServer "sfo1" "new" 2 false)
          (Scenario.inventoryServerMeta 7 2 "new" "10.0.0.1" false false) none 200
          [Scenario.hw 7 "old" "10.0.0.1"]).Reconcile (Scenario.request "uid-1")).trace.getLast?
          = some (.patchStatus cr' "OK" "Success") := by
  have h := changed_description_issues_one_update
    (Scenario.inventoryServerMetaReconciler (Scenario.inventoryServer "sfo1" "new" 2 false)
      (Scenario.inventoryServerMeta 7 2 "new" "10.0.0.1" false false) none 200
      [Scenario.hw 7 "old" "10.0.0.1"]) (Scenario.request "uid-1")
    (Scenario.inventoryServer "sfo1" "new" 2 false)
    (Scenario.inventoryServerMeta 7 2 "new" "10.0.0.1" false false)
    (Scenario.hw 7 "old" "10.0.0.1") _ rfl rfl rfl (by decide) rfl (by decide) rfl rfl rfl rfl
    rfl rfl rfl rfl rfl rfl rfl rfl rfl rfl
  obtain ⟨hd, rest, ht, hr, _, hs⟩ := h
  exact ⟨by decide, by decide, ⟨_, rest, hd, ht, hr⟩, (hs _ _ rfl rfl rfl).1 rfl⟩

/-- C8 as stated fails: the twin 7 with description "new" differs from its remote server
(description "old") only in the description and the remote update is answered with 200, but
the patch that back-fills the addresses of the desired resource fails with "conflict", and the
reconcile ends with the status patch "Failure" / "conflict", not OK / "Success". -/
theorem changed_description_counterexample :
    (Scenario.inventoryServerMeta 7 2 "new" "10.0.0.1" false false).Spec.ID ≠ 0
    ∧ (Scenario.inventoryServerMetaReconciler (Scenario.inventoryServer "sfo1" "new" 2 false)
        (Scenario.inventoryServerMeta 7 2 "new" "10.0.0.1" false false) (some "conflict") 200
        [Scenario.hw 7 "old" "10.0.0.1"]).NStorage.HWsStorage.FindServerByID 7
        = some (Scenario.hw 7 "old" "10.0.0.1")
    ∧ { Scenario.hw 7 "old" "10.0.0.1" with Description := "new" } = Scenario.hw 7 "new" "10.0.0.1"
    ∧ compareInventoryServerMetaAPIServer
        (Scenario.inventoryServerMeta 7 2 "new" "10.0.0.1" false false)
        (Scenario.hw 7 "new" "10.0.0.1") = true
    ∧ (∀ p, (Scenario.cred 200).Inventory.Update 7 p = .ok (Scenario.reply 200 (some 42)))
    ∧ (Scenario.reply 200 (some 42)).ParseAPIResponse
        = .ok { IsSuccess := true, StatusCode := 200, Message := "reply" }
    ∧ (∃ cr',
        ((Scenario.inventoryServerMetaReconciler (Scenario.inventoryServer "sfo1" "new" 2 false)
          (Scenario.inventoryServerMeta 7 2 "new" "10.0.0.1" false false) (some "conflict") 200
          [Scenario.hw 7 "old" "10.0.0.1"]).Reconcile (Scenario.request "uid-1")).trace.getLast?
          = some (.patchStatus cr' "Failure" "conflict"))
    ∧ ¬ ∃ cr',
        ((Scenario.inventoryServerMetaReconciler (Scenario.inventoryServer "sfo1" "new" 2 false)
          (Scenario.inventoryServerMeta 7 2 "new" "10.0.0.1" false false) (some "conflict") 200
          [Scenario.hw 7 "old" "10.0.0.1"]).Reconcile (Scenario.request "uid-1")).trace.getLast?
          = some (.patchStatus cr' "OK" "Success") := by
  have hlast : ∃ cr',
      ((Scenario.inventoryServerMetaReconciler (Scenario.inventoryServer "sfo1" "new" 2 false)
        (Scenario.inventoryServerMeta 7 2 "new" "10.0.0.1" false false) (some "conflict") 200
        [Scenario.hw 7 "old" "10.0.0.1"]).Reconcile (Scenario.request "uid-1")).trace.getLast?
        = some (.patchStatus cr' "Failure" "conflict") := ⟨_, rfl⟩
  refine ⟨by decide, rfl, rfl, rfl, fun _ => rfl, rfl, hlast, ?_⟩
  obtain ⟨x, hx⟩ := hlast
  rintro ⟨cr', h⟩
  rw [hx] at h
  simp at h

/-! ## C9: adoption of an imported remote entity -/

/-- C9 (InventoryServerMeta, ServerClusterMeta, ServerClusterTemplateMeta, VPCMeta): in a
Meta-phase reconcile that has loaded the twin and its desired resource, for a twin without
deletion marker with `Imported == true` and `ID == 0` whose by-name lookup finds the remote
entity `api`: after the calls of the lookup the twin is patched with `Spec.ID == api.ID`
(for an InventoryServerMeta also with the addresses and the ASN of the remote server), and no
remote Add call is issued in that reconcile. -/
theorem imported_twin_adopts_remote_id :
    (∀ (r : InventoryServerMetaReconciler) (req : NamespacedName) (cr : InventoryServer)
        (twin : InventoryServerMeta) (api : HW),
        r.Client.GetMeta req = .found twin →
        r.Client.GetCR { req with Name := twin.Spec.InventoryServerName } = .found cr →
        twin.ObjectMeta.DeletionTimestamp = none →
        twin.Spec.Imported = true → twin.Spec.ID = 0 →
        r.NStorage.HWsStorage.FindServerByName twin.Spec.InventoryServerName = some api →
        (∃ m : InventoryServerMeta, Event.patchMeta m ∈ (r.Reconcile req).trace
          ∧ m.Spec.ID = api.ID
          ∧ m = { twin with Spec := { twin.Spec with
              ID := api.ID, MainIP := api.MainIP.Address, MgmtIP := api.MgmtIP.Address
              ASN := api.Asn } })
        ∧ ∀ p, Event.remoteAdd p ∉ (r.Reconcile req).trace)
    ∧ (∀ (r : ServerClusterMetaReconciler) (req : NamespacedName) (cr : ServerCluster)
        (twin : ServerClusterMeta) (api : RemoteServerCluster),
        r.Client.GetMeta req = .found twin →
        r.Client.GetCR { req with Name := twin.Spec.ServerClusterName } = .found cr →
        twin.ObjectMeta.DeletionTimestamp = none →
        twin.Spec.Imported = true → twin.Spec.ID = 0 →
        (r.NStorage.ServerClusterStorage.FindByName r.NStorage.Cred.ServerClusterGet
          twin.Spec.ServerClusterName).1 = some api →
        (∃ m : ServerClusterMeta, Event.patchMeta m ∈ (r.Reconcile req).1.trace
          ∧ m.Spec.ID = api.ID
          ∧ m = { twin with Spec := { twin.Spec with ID := api.ID } })
        ∧ ∀ p, Event.remoteAdd p ∉ (r.Reconcile req).1.trace)
    ∧ (∀ (r : ServerClusterTemplateMetaReconciler) (req : NamespacedName)
        (cr : ServerClusterTemplate) (twin : ServerClusterTemplateMeta)
        (api : RemoteServerClusterTemplate),
        r.Client.GetMeta req = .found twin →
        r.Client.GetCR { req with Name := twin.Spec.ServerClusterTemplateName } = .found cr →
        twin.ObjectMeta.DeletionTimestamp = none →
        twin.Spec.Imported = true → twin.Spec.ID = 0 →
        (r.NStorage.ServerClusterTemplateStorage.FindByName
          r.NStorage.Cred.ServerClusterTemplateGet twin.Spec.ServerClusterTemplateName).1
          = some api →
        (∃ m : ServerClusterTemplateMeta, Event.patchMeta m ∈ (r.Reconcile req).1.trace
          ∧ m.Spec.ID = api.ID
          ∧ m = { twin with Spec := { twin.Spec with ID := api.ID } })
        ∧ ∀ p, Event.remoteAdd p ∉ (r.Reconcile req).1.trace)
    ∧ (∀ (r : VPCMetaReconciler) (req : NamespacedName) (cr : VPC) (twin : VPCMeta)
        (api : RemoteVPC),
        r.Client.GetMeta req = .found twin →
        r.Client.GetCR { req with Name := twin.Spec.VPCName } = .found cr →
        twin.ObjectMeta.DeletionTimestamp = none →
        twin.Spec.Imported = true → twin.Spec.ID = 0 →
        r.NStorage.VPCStorage.FindByName twin.Spec.VPCName = some api →
        (∃ m : VPCMeta, Event.patchMeta m ∈ (r.Reconcile req).trace
          ∧ m.Spec.ID = api.ID
          ∧ m = { twin with Spec := { twin.Spec with ID := api.ID } })
        ∧ ∀ p, Event.remoteAdd p ∉ (r.Reconcile req).trace) := by
  refine ⟨?_, ?_, ?_, ?_⟩
  · intro r req cr twin api hTwin hCR hLive hImp hID hFind
    rw [r.Reconcile_loaded_inventoryServerMeta req cr twin hTwin hCR]
    simp only [InventoryServerMetaReconciler.reconcileLoaded, hLive, hID, hImp,
      InventoryServerMetaReconciler.importByName, hFind]
    refine ⟨⟨_, ?_, rfl, rfl⟩, ?_⟩
    · cases r.Client.PatchMeta _ <;>
        simp [Outcome.after, uniReconciler.patchInventoryServerStatus]
    · intro p
      cases r.Client.PatchMeta _ <;>
        simp [Outcome.after, uniReconciler.patchInventoryServerStatus]
  · intro r req cr twin api hTwin hCR hLive hImp hID hFind
    rcases hf : r.NStorage.ServerClusterStorage.FindByName r.NStorage.Cred.ServerClusterGet
      twin.Spec.ServerClusterName with ⟨found, storage, calls⟩
    rw [hf] at hFind
    change found = some api at hFind
    subst hFind
    rw [r.Reconcile_loaded_serverClusterMeta req cr twin hTwin hCR]
    simp only [ServerClusterMetaReconciler.reconcileLoaded, hLive, hID, hImp, hf,
      ServerClusterMetaReconciler.importByName]
    refine ⟨⟨_, ?_, rfl, rfl⟩, ?_⟩
    · cases r.Client.PatchMeta _ <;>
        simp [Outcome.after, uniReconciler.patchServerClusterStatus]
    · intro p
      cases r.Client.PatchMeta _ <;>
        simp [Outcome.after, uniReconciler.patchServerClusterStatus]
  · intro r req cr twin api hTwin hCR hLive hImp hID hFind
    rcases hf : r.NStorage.ServerClusterTemplateStorage.FindByName
      r.NStorage.Cred.ServerClusterTemplateGet twin.Spec.ServerClusterTemplateName
      with ⟨found, storage, calls⟩
    rw [hf] at hFind
    change found = some api at hFind
    subst hFind
    rw [r.Reconcile_loaded_templateMeta req cr twin hTwin hCR]
    simp only [ServerClusterTemplateMetaReconciler.reconcileLoaded, hLive, hID, hImp, hf,
      ServerClusterTemplateMetaReconciler.importByName]
    refine ⟨⟨_, ?_, rfl, rfl⟩, ?_⟩
    · cases r.Client.PatchMeta _ <;>
        simp [Outcome.after, uniReconciler.patchServerClusterTemplateStatus]
    · intro p
      cases r.Client.PatchMeta _ <;>
        simp [Outcome.after, uniReconciler.patchServerClusterTemplateStatus]
  · intro r req cr twin api hTwin hCR hLive hImp hID hFind
    rw [r.Reconcile_loaded_vpcMeta req cr twin hTwin hCR]
    simp only [VPCMetaReconciler.reconcileLoaded, hLive, hID, hImp, hFind,
      VPCMetaReconciler.importByName]
    refine ⟨⟨_, ?_, rfl, rfl⟩, ?_⟩
    · cases r.Client.PatchMeta _ <;>
        simp [Outcome.after, uniReconciler.patchVPCStatus]
    · intro p
      cases r.Client.PatchMeta _ <;>
        simp [Outcome.after, uniReconciler.patchVPCStatus]

/-- Witness of C9: imported twins with `ID == 0` whose remote entity of the same name has the
id 42; each reconcile patches the twin with `Spec.ID == 42`. -/
theorem imported_twin_adopts_remote_id_witness :
    (∃ m : InventoryServerMeta,
      Event.patchMeta m ∈
        ((Scenario.inventoryServerMetaReconciler (Scenario.inventoryServer "sfo1" "d" 2 false)
          (Scenario.inventoryServerMeta 0 2 "d" "" true false) none 200
          [Scenario.hw 42 "d" "10.0.0.1"]).Reconcile (Scenario.request "uid-1")).trace
      ∧ m.Spec.ID = 42)
    ∧ (∃ m : ServerClusterMeta,
      Event.patchMeta m ∈
        ((Scenario.serverClusterMetaReconciler (Scenario.serverCluster "sfo1" 2 false)
          (Scenario.serverClusterMeta 0 2 true false) none 200
          [Scenario.remoteCluster 42]).Reconcile (Scenario.request "uid-2")).1.trace
      ∧ m.Spec.ID = 42)
    ∧ (∃ m : ServerClusterTemplateMeta,
      Event.patchMeta m ∈
        ((Scenario.templateMetaReconciler (Scenario.template 2 false)
          (Scenario.templateMeta 0 2 true false) none 200
          [Scenario.remoteTemplate 42]).Reconcile (Scenario.request "uid-3")).1.trace
      ∧ m.Spec.ID = 42)
    ∧ (∃ m : VPCMeta,
      Event.patchMeta m ∈
        ((Scenario.vpcMetaReconciler (Scenario.vpc "admin" 2) (Scenario.vpcMeta 0 2 true) none
          200 [Scenario.remoteVPC 42]).Reconcile (Scenario.request "uid-4")).trace
      ∧ m.Spec.ID = 42) := by
  refine ⟨?_, ?_, ?_, ?_⟩
  · obtain ⟨⟨m, hm, hid, _⟩, _⟩ := imported_twin_adopts_remote_id.1
      (Scenario.inventoryServerMetaReconciler (Scenario.inventoryServer "sfo1" "d" 2 false)
        (Scenario.inventoryServerMeta 0 2 "d" "" true false) none 200
        [Scenario.hw 42 "d" "10.0.0.1"]) (Scenario.request "uid-1") _ _
      (Scenario.hw 42 "d" "10.0.0.1") rfl rfl rfl rfl rfl rfl
    exact ⟨m, hm, hid⟩
  · obtain ⟨⟨m, hm, hid, _⟩, _⟩ := imported_twin_adopts_remote_id.2.1
      (Scenario.serverClusterMetaReconciler (Scenario.serverCluster "sfo1" 2 false)
        (Scenario.serverClusterMeta 0 2 true false) none 200 [Scenario.remoteCluster 42])
      (Scenario.request "uid-2") _ _ (Scenario.remoteCluster 42) rfl rfl rfl rfl rfl rfl
    exact ⟨m, hm, hid⟩
  · obtain ⟨⟨m, hm, hid, _⟩, _⟩ := imported_twin_adopts_remote_id.2.2.1
      (Scenario.templateMetaReconciler (Scenario.template 2 false)
        (Scenario.templateMeta 0 2 true false) none 200 [Scenario.remoteTemplate 42])
      (Scenario.request "uid-3") _ _ (Scenario.remoteTemplate 42) rfl rfl rfl rfl rfl rfl
    exact ⟨m, hm, hid⟩
  · obtain ⟨⟨m, hm, hid, _⟩, _⟩ := imported_twin_adopts_remote_id.2.2.2
      (Scenario.vpcMetaReconciler (Scenario.vpc "admin" 2) (Scenario.vpcMeta 0 2 true) none
        200 [Scenario.remoteVPC 42]) (Scenario.request "uid-4") _ _ (Scenario.remoteVPC 42)
      rfl rfl rfl rfl rfl rfl
    exact ⟨m, hm, hid⟩


/-! ## C10: how a Meta-phase reconcile concludes -/

/-- C10, as the code has it (InventoryServerMeta, ServerClusterMeta,
ServerClusterTemplateMeta, VPCMeta): in a Meta-phase reconcile that has loaded the twin and
its desired resource, for a twin without deletion marker:
(1) on the successful import-adoption path (`ID == 0`, `Imported`, the remote entity found by
name, the patch of the twin succeeds) the reconcile returns a requeue after the poll interval,
its calls are the lookup and the patch of the twin, and it issues no status patch;
(2) on every other path, unless the unchecked conversion of the id in the reply to the remote
Add call panics, the last call of the reconcile is a status patch of the desired resource
with the state "OK" or "Failure". -/
theorem meta_reconcile_concludes_with_status :
    (∀ (r : InventoryServerMetaReconciler) (req : NamespacedName) (cr : InventoryServer)
        (twin : InventoryServerMeta),
        r.Client.GetMeta req = .found twin →
        r.Client.GetCR { req with Name := twin.Spec.InventoryServerName } = .found cr →
        twin.ObjectMeta.DeletionTimestamp = none →
        (∀ api, twin.Spec.ID = 0 → twin.Spec.Imported = true →
          r.NStorage.HWsStorage.FindServerByName twin.Spec.InventoryServerName = some api →
          r.Client.PatchMeta { twin with Spec := { twin.Spec with
            ID := api.ID, MainIP := api.MainIP.Address, MgmtIP := api.MgmtIP.Address
            ASN := api.Asn } } = none →
          (r.Reconcile req).ret = .returned (Result.after r.requeueInterval) none
          ∧ (r.Reconcile req).trace
            = [.cache (.findByName .hws twin.Spec.InventoryServerName),
               .patchMeta { twin with Spec := { twin.Spec with
                 ID := api.ID, MainIP := api.MainIP.Address, MgmtIP := api.MgmtIP.Address
                 ASN := api.Asn } }]
          ∧ ∀ cr' status message,
              Event.patchStatus cr' status message ∉ (r.Reconcile req).trace)
        ∧ ((∀ api, twin.Spec.ID = 0 → twin.Spec.Imported = true →
            r.NStorage.HWsStorage.FindServerByName twin.Spec.InventoryServerName = some api →
            r.Client.PatchMeta { twin with Spec := { twin.Spec with
              ID := api.ID, MainIP := api.MainIP.Address, MgmtIP := api.MgmtIP.Address
              ASN := api.Asn } } ≠ none) →
          (r.Reconcile req).ret ≠ .panicked →
          ∃ cr' status message,
            (r.Reconcile req).trace.getLast? = some (.patchStatus cr' status message)
            ∧ (status = "OK" ∨ status = "Failure")))
    ∧ (∀ (r : ServerClusterMetaReconciler) (req : NamespacedName) (cr : ServerCluster)
        (twin : ServerClusterMeta),
        r.Client.GetMeta req = .found twin →
        r.Client.GetCR { req with Name := twin.Spec.ServerClusterName } = .found cr →
        twin.ObjectMeta.DeletionTimestamp = none →
        (∀ api, twin.Spec.ID = 0 → twin.Spec.Imported = true →
          (r.NStorage.ServerClusterStorage.FindByName r.NStorage.Cred.ServerClusterGet
            twin.Spec.ServerClusterName).1 = some api →
          r.Client.PatchMeta { twin with Spec := { twin.Spec with ID := api.ID } } = none →
          (r.Reconcile req).1.ret = .returned (Result.after r.requeueInterval) none
          ∧ (r.Reconcile req).1.trace
            = (r.NStorage.ServerClusterStorage.FindByName r.NStorage.Cred.ServerClusterGet
                twin.Spec.ServerClusterName).2.2.map .cache
              ++ [.patchMeta { twin with Spec := { twin.Spec with ID := api.ID } }]
          ∧ ∀ cr' status message,
              Event.patchStatus cr' status message ∉ (r.Reconcile req).1.trace)
        ∧ ((∀ api, twin.Spec.ID = 0 → twin.Spec.Imported = true →
            (r.NStorage.ServerClusterStorage.FindByName r.NStorage.Cred.ServerClusterGet
              twin.Spec.ServerClusterName).1 = some api →
            r.Client.PatchMeta { twin with Spec := { twin.Spec with ID := api.ID } } ≠ none) →
          (r.Reconcile req).1.ret ≠ .panicked →
          ∃ cr' status message,
            (r.Reconcile req).1.trace.getLast? = some (.patchStatus cr' status message)
            ∧ (status = "OK" ∨ status = "Failure")))
    ∧ (∀ (r : ServerClusterTemplateMetaReconciler) (req : NamespacedName)
        (cr : ServerClusterTemplate) (twin : ServerClusterTemplateMeta),
        r.Client.GetMeta req = .found twin →
        r.Client.GetCR { req with Name := twin.Spec.ServerClusterTemplateName } = .found cr →
        twin.ObjectMeta.DeletionTimestamp = none →
        (∀ api, twin.Spec.ID = 0 → twin.Spec.Imported = true →
          (r.NStorage.ServerClusterTemplateStorage.FindByName
            r.NStorage.Cred.ServerClusterTemplateGet twin.Spec.ServerClusterTemplateName).1
            = some api →
          r.Client.PatchMeta { twin with Spec := { twin.Spec with ID := api.ID } } = none →
          (r.Reconcile req).1.ret = .returned (Result.after r.requeueInterval) none
          ∧ (r.Reconcile req).1.trace
            = (r.NStorage.ServerClusterTemplateStorage.FindByName
                r.NStorage.Cred.ServerClusterTemplateGet
                twin.Spec.ServerClusterTemplateName).2.2.map .cache
              ++ [.patchMeta { twin with Spec := { twin.Spec with ID := api.ID } }]
          ∧ ∀ cr' status message,
              Event.patchStatus cr' status message ∉ (r.Reconcile req).1.trace)
        ∧ ((∀ api, twin.Spec.ID = 0 → twin.Spec.Imported = true →
            (r.NStorage.ServerClusterTemplateStorage.FindByName
              r.NStorage.Cred.ServerClusterTemplateGet twin.Spec.ServerClusterTemplateName).1
              = some api →
            r.Client.PatchMeta { twin with Spec := { twin.Spec with ID := api.ID } } ≠ none) →
          (r.Reconcile req).1.ret ≠ .panicked →
          ∃ cr' status message,
            (r.Reconcile req).1.trace.getLast? = some (.patchStatus cr' status message)
            ∧ (status = "OK" ∨ status = "Failure")))
    ∧ (∀ (r : VPCMetaReconciler) (req : NamespacedName) (cr : VPC) (twin : VPCMeta),
        r.Client.GetMeta req = .found twin →
        r.Client.GetCR { req with Name := twin.Spec.VPCName } = .found cr →
        twin.ObjectMeta.DeletionTimestamp = none →
        (∀ api, twin.Spec.ID = 0 → twin.Spec.Imported = true →
          r.NStorage.VPCStorage.FindByName twin.Spec.VPCName = some api →
          r.Client.PatchMeta { twin with Spec := { twin.Spec with ID := api.ID } } = none →
          (r.Reconcile req).ret = .returned (Result.after r.requeueInterval) none
          ∧ (r.Reconcile req).trace
            = [.cache (.findByName .vpcs twin.Spec.VPCName),
               .patchMeta { twin with Spec := { twin.Spec with ID := api.ID } }]
          ∧ ∀ cr' status message,
              Event.patchStatus cr' status message ∉ (r.Reconcile req).trace)
        ∧ ((∀ api, twin.Spec.ID = 0 → twin.Spec.Imported = true →
            r.NStorage.VPCStorage.FindByName twin.Spec.VPCName = some api →
            r.Client.PatchMeta { twin with Spec := { twin.Spec with ID := api.ID } } ≠ none) →
          (r.Reconcile req).ret ≠ .panicked →
          ∃ cr' status message,
            (r.Reconcile req).trace.getLast? = some (.patchStatus cr' status message)
            ∧ (status = "OK" ∨ status = "Failure"))) := by
  refine ⟨?_, ?_, ?_, ?_⟩
  · intro r req cr twin hTwin hCR hLive
    rw [r.Reconcile_loaded_inventoryServerMeta req cr twin hTwin hCR]
    simp only [InventoryServerMetaReconciler.reconcileLoaded, hLive, Option.isSome_none,
      Bool.false_eq_true, ↓reduceIte]
    refine ⟨?_, ?_⟩
    · intro api hID hImp hFind hPatch
      have h0 : (twin.Spec.ID == 0) = true := by simp [hID]
      rw [if_pos h0, if_pos hImp]
      simp only [InventoryServerMetaReconciler.importByName, hFind, hPatch]
      exact ⟨trivial, trivial, by simp⟩
    · intro hNot hRet
      by_cases hID : twin.Spec.ID = 0
      · have h0 : (twin.Spec.ID == 0) = true := by simp [hID]
        rw [if_pos h0] at hRet ⊢
        by_cases hImp : twin.Spec.Imported = true
        · rw [if_pos hImp] at hRet ⊢
          cases hFind :
            r.NStorage.HWsStorage.FindServerByName twin.Spec.InventoryServerName with
          | some api =>
            simp only [InventoryServerMetaReconciler.importByName, hFind]
            split
            · exact ⟨_, _, _, uniReconciler.patchInventoryServerStatus_last _ _ _ _ _,
                Or.inr rfl⟩
            · rename_i hPatch
              exact absurd hPatch (hNot api hID hImp hFind)
          | none =>
            simp only [InventoryServerMetaReconciler.importByName, hFind] at hRet ⊢
            exact (r.createThenFinish_ends_inventoryServerMeta cr twin _).resolve_left hRet
        · rw [if_neg hImp] at hRet ⊢
          exact (r.createThenFinish_ends_inventoryServerMeta cr twin _).resolve_left hRet
      · have h0 : ¬ (twin.Spec.ID == 0) = true := by simp [hID]
        rw [if_neg h0] at hRet ⊢
        cases hFind : r.NStorage.HWsStorage.FindServerByID twin.Spec.ID with
        | some api => exact r.syncFound_ends_inventoryServerMeta cr twin api _
        | none =>
          rw [hFind] at hRet
          exact (r.createThenFinish_ends_inventoryServerMeta cr twin _).resolve_left hRet
  · intro r req cr twin hTwin hCR hLive
    rw [r.Reconcile_loaded_serverClusterMeta req cr twin hTwin hCR]
    simp only [ServerClusterMetaReconciler.reconcileLoaded, hLive, Option.isSome_none,
      Bool.false_eq_true, ↓reduceIte]
    refine ⟨?_, ?_⟩
    · intro api hID hImp hFind hPatch
      have h0 : (twin.Spec.ID == 0) = true := by simp [hID]
      rw [if_pos h0, if_pos hImp]
      simp only [ServerClusterMetaReconciler.importByName, hFind, hPatch]
      exact ⟨trivial, trivial, by simp⟩
    · intro hNot hRet
      by_cases hID : twin.Spec.ID = 0
      · have h0 : (twin.Spec.ID == 0) = true := by simp [hID]
        rw [if_pos h0] at hRet ⊢
        by_cases hImp : twin.Spec.Imported = true
        · rw [if_pos hImp] at hRet ⊢
          cases hFind :
            (r.NStorage.ServerClusterStorage.FindByName r.NStorage.Cred.ServerClusterGet
              twin.Spec.ServerClusterName).1 with
          | some api =>
            simp only [ServerClusterMetaReconciler.importByName, hFind]
            split
            · exact ⟨_, _, _, uniReconciler.patchServerClusterStatus_last _ _ _ _ _,
                Or.inr rfl⟩
            · rename_i hPatch
              exact absurd hPatch (hNot api hID hImp hFind)
          | none =>
            simp only [ServerClusterMetaReconciler.importByName, hFind] at hRet ⊢
            exact (r.createThenFinish_ends_serverClusterMeta cr twin _).resolve_left hRet
        · rw [if_neg hImp] at hRet ⊢
          exact (r.createThenFinish_ends_serverClusterMeta cr twin _).resolve_left hRet
      · have h0 : ¬ (twin.Spec.ID == 0) = true := by simp [hID]
        rw [if_neg h0] at hRet ⊢
        rcases hFind : r.NStorage.ServerClusterStorage.FindByID
          r.NStorage.Cred.ServerClusterGet twin.Spec.ID with ⟨found, storage, calls⟩
        rw [hFind] at hRet
        cases found with
        | some api => exact r.syncFound_ends_serverClusterMeta cr twin api _
        | none => exact (r.createThenFinish_ends_serverClusterMeta cr twin _).resolve_left hRet
  · intro r req cr twin hTwin hCR hLive
    rw [r.Reconcile_loaded_templateMeta req cr twin hTwin hCR]
    simp only [ServerClusterTemplateMetaReconciler.reconcileLoaded, hLive, Option.isSome_none,
      Bool.false_eq_true, ↓reduceIte]
    refine ⟨?_, ?_⟩
    · intro api hID hImp hFind hPatch
      have h0 : (twin.Spec.ID == 0) = true := by simp [hID]
      rw [if_pos h0, if_pos hImp]
      simp only [ServerClusterTemplateMetaReconciler.importByName, hFind, hPatch]
      exact ⟨trivial, trivial, by simp⟩
    · intro hNot hRet
      by_cases hID : twin.Spec.ID = 0
      · have h0 : (twin.Spec.ID == 0) = true := by simp [hID]
        rw [if_pos h0] at hRet ⊢
        by_cases hImp : twin.Spec.Imported = true
        · rw [if_pos hImp] at hRet ⊢
          cases hFind :
            (r.NStorage.ServerClusterTemplateStorage.FindByName
              r.NStorage.Cred.ServerClusterTemplateGet
              twin.Spec.ServerClusterTemplateName).1 with
          | some api =>
            simp only [ServerClusterTemplateMetaReconciler.importByName, hFind]
            split
            · exact ⟨_, _, _, uniReconciler.patchServerClusterTemplateStatus_last _ _ _ _ _,
                Or.inr rfl⟩
            · rename_i hPatch
              exact absurd hPatch (hNot api hID hImp hFind)
          | none =>
            simp only [ServerClusterTemplateMetaReconciler.importByName, hFind] at hRet ⊢
            exact (r.createThenFinish_ends_templateMeta cr twin _).resolve_left hRet
        · rw [if_neg hImp] at hRet ⊢
          exact (r.createThenFinish_ends_templateMeta cr twin _).resolve_left hRet
      · have h0 : ¬ (twin.Spec.ID == 0) = true := by simp [hID]
        rw [if_neg h0] at hRet ⊢
        rcases hFind : r.NStorage.ServerClusterTemplateStorage.FindByID
          r.NStorage.Cred.ServerClusterTemplateGet twin.Spec.ID with ⟨found, storage, calls⟩
        rw [hFind] at hRet
        cases found with
        | some api => exact r.syncFound_ends_templateMeta cr twin api _
        | none => exact (r.createThenFinish_ends_templateMeta cr twin _).resolve_left hRet
  · intro r req cr twin hTwin hCR hLive
    rw [r.Reconcile_loaded_vpcMeta req cr twin hTwin hCR]
    simp only [VPCMetaReconciler.reconcileLoaded, hLive, Option.isSome_none,
      Bool.false_eq_true, ↓reduceIte]
    refine ⟨?_, ?_⟩
    · intro api hID hImp hFind hPatch
      have h0 : (twin.Spec.ID == 0) = true := by simp [hID]
      rw [if_pos h0, if_pos hImp]
      simp only [VPCMetaReconciler.importByName, hFind, hPatch]
      exact ⟨trivial, rfl, by simp⟩
    · intro hNot hRet
      by_cases hID : twin.Spec.ID = 0
      · have h0 : (twin.Spec.ID == 0) = true := by simp [hID]
        rw [if_pos h0] at hRet ⊢
        by_cases hImp : twin.Spec.Imported = true
        · rw [if_pos hImp] at hRet ⊢
          cases hFind : r.NStorage.VPCStorage.FindByName twin.Spec.VPCName with
          | some api =>
            simp only [VPCMetaReconciler.importByName]
            split
            · exact ⟨_, _, _, uniReconciler.patchVPCStatus_last _ _ _ _ _, Or.inr rfl⟩
            · rename_i hPatch
              exact absurd hPatch (hNot api hID hImp hFind)
          | none =>
            rw [hFind] at hRet
            exact (r.createThenFinish_ends_vpcMeta cr twin _).resolve_left hRet
        · rw [if_neg hImp] at hRet ⊢
          exact (r.createThenFinish_ends_vpcMeta cr twin _).resolve_left hRet
      · have h0 : ¬ (twin.Spec.ID == 0) = true := by simp [hID]
        rw [if_neg h0] at hRet ⊢
        cases hFind : r.NStorage.VPCStorage.FindByID twin.Spec.ID with
        | some api => exact r.syncFound_ends_vpcMeta cr twin api _
        | none =>
          rw [hFind] at hRet
          exact (r.createThenFinish_ends_vpcMeta cr twin _).resolve_left hRet

/-- The theorem of C10 at concrete reconciles: the adoption of the remote VPC 42 and of the
remote server 42 by an imported twin without id ends with the patch of the twin and no status
patch; the reconcile of a twin 7 of each kind that matches its remote entity ends with a
status patch. -/
theorem meta_reconcile_concludes_with_status_witness :
    ((Scenario.inventoryServerMetaReconciler (Scenario.inventoryServer "sfo1" "d" 2 false)
        (Scenario.inventoryServerMeta 0 2 "d" "" true false) none 200
        [Scenario.hw 42 "d" "10.0.0.1"]).Reconcile (Scenario.request "uid-1")).ret
        = .returned (Result.after 10) none
    ∧ (∀ cr' status message, Event.patchStatus cr' status message ∉
        ((Scenario.inventoryServerMetaReconciler (Scenario.inventoryServer "sfo1" "d" 2 false)
          (Scenario.inventoryServerMeta 0 2 "d" "" true false) none 200
          [Scenario.hw 42 "d" "10.0.0.1"]).Reconcile (Scenario.request "uid-1")).trace)
    ∧ ((Scenario.vpcMetaReconciler (Scenario.vpc "admin" 2) (Scenario.vpcMeta 0 2 true) none
        200 [Scenario.remoteVPC 42]).Reconcile (Scenario.request "uid-4")).trace
        = [.cache (.findByName .vpcs "v1"),
           .patchMeta { Scenario.vpcMeta 0 2 true with
             Spec := { (Scenario.vpcMeta 0 2 true).Spec with ID := 42 } }]
    ∧ (∃ cr' status message,
        ((Scenario.inventoryServerMetaReconciler (Scenario.inventoryServer "sfo1" "d" 2 false)
          (Scenario.inventoryServerMeta 7 2 "d" "10.0.0.1" false false) none 200
          [Scenario.hw 7 "d" "10.0.0.1"]).Reconcile (Scenario.request "uid-1")).trace.getLast?
          = some (.patchStatus cr' status message)
        ∧ (status = "OK" ∨ status = "Failure"))
    ∧ (∃ cr' status message,
        ((Scenario.serverClusterMetaReconciler (Scenario.serverCluster "sfo1" 2 false)
          (Scenario.serverClusterMeta 7 2 false false) none 200
          [Scenario.remoteCluster 7]).Reconcile (Scenario.request "uid-2")).1.trace.getLast?
          = some (.patchStatus cr' status message)
        ∧ (status = "OK" ∨ status = "Failure"))
    ∧ (∃ cr' status message,
        ((Scenario.templateMetaReconciler (Scenario.template 2 false)
          (Scenario.templateMeta 7 2 false false) none 200
          [Scenario.remoteTemplate 7]).Reconcile (Scenario.request "uid-3")).1.trace.getLast?
          = some (.patchStatus cr' status message)
        ∧ (status = "OK" ∨ status = "Failure"))
    ∧ (∃ cr' status message,
        ((Scenario.vpcMetaReconciler (Scenario.vpc "admin" 2) (Scenario.vpcMeta 7 2 false) none
          200 [Scenario.remoteVPC 7]).Reconcile (Scenario.request "uid-4")).trace.getLast?
          = some (.patchStatus cr' status message)
        ∧ (status = "OK" ∨ status = "Failure")) := by
  have hIS := (meta_reconcile_concludes_with_status.1
    (Scenario.inventoryServerMetaReconciler (Scenario.inventoryServer "sfo1" "d" 2 false)
      (Scenario.inventoryServerMeta 0 2 "d" "" true false) none 200
      [Scenario.hw 42 "d" "10.0.0.1"]) (Scenario.request "uid-1") _ _ rfl rfl rfl).1
    (Scenario.hw 42 "d" "10.0.0.1") rfl rfl rfl rfl
  have hVPC := (meta_reconcile_concludes_with_status.2.2.2
    (Scenario.vpcMetaReconciler (Scenario.vpc "admin" 2) (Scenario.vpcMeta 0 2 true) none
      200 [Scenario.remoteVPC 42]) (Scenario.request "uid-4") _ _ rfl rfl rfl).1
    (Scenario.remoteVPC 42) rfl rfl rfl rfl
  refine ⟨hIS.1, hIS.2.2, hVPC.2.1, ?_, ?_, ?_, ?_⟩
  · exact (meta_reconcile_concludes_with_status.1
      (Scenario.inventoryServerMetaReconciler (Scenario.inventoryServer "sfo1" "d" 2 false)
        (Scenario.inventoryServerMeta 7 2 "d" "10.0.0.1" false false) none 200
        [Scenario.hw 7 "d" "10.0.0.1"]) (Scenario.request "uid-1") _ _ rfl rfl rfl).2
      (fun _ h => absurd h (by decide)) (by decide)
  · exact (meta_reconcile_concludes_with_status.2.1
      (Scenario.serverClusterMetaReconciler (Scenario.serverCluster "sfo1" 2 false)
        (Scenario.serverClusterMeta 7 2 false false) none 200
        [Scenario.remoteCluster 7]) (Scenario.request "uid-2") _ _ rfl rfl rfl).2
      (fun _ h => absurd h (by decide)) (by decide)
  · exact (meta_reconcile_concludes_with_status.2.2.1
      (Scenario.templateMetaReconciler (Scenario.template 2 false)
        (Scenario.templateMeta 7 2 false false) none 200
        [Scenario.remoteTemplate 7]) (Scenario.request "uid-3") _ _ rfl rfl rfl).2
      (fun _ h => absurd h (by decide)) (by decide)
  · exact (meta_reconcile_concludes_with_status.2.2.2
      (Scenario.vpcMetaReconciler (Scenario.vpc "admin" 2) (Scenario.vpcMeta 7 2 false) none
        200 [Scenario.remoteVPC 7]) (Scenario.request "uid-4") _ _ rfl rfl rfl).2
      (fun _ h => absurd h (by decide)) (by decide)

/-- C10 as stated fails on the successful import-adoption path: the imported
InventoryServerMeta without id whose remote server "srv1" is found by name with id 42 is
patched with that id, the patch succeeds, and the reconcile returns with no status patch
among its calls. -/
theorem meta_reconcile_adoption_counterexample :
    (Scenario.inventoryServerMeta 0 2 "d" "" true false).Spec.Imported = true
    ∧ (Scenario.inventoryServerMeta 0 2 "d" "" true false).Spec.ID = 0
    ∧ (Scenario.inventoryServerMetaReconciler (Scenario.inventoryServer "sfo1" "d" 2 false)
        (Scenario.inventoryServerMeta 0 2 "d" "" true false) none 200
        [Scenario.hw 42 "d" "10.0.0.1"]).NStorage.HWsStorage.FindServerByName "srv1"
        = some (Scenario.hw 42 "d" "10.0.0.1")
    ∧ ((Scenario.inventoryServerMetaReconciler (Scenario.inventoryServer "sfo1" "d" 2 false)
        (Scenario.inventoryServerMeta 0 2 "d" "" true false) none 200
        [Scenario.hw 42 "d" "10.0.0.1"]).Reconcile (Scenario.request "uid-1"))
        = { ret := .returned (Result.after 10) none
            trace := [.cache (.findByName .hws "srv1"),
              .patchMeta { Scenario.inventoryServerMeta 0 2 "d" "" true false with
                Spec := { (Scenario.inventoryServerMeta 0 2 "d" "" true false).Spec with
                  ID := 42, MainIP := "10.0.0.1", MgmtIP := "10.0.0.1", ASN := 65000 } }] }
    ∧ ¬ ∃ cr' status message,
        ((Scenario.inventoryServerMetaReconciler (Scenario.inventoryServer "sfo1" "d" 2 false)
          (Scenario.inventoryServerMeta 0 2 "d" "" true false) none 200
          [Scenario.hw 42 "d" "10.0.0.1"]).Reconcile (Scenario.request "uid-1")).trace.getLast?
          = some (.patchStatus cr' status message) := by
  have hrun : ((Scenario.inventoryServerMetaReconciler
      (Scenario.inventoryServer "sfo1" "d" 2 false)
      (Scenario.inventoryServerMeta 0 2 "d" "" true false) none 200
      [Scenario.hw 42 "d" "10.0.0.1"]).Reconcile (Scenario.request "uid-1"))
      = { ret := .returned (Result.after 10) none
          trace := [.cache (.findByName .hws "srv1"),
            .patchMeta { Scenario.inventoryServerMeta 0 2 "d" "" true false with
              Spec := { (Scenario.inventoryServerMeta 0 2 "d" "" true false).Spec with
                ID := 42, MainIP := "10.0.0.1", MgmtIP := "10.0.0.1", ASN := 65000 } }] } := rfl
  refine ⟨rfl, rfl, rfl, hrun, ?_⟩
  rw [hrun]
  rintro ⟨cr', status, message, h⟩
  simp at h

/-! ## The calls of the branches of a Meta-phase reconcile -/

/-- The calls of `createVPC`: the remote Add call with the payload of the twin, then at most the
patch of the twin. -/
theorem VPCMetaReconciler.createVPC_calls (r : VPCMetaReconciler) (m : VPCMeta) :
    ∃ rest, (r.createVPC m).trace = .remoteAdd (VPCMetaToNetris m) :: rest
      ∧ ∀ e ∈ rest, ∃ t, e = Event.patchMeta t := by
  unfold VPCMetaReconciler.createVPC
  split
  · exact ⟨[], rfl, by simp⟩
  · split
    · exact ⟨[], rfl, by simp⟩
    · split
      · exact ⟨[], rfl, by simp⟩
      · split
        · exact ⟨[], rfl, by simp⟩
        · simp only []
          split
          · exact ⟨_, rfl, by simp⟩
          · exact ⟨_, rfl, by simp⟩

/-- The calls of `createVPC` when the remote Add call is answered with status 200 and the id `n`:
the remote Add call, then the patch of the twin with `Spec.ID == n`. -/
theorem VPCMetaReconciler.createVPC_patches (r : VPCMetaReconciler) (m : VPCMeta)
    (reply : Reply) (data : ParsedData) (n : Int)
    (hAdd : r.Cred.VPC.Add (VPCMetaToNetris m) = .ok reply) (hParse : reply.Parse = .ok data)
    (hCode : reply.StatusCode = 200) (hId : data.id = some n) :
    (r.createVPC m).trace
      = [.remoteAdd (VPCMetaToNetris m),
         .patchMeta { m with Spec := { m.Spec with ID := n } }] := by
  simp only [VPCMetaReconciler.createVPC, hAdd, hParse, hCode, hId]
  cases r.Client.PatchMeta { m with Spec := { m.Spec with ID := n } } <;> simp

/-- The calls of the branches of the VPCMeta `Reconcile` that create the remote VPC: the calls
before, the calls of `createVPC`, then at most a status patch. -/
theorem VPCMetaReconciler.createThenFinish_calls_vpcMeta (r : VPCMetaReconciler) (cr : VPC)
    (m : VPCMeta) (pre : List VPCEvent) :
    ∃ tail, (r.createThenFinish cr m pre).trace = pre ++ (r.createVPC m).trace ++ tail
      ∧ ∀ e ∈ tail, ∃ c status message, e = Event.patchStatus c status message := by
  unfold VPCMetaReconciler.createThenFinish
  split
  · exact ⟨[], by simp, by simp⟩
  · exact ⟨_, rfl, by simp [uniReconciler.patchVPCStatus]⟩
  · exact ⟨_, rfl, by simp [uniReconciler.patchVPCStatus]⟩

/-- The calls of the branch of the VPCMeta `Reconcile` that found the remote VPC by id: the calls
before, then at most a remote Update call and a status patch. -/
theorem VPCMetaReconciler.syncFound_calls_vpcMeta (r : VPCMetaReconciler) (cr : VPC) (m : VPCMeta)
    (api : RemoteVPC) (pre : List VPCEvent) :
    ∃ tail, (r.syncFound cr m api pre).trace = pre ++ tail
      ∧ ∀ e ∈ tail, (∃ c status message, e = Event.patchStatus c status message)
          ∨ ∃ id p, e = Event.remoteUpdate id p := by
  unfold VPCMetaReconciler.syncFound
  split
  · exact ⟨_, rfl, by simp [uniReconciler.patchVPCStatus]⟩
  · have hc : (updateVPC m.Spec.ID (VPCMetaToNetris m) r.Cred).2
        = [.remoteUpdate m.Spec.ID (VPCMetaToNetris m)] := by
      unfold updateVPC
      split
      · rfl
      · split
        · rfl
        · split <;> rfl
    split
    · rename_i h
      rw [h] at hc
      simp only at hc
      subst hc
      refine ⟨_, by simp only [Outcome.after, List.append_assoc]; rfl, ?_⟩
      simp [uniReconciler.patchVPCStatus]
    · rename_i h
      rw [h] at hc
      simp only at hc
      subst hc
      refine ⟨_, by simp only [Outcome.after, List.append_assoc]; rfl, ?_⟩
      simp [uniReconciler.patchVPCStatus]

/-- The branches of the VPCMeta `Reconcile` that create the remote VPC, after the cache calls
`pre`: the one remote Add call carries the payload of the twin, no cache call is added, and an
Add call answered with status 200 and the id `n` is followed by the patch of the twin with
`Spec.ID == n`. -/
theorem VPCMetaReconciler.createThenFinish_adds_vpcMeta (r : VPCMetaReconciler) (cr : VPC)
    (twin : VPCMeta) (pre : List VPCEvent) (hpre : ∀ e ∈ pre, ∃ c, e = Event.cache c) :
    (∀ p, Event.remoteAdd p ∈ (r.createThenFinish cr twin pre).trace
        ↔ p = VPCMetaToNetris twin)
    ∧ (∀ c, Event.cache c ∈ (r.createThenFinish cr twin pre).trace ↔ Event.cache c ∈ pre)
    ∧ (∀ reply data n,
        r.Cred.VPC.Add (VPCMetaToNetris twin) = .ok reply → reply.Parse = .ok data →
        reply.StatusCode = 200 → data.id = some n →
        ∃ post, (r.createThenFinish cr twin pre).trace
          = pre ++ [.remoteAdd (VPCMetaToNetris twin),
              .patchMeta { twin with Spec := { twin.Spec with ID := n } }] ++ post) := by
  obtain ⟨tail, ht, htail⟩ := r.createThenFinish_calls_vpcMeta cr twin pre
  obtain ⟨rest, hr, hrest⟩ := r.createVPC_calls twin
  refine ⟨?_, ?_, ?_⟩
  · intro p
    rw [ht, hr]
    constructor
    · intro h
      simp only [List.mem_append, List.mem_cons] at h
      rcases h with (h | h | h) | h
      · obtain ⟨c, hc⟩ := hpre _ h
        cases hc
      · cases h; rfl
      · obtain ⟨t, hc⟩ := hrest _ h
        cases hc
      · obtain ⟨c, st, msg, hc⟩ := htail _ h
        cases hc
    · rintro rfl
      simp
  · intro c
    rw [ht, hr]
    constructor
    · intro h
      simp only [List.mem_append, List.mem_cons] at h
      rcases h with (h | h | h) | h
      · exact h
      · cases h
      · obtain ⟨t, hc⟩ := hrest _ h
        cases hc
      · obtain ⟨c, st, msg, hc⟩ := htail _ h
        cases hc
    · intro h
      simp [h]
  · intro reply data n hAdd hParse hCode hId
    rw [ht, r.createVPC_patches twin reply data n hAdd hParse hCode hId]
    exact ⟨tail, rfl⟩

/-- The branch of the VPCMeta `Reconcile` that found the remote VPC by id, after the cache calls
`pre`, makes no remote Add call and adds no cache call. -/
theorem VPCMetaReconciler.syncFound_adds_vpcMeta (r : VPCMetaReconciler) (cr : VPC) (twin : VPCMeta)
    (api : RemoteVPC) (pre : List VPCEvent) (hpre : ∀ e ∈ pre, ∃ c, e = Event.cache c) :
    (∀ p, Event.remoteAdd p ∉ (r.syncFound cr twin api pre).trace)
    ∧ (∀ c, Event.cache c ∈ (r.syncFound cr twin api pre).trace ↔ Event.cache c ∈ pre) := by
  obtain ⟨tail, ht, htail⟩ := r.syncFound_calls_vpcMeta cr twin api pre
  rw [ht]
  refine ⟨?_, ?_⟩
  · intro p h
    rcases List.mem_append.1 h with h | h
    · obtain ⟨c, hc⟩ := hpre _ h
      cases hc
    · rcases htail _ h with ⟨c, st, msg, hc⟩ | ⟨id, q, hc⟩ <;> cases hc
  · intro c
    constructor
    · intro h
      rcases List.mem_append.1 h with h | h
      · exact h
      · rcases htail _ h with ⟨c, st, msg, hc⟩ | ⟨id, q, hc⟩ <;> cases hc
    · intro h
      exact List.mem_append.2 (Or.inl h)

/-- The import branch of the VPCMeta `Reconcile` with the remote VPC found by name, after the
cache calls `pre`, makes no remote Add call and adds no cache call. -/
theorem VPCMetaReconciler.importByName_found_adds_vpcMeta (r : VPCMetaReconciler) (cr : VPC)
    (twin : VPCMeta) (api : RemoteVPC) (pre : List VPCEvent)
    (hpre : ∀ e ∈ pre, ∃ c, e = Event.cache c) :
    ∀ p, Event.remoteAdd p ∉ (r.importByName cr twin (some api) pre).trace := by
  intro p h
  simp only [VPCMetaReconciler.importByName] at h
  split at h
  · simp only [Outcome.after, uniReconciler.patchVPCStatus, List.mem_append, List.mem_cons,
      List.mem_singleton, List.not_mem_nil, or_false] at h
    rcases h with (h | h) | h
    · obtain ⟨c, hc⟩ := hpre _ h
      cases hc
    · cases h
    · cases h
  · simp only [List.mem_append, List.mem_singleton] at h
    rcases h with h | h
    · obtain ⟨c, hc⟩ := hpre _ h
      cases hc
    · cases h

/-- The calls of `createServerCluster`: the remote Add call with the payload of the twin, then at
most the patch of the twin. -/
theorem ServerClusterMetaReconciler.createServerCluster_calls (r : ServerClusterMetaReconciler)
    (m : ServerClusterMeta) :
    ∃ rest, (r.createServerCluster m).trace = .remoteAdd (ServerClusterMetaToNetris m) :: rest
      ∧ ∀ e ∈ rest, ∃ t, e = Event.patchMeta t := by
  unfold ServerClusterMetaReconciler.createServerCluster
  split
  · exact ⟨[], rfl, by simp⟩
  · split
    · exact ⟨[], rfl, by simp⟩
    · split
      · exact ⟨[], rfl, by simp⟩
      · split
        · exact ⟨[], rfl, by simp⟩
        · simp only []
          split
          · exact ⟨_, rfl, by simp⟩
          · exact ⟨_, rfl, by simp⟩

/-- The calls of `createServerCluster` when the remote Add call is answered with status 200 and
the id `n`: the remote Add call, then the patch of the twin with `Spec.ID == n`. -/
theorem ServerClusterMetaReconciler.createServerCluster_patches (r : ServerClusterMetaReconciler)
    (m : ServerClusterMeta)
    (reply : Reply) (data : ParsedData) (n : Int)
    (hAdd : r.Cred.ServerCluster.Add (ServerClusterMetaToNetris m) = .ok reply)
        (hParse : reply.Parse = .ok data)
    (hCode : reply.StatusCode = 200) (hId : data.id = some n) :
    (r.createServerCluster m).trace
      = [.remoteAdd (ServerClusterMetaToNetris m),
         .patchMeta { m with Spec := { m.Spec with ID := n } }] := by
  simp only [ServerClusterMetaReconciler.createServerCluster, hAdd, hParse, hCode, hId]
  cases r.Client.PatchMeta { m with Spec := { m.Spec with ID := n } } <;> simp

/-- The calls of the branches of the ServerClusterMeta `Reconcile` that create the remote cluster:
the calls before, the calls of `createServerCluster`, then at most a status patch. -/
theorem ServerClusterMetaReconciler.createThenFinish_calls_serverClusterMeta
    (r : ServerClusterMetaReconciler) (cr : ServerCluster)
    (m : ServerClusterMeta) (pre : List ServerClusterEvent) :
    ∃ tail, (r.createThenFinish cr m pre).trace = pre ++ (r.createServerCluster m).trace ++ tail
      ∧ ∀ e ∈ tail, ∃ c status message, e = Event.patchStatus c status message := by
  unfold ServerClusterMetaReconciler.createThenFinish
  split
  · exact ⟨[], by simp, by simp⟩
  · exact ⟨_, rfl, by simp [uniReconciler.patchServerClusterStatus]⟩
  · exact ⟨_, rfl, by simp [uniReconciler.patchServerClusterStatus]⟩

/-- The calls of the branch of the ServerClusterMeta `Reconcile` that found the remote cluster by
id: the calls before, then at most a remote Update call and a status patch. -/
theorem ServerClusterMetaReconciler.syncFound_calls_serverClusterMeta
    (r : ServerClusterMetaReconciler) (cr : ServerCluster) (m : ServerClusterMeta)
    (api : RemoteServerCluster) (pre : List ServerClusterEvent) :
    ∃ tail, (r.syncFound cr m api pre).trace = pre ++ tail
      ∧ ∀ e ∈ tail, (∃ c status message, e = Event.patchStatus c status message)
          ∨ ∃ id p, e = Event.remoteUpdate id p := by
  unfold ServerClusterMetaReconciler.syncFound
  split
  · exact ⟨_, rfl, by simp [uniReconciler.patchServerClusterStatus]⟩
  · have hc : (updateServerCluster m.Spec.ID (ServerClusterMetaToNetrisUpdate m) r.Cred).2
        = [.remoteUpdate m.Spec.ID (ServerClusterMetaToNetrisUpdate m)] := by
      unfold updateServerCluster
      split
      · rfl
      · split
        · rfl
        · split <;> rfl
    split
    · rename_i h
      rw [h] at hc
      simp only at hc
      subst hc
      refine ⟨_, by simp only [Outcome.after, List.append_assoc]; rfl, ?_⟩
      simp [uniReconciler.patchServerClusterStatus]
    · rename_i h
      rw [h] at hc
      simp only at hc
      subst hc
      refine ⟨_, by simp only [Outcome.after, List.append_assoc]; rfl, ?_⟩
      simp [uniReconciler.patchServerClusterStatus]

/-- The branches of the ServerClusterMeta `Reconcile` that create the remote cluster, after the
cache calls `pre`: the one remote Add call carries the payload of the twin, no cache call is
added, and an Add call answered with status 200 and the id `n` is followed by the patch of the
twin with `Spec.ID == n`. -/
theorem ServerClusterMetaReconciler.createThenFinish_adds_serverClusterMeta
    (r : ServerClusterMetaReconciler) (cr : ServerCluster)
    (twin : ServerClusterMeta) (pre : List ServerClusterEvent)
        (hpre : ∀ e ∈ pre, ∃ c, e = Event.cache c) :
    (∀ p, Event.remoteAdd p ∈ (r.createThenFinish cr twin pre).trace
        ↔ p = ServerClusterMetaToNetris twin)
    ∧ (∀ c, Event.cache c ∈ (r.createThenFinish cr twin pre).trace ↔ Event.cache c ∈ pre)
    ∧ (∀ reply data n,
        r.Cred.ServerCluster.Add (ServerClusterMetaToNetris twin) = .ok reply → reply.Parse = .ok
            data →
        reply.StatusCode = 200 → data.id = some n →
        ∃ post, (r.createThenFinish cr twin pre).trace
          = pre ++ [.remoteAdd (ServerClusterMetaToNetris twin),
              .patchMeta { twin with Spec := { twin.Spec with ID := n } }] ++ post) := by
  obtain ⟨tail, ht, htail⟩ := r.createThenFinish_calls_serverClusterMeta cr twin pre
  obtain ⟨rest, hr, hrest⟩ := r.createServerCluster_calls twin
  refine ⟨?_, ?_, ?_⟩
  · intro p
    rw [ht, hr]
    constructor
    · intro h
      simp only [List.mem_append, List.mem_cons] at h
      rcases h with (h | h | h) | h
      · obtain ⟨c, hc⟩ := hpre _ h
        cases hc
      · cases h; rfl
      · obtain ⟨t, hc⟩ := hrest _ h
        cases hc
      · obtain ⟨c, st, msg, hc⟩ := htail _ h
        cases hc
    · rintro rfl
      simp
  · intro c
    rw [ht, hr]
    constructor
    · intro h
      simp only [List.mem_append, List.mem_cons] at h
      rcases h with (h | h | h) | h
      · exact h
      · cases h
      · obtain ⟨t, hc⟩ := hrest _ h
        cases hc
      · obtain ⟨c, st, msg, hc⟩ := htail _ h
        cases hc
    · intro h
      simp [h]
  · intro reply data n hAdd hParse hCode hId
    rw [ht, r.createServerCluster_patches twin reply data n hAdd hParse hCode hId]
    exact ⟨tail, rfl⟩

/-- The branch of the ServerClusterMeta `Reconcile` that found the remote cluster by id, after the
cache calls `pre`, makes no remote Add call and adds no cache call. -/
theorem ServerClusterMetaReconciler.syncFound_adds_serverClusterMeta
    (r : ServerClusterMetaReconciler) (cr : ServerCluster) (twin : ServerClusterMeta)
    (api : RemoteServerCluster) (pre : List ServerClusterEvent)
        (hpre : ∀ e ∈ pre, ∃ c, e = Event.cache c) :
    (∀ p, Event.remoteAdd p ∉ (r.syncFound cr twin api pre).trace)
    ∧ (∀ c, Event.cache c ∈ (r.syncFound cr twin api pre).trace ↔ Event.cache c ∈ pre) := by
  obtain ⟨tail, ht, htail⟩ := r.syncFound_calls_serverClusterMeta cr twin api pre
  rw [ht]
  refine ⟨?_, ?_⟩
  · intro p h
    rcases List.mem_append.1 h with h | h
    · obtain ⟨c, hc⟩ := hpre _ h
      cases hc
    · rcases htail _ h with ⟨c, st, msg, hc⟩ | ⟨id, q, hc⟩ <;> cases hc
  · intro c
    constructor
    · intro h
      rcases List.mem_append.1 h with h | h
      · exact h
      · rcases htail _ h with ⟨c, st, msg, hc⟩ | ⟨id, q, hc⟩ <;> cases hc
    · intro h
      exact List.mem_append.2 (Or.inl h)

/-- The import branch of the ServerClusterMeta `Reconcile` with the remote cluster found by name,
after the cache calls `pre`, makes no remote Add call and adds no cache call. -/
theorem ServerClusterMetaReconciler.importByName_found_adds_serverClusterMeta
    (r : ServerClusterMetaReconciler) (cr : ServerCluster)
    (twin : ServerClusterMeta) (api : RemoteServerCluster) (pre : List ServerClusterEvent)
    (hpre : ∀ e ∈ pre, ∃ c, e = Event.cache c) :
    ∀ p, Event.remoteAdd p ∉ (r.importByName cr twin (some api) pre).trace := by
  intro p h
  simp only [ServerClusterMetaReconciler.importByName] at h
  split at h
  · simp only [Outcome.after, uniReconciler.patchServerClusterStatus, List.mem_append,
      List.mem_cons, List.mem_singleton, List.not_mem_nil, or_false] at h
    rcases h with (h | h) | h
    · obtain ⟨c, hc⟩ := hpre _ h
      cases hc
    · cases h
    · cases h
  · simp only [List.mem_append, List.mem_singleton] at h
    rcases h with h | h
    · obtain ⟨c, hc⟩ := hpre _ h
      cases hc
    · cases h

/-- The calls of `createServerClusterTemplate`: the remote Add call with the payload of the twin,
then at most the patch of the twin. -/
theorem ServerClusterTemplateMetaReconciler.createServerClusterTemplate_calls
    (r : ServerClusterTemplateMetaReconciler) (m : ServerClusterTemplateMeta) :
    ∃ rest, (r.createServerClusterTemplate m).trace = .remoteAdd
        (ServerClusterTemplateMetaToNetris m) :: rest
      ∧ ∀ e ∈ rest, ∃ t, e = Event.patchMeta t := by
  unfold ServerClusterTemplateMetaReconciler.createServerClusterTemplate
  split
  · exact ⟨[], rfl, by simp⟩
  · split
    · exact ⟨[], rfl, by simp⟩
    · split
      · exact ⟨[], rfl, by simp⟩
      · split
        · exact ⟨[], rfl, by simp⟩
        · simp only []
          split
          · exact ⟨_, rfl, by simp⟩
          · exact ⟨_, rfl, by simp⟩

/-- The calls of `createServerClusterTemplate` when the remote Add call is answered with status
200 and the id `n`: the remote Add call, then the patch of the twin with `Spec.ID == n`. -/
theorem ServerClusterTemplateMetaReconciler.createServerClusterTemplate_patches
    (r : ServerClusterTemplateMetaReconciler) (m : ServerClusterTemplateMeta)
    (reply : Reply) (data : ParsedData) (n : Int)
    (hAdd : r.Cred.ServerClusterTemplate.Add (ServerClusterTemplateMetaToNetris m) = .ok reply)
        (hParse : reply.Parse = .ok data)
    (hCode : reply.StatusCode = 200) (hId : data.id = some n) :
    (r.createServerClusterTemplate m).trace
      = [.remoteAdd (ServerClusterTemplateMetaToNetris m),
         .patchMeta { m with Spec := { m.Spec with ID := n } }] := by
  simp only [ServerClusterTemplateMetaReconciler.createServerClusterTemplate, hAdd, hParse, hCode,
    hId]
  cases r.Client.PatchMeta { m with Spec := { m.Spec with ID := n } } <;> simp

/-- The calls of the branches of the ServerClusterTemplateMeta `Reconcile` that create the remote
template: the calls before, the calls of `createServerClusterTemplate`, then at most a status
patch. -/
theorem ServerClusterTemplateMetaReconciler.createThenFinish_calls_templateMeta
    (r : ServerClusterTemplateMetaReconciler) (cr : ServerClusterTemplate)
    (m : ServerClusterTemplateMeta) (pre : List ServerClusterTemplateEvent) :
    ∃ tail, (r.createThenFinish cr m pre).trace = pre ++ (r.createServerClusterTemplate m).trace ++
        tail
      ∧ ∀ e ∈ tail, ∃ c status message, e = Event.patchStatus c status message := by
  unfold ServerClusterTemplateMetaReconciler.createThenFinish
  split
  · exact ⟨[], by simp, by simp⟩
  · exact ⟨_, rfl, by simp [uniReconciler.patchServerClusterTemplateStatus]⟩
  · exact ⟨_, rfl, by simp [uniReconciler.patchServerClusterTemplateStatus]⟩

/-- The calls of the branch of the ServerClusterTemplateMeta `Reconcile` that found the remote
template by id: the calls before, then at most a remote Update call and a status patch. -/
theorem ServerClusterTemplateMetaReconciler.syncFound_calls_templateMeta
    (r : ServerClusterTemplateMetaReconciler) (cr : ServerClusterTemplate)
    (m : ServerClusterTemplateMeta)
    (api : RemoteServerClusterTemplate) (pre : List ServerClusterTemplateEvent) :
    ∃ tail, (r.syncFound cr m api pre).trace = pre ++ tail
      ∧ ∀ e ∈ tail, (∃ c status message, e = Event.patchStatus c status message)
          ∨ ∃ id p, e = Event.remoteUpdate id p := by
  unfold ServerClusterTemplateMetaReconciler.syncFound
  split
  · exact ⟨_, rfl, by simp [uniReconciler.patchServerClusterTemplateStatus]⟩
  · have hc : (updateServerClusterTemplate m.Spec.ID (ServerClusterTemplateMetaToNetris m) r.Cred).2
        = [.remoteUpdate m.Spec.ID (ServerClusterTemplateMetaToNetris m)] := by
      unfold updateServerClusterTemplate
      split
      · rfl
      · split
        · rfl
        · split <;> rfl
    split
    · rename_i h
      rw [h] at hc
      simp only at hc
      subst hc
      refine ⟨_, by simp only [Outcome.after, List.append_assoc]; rfl, ?_⟩
      simp [uniReconciler.patchServerClusterTemplateStatus]
    · rename_i h
      rw [h] at hc
      simp only at hc
      subst hc
      refine ⟨_, by simp only [Outcome.after, List.append_assoc]; rfl, ?_⟩
      simp [uniReconciler.patchServerClusterTemplateStatus]

/-- The branches of the ServerClusterTemplateMeta `Reconcile` that create the remote template,
after the cache calls `pre`: the one remote Add call carries the payload of the twin, no cache
call is added, and an Add call answered with status 200 and the id `n` is followed by the
patch of the twin with `Spec.ID == n`. -/
theorem ServerClusterTemplateMetaReconciler.createThenFinish_adds_templateMeta
    (r : ServerClusterTemplateMetaReconciler) (cr : ServerClusterTemplate)
    (twin : ServerClusterTemplateMeta) (pre : List ServerClusterTemplateEvent)
        (hpre : ∀ e ∈ pre, ∃ c, e = Event.cache c) :
    (∀ p, Event.remoteAdd p ∈ (r.createThenFinish cr twin pre).trace
        ↔ p = ServerClusterTemplateMetaToNetris twin)
    ∧ (∀ c, Event.cache c ∈ (r.createThenFinish cr twin pre).trace ↔ Event.cache c ∈ pre)
    ∧ (∀ reply data n,
        r.Cred.ServerClusterTemplate.Add (ServerClusterTemplateMetaToNetris twin) = .ok reply →
            reply.Parse = .ok data →
        reply.StatusCode = 200 → data.id = some n →
        ∃ post, (r.createThenFinish cr twin pre).trace
          = pre ++ [.remoteAdd (ServerClusterTemplateMetaToNetris twin),
              .patchMeta { twin with Spec := { twin.Spec with ID := n } }] ++ post) := by
  obtain ⟨tail, ht, htail⟩ := r.createThenFinish_calls_templateMeta cr twin pre
  obtain ⟨rest, hr, hrest⟩ := r.createServerClusterTemplate_calls twin
  refine ⟨?_, ?_, ?_⟩
  · intro p
    rw [ht, hr]
    constructor
    · intro h
      simp only [List.mem_append, List.mem_cons] at h
      rcases h with (h | h | h) | h
      · obtain ⟨c, hc⟩ := hpre _ h
        cases hc
      · cases h; rfl
      · obtain ⟨t, hc⟩ := hrest _ h
        cases hc
      · obtain ⟨c, st, msg, hc⟩ := htail _ h
        cases hc
    · rintro rfl
      simp
  · intro c
    rw [ht, hr]
    constructor
    · intro h
      simp only [List.mem_append, List.mem_cons] at h
      rcases h with (h | h | h) | h
      · exact h
      · cases h
      · obtain ⟨t, hc⟩ := hrest _ h
        cases hc
      · obtain ⟨c, st, msg, hc⟩ := htail _ h
        cases hc
    · intro h
      simp [h]
  · intro reply data n hAdd hParse hCode hId
    rw [ht, r.createServerClusterTemplate_patches twin reply data n hAdd hParse hCode hId]
    exact ⟨tail, rfl⟩

/-- The branch of the ServerClusterTemplateMeta `Reconcile` that found the remote template by id,
after the cache calls `pre`, makes no remote Add call and adds no cache call. -/
theorem ServerClusterTemplateMetaReconciler.syncFound_adds_templateMeta
    (r : ServerClusterTemplateMetaReconciler) (cr : ServerClusterTemplate)
    (twin : ServerClusterTemplateMeta)
    (api : RemoteServerClusterTemplate) (pre : List ServerClusterTemplateEvent)
        (hpre : ∀ e ∈ pre, ∃ c, e = Event.cache c) :
    (∀ p, Event.remoteAdd p ∉ (r.syncFound cr twin api pre).trace)
    ∧ (∀ c, Event.cache c ∈ (r.syncFound cr twin api pre).trace ↔ Event.cache c ∈ pre) := by
  obtain ⟨tail, ht, htail⟩ := r.syncFound_calls_templateMeta cr twin api pre
  rw [ht]
  refine ⟨?_, ?_⟩
  · intro p h
    rcases List.mem_append.1 h with h | h
    · obtain ⟨c, hc⟩ := hpre _ h
      cases hc
    · rcases htail _ h with ⟨c, st, msg, hc⟩ | ⟨id, q, hc⟩ <;> cases hc
  · intro c
    constructor
    · intro h
      rcases List.mem_append.1 h with h | h
      · exact h
      · rcases htail _ h with ⟨c, st, msg, hc⟩ | ⟨id, q, hc⟩ <;> cases hc
    · intro h
      exact List.mem_append.2 (Or.inl h)

/-- The import branch of the ServerClusterTemplateMeta `Reconcile` with the remote template found
by name, after the cache calls `pre`, makes no remote Add call and adds no cache call. -/
theorem ServerClusterTemplateMetaReconciler.importByName_found_adds_templateMeta
    (r : ServerClusterTemplateMetaReconciler) (cr : ServerClusterTemplate)
    (twin : ServerClusterTemplateMeta) (api : RemoteServerClusterTemplate)
        (pre : List ServerClusterTemplateEvent)
    (hpre : ∀ e ∈ pre, ∃ c, e = Event.cache c) :
    ∀ p, Event.remoteAdd p ∉ (r.importByName cr twin (some api) pre).trace := by
  intro p h
  simp only [ServerClusterTemplateMetaReconciler.importByName] at h
  split at h
  · simp only [Outcome.after, uniReconciler.patchServerClusterTemplateStatus, List.mem_append,
      List.mem_cons, List.mem_singleton, List.not_mem_nil, or_false] at h
    rcases h with (h | h) | h
    · obtain ⟨c, hc⟩ := hpre _ h
      cases hc
    · cases h
    · cases h
  · simp only [List.mem_append, List.mem_singleton] at h
    rcases h with h | h
    · obtain ⟨c, hc⟩ := hpre _ h
      cases hc
    · cases h

/-- The function `InventoryServerMetaToNetris` returns a payload for every twin. -/
theorem InventoryServerMetaToNetris_ok (m : InventoryServerMeta) :
    ∃ p, InventoryServerMetaToNetris m = .ok p :=
  ⟨_, rfl⟩

/-- The calls of `createInventoryServer`: the remote Add call with the payload of the twin,
then at most the patch of the twin. -/
theorem InventoryServerMetaReconciler.createInventoryServer_calls
    (r : InventoryServerMetaReconciler) (m : InventoryServerMeta) (p : HWServer)
    (hp : InventoryServerMetaToNetris m = .ok p) :
    ∃ rest, (r.createInventoryServer m).trace = .remoteAdd p :: rest
      ∧ ∀ e ∈ rest, ∃ t, e = Event.patchMeta t := by
  unfold InventoryServerMetaReconciler.createInventoryServer
  rw [hp]
  simp only []
  split
  · exact ⟨[], rfl, by simp⟩
  · split
    · exact ⟨[], rfl, by simp⟩
    · split
      · exact ⟨[], rfl, by simp⟩
      · split
        · exact ⟨[], rfl, by simp⟩
        · split
          · exact ⟨_, rfl, by simp⟩
          · exact ⟨_, rfl, by simp⟩

/-- The calls of `createInventoryServer` when the remote Add call is answered with status 200
and the id `n`: the remote Add call, then the patch of the twin with `Spec.ID == n`. -/
theorem InventoryServerMetaReconciler.createInventoryServer_patches
    (r : InventoryServerMetaReconciler) (m : InventoryServerMeta) (p : HWServer)
    (reply : Reply) (data : ParsedData) (n : Int)
    (hp : InventoryServerMetaToNetris m = .ok p)
    (hAdd : r.Cred.Inventory.Add p = .ok reply) (hParse : reply.Parse = .ok data)
    (hCode : reply.StatusCode = 200) (hId : data.id = some n) :
    (r.createInventoryServer m).trace
      = [.remoteAdd p, .patchMeta { m with Spec := { m.Spec with ID := n } }] := by
  simp only [InventoryServerMetaReconciler.createInventoryServer, hp, hAdd, hParse, hCode, hId]
  cases r.Client.PatchMeta { m with Spec := { m.Spec with ID := n } } <;> simp

/-- The calls of the end of the InventoryServerMeta `Reconcile`: the calls before, then at
most a patch of the desired resource and a status patch. -/
theorem InventoryServerMetaReconciler.finish_calls (r : InventoryServerMetaReconciler)
    (cr : InventoryServer) (m : InventoryServerMeta) (pre : List InventoryServerEvent) :
    ∃ tail, (r.finish cr m pre).trace = pre ++ tail
      ∧ ∀ e ∈ tail, (∃ c status message, e = Event.patchStatus c status message)
          ∨ ∃ c, e = Event.patchCR c := by
  have hb := r.uni.updateInventoryServerIfNecessary_trace cr m
  unfold InventoryServerMetaReconciler.finish
  split
  · refine ⟨_, by simp only [Outcome.after, List.append_assoc]; rfl, ?_⟩
    rcases hb with hb | ⟨c, hb⟩ <;> simp [hb, uniReconciler.patchInventoryServerStatus]
  · refine ⟨_, by simp only [Outcome.after, List.append_assoc]; rfl, ?_⟩
    rcases hb with hb | ⟨c, hb⟩ <;> simp [hb, uniReconciler.patchInventoryServerStatus]

/-- The calls of the branches of the InventoryServerMeta `Reconcile` that create the remote
server: the calls before, the calls of `createInventoryServer`, then at most a patch of the
desired resource and a status patch. -/
theorem InventoryServerMetaReconciler.createThenFinish_calls_inventoryServerMeta
    (r : InventoryServerMetaReconciler) (cr : InventoryServer) (m : InventoryServerMeta)
    (pre : List InventoryServerEvent) :
    ∃ tail, (r.createThenFinish cr m pre).trace
        = pre ++ (r.createInventoryServer m).trace ++ tail
      ∧ ∀ e ∈ tail, (∃ c status message, e = Event.patchStatus c status message)
          ∨ ∃ c, e = Event.patchCR c := by
  unfold InventoryServerMetaReconciler.createThenFinish
  split
  · exact ⟨[], by simp, by simp⟩
  · exact ⟨_, rfl, by simp [uniReconciler.patchInventoryServerStatus]⟩
  · exact r.finish_calls cr _ _

/-- The calls of the branch of the InventoryServerMeta `Reconcile` that found the remote
server by id: the calls before, then at most a remote Update call, a patch of the desired
resource and a status patch. -/
theorem InventoryServerMetaReconciler.syncFound_calls_inventoryServerMeta
    (r : InventoryServerMetaReconciler) (cr : InventoryServer) (m : InventoryServerMeta)
    (api : HW) (pre : List InventoryServerEvent) :
    ∃ tail, (r.syncFound cr m api pre).trace = pre ++ tail
      ∧ ∀ e ∈ tail, (∃ c status message, e = Event.patchStatus c status message)
          ∨ (∃ c, e = Event.patchCR c) ∨ ∃ id p, e = Event.remoteUpdate id p := by
  simp only [InventoryServerMetaReconciler.syncFound]
  split
  · obtain ⟨tail, ht, htail⟩ := r.finish_calls cr (InventoryServerMetaReconciler.fillFromAPI m api)
      pre
    refine ⟨tail, ht, ?_⟩
    intro e he
    rcases htail e he with h | h
    · exact Or.inl h
    · exact Or.inr (Or.inl h)
  · split
    · exact ⟨_, rfl, by simp [uniReconciler.patchInventoryServerStatus]⟩
    · rename_i serverUpdate hpay
      have hc := updateInventoryServer_calls
        (InventoryServerMetaReconciler.fillFromAPI m api).Spec.ID serverUpdate r.Cred
      split
      · rename_i h
        rw [h] at hc
        simp only at hc
        subst hc
        refine ⟨_, by simp only [Outcome.after, List.append_assoc]; rfl, ?_⟩
        simp [uniReconciler.patchInventoryServerStatus]
      · rename_i h
        rw [h] at hc
        simp only at hc
        subst hc
        obtain ⟨tail, ht, htail⟩ := r.finish_calls cr
          (InventoryServerMetaReconciler.fillFromAPI m api)
          (pre ++ [.remoteUpdate (InventoryServerMetaReconciler.fillFromAPI m api).Spec.ID
            serverUpdate])
        refine ⟨_, by rw [ht, List.append_assoc], ?_⟩
        intro e he
        rcases List.mem_append.1 he with he | he
        · exact Or.inr (Or.inr ⟨_, _, List.mem_singleton.1 he⟩)
        · rcases htail e he with h | h
          · exact Or.inl h
          · exact Or.inr (Or.inl h)

/-- The branches of the InventoryServerMeta `Reconcile` that create the remote server, after
the cache calls `pre`: the one remote Add call carries the payload of the twin, no cache call
is added, and an Add call answered with status 200 and the id `n` is followed by the patch of
the twin with `Spec.ID == n`. -/
theorem InventoryServerMetaReconciler.createThenFinish_adds_inventoryServerMeta
    (r : InventoryServerMetaReconciler) (cr : InventoryServer) (twin : InventoryServerMeta)
    (payload : HWServer) (pre : List InventoryServerEvent)
    (hPayload : InventoryServerMetaToNetris twin = .ok payload)
    (hpre : ∀ e ∈ pre, ∃ c, e = Event.cache c) :
    (∀ p, Event.remoteAdd p ∈ (r.createThenFinish cr twin pre).trace ↔ p = payload)
    ∧ (∀ c, Event.cache c ∈ (r.createThenFinish cr twin pre).trace ↔ Event.cache c ∈ pre)
    ∧ (∀ reply data n,
        r.Cred.Inventory.Add payload = .ok reply → reply.Parse = .ok data →
        reply.StatusCode = 200 → data.id = some n →
        ∃ post, (r.createThenFinish cr twin pre).trace
          = pre ++ [.remoteAdd payload,
              .patchMeta { twin with Spec := { twin.Spec with ID := n } }] ++ post) := by
  obtain ⟨tail, ht, htail⟩ := r.createThenFinish_calls_inventoryServerMeta cr twin pre
  obtain ⟨rest, hr, hrest⟩ := r.createInventoryServer_calls twin payload hPayload
  refine ⟨?_, ?_, ?_⟩
  · intro p
    rw [ht, hr]
    constructor
    · intro h
      simp only [List.mem_append, List.mem_cons] at h
      rcases h with (h | h | h) | h
      · obtain ⟨c, hc⟩ := hpre _ h
        cases hc
      · cases h; rfl
      · obtain ⟨t, hc⟩ := hrest _ h
        cases hc
      · rcases htail _ h with ⟨c, st, msg, hc⟩ | ⟨c, hc⟩ <;> cases hc
    · rintro rfl
      simp
  · intro c
    rw [ht, hr]
    constructor
    · intro h
      simp only [List.mem_append, List.mem_cons] at h
      rcases h with (h | h | h) | h
      · exact h
      · cases h
      · obtain ⟨t, hc⟩ := hrest _ h
        cases hc
      · rcases htail _ h with ⟨c, st, msg, hc⟩ | ⟨c, hc⟩ <;> cases hc
    · intro h
      simp [h]
  · intro reply data n hAdd hParse hCode hId
    rw [ht, r.createInventoryServer_patches twin payload reply data n hPayload hAdd hParse
      hCode hId]
    exact ⟨tail, rfl⟩

/-- The branch of the InventoryServerMeta `Reconcile` that found the remote server by id,
after the cache calls `pre`, makes no remote Add call and adds no cache call. -/
theorem InventoryServerMetaReconciler.syncFound_adds_inventoryServerMeta
    (r : InventoryServerMetaReconciler) (cr : InventoryServer) (twin : InventoryServerMeta)
    (api : HW) (pre : List InventoryServerEvent) (hpre : ∀ e ∈ pre, ∃ c, e = Event.cache c) :
    (∀ p, Event.remoteAdd p ∉ (r.syncFound cr twin api pre).trace)
    ∧ (∀ c, Event.cache c ∈ (r.syncFound cr twin api pre).trace ↔ Event.cache c ∈ pre) := by
  obtain ⟨tail, ht, htail⟩ := r.syncFound_calls_inventoryServerMeta cr twin api pre
  rw [ht]
  refine ⟨?_, ?_⟩
  · intro p h
    rcases List.mem_append.1 h with h | h
    · obtain ⟨c, hc⟩ := hpre _ h
      cases hc
    · rcases htail _ h with ⟨c, st, msg, hc⟩ | ⟨c, hc⟩ | ⟨id, q, hc⟩ <;> cases hc
  · intro c
    constructor
    · intro h
      rcases List.mem_append.1 h with h | h
      · exact h
      · rcases htail _ h with ⟨c, st, msg, hc⟩ | ⟨c, hc⟩ | ⟨id, q, hc⟩ <;> cases hc
    · intro h
      exact List.mem_append.2 (Or.inl h)

/-! ## C11: when the remote entity is created -/

/-- C11 (InventoryServerMeta, ServerClusterMeta, ServerClusterTemplateMeta, VPCMeta): in a
Meta-phase reconcile that has loaded the twin and its desired resource, for a twin without
deletion marker: a remote Add call is issued if and only if either `ID == 0` and the twin is
not imported or is imported and the by-name lookup misses, or `ID != 0` and the remote entity
is not found by id; the call issued carries the payload of the twin; when the twin is
not imported no by-name lookup is among the calls; and when the Add call is answered with status
200 and the id `n`, the call that follows it is the patch of the twin with `Spec.ID == n`. -/
theorem remote_add_issued_iff_due :
    (∀ (r : InventoryServerMetaReconciler) (req : NamespacedName) (cr : InventoryServer)
        (twin : InventoryServerMeta) (payload : HWServer),
        r.Client.GetMeta req = .found twin →
        r.Client.GetCR { req with Name := twin.Spec.InventoryServerName } = .found cr →
        twin.ObjectMeta.DeletionTimestamp = none →
        InventoryServerMetaToNetris twin = .ok payload →
        ((∃ p, Event.remoteAdd p ∈ (r.Reconcile req).trace)
          ↔ (twin.Spec.ID = 0 ∧ (twin.Spec.Imported = false
                ∨ (twin.Spec.Imported = true
                  ∧ r.NStorage.HWsStorage.FindServerByName twin.Spec.InventoryServerName
                    = none)))
            ∨ (twin.Spec.ID ≠ 0
              ∧ r.NStorage.HWsStorage.FindServerByID twin.Spec.ID = none))
        ∧ ((∃ p, Event.remoteAdd p ∈ (r.Reconcile req).trace) →
            Event.remoteAdd payload ∈ (r.Reconcile req).trace)
        ∧ (twin.Spec.Imported = false →
            ∀ s name, Event.cache (.findByName s name) ∉ (r.Reconcile req).trace)
        ∧ (∀ reply data n, (∃ p, Event.remoteAdd p ∈ (r.Reconcile req).trace) →
            r.Cred.Inventory.Add payload = .ok reply →
            reply.Parse = .ok data → reply.StatusCode = 200 → data.id = some n →
            ∃ pre post, (r.Reconcile req).trace
              = pre ++ [.remoteAdd payload,
                  .patchMeta { twin with Spec := { twin.Spec with ID := n } }] ++ post))
    ∧ (∀ (r : ServerClusterMetaReconciler) (req : NamespacedName) (cr : ServerCluster)
        (twin : ServerClusterMeta),
        r.Client.GetMeta req = .found twin →
        r.Client.GetCR { req with Name := twin.Spec.ServerClusterName } = .found cr →
        twin.ObjectMeta.DeletionTimestamp = none →
        ((∃ p, Event.remoteAdd p ∈ (r.Reconcile req).1.trace)
          ↔ (twin.Spec.ID = 0 ∧ (twin.Spec.Imported = false
                ∨ (twin.Spec.Imported = true
                  ∧ (r.NStorage.ServerClusterStorage.FindByName
                      r.NStorage.Cred.ServerClusterGet twin.Spec.ServerClusterName).1 = none)))
            ∨ (twin.Spec.ID ≠ 0
              ∧ (r.NStorage.ServerClusterStorage.FindByID r.NStorage.Cred.ServerClusterGet
                  twin.Spec.ID).1 = none))
        ∧ ((∃ p, Event.remoteAdd p ∈ (r.Reconcile req).1.trace) →
            Event.remoteAdd (ServerClusterMetaToNetris twin) ∈ (r.Reconcile req).1.trace)
        ∧ (twin.Spec.Imported = false →
            ∀ s name, Event.cache (.findByName s name) ∉ (r.Reconcile req).1.trace)
        ∧ (∀ reply data n, (∃ p, Event.remoteAdd p ∈ (r.Reconcile req).1.trace) →
            r.Cred.ServerCluster.Add (ServerClusterMetaToNetris twin) = .ok reply →
            reply.Parse = .ok data → reply.StatusCode = 200 → data.id = some n →
            ∃ pre post, (r.Reconcile req).1.trace
              = pre ++ [.remoteAdd (ServerClusterMetaToNetris twin),
                  .patchMeta { twin with Spec := { twin.Spec with ID := n } }] ++ post))
    ∧ (∀ (r : ServerClusterTemplateMetaReconciler) (req : NamespacedName)
        (cr : ServerClusterTemplate)
        (twin : ServerClusterTemplateMeta),
        r.Client.GetMeta req = .found twin →
        r.Client.GetCR { req with Name := twin.Spec.ServerClusterTemplateName } = .found cr →
        twin.ObjectMeta.DeletionTimestamp = none →
        ((∃ p, Event.remoteAdd p ∈ (r.Reconcile req).1.trace)
          ↔ (twin.Spec.ID = 0 ∧ (twin.Spec.Imported = false
                ∨ (twin.Spec.Imported = true
                  ∧ (r.NStorage.ServerClusterTemplateStorage.FindByName
                      r.NStorage.Cred.ServerClusterTemplateGet
                          twin.Spec.ServerClusterTemplateName).1 = none)))
            ∨ (twin.Spec.ID ≠ 0
              ∧ (r.NStorage.ServerClusterTemplateStorage.FindByID
                  r.NStorage.Cred.ServerClusterTemplateGet
                  twin.Spec.ID).1 = none))
        ∧ ((∃ p, Event.remoteAdd p ∈ (r.Reconcile req).1.trace) →
            Event.remoteAdd (ServerClusterTemplateMetaToNetris twin) ∈ (r.Reconcile req).1.trace)
        ∧ (twin.Spec.Imported = false →
            ∀ s name, Event.cache (.findByName s name) ∉ (r.Reconcile req).1.trace)
        ∧ (∀ reply data n, (∃ p, Event.remoteAdd p ∈ (r.Reconcile req).1.trace) →
            r.Cred.ServerClusterTemplate.Add (ServerClusterTemplateMetaToNetris twin) = .ok reply →
            reply.Parse = .ok data → reply.StatusCode = 200 → data.id = some n →
            ∃ pre post, (r.Reconcile req).1.trace
              = pre ++ [.remoteAdd (ServerClusterTemplateMetaToNetris twin),
                  .patchMeta { twin with Spec := { twin.Spec with ID := n } }] ++ post))
    ∧ (∀ (r : VPCMetaReconciler) (req : NamespacedName) (cr : VPC) (twin : VPCMeta),
        r.Client.GetMeta req = .found twin →
        r.Client.GetCR { req with Name := twin.Spec.VPCName } = .found cr →
        twin.ObjectMeta.DeletionTimestamp = none →
        ((∃ p, Event.remoteAdd p ∈ (r.Reconcile req).trace)
          ↔ (twin.Spec.ID = 0 ∧ (twin.Spec.Imported = false
                ∨ (twin.Spec.Imported = true
                  ∧ r.NStorage.VPCStorage.FindByName twin.Spec.VPCName = none)))
            ∨ (twin.Spec.ID ≠ 0 ∧ r.NStorage.VPCStorage.FindByID twin.Spec.ID = none))
        ∧ ((∃ p, Event.remoteAdd p ∈ (r.Reconcile req).trace) →
            Event.remoteAdd (VPCMetaToNetris twin) ∈ (r.Reconcile req).trace)
        ∧ (twin.Spec.Imported = false →
            ∀ s name, Event.cache (.findByName s name) ∉ (r.Reconcile req).trace)
        ∧ (∀ reply data n, (∃ p, Event.remoteAdd p ∈ (r.Reconcile req).trace) →
            r.Cred.VPC.Add (VPCMetaToNetris twin) = .ok reply →
            reply.Parse = .ok data → reply.StatusCode = 200 → data.id = some n →
            ∃ pre post, (r.Reconcile req).trace
              = pre ++ [.remoteAdd (VPCMetaToNetris twin),
                  .patchMeta { twin with Spec := { twin.Spec with ID := n } }] ++ post)) := by
  refine ⟨?_, ?_, ?_, ?_⟩
  · intro r req cr twin payload hTwin hCR hLive hPayload
    rw [r.Reconcile_loaded_inventoryServerMeta req cr twin hTwin hCR]
    simp only [InventoryServerMetaReconciler.reconcileLoaded, hLive, Option.isSome_none,
      Bool.false_eq_true, ↓reduceIte]
    have hp1 : ∀ e ∈ [(Event.cache (.findByName .hws twin.Spec.InventoryServerName) :
        InventoryServerEvent)], ∃ c, e = Event.cache c := by
      intro e he
      exact ⟨_, List.mem_singleton.1 he⟩
    have hp2 : ∀ e ∈ [(Event.cache (.findByID .hws twin.Spec.ID) : InventoryServerEvent)],
        ∃ c, e = Event.cache c := by
      intro e he
      exact ⟨_, List.mem_singleton.1 he⟩
    have hp0 : ∀ e ∈ ([] : List InventoryServerEvent), ∃ c, e = Event.cache c := by simp
    by_cases hID : twin.Spec.ID = 0
    · have h0 : (twin.Spec.ID == 0) = true := by simp [hID]
      rw [if_pos h0]
      by_cases hImp : twin.Spec.Imported = true
      · rw [if_pos hImp]
        cases hFind :
          r.NStorage.HWsStorage.FindServerByName twin.Spec.InventoryServerName with
        | some api =>
          have hno : ∀ p, Event.remoteAdd p ∉ (r.importByName cr twin).trace := by
            intro p h
            simp only [InventoryServerMetaReconciler.importByName, hFind] at h
            split at h <;>
              simp [Outcome.after, uniReconciler.patchInventoryServerStatus] at h
          refine ⟨?_, ?_, ?_, ?_⟩
          · constructor
            · rintro ⟨p, hp⟩
              exact absurd hp (hno p)
            · rintro (⟨_, h | ⟨_, h⟩⟩ | ⟨h, _⟩)
              · simp [hImp] at h
              · cases h
              · exact absurd hID h
          · rintro ⟨p, hp⟩
            exact absurd hp (hno p)
          · intro h
            simp [hImp] at h
          · rintro _ _ _ ⟨p, hp⟩
            exact absurd hp (hno p)
        | none =>
          obtain ⟨ha, hc, hpatch⟩ :=
            r.createThenFinish_adds_inventoryServerMeta cr twin payload _ hPayload hp1
          simp only [InventoryServerMetaReconciler.importByName, hFind]
          refine ⟨?_, ?_, ?_, ?_⟩
          · constructor
            · intro _
              exact Or.inl ⟨hID, Or.inr ⟨hImp, trivial⟩⟩
            · intro _
              exact ⟨_, (ha _).2 rfl⟩
          · intro _
            exact (ha _).2 rfl
          · intro h
            simp [hImp] at h
          · intro reply data n _ hAdd hParse hCode hId
            obtain ⟨post, hpost⟩ := hpatch reply data n hAdd hParse hCode hId
            exact ⟨_, post, hpost⟩
      · rw [if_neg hImp]
        have hImp' : twin.Spec.Imported = false := by simpa using hImp
        obtain ⟨ha, hc, hpatch⟩ :=
          r.createThenFinish_adds_inventoryServerMeta cr twin payload _ hPayload hp0
        refine ⟨?_, ?_, ?_, ?_⟩
        · constructor
          · intro _
            exact Or.inl ⟨hID, Or.inl hImp'⟩
          · intro _
            exact ⟨_, (ha _).2 rfl⟩
        · intro _
          exact (ha _).2 rfl
        · intro _ s name h
          simpa using (hc _).1 h
        · intro reply data n _ hAdd hParse hCode hId
          obtain ⟨post, hpost⟩ := hpatch reply data n hAdd hParse hCode hId
          exact ⟨_, post, hpost⟩
    · have h0 : ¬ (twin.Spec.ID == 0) = true := by simp [hID]
      rw [if_neg h0]
      cases hFind : r.NStorage.HWsStorage.FindServerByID twin.Spec.ID with
      | some api =>
        obtain ⟨hno, hc⟩ := r.syncFound_adds_inventoryServerMeta cr twin api _ hp2
        refine ⟨?_, ?_, ?_, ?_⟩
        · constructor
          · rintro ⟨p, hp⟩
            exact absurd hp (hno p)
          · rintro (⟨h, _⟩ | ⟨_, h⟩)
            · exact absurd h hID
            · cases h
        · rintro ⟨p, hp⟩
          exact absurd hp (hno p)
        · intro _ s name h
          simpa using (hc _).1 h
        · rintro _ _ _ ⟨p, hp⟩
          exact absurd hp (hno p)
      | none =>
        obtain ⟨ha, hc, hpatch⟩ :=
          r.createThenFinish_adds_inventoryServerMeta cr twin payload _ hPayload hp2
        refine ⟨?_, ?_, ?_, ?_⟩
        · constructor
          · intro _
            exact Or.inr ⟨hID, rfl⟩
          · intro _
            exact ⟨_, (ha _).2 rfl⟩
        · intro _
          exact (ha _).2 rfl
        · intro _ s name h
          simpa using (hc _).1 h
        · intro reply data n _ hAdd hParse hCode hId
          obtain ⟨post, hpost⟩ := hpatch reply data n hAdd hParse hCode hId
          exact ⟨_, post, hpost⟩
  · intro r req cr twin hTwin hCR hLive
    rw [r.Reconcile_loaded_serverClusterMeta req cr twin hTwin hCR]
    simp only [ServerClusterMetaReconciler.reconcileLoaded, hLive, Option.isSome_none,
      Bool.false_eq_true, ↓reduceIte]
    have hp0 : ∀ e ∈ ([] : List ServerClusterEvent), ∃ c, e = Event.cache c := by simp
    have hpc : ∀ calls : List CacheCall,
        ∀ e ∈ (calls.map Event.cache : List ServerClusterEvent), ∃ c, e = Event.cache c := by
      intro calls e he
      obtain ⟨c, _, hc⟩ := List.mem_map.1 he
      exact ⟨c, hc.symm⟩
    by_cases hID : twin.Spec.ID = 0
    · have h0 : (twin.Spec.ID == 0) = true := by simp [hID]
      rw [if_pos h0]
      by_cases hImp : twin.Spec.Imported = true
      · rw [if_pos hImp]
        rcases hf : r.NStorage.ServerClusterStorage.FindByName
          r.NStorage.Cred.ServerClusterGet twin.Spec.ServerClusterName
          with ⟨found, storage, calls⟩
        simp only []
        cases found with
        | some api =>
          have hno := r.importByName_found_adds_serverClusterMeta cr twin api _ (hpc calls)
          refine ⟨?_, ?_, ?_, ?_⟩
          · constructor
            · rintro ⟨p, hp⟩
              exact absurd hp (hno p)
            · rintro (⟨_, h | ⟨_, h⟩⟩ | ⟨h, _⟩)
              · simp [hImp] at h
              · cases h
              · exact absurd hID h
          · rintro ⟨p, hp⟩
            exact absurd hp (hno p)
          · intro h
            simp [hImp] at h
          · rintro _ _ _ ⟨p, hp⟩
            exact absurd hp (hno p)
        | none =>
          obtain ⟨ha, hc, hpatch⟩ :=
            r.createThenFinish_adds_serverClusterMeta cr twin _ (hpc calls)
          simp only [ServerClusterMetaReconciler.importByName]
          refine ⟨?_, ?_, ?_, ?_⟩
          · constructor
            · intro _
              exact Or.inl ⟨hID, Or.inr ⟨hImp, trivial⟩⟩
            · intro _
              exact ⟨_, (ha _).2 rfl⟩
          · intro _
            exact (ha _).2 rfl
          · intro h
            simp [hImp] at h
          · intro reply data n _ hAdd hParse hCode hId
            obtain ⟨post, hpost⟩ := hpatch reply data n hAdd hParse hCode hId
            exact ⟨_, post, hpost⟩
      · rw [if_neg hImp]
        have hImp' : twin.Spec.Imported = false := by simpa using hImp
        obtain ⟨ha, hc, hpatch⟩ := r.createThenFinish_adds_serverClusterMeta cr twin _ hp0
        refine ⟨?_, ?_, ?_, ?_⟩
        · constructor
          · intro _
            exact Or.inl ⟨hID, Or.inl hImp'⟩
          · intro _
            exact ⟨_, (ha _).2 rfl⟩
        · intro _
          exact (ha _).2 rfl
        · intro _ s name h
          simpa using (hc _).1 h
        · intro reply data n _ hAdd hParse hCode hId
          obtain ⟨post, hpost⟩ := hpatch reply data n hAdd hParse hCode hId
          exact ⟨_, post, hpost⟩
    · have h0 : ¬ (twin.Spec.ID == 0) = true := by simp [hID]
      rw [if_neg h0]
      have hcalls := r.NStorage.ServerClusterStorage.FindByID_calls_clusters
        r.NStorage.Cred.ServerClusterGet twin.Spec.ID
      rcases hf : r.NStorage.ServerClusterStorage.FindByID
        r.NStorage.Cred.ServerClusterGet twin.Spec.ID with ⟨found, storage, calls⟩
      rw [hf] at hcalls
      simp only [] at hcalls
      have hnoname : ∀ s name,
          (Event.cache (.findByName s name) : ServerClusterEvent) ∉ calls.map Event.cache := by
        intro s name h
        obtain ⟨c, hc, he⟩ := List.mem_map.1 h
        cases he
        rcases hcalls with hcalls | hcalls <;> simp [hcalls] at hc
      cases found with
      | some api =>
        obtain ⟨hno, hc⟩ := r.syncFound_adds_serverClusterMeta cr twin api _ (hpc calls)
        refine ⟨?_, ?_, ?_, ?_⟩
        · constructor
          · rintro ⟨p, hp⟩
            exact absurd hp (hno p)
          · rintro (⟨h, _⟩ | ⟨_, h⟩)
            · exact absurd h hID
            · cases h
        · rintro ⟨p, hp⟩
          exact absurd hp (hno p)
        · intro _ s name h
          exact hnoname s name ((hc _).1 h)
        · rintro _ _ _ ⟨p, hp⟩
          exact absurd hp (hno p)
      | none =>
        obtain ⟨ha, hc, hpatch⟩ :=
          r.createThenFinish_adds_serverClusterMeta cr twin _ (hpc calls)
        refine ⟨?_, ?_, ?_, ?_⟩
        · constructor
          · intro _
            exact Or.inr ⟨hID, rfl⟩
          · intro _
            exact ⟨_, (ha _).2 rfl⟩
        · intro _
          exact (ha _).2 rfl
        · intro _ s name h
          exact hnoname s name ((hc _).1 h)
        · intro reply data n _ hAdd hParse hCode hId
          obtain ⟨post, hpost⟩ := hpatch reply data n hAdd hParse hCode hId
          exact ⟨_, post, hpost⟩
  · intro r req cr twin hTwin hCR hLive
    rw [r.Reconcile_loaded_templateMeta req cr twin hTwin hCR]
    simp only [ServerClusterTemplateMetaReconciler.reconcileLoaded, hLive, Option.isSome_none,
      Bool.false_eq_true, ↓reduceIte]
    have hp0 : ∀ e ∈ ([] : List ServerClusterTemplateEvent), ∃ c, e = Event.cache c := by simp
    have hpc : ∀ calls : List CacheCall,
        ∀ e ∈ (calls.map Event.cache : List ServerClusterTemplateEvent), ∃ c, e = Event.cache c :=
            by
      intro calls e he
      obtain ⟨c, _, hc⟩ := List.mem_map.1 he
      exact ⟨c, hc.symm⟩
    by_cases hID : twin.Spec.ID = 0
    · have h0 : (twin.Spec.ID == 0) = true := by simp [hID]
      rw [if_pos h0]
      by_cases hImp : twin.Spec.Imported = true
      · rw [if_pos hImp]
        rcases hf : r.NStorage.ServerClusterTemplateStorage.FindByName
          r.NStorage.Cred.ServerClusterTemplateGet twin.Spec.ServerClusterTemplateName
          with ⟨found, storage, calls⟩
        simp only []
        cases found with
        | some api =>
          have hno := r.importByName_found_adds_templateMeta cr twin api _ (hpc calls)
          refine ⟨?_, ?_, ?_, ?_⟩
          · constructor
            · rintro ⟨p, hp⟩
              exact absurd hp (hno p)
            · rintro (⟨_, h | ⟨_, h⟩⟩ | ⟨h, _⟩)
              · simp [hImp] at h
              · cases h
              · exact absurd hID h
          · rintro ⟨p, hp⟩
            exact absurd hp (hno p)
          · intro h
            simp [hImp] at h
          · rintro _ _ _ ⟨p, hp⟩
            exact absurd hp (hno p)
        | none =>
          obtain ⟨ha, hc, hpatch⟩ :=
            r.createThenFinish_adds_templateMeta cr twin _ (hpc calls)
          simp only [ServerClusterTemplateMetaReconciler.importByName]
          refine ⟨?_, ?_, ?_, ?_⟩
          · constructor
            · intro _
              exact Or.inl ⟨hID, Or.inr ⟨hImp, trivial⟩⟩
            · intro _
              exact ⟨_, (ha _).2 rfl⟩
          · intro _
            exact (ha _).2 rfl
          · intro h
            simp [hImp] at h
          · intro reply data n _ hAdd hParse hCode hId
            obtain ⟨post, hpost⟩ := hpatch reply data n hAdd hParse hCode hId
            exact ⟨_, post, hpost⟩
      · rw [if_neg hImp]
        have hImp' : twin.Spec.Imported = false := by simpa using hImp
        obtain ⟨ha, hc, hpatch⟩ := r.createThenFinish_adds_templateMeta cr twin _ hp0
        refine ⟨?_, ?_, ?_, ?_⟩
        · constructor
          · intro _
            exact Or.inl ⟨hID, Or.inl hImp'⟩
          · intro _
            exact ⟨_, (ha _).2 rfl⟩
        · intro _
          exact (ha _).2 rfl
        · intro _ s name h
          simpa using (hc _).1 h
        · intro reply data n _ hAdd hParse hCode hId
          obtain ⟨post, hpost⟩ := hpatch reply data n hAdd hParse hCode hId
          exact ⟨_, post, hpost⟩
    · have h0 : ¬ (twin.Spec.ID == 0) = true := by simp [hID]
      rw [if_neg h0]
      have hcalls := r.NStorage.ServerClusterTemplateStorage.FindByID_calls_templates
        r.NStorage.Cred.ServerClusterTemplateGet twin.Spec.ID
      rcases hf : r.NStorage.ServerClusterTemplateStorage.FindByID
        r.NStorage.Cred.ServerClusterTemplateGet twin.Spec.ID with ⟨found, storage, calls⟩
      rw [hf] at hcalls
      simp only [] at hcalls
      have hnoname : ∀ s name,
          (Event.cache (.findByName s name) : ServerClusterTemplateEvent) ∉ calls.map Event.cache :=
              by
        intro s name h
        obtain ⟨c, hc, he⟩ := List.mem_map.1 h
        cases he
        rcases hcalls with hcalls | hcalls <;> simp [hcalls] at hc
      cases found with
      | some api =>
        obtain ⟨hno, hc⟩ := r.syncFound_adds_templateMeta cr twin api _ (hpc calls)
        refine ⟨?_, ?_, ?_, ?_⟩
        · constructor
          · rintro ⟨p, hp⟩
            exact absurd hp (hno p)
          · rintro (⟨h, _⟩ | ⟨_, h⟩)
            · exact absurd h hID
            · cases h
        · rintro ⟨p, hp⟩
          exact absurd hp (hno p)
        · intro _ s name h
          exact hnoname s name ((hc _).1 h)
        · rintro _ _ _ ⟨p, hp⟩
          exact absurd hp (hno p)
      | none =>
        obtain ⟨ha, hc, hpatch⟩ :=
          r.createThenFinish_adds_templateMeta cr twin _ (hpc calls)
        refine ⟨?_, ?_, ?_, ?_⟩
        · constructor
          · intro _
            exact Or.inr ⟨hID, rfl⟩
          · intro _
            exact ⟨_, (ha _).2 rfl⟩
        · intro _
          exact (ha _).2 rfl
        · intro _ s name h
          exact hnoname s name ((hc _).1 h)
        · intro reply data n _ hAdd hParse hCode hId
          obtain ⟨post, hpost⟩ := hpatch reply data n hAdd hParse hCode hId
          exact ⟨_, post, hpost⟩
  · intro r req cr twin hTwin hCR hLive
    rw [r.Reconcile_loaded_vpcMeta req cr twin hTwin hCR]
    simp only [VPCMetaReconciler.reconcileLoaded, hLive, Option.isSome_none, Bool.false_eq_true,
      ↓reduceIte]
    have hp1 : ∀ e ∈ [(Event.cache (.findByName .vpcs twin.Spec.VPCName) : VPCEvent)],
        ∃ c, e = Event.cache c := by
      intro e he
      exact ⟨_, List.mem_singleton.1 he⟩
    have hp2 : ∀ e ∈ [(Event.cache (.findByID .vpcs twin.Spec.ID) : VPCEvent)],
        ∃ c, e = Event.cache c := by
      intro e he
      exact ⟨_, List.mem_singleton.1 he⟩
    have hp0 : ∀ e ∈ ([] : List VPCEvent), ∃ c, e = Event.cache c := by simp
    by_cases hID : twin.Spec.ID = 0
    · have h0 : (twin.Spec.ID == 0) = true := by simp [hID]
      rw [if_pos h0]
      by_cases hImp : twin.Spec.Imported = true
      · rw [if_pos hImp]
        cases hFind : r.NStorage.VPCStorage.FindByName twin.Spec.VPCName with
        | some api =>
          have hno := r.importByName_found_adds_vpcMeta cr twin api _ hp1
          refine ⟨?_, ?_, ?_, ?_⟩
          · constructor
            · rintro ⟨p, hp⟩
              exact absurd hp (hno p)
            · rintro (⟨_, h | ⟨_, h⟩⟩ | ⟨h, _⟩)
              · simp [hImp] at h
              · cases h
              · exact absurd hID h
          · rintro ⟨p, hp⟩
            exact absurd hp (hno p)
          · intro h
            simp [hImp] at h
          · rintro _ _ _ ⟨p, hp⟩
            exact absurd hp (hno p)
        | none =>
          obtain ⟨ha, hc, hpatch⟩ := r.createThenFinish_adds_vpcMeta cr twin _ hp1
          simp only [VPCMetaReconciler.importByName]
          refine ⟨?_, ?_, ?_, ?_⟩
          · constructor
            · intro _
              exact Or.inl ⟨hID, Or.inr ⟨hImp, trivial⟩⟩
            · intro _
              exact ⟨_, (ha _).2 rfl⟩
          · intro _
            exact (ha _).2 rfl
          · intro h
            simp [hImp] at h
          · intro reply data n _ hAdd hParse hCode hId
            obtain ⟨post, hpost⟩ := hpatch reply data n hAdd hParse hCode hId
            exact ⟨_, post, hpost⟩
      · rw [if_neg hImp]
        have hImp' : twin.Spec.Imported = false := by simpa using hImp
        obtain ⟨ha, hc, hpatch⟩ := r.createThenFinish_adds_vpcMeta cr twin _ hp0
        refine ⟨?_, ?_, ?_, ?_⟩
        · constructor
          · intro _
            exact Or.inl ⟨hID, Or.inl hImp'⟩
          · intro _
            exact ⟨_, (ha _).2 rfl⟩
        · intro _
          exact (ha _).2 rfl
        · intro _ s name h
          simpa using (hc _).1 h
        · intro reply data n _ hAdd hParse hCode hId
          obtain ⟨post, hpost⟩ := hpatch reply data n hAdd hParse hCode hId
          exact ⟨_, post, hpost⟩
    · have h0 : ¬ (twin.Spec.ID == 0) = true := by simp [hID]
      rw [if_neg h0]
      cases hFind : r.NStorage.VPCStorage.FindByID twin.Spec.ID with
      | some api =>
        obtain ⟨hno, hc⟩ := r.syncFound_adds_vpcMeta cr twin api _ hp2
        refine ⟨?_, ?_, ?_, ?_⟩
        · constructor
          · rintro ⟨p, hp⟩
            exact absurd hp (hno p)
          · rintro (⟨h, _⟩ | ⟨_, h⟩)
            · exact absurd h hID
            · cases h
        · rintro ⟨p, hp⟩
          exact absurd hp (hno p)
        · intro _ s name h
          simpa using (hc _).1 h
        · rintro _ _ _ ⟨p, hp⟩
          exact absurd hp (hno p)
      | none =>
        obtain ⟨ha, hc, hpatch⟩ := r.createThenFinish_adds_vpcMeta cr twin _ hp2
        refine ⟨?_, ?_, ?_, ?_⟩
        · constructor
          · intro _
            exact Or.inr ⟨hID, rfl⟩
          · intro _
            exact ⟨_, (ha _).2 rfl⟩
        · intro _
          exact (ha _).2 rfl
        · intro _ s name h
          simpa using (hc _).1 h
        · intro reply data n _ hAdd hParse hCode hId
          obtain ⟨post, hpost⟩ := hpatch reply data n hAdd hParse hCode hId
          exact ⟨_, post, hpost⟩

/-- The theorem of C11 at twins without id that are not imported, with the remote Add call
answered with status 200 and the id 42: each reconcile issues the Add call and patches the
twin with `Spec.ID == 42`, and makes no by-name lookup; and at a VPCMeta twin 7 found by id:
no Add call is issued. -/
theorem remote_add_issued_iff_due_witness :
    (∃ payload pre post,
        InventoryServerMetaToNetris (Scenario.inventoryServerMeta 0 2 "d" "" false false)
          = .ok payload
        ∧ ((Scenario.inventoryServerMetaReconciler (Scenario.inventoryServer "sfo1" "d" 2 false)
            (Scenario.inventoryServerMeta 0 2 "d" "" false false) none 200
            []).Reconcile (Scenario.request "uid-1")).trace
          = pre ++ [.remoteAdd payload,
              .patchMeta { Scenario.inventoryServerMeta 0 2 "d" "" false false with
                Spec := { (Scenario.inventoryServerMeta 0 2 "d" "" false false).Spec with
                  ID := 42 } }] ++ post)
    ∧ (∃ pre post,
        ((Scenario.serverClusterMetaReconciler (Scenario.serverCluster "sfo1" 2 false)
          (Scenario.serverClusterMeta 0 2 false false) none 200
          []).Reconcile (Scenario.request "uid-2")).1.trace
          = pre ++ [.remoteAdd (ServerClusterMetaToNetris
                (Scenario.serverClusterMeta 0 2 false false)),
              .patchMeta { Scenario.serverClusterMeta 0 2 false false with
                Spec := { (Scenario.serverClusterMeta 0 2 false false).Spec with
                  ID := 42 } }] ++ post)
    ∧ (∃ pre post,
        ((Scenario.templateMetaReconciler (Scenario.template 2 false)
          (Scenario.templateMeta 0 2 false false) none 200
          []).Reconcile (Scenario.request "uid-3")).1.trace
          = pre ++ [.remoteAdd (ServerClusterTemplateMetaToNetris
                (Scenario.templateMeta 0 2 false false)),
              .patchMeta { Scenario.templateMeta 0 2 false false with
                Spec := { (Scenario.templateMeta 0 2 false false).Spec with
                  ID := 42 } }] ++ post)
    ∧ (∀ s name, Event.cache (.findByName s name) ∉
        ((Scenario.vpcMetaReconciler (Scenario.vpc "admin" 2) (Scenario.vpcMeta 0 2 false) none
          200 []).Reconcile (Scenario.request "uid-4")).trace)
    ∧ (¬ ∃ p, Event.remoteAdd p ∈
        ((Scenario.vpcMetaReconciler (Scenario.vpc "admin" 2) (Scenario.vpcMeta 7 2 false) none
          200 [Scenario.remoteVPC 7]).Reconcile (Scenario.request "uid-4")).trace) := by
  refine ⟨?_, ?_, ?_, ?_, ?_⟩
  · have h := remote_add_issued_iff_due.1
      (Scenario.inventoryServerMetaReconciler (Scenario.inventoryServer "sfo1" "d" 2 false)
        (Scenario.inventoryServerMeta 0 2 "d" "" false false) none 200 [])
      (Scenario.request "uid-1") _ _ _ rfl rfl rfl rfl
    obtain ⟨pre, post, hp⟩ :=
      h.2.2.2 _ _ 42 (h.1.2 (Or.inl ⟨rfl, Or.inl rfl⟩)) rfl rfl rfl rfl
    exact ⟨_, pre, post, rfl, hp⟩
  · have h := remote_add_issued_iff_due.2.1
      (Scenario.serverClusterMetaReconciler (Scenario.serverCluster "sfo1" 2 false)
        (Scenario.serverClusterMeta 0 2 false false) none 200 [])
      (Scenario.request "uid-2") _ _ rfl rfl rfl
    exact h.2.2.2 _ _ 42 (h.1.2 (Or.inl ⟨rfl, Or.inl rfl⟩)) rfl rfl rfl rfl
  · have h := remote_add_issued_iff_due.2.2.1
      (Scenario.templateMetaReconciler (Scenario.template 2 false)
        (Scenario.templateMeta 0 2 false false) none 200 [])
      (Scenario.request "uid-3") _ _ rfl rfl rfl
    exact h.2.2.2 _ _ 42 (h.1.2 (Or.inl ⟨rfl, Or.inl rfl⟩)) rfl rfl rfl rfl
  · exact (remote_add_issued_iff_due.2.2.2
      (Scenario.vpcMetaReconciler (Scenario.vpc "admin" 2) (Scenario.vpcMeta 0 2 false) none
        200 []) (Scenario.request "uid-4") _ _ rfl rfl rfl).2.2.1 rfl
  · have h := remote_add_issued_iff_due.2.2.2
      (Scenario.vpcMetaReconciler (Scenario.vpc "admin" 2) (Scenario.vpcMeta 7 2 false) none
        200 [Scenario.remoteVPC 7]) (Scenario.request "uid-4") _ _ rfl rfl rfl
    intro hadd
    rcases h.1.1 hadd with ⟨h0, _⟩ | ⟨_, hf⟩
    · exact absurd h0 (by decide)
    · exact absurd hf (by decide)

/-! ## C12: the deletion marker that stops a Meta-phase reconcile -/

/-- C12, as the code has it (InventoryServerMeta, ServerClusterMeta,
ServerClusterTemplateMeta, VPCMeta): in a Meta-phase reconcile that has loaded the twin and
its desired resource, the marker tested is the one of the twin.  When the twin carries a
deletion marker the reconcile returns at once with no call at all (no lookup, no remote Add
or Update, no patch) and leaves the caches as they were; when the twin carries none the
reconcile makes calls, whether or not the desired resource carries a deletion marker. -/
theorem meta_reconcile_noop_on_twin_marker :
    (∀ (r : InventoryServerMetaReconciler) (req : NamespacedName) (cr : InventoryServer)
        (twin : InventoryServerMeta),
        r.Client.GetMeta req = .found twin →
        r.Client.GetCR { req with Name := twin.Spec.InventoryServerName } = .found cr →
        (twin.ObjectMeta.DeletionTimestamp ≠ none →
          r.Reconcile req = { ret := .returned Result.empty none, trace := [] })
        ∧ (twin.ObjectMeta.DeletionTimestamp = none → (r.Reconcile req).trace ≠ []))
    ∧ (∀ (r : ServerClusterMetaReconciler) (req : NamespacedName) (cr : ServerCluster)
        (twin : ServerClusterMeta),
        r.Client.GetMeta req = .found twin →
        r.Client.GetCR { req with Name := twin.Spec.ServerClusterName } = .found cr →
        (twin.ObjectMeta.DeletionTimestamp ≠ none →
          r.Reconcile req
            = ({ ret := .returned Result.empty none, trace := [] },
                r.NStorage.ServerClusterStorage))
        ∧ (twin.ObjectMeta.DeletionTimestamp = none → (r.Reconcile req).1.trace ≠ []))
    ∧ (∀ (r : ServerClusterTemplateMetaReconciler) (req : NamespacedName)
        (cr : ServerClusterTemplate) (twin : ServerClusterTemplateMeta),
        r.Client.GetMeta req = .found twin →
        r.Client.GetCR { req with Name := twin.Spec.ServerClusterTemplateName } = .found cr →
        (twin.ObjectMeta.DeletionTimestamp ≠ none →
          r.Reconcile req
            = ({ ret := .returned Result.empty none, trace := [] },
                r.NStorage.ServerClusterTemplateStorage))
        ∧ (twin.ObjectMeta.DeletionTimestamp = none → (r.Reconcile req).1.trace ≠ []))
    ∧ (∀ (r : VPCMetaReconciler) (req : NamespacedName) (cr : VPC) (twin : VPCMeta),
        r.Client.GetMeta req = .found twin →
        r.Client.GetCR { req with Name := twin.Spec.VPCName } = .found cr →
        (twin.ObjectMeta.DeletionTimestamp ≠ none →
          r.Reconcile req = { ret := .returned Result.empty none, trace := [] })
        ∧ (twin.ObjectMeta.DeletionTimestamp = none → (r.Reconcile req).trace ≠ [])) := by
  refine ⟨?_, ?_, ?_, ?_⟩
  · intro r req cr twin hTwin hCR
    rw [r.Reconcile_loaded_inventoryServerMeta req cr twin hTwin hCR]
    refine ⟨?_, ?_⟩
    · intro hDel
      have hs : twin.ObjectMeta.DeletionTimestamp.isSome = true :=
        Option.isSome_iff_ne_none.2 hDel
      simp [InventoryServerMetaReconciler.reconcileLoaded, hs]
    · intro hLive
      obtain ⟨payload, hPayload⟩ := InventoryServerMetaToNetris_ok twin
      have hcreate : ∀ pre, (r.createThenFinish cr twin pre).trace ≠ [] := by
        intro pre
        obtain ⟨tail, ht, _⟩ := r.createThenFinish_calls_inventoryServerMeta cr twin pre
        obtain ⟨rest, hr, _⟩ := r.createInventoryServer_calls twin payload hPayload
        rw [ht, hr]
        simp
      simp only [InventoryServerMetaReconciler.reconcileLoaded, hLive, Option.isSome_none,
        Bool.false_eq_true, ↓reduceIte]
      split
      · split
        · simp only [InventoryServerMetaReconciler.importByName]
          split
          · split <;> simp [Outcome.after]
          · exact hcreate _
        · exact hcreate _
      · split
        · obtain ⟨tail, ht, _⟩ := r.syncFound_calls_inventoryServerMeta cr twin ‹_› _
          rw [ht]
          simp
        · exact hcreate _
  · intro r req cr twin hTwin hCR
    rw [r.Reconcile_loaded_serverClusterMeta req cr twin hTwin hCR]
    refine ⟨?_, ?_⟩
    · intro hDel
      have hs : twin.ObjectMeta.DeletionTimestamp.isSome = true :=
        Option.isSome_iff_ne_none.2 hDel
      simp [ServerClusterMetaReconciler.reconcileLoaded, hs]
    · intro hLive
      have hcreate : ∀ pre, (r.createThenFinish cr twin pre).trace ≠ [] := by
        intro pre
        obtain ⟨tail, ht, _⟩ := r.createThenFinish_calls_serverClusterMeta cr twin pre
        obtain ⟨rest, hr, _⟩ := r.createServerCluster_calls twin
        rw [ht, hr]
        simp
      simp only [ServerClusterMetaReconciler.reconcileLoaded, hLive, Option.isSome_none,
        Bool.false_eq_true, ↓reduceIte]
      split
      · split
        · simp only [ServerClusterMetaReconciler.importByName]
          split
          · split <;> simp [Outcome.after]
          · exact hcreate _
        · exact hcreate _
      · split
        · rename_i api storage calls hf
          obtain ⟨_, _, _, hlast, _⟩ :=
            r.syncFound_ends_serverClusterMeta cr twin api (calls.map Event.cache)
          intro hnil
          rw [hnil] at hlast
          simp at hlast
        · exact hcreate _
  · intro r req cr twin hTwin hCR
    rw [r.Reconcile_loaded_templateMeta req cr twin hTwin hCR]
    refine ⟨?_, ?_⟩
    · intro hDel
      have hs : twin.ObjectMeta.DeletionTimestamp.isSome = true :=
        Option.isSome_iff_ne_none.2 hDel
      simp [ServerClusterTemplateMetaReconciler.reconcileLoaded, hs]
    · intro hLive
      have hcreate : ∀ pre, (r.createThenFinish cr twin pre).trace ≠ [] := by
        intro pre
        obtain ⟨tail, ht, _⟩ := r.createThenFinish_calls_templateMeta cr twin pre
        obtain ⟨rest, hr, _⟩ := r.createServerClusterTemplate_calls twin
        rw [ht, hr]
        simp
      simp only [ServerClusterTemplateMetaReconciler.reconcileLoaded, hLive, Option.isSome_none,
        Bool.false_eq_true, ↓reduceIte]
      split
      · split
        · simp only [ServerClusterTemplateMetaReconciler.importByName]
          split
          · split <;> simp [Outcome.after]
          · exact hcreate _
        · exact hcreate _
      · split
        · rename_i api storage calls hf
          obtain ⟨_, _, _, hlast, _⟩ :=
            r.syncFound_ends_templateMeta cr twin api (calls.map Event.cache)
          intro hnil
          rw [hnil] at hlast
          simp at hlast
        · exact hcreate _
  · intro r req cr twin hTwin hCR
    rw [r.Reconcile_loaded_vpcMeta req cr twin hTwin hCR]
    refine ⟨?_, ?_⟩
    · intro hDel
      have hs : twin.ObjectMeta.DeletionTimestamp.isSome = true :=
        Option.isSome_iff_ne_none.2 hDel
      simp [VPCMetaReconciler.reconcileLoaded, hs]
    · intro hLive
      have hcreate : ∀ pre, (r.createThenFinish cr twin pre).trace ≠ [] := by
        intro pre
        obtain ⟨tail, ht, _⟩ := r.createThenFinish_calls_vpcMeta cr twin pre
        obtain ⟨rest, hr, _⟩ := r.createVPC_calls twin
        rw [ht, hr]
        simp
      simp only [VPCMetaReconciler.reconcileLoaded, hLive, Option.isSome_none,
        Bool.false_eq_true, ↓reduceIte]
      split
      · split
        · simp only [VPCMetaReconciler.importByName]
          split
          · split <;> simp [Outcome.after]
          · exact hcreate _
        · exact hcreate _
      · split
        · obtain ⟨tail, ht, _⟩ := r.syncFound_calls_vpcMeta cr twin ‹_› _
          rw [ht]
          simp
        · exact hcreate _

/-- The theorem of C12 at a VPCMeta twin 7 that carries a deletion marker: the reconcile
makes no call; and at the same twin without marker: the reconcile makes calls. -/
theorem meta_reconcile_noop_on_twin_marker_witness :
    ((Scenario.vpcMetaReconciler (Scenario.vpc "admin" 2)
        { Scenario.vpcMeta 7 2 false with
          ObjectMeta := { (Scenario.vpcMeta 7 2 false).ObjectMeta with
            DeletionTimestamp := some 1 } } none 200
        [Scenario.remoteVPC 7]).Reconcile (Scenario.request "uid-4"))
        = { ret := .returned Result.empty none, trace := [] }
    ∧ ((Scenario.vpcMetaReconciler (Scenario.vpc "admin" 2) (Scenario.vpcMeta 7 2 false) none
        200 [Scenario.remoteVPC 7]).Reconcile (Scenario.request "uid-4")).trace ≠ [] := by
  refine ⟨?_, ?_⟩
  · exact (meta_reconcile_noop_on_twin_marker.2.2.2
      (Scenario.vpcMetaReconciler (Scenario.vpc "admin" 2)
        { Scenario.vpcMeta 7 2 false with
          ObjectMeta := { (Scenario.vpcMeta 7 2 false).ObjectMeta with
            DeletionTimestamp := some 1 } } none 200 [Scenario.remoteVPC 7])
      (Scenario.request "uid-4") _ _ rfl rfl).1 (by decide)
  · exact (meta_reconcile_noop_on_twin_marker.2.2.2
      (Scenario.vpcMetaReconciler (Scenario.vpc "admin" 2) (Scenario.vpcMeta 7 2 false) none
        200 [Scenario.remoteVPC 7]) (Scenario.request "uid-4") _ _ rfl rfl).2 rfl

/-- C12 as stated fails: the desired ServerCluster carries a deletion marker, its twin without
id carries none; the Meta-phase reconcile issues the remote Add call, patches the twin with
the id 42 and patches the status of the desired resource. -/
theorem meta_reconcile_marked_resource_counterexample :
    (Scenario.serverCluster "sfo1" 2 true).ObjectMeta.DeletionTimestamp = some 1
    ∧ (Scenario.serverClusterMeta 0 2 false false).ObjectMeta.DeletionTimestamp = none
    ∧ ((Scenario.serverClusterMetaReconciler (Scenario.serverCluster "sfo1" 2 true)
        (Scenario.serverClusterMeta 0 2 false false) none 200
        []).Reconcile (Scenario.request "uid-2")).1.trace
        = [.remoteAdd (ServerClusterMetaToNetris (Scenario.serverClusterMeta 0 2 false false)),
           .patchMeta { Scenario.serverClusterMeta 0 2 false false with
             Spec := { (Scenario.serverClusterMeta 0 2 false false).Spec with ID := 42 } },
           .patchStatus { Scenario.serverCluster "sfo1" 2 true with
             Status := { Status := "OK", Message := "Success" } } "OK" "Success"] := by
  exact ⟨rfl, rfl, rfl⟩

/-! ## C13: the fields `compareInventoryServerMetaAPIServer` compares -/

/-- C13, as the code has it: `compareInventoryServerMetaAPIServer` returns true (unchanged)
if and only if the remote server equals the twin in name, description, tenant id, site id,
profile id, main address, management address, port count, UUID, custom data and server role,
so a difference in any one of these fields alone makes it return false.  The ASN, the links
and the tags are not compared: the result is the same whatever the remote server holds in
them. -/
theorem compareInventoryServerMetaAPIServer_iff (twin : InventoryServerMeta) (api : HW) :
    (compareInventoryServerMetaAPIServer twin api = true
      ↔ api.Name = twin.Spec.InventoryServerName
        ∧ api.Description = twin.Spec.Description
        ∧ api.Tenant.ID = twin.Spec.TenantID
        ∧ api.Site.ID = twin.Spec.SiteID
        ∧ api.Profile.ID = twin.Spec.ProfileID
        ∧ api.MainIP.Address = twin.Spec.MainIP
        ∧ api.MgmtIP.Address = twin.Spec.MgmtIP
        ∧ api.PortCount = twin.Spec.PortsCount
        ∧ api.UUID = twin.Spec.UUID
        ∧ api.CustomData = twin.Spec.CustomData
        ∧ api.SRVRole = twin.Spec.SRVRole)
    ∧ ∀ (asn : Int) (links : List HWLink) (tags : List String),
        compareInventoryServerMetaAPIServer twin
            { api with Asn := asn, Links := links, Tags := tags }
          = compareInventoryServerMetaAPIServer twin api := by
  refine ⟨?_, fun _ _ _ => rfl⟩
  simp only [compareInventoryServerMetaAPIServer, bne_iff_ne, ne_eq, ite_not,
    Bool.if_false_right, Bool.if_true_left, Bool.and_eq_true, Bool.or_eq_true,
    decide_eq_true_eq, Bool.decide_eq_true, Bool.if_false_left, Bool.not_eq_true',
    decide_eq_false_iff_not, Bool.and_true, Bool.true_and]

/-- C13 as stated fails: the remote server equals the twin in every compared field and
differs from it in the ASN, in the links and in the tags, each alone, and
`compareInventoryServerMetaAPIServer` returns true. -/
theorem compareInventoryServerMetaAPIServer_counterexample :
    (Scenario.inventoryServerMeta 7 2 "d" "10.0.0.1" false false).Spec.ASN ≠ 64512
    ∧ compareInventoryServerMetaAPIServer
        (Scenario.inventoryServerMeta 7 2 "d" "10.0.0.1" false false)
        { Scenario.hw 7 "d" "10.0.0.1" with Asn := 64512 } = true
    ∧ (Scenario.inventoryServerMeta 7 2 "d" "10.0.0.1" false false).Spec.Links ≠ []
    ∧ compareInventoryServerMetaAPIServer
        (Scenario.inventoryServerMeta 7 2 "d" "10.0.0.1" false false)
        { Scenario.hw 7 "d" "10.0.0.1" with Links := [] } = true
    ∧ (Scenario.inventoryServerMeta 7 2 "d" "10.0.0.1" false false).Spec.Tags ≠ ["b"]
    ∧ compareInventoryServerMetaAPIServer
        (Scenario.inventoryServerMeta 7 2 "d" "10.0.0.1" false false)
        { Scenario.hw 7 "d" "10.0.0.1" with Tags := ["b"] } = true := by
  exact ⟨by decide, rfl, by decide, rfl, by decide, rfl⟩

/-! ## C14: the fields `compareVPCMetaAPI` compares -/

/-- C14, as the code has it: `compareVPCMetaAPI` returns true (unchanged) if and only if the
remote VPC has the name of the twin, its admin tenant id and as many guest tenants as the
twin.  The guest tenants themselves and the tags are not compared: the result is the same
for every remote list of guest tenants of that length and for every remote list of tags. -/
theorem compareVPCMetaAPI_iff (twin : VPCMeta) (api : RemoteVPC) :
    (compareVPCMetaAPI twin api = true
      ↔ api.Name = twin.Spec.VPCName
        ∧ api.AdminTenant.ID = twin.Spec.AdminTenantID
        ∧ api.GuestTenant.length = twin.Spec.GuestTenants.length)
    ∧ ∀ (guests : List IDName) (tags : List String),
        guests.length = api.GuestTenant.length →
        compareVPCMetaAPI twin { api with GuestTenant := guests, Tags := tags }
          = compareVPCMetaAPI twin api := by
  refine ⟨?_, ?_⟩
  · simp only [compareVPCMetaAPI, bne_iff_ne, ne_eq, ite_not, Bool.if_false_right,
      Bool.and_true, Bool.and_eq_true, decide_eq_true_eq]
  · intro guests tags hlen
    simp only [compareVPCMetaAPI, hlen]

/-- The theorem of C14 at the remote VPC "v1" whose one guest tenant is replaced by another
one: the comparison returns what it returned before. -/
theorem compareVPCMetaAPI_iff_witness :
    compareVPCMetaAPI
        { Scenario.vpcMeta 7 2 false with
          Spec := { (Scenario.vpcMeta 7 2 false).Spec with
            GuestTenants := [{ ID := 5, Name := "guest5" }] } }
        { Scenario.remoteVPC 7 with
          GuestTenant := [{ ID := 6, Name := "guest6" }], Tags := ["x"] }
      = compareVPCMetaAPI
        { Scenario.vpcMeta 7 2 false with
          Spec := { (Scenario.vpcMeta 7 2 false).Spec with
            GuestTenants := [{ ID := 5, Name := "guest5" }] } }
        { Scenario.remoteVPC 7 with GuestTenant := [{ ID := 5, Name := "guest5" }] } :=
  (compareVPCMetaAPI_iff
    { Scenario.vpcMeta 7 2 false with
      Spec := { (Scenario.vpcMeta 7 2 false).Spec with
        GuestTenants := [{ ID := 5, Name := "guest5" }] } }
    { Scenario.remoteVPC 7 with GuestTenant := [{ ID := 5, Name := "guest5" }] }).2
    [{ ID := 6, Name := "guest6" }] ["x"] rfl

/-- C14 as stated fails: the twin has the guest tenant 5 and no tags, the remote VPC of the
same name and admin tenant has the guest tenant 6 and the tag "x", and `compareVPCMetaAPI`
returns true. -/
theorem compareVPCMetaAPI_counterexample :
    ({ Scenario.vpcMeta 7 2 false with
        Spec := { (Scenario.vpcMeta 7 2 false).Spec with
          GuestTenants := [{ ID := 5, Name := "guest5" }] } } : VPCMeta).Spec.GuestTenants.map
        (fun g => g.ID) ≠ [6]
    ∧ (Scenario.vpcMeta 7 2 false).Spec.Tags ≠ ["x"]
    ∧ compareVPCMetaAPI
        { Scenario.vpcMeta 7 2 false with
          Spec := { (Scenario.vpcMeta 7 2 false).Spec with
            GuestTenants := [{ ID := 5, Name := "guest5" }] } }
        { Scenario.remoteVPC 7 with
          GuestTenant := [{ ID := 6, Name := "guest6" }], Tags := ["x"] } = true := by
  exact ⟨by decide, by decide, rfl⟩

/-! ## C15: the payload of the ServerCluster update -/

/-- C15, as the code has it: in a ServerClusterMeta reconcile that has loaded the twin and
its desired resource, for a twin without deletion marker with `ID != 0` whose remote cluster
is found by id and on which `compareServerClusterMetaAPI` reports a mismatch, one remote
Update call is issued, with the id of the twin and the payload
`ServerClusterMetaToNetrisUpdate(twin)`.  That payload holds the tags and the servers of the
twin and nothing else: it is the same whatever name, site id, VPC id and template id the twin
has, so the mismatching field is not part of what is sent. -/
theorem servercluster_update_payload_tags_servers (r : ServerClusterMetaReconciler)
    (req : NamespacedName) (cr : ServerCluster) (twin : ServerClusterMeta)
    (api : RemoteServerCluster)
    (hTwin : r.Client.GetMeta req = .found twin)
    (hCR : r.Client.GetCR { req with Name := twin.Spec.ServerClusterName } = .found cr)
    (hLive : twin.ObjectMeta.DeletionTimestamp = none)
    (hID : twin.Spec.ID ≠ 0)
    (hFind : (r.NStorage.ServerClusterStorage.FindByID r.NStorage.Cred.ServerClusterGet
      twin.Spec.ID).1 = some api)
    (hCmp : compareServerClusterMetaAPI twin api = false) :
    (∀ id p, Event.remoteUpdate id p ∈ (r.Reconcile req).1.trace
      ↔ id = twin.Spec.ID ∧ p = ServerClusterMetaToNetrisUpdate twin)
    ∧ ServerClusterMetaToNetrisUpdate twin
      = { Tags := twin.Spec.Tags, Servers := twin.Spec.Servers }
    ∧ ∀ (name : String) (site vpc template : Int),
        ServerClusterMetaToNetrisUpdate
          { twin with Spec := { twin.Spec with
            ServerClusterName := name, SiteID := site, VPCID := vpc, TemplateID := template } }
          = ServerClusterMetaToNetrisUpdate twin := by
  refine ⟨?_, rfl, fun _ _ _ _ => rfl⟩
  have h0 : ¬ (twin.Spec.ID == 0) = true := by simp [hID]
  rcases hf : r.NStorage.ServerClusterStorage.FindByID r.NStorage.Cred.ServerClusterGet
    twin.Spec.ID with ⟨found, storage, calls⟩
  rw [hf] at hFind
  change found = some api at hFind
  subst hFind
  rw [r.Reconcile_loaded_serverClusterMeta req cr twin hTwin hCR]
  simp only [ServerClusterMetaReconciler.reconcileLoaded, hLive, Option.isSome_none,
    Bool.false_eq_true, ↓reduceIte, if_neg h0, hf, ServerClusterMetaReconciler.syncFound,
    hCmp]
  have hc : (updateServerCluster twin.Spec.ID (ServerClusterMetaToNetrisUpdate twin)
      r.Cred).2 = [.remoteUpdate twin.Spec.ID (ServerClusterMetaToNetrisUpdate twin)] := by
    unfold updateServerCluster
    split
    · rfl
    · split
      · rfl
      · split <;> rfl
  intro id p
  rcases hu : updateServerCluster twin.Spec.ID (ServerClusterMetaToNetrisUpdate twin) r.Cred
    with ⟨res, ucalls⟩
  rw [hu] at hc
  simp only at hc
  subst hc
  cases res with
  | some errs =>
    simp only [Outcome.after, uniReconciler.patchServerClusterStatus, List.mem_append,
      List.mem_map, List.mem_singleton, List.mem_cons, List.not_mem_nil, or_false]
    constructor
    · rintro ((⟨c, _, hc⟩ | h) | h)
      · cases hc
      · cases h
        exact ⟨rfl, rfl⟩
      · cases h
    · rintro ⟨rfl, rfl⟩
      exact Or.inl (Or.inr rfl)
  | none =>
    simp only [Outcome.after, uniReconciler.patchServerClusterStatus, List.mem_append,
      List.mem_map, List.mem_singleton, List.mem_cons, List.not_mem_nil, or_false]
    constructor
    · rintro ((⟨c, _, hc⟩ | h) | h)
      · cases hc
      · cases h
        exact ⟨rfl, rfl⟩
      · cases h
    · rintro ⟨rfl, rfl⟩
      exact Or.inl (Or.inr rfl)

/-- The theorem of C15 at the twin 7 named "c1" whose remote cluster is named "old": the
reconcile issues the Update of the cluster 7 with the tags and the servers of the twin. -/
theorem servercluster_update_payload_tags_servers_witness :
    compareServerClusterMetaAPI (Scenario.serverClusterMeta 7 2 false false)
        { Scenario.remoteCluster 7 with Name := "old" } = false
    ∧ Event.remoteUpdate 7 { Tags := [], Servers := [] } ∈
        ((Scenario.serverClusterMetaReconciler (Scenario.serverCluster "sfo1" 2 false)
          (Scenario.serverClusterMeta 7 2 false false) none 200
          [{ Scenario.remoteCluster 7 with Name := "old" }]).Reconcile
            (Scenario.request "uid-2")).1.trace :=
  ⟨rfl,
    ((servercluster_update_payload_tags_servers
      (Scenario.serverClusterMetaReconciler (Scenario.serverCluster "sfo1" 2 false)
        (Scenario.serverClusterMeta 7 2 false false) none 200
        [{ Scenario.remoteCluster 7 with Name := "old" }])
      (Scenario.request "uid-2") (Scenario.serverCluster "sfo1" 2 false)
      (Scenario.serverClusterMeta 7 2 false false)
      { Scenario.remoteCluster 7 with Name := "old" } rfl rfl rfl (by decide) rfl rfl).1
      7 { Tags := [], Servers := [] }).2 ⟨rfl, rfl⟩⟩

/-- C15 as stated fails: the twin 7 is named "c1" and its remote cluster "old", so the
comparison reports a mismatch in the name; the one Update issued carries the payload with no
tags and no servers, which is also the payload of the same twin under any other name: the
name is not part of what is sent. -/
theorem servercluster_update_payload_counterexample :
    (Scenario.serverClusterMeta 7 2 false false).Spec.ServerClusterName = "c1"
    ∧ compareServerClusterMetaAPI (Scenario.serverClusterMeta 7 2 false false)
        { Scenario.remoteCluster 7 with Name := "old" } = false
    ∧ ((Scenario.serverClusterMetaReconciler (Scenario.serverCluster "sfo1" 2 false)
        (Scenario.serverClusterMeta 7 2 false false) none 200
        [{ Scenario.remoteCluster 7 with Name := "old" }]).Reconcile
          (Scenario.request "uid-2")).1.trace
        = [.cache (.findByID .serverClusters 7),
           .remoteUpdate 7 { Tags := [], Servers := [] },
           .patchStatus { Scenario.serverCluster "sfo1" 2 false with
             Status := { Status := "OK", Message := "Success" } } "OK" "Success"]
    ∧ ServerClusterMetaToNetrisUpdate
        { Scenario.serverClusterMeta 7 2 false false with
          Spec := { (Scenario.serverClusterMeta 7 2 false false).Spec with
            ServerClusterName := "renamed", SiteID := 9, VPCID := 9, TemplateID := 9 } }
        = { Tags := [], Servers := [] } := by
  exact ⟨rfl, rfl, rfl, rfl⟩

/-! ## C16: a change of the VNets of a template is not pushed -/

/-- C16, what the code does: in a ServerClusterTemplateMeta reconcile that has loaded the twin
and its desired resource, for a twin without deletion marker with `ID != 0` whose remote
template is found by id with the name of the twin, no remote Update call is issued, whatever
VNets the twin and the remote template hold: the calls are the lookup and the status patch
OK / "Success". -/
theorem template_same_name_no_update (r : ServerClusterTemplateMetaReconciler)
    (req : NamespacedName) (cr : ServerClusterTemplate) (twin : ServerClusterTemplateMeta)
    (api : RemoteServerClusterTemplate)
    (hTwin : r.Client.GetMeta req = .found twin)
    (hCR : r.Client.GetCR { req with Name := twin.Spec.ServerClusterTemplateName } = .found cr)
    (hLive : twin.ObjectMeta.DeletionTimestamp = none)
    (hID : twin.Spec.ID ≠ 0)
    (hFind : (r.NStorage.ServerClusterTemplateStorage.FindByID
      r.NStorage.Cred.ServerClusterTemplateGet twin.Spec.ID).1 = some api)
    (hName : api.Name = twin.Spec.ServerClusterTemplateName) :
    (∀ id p, Event.remoteUpdate id p ∉ (r.Reconcile req).1.trace)
    ∧ (r.Reconcile req).1.trace
      = (r.NStorage.ServerClusterTemplateStorage.FindByID
          r.NStorage.Cred.ServerClusterTemplateGet twin.Spec.ID).2.2.map .cache
        ++ [.patchStatus { cr with Status := { Status := "OK", Message := "Success" } }
            "OK" "Success"] := by
  have h0 : ¬ (twin.Spec.ID == 0) = true := by simp [hID]
  have hcmp : compareServerClusterTemplateMetaAPI twin api = true := by
    simp [compareServerClusterTemplateMetaAPI, hName]
  rcases hf : r.NStorage.ServerClusterTemplateStorage.FindByID
    r.NStorage.Cred.ServerClusterTemplateGet twin.Spec.ID with ⟨found, storage, calls⟩
  rw [hf] at hFind
  change found = some api at hFind
  subst hFind
  rw [r.Reconcile_loaded_templateMeta req cr twin hTwin hCR]
  simp only [ServerClusterTemplateMetaReconciler.reconcileLoaded, hLive, Option.isSome_none,
    Bool.false_eq_true, ↓reduceIte, if_neg h0, hf,
    ServerClusterTemplateMetaReconciler.syncFound, hcmp, Outcome.after,
    uniReconciler.patchServerClusterTemplateStatus]
  refine ⟨?_, trivial⟩
  intro id p h
  simp only [List.mem_append, List.mem_map, List.mem_singleton] at h
  rcases h with ⟨c, _, hc⟩ | h
  · cases hc
  · cases h

/-- The theorem of C16 at the failing input: the twin 7 of the template "t1" holds the VNet
"east" (the regenerated twin of generation 3), the remote template 7 "t1" holds no VNet; the
reconcile looks the template up and patches the status OK / "Success", with no remote
Update. -/
theorem template_same_name_no_update_witness :
    (Scenario.templateMeta 7 3 false false).Spec.VNets = [Scenario.vnet]
    ∧ (Scenario.remoteTemplate 7).Vnets = []
    ∧ (ServerClusterTemplateMetaToNetris (Scenario.templateMeta 7 3 false false)).Vnets ≠ []
    ∧ ((Scenario.templateMetaReconciler (Scenario.template 3 false)
        (Scenario.templateMeta 7 3 false false) none 200
        [Scenario.remoteTemplate 7]).Reconcile (Scenario.request "uid-3")).1.trace
        = [.cache (.findByID .serverClusterTemplates 7),
           .patchStatus { Scenario.template 3 false with
             Status := { Status := "OK", Message := "Success" } } "OK" "Success"]
    ∧ ∀ id p, Event.remoteUpdate id p ∉
        ((Scenario.templateMetaReconciler (Scenario.template 3 false)
          (Scenario.templateMeta 7 3 false false) none 200
          [Scenario.remoteTemplate 7]).Reconcile (Scenario.request "uid-3")).1.trace := by
  have h := template_same_name_no_update
    (Scenario.templateMetaReconciler (Scenario.template 3 false)
      (Scenario.templateMeta 7 3 false false) none 200 [Scenario.remoteTemplate 7])
    (Scenario.request "uid-3") (Scenario.template 3 false)
    (Scenario.templateMeta 7 3 false false) (Scenario.remoteTemplate 7) rfl rfl rfl
    (by decide) rfl rfl
  exact ⟨rfl, rfl, by decide, h.2, h.1⟩

/-! ## C17: a cache miss triggers one download and one more lookup -/

/-- The method `FindByName` of `ServerClusterStorage` on a snapshot with no matching entry: the
lookup, one download, and the lookup in the cache the download leaves. -/
theorem ServerClusterStorage.FindByName_miss_clusters (s : ServerClusterStorage)
    (get : Except String (List RemoteServerCluster)) (name : String)
    (hMiss : s.findByName name = none) :
    s.FindByName get name
      = ((s.download get).1.findByName name, (s.download get).1,
          [.findByName .serverClusters name, .download .serverClusters]) := by
  unfold ServerClusterStorage.FindByName
  rw [hMiss]
  cases get <;> rfl

/-- The method `FindByID` of `ServerClusterStorage` on a snapshot with no matching entry: the
lookup, one download, and the lookup in the cache the download leaves. -/
theorem ServerClusterStorage.FindByID_miss_clusters (s : ServerClusterStorage)
    (get : Except String (List RemoteServerCluster)) (id : Int)
    (hMiss : s.findByID id = none) :
    s.FindByID get id
      = ((s.download get).1.findByID id, (s.download get).1,
          [.findByID .serverClusters id, .download .serverClusters]) := by
  unfold ServerClusterStorage.FindByID
  rw [hMiss]
  cases get <;> rfl

/-- The method `FindByName` of `ServerClusterTemplateStorage` on a snapshot with no matching
entry: the lookup, one download, and the lookup in the cache the download leaves. -/
theorem ServerClusterTemplateStorage.FindByName_miss_templates (s : ServerClusterTemplateStorage)
    (get : Except String (List RemoteServerClusterTemplate)) (name : String)
    (hMiss : s.findByName name = none) :
    s.FindByName get name
      = ((s.download get).1.findByName name, (s.download get).1,
          [.findByName .serverClusterTemplates name, .download .serverClusterTemplates]) := by
  unfold ServerClusterTemplateStorage.FindByName
  rw [hMiss]
  cases get <;> rfl

/-- The method `FindByID` of `ServerClusterTemplateStorage` on a snapshot with no matching entry:
the lookup, one download, and the lookup in the cache the download leaves. -/
theorem ServerClusterTemplateStorage.FindByID_miss_templates (s : ServerClusterTemplateStorage)
    (get : Except String (List RemoteServerClusterTemplate)) (id : Int)
    (hMiss : s.findByID id = none) :
    s.FindByID get id
      = ((s.download get).1.findByID id, (s.download get).1,
          [.findByID .serverClusterTemplates id, .download .serverClusterTemplates]) := by
  unfold ServerClusterTemplateStorage.FindByID
  rw [hMiss]
  cases get <;> rfl

/-- C17 (`ServerClusterStorage`, `ServerClusterTemplateStorage`; `FindByName`, `FindByID`): on a
snapshot with no matching entry the calls are the lookup and exactly one download, and the
result is the lookup in the cache the download leaves: the first match of the downloaded list
when the download succeeds (the snapshot is then that list), and not found, with the snapshot
unchanged, when it fails. The result is found exactly when the refreshed snapshot contains a
match. The empty snapshot has no matching entry. -/
theorem cache_miss_downloads_once :
    (∀ (s : ServerClusterStorage) (get : Except String (List RemoteServerCluster))
        (name : String), s.findByName name = none →
        (s.FindByName get name).2.2
          = [.findByName .serverClusters name, .download .serverClusters]
        ∧ (s.FindByName get name).1 = (s.FindByName get name).2.1.findByName name
        ∧ ((s.FindByName get name).1.isSome
            ↔ ∃ c ∈ (s.FindByName get name).2.1.Clusters, c.Name = name)
        ∧ (∀ items, get = .ok items →
            (s.FindByName get name).1 = items.find? (fun c => c.Name == name)
            ∧ (s.FindByName get name).2.1 = { Clusters := items })
        ∧ (∀ err, get = .error err →
            (s.FindByName get name).1 = none ∧ (s.FindByName get name).2.1 = s))
    ∧ (∀ (s : ServerClusterStorage) (get : Except String (List RemoteServerCluster))
        (id : Int), s.findByID id = none →
        (s.FindByID get id).2.2 = [.findByID .serverClusters id, .download .serverClusters]
        ∧ (s.FindByID get id).1 = (s.FindByID get id).2.1.findByID id
        ∧ ((s.FindByID get id).1.isSome
            ↔ ∃ c ∈ (s.FindByID get id).2.1.Clusters, c.ID = id)
        ∧ (∀ items, get = .ok items →
            (s.FindByID get id).1 = items.find? (fun c => c.ID == id)
            ∧ (s.FindByID get id).2.1 = { Clusters := items })
        ∧ (∀ err, get = .error err →
            (s.FindByID get id).1 = none ∧ (s.FindByID get id).2.1 = s))
    ∧ (∀ (s : ServerClusterTemplateStorage)
        (get : Except String (List RemoteServerClusterTemplate)) (name : String),
        s.findByName name = none →
        (s.FindByName get name).2.2
          = [.findByName .serverClusterTemplates name, .download .serverClusterTemplates]
        ∧ (s.FindByName get name).1 = (s.FindByName get name).2.1.findByName name
        ∧ ((s.FindByName get name).1.isSome
            ↔ ∃ t ∈ (s.FindByName get name).2.1.Templates, t.Name = name)
        ∧ (∀ items, get = .ok items →
            (s.FindByName get name).1 = items.find? (fun t => t.Name == name)
            ∧ (s.FindByName get name).2.1 = { Templates := items })
        ∧ (∀ err, get = .error err →
            (s.FindByName get name).1 = none ∧ (s.FindByName get name).2.1 = s))
    ∧ (∀ (s : ServerClusterTemplateStorage)
        (get : Except String (List RemoteServerClusterTemplate)) (id : Int),
        s.findByID id = none →
        (s.FindByID get id).2.2
          = [.findByID .serverClusterTemplates id, .download .serverClusterTemplates]
        ∧ (s.FindByID get id).1 = (s.FindByID get id).2.1.findByID id
        ∧ ((s.FindByID get id).1.isSome
            ↔ ∃ t ∈ (s.FindByID get id).2.1.Templates, t.ID = id)
        ∧ (∀ items, get = .ok items →
            (s.FindByID get id).1 = items.find? (fun t => t.ID == id)
            ∧ (s.FindByID get id).2.1 = { Templates := items })
        ∧ (∀ err, get = .error err →
            (s.FindByID get id).1 = none ∧ (s.FindByID get id).2.1 = s))
    ∧ (∀ name, ServerClusterStorage.New.findByName name = none)
    ∧ (∀ id, ServerClusterStorage.New.findByID id = none)
    ∧ (∀ name, ServerClusterTemplateStorage.New.findByName name = none)
    ∧ (∀ id, ServerClusterTemplateStorage.New.findByID id = none) := by
  refine ⟨?_, ?_, ?_, ?_, fun _ => rfl, fun _ => rfl, fun _ => rfl, fun _ => rfl⟩
  · intro s get name hMiss
    rw [s.FindByName_miss_clusters get name hMiss]
    refine ⟨rfl, rfl, ?_, ?_, ?_⟩
    · show ((s.download get).1.findByName name).isSome
        ↔ ∃ c ∈ (s.download get).1.Clusters, c.Name = name
      simp [ServerClusterStorage.findByName]
    · rintro items rfl
      exact ⟨rfl, rfl⟩
    · rintro err rfl
      exact ⟨hMiss, rfl⟩
  · intro s get id hMiss
    rw [s.FindByID_miss_clusters get id hMiss]
    refine ⟨rfl, rfl, ?_, ?_, ?_⟩
    · show ((s.download get).1.findByID id).isSome
        ↔ ∃ c ∈ (s.download get).1.Clusters, c.ID = id
      simp [ServerClusterStorage.findByID]
    · rintro items rfl
      exact ⟨rfl, rfl⟩
    · rintro err rfl
      exact ⟨hMiss, rfl⟩
  · intro s get name hMiss
    rw [s.FindByName_miss_templates get name hMiss]
    refine ⟨rfl, rfl, ?_, ?_, ?_⟩
    · show ((s.download get).1.findByName name).isSome
        ↔ ∃ c ∈ (s.download get).1.Templates, c.Name = name
      simp [ServerClusterTemplateStorage.findByName]
    · rintro items rfl
      exact ⟨rfl, rfl⟩
    · rintro err rfl
      exact ⟨hMiss, rfl⟩
  · intro s get id hMiss
    rw [s.FindByID_miss_templates get id hMiss]
    refine ⟨rfl, rfl, ?_, ?_, ?_⟩
    · show ((s.download get).1.findByID id).isSome
        ↔ ∃ c ∈ (s.download get).1.Templates, c.ID = id
      simp [ServerClusterTemplateStorage.findByID]
    · rintro items rfl
      exact ⟨rfl, rfl⟩
    · rintro err rfl
      exact ⟨hMiss, rfl⟩

/-- The theorem of C17 at the empty cluster cache: with the cluster "c1" on the remote side the
lookup of "c1" downloads once and finds it; with a failing download it finds nothing and the
snapshot stays empty. -/
theorem cache_miss_downloads_once_witness :
    ServerClusterStorage.New.FindByName (.ok [Scenario.remoteCluster 5]) "c1"
      = (some (Scenario.remoteCluster 5), { Clusters := [Scenario.remoteCluster 5] },
          [.findByName .serverClusters "c1", .download .serverClusters])
    ∧ ServerClusterStorage.New.FindByName (.error "down") "c1"
      = (none, ServerClusterStorage.New,
          [.findByName .serverClusters "c1", .download .serverClusters])
    ∧ (ServerClusterTemplateStorage.New.FindByID (.ok [Scenario.remoteTemplate 5]) 5).1
      = some (Scenario.remoteTemplate 5) := by
  have h1 := cache_miss_downloads_once.1 ServerClusterStorage.New
    (.ok [Scenario.remoteCluster 5]) "c1" rfl
  have h2 := cache_miss_downloads_once.1 ServerClusterStorage.New (.error "down") "c1" rfl
  have h3 := cache_miss_downloads_once.2.2.2.1 ServerClusterTemplateStorage.New
    (.ok [Scenario.remoteTemplate 5]) 5 rfl
  refine ⟨?_, ?_, ?_⟩
  · exact Prod.ext ((h1.2.2.2.1 _ rfl).1.trans rfl)
      (Prod.ext (h1.2.2.2.1 _ rfl).2 h1.1)
  · exact Prod.ext (h2.2.2.2.2 _ rfl).1 (Prod.ext (h2.2.2.2.2 _ rfl).2 h2.1)
  · exact (h3.2.2.2.1 _ rfl).1.trans rfl

/-! ## C18: a cache hit returns the cached entry without a download -/

/-- The first element of a list that satisfies `p`, when the list has one: the elements before
it do not satisfy `p`. -/
theorem find?_first {α : Type} (p : α → Bool) (l : List α) (h : ∃ a ∈ l, p a = true) :
    ∃ item pre post, l = pre ++ item :: post ∧ (∀ a ∈ pre, p a = false) ∧ p item = true
      ∧ l.find? p = some item := by
  have hs : (l.find? p).isSome = true := List.find?_isSome.2 h
  obtain ⟨item, hitem⟩ := Option.isSome_iff_exists.1 hs
  obtain ⟨hp, pre, post, hl, hpre⟩ := List.find?_eq_some.1 hitem
  refine ⟨item, pre, post, hl, ?_, hp, hitem⟩
  intro a ha
  simpa using hpre a ha

/-- C18 (`ServerClusterStorage`, `ServerClusterTemplateStorage`; `FindByName`, `FindByID`):
when the snapshot contains an entry with the requested name (id), the method returns the
first such entry of the snapshot as found, makes the lookup and no download, and leaves the
snapshot as it was, whatever the remote side `get` now holds. -/
theorem cache_hit_no_download :
    (∀ (s : ServerClusterStorage) (get : Except String (List RemoteServerCluster))
        (name : String), (∃ c ∈ s.Clusters, c.Name = name) →
        ∃ item pre post, s.Clusters = pre ++ item :: post
          ∧ (∀ c ∈ pre, c.Name ≠ name) ∧ item.Name = name
          ∧ s.FindByName get name = (some item, s, [.findByName .serverClusters name]))
    ∧ (∀ (s : ServerClusterStorage) (get : Except String (List RemoteServerCluster))
        (id : Int), (∃ c ∈ s.Clusters, c.ID = id) →
        ∃ item pre post, s.Clusters = pre ++ item :: post
          ∧ (∀ c ∈ pre, c.ID ≠ id) ∧ item.ID = id
          ∧ s.FindByID get id = (some item, s, [.findByID .serverClusters id]))
    ∧ (∀ (s : ServerClusterTemplateStorage) (get : Except String (List RemoteServerClusterTemplate))
        (name : String), (∃ c ∈ s.Templates, c.Name = name) →
        ∃ item pre post, s.Templates = pre ++ item :: post
          ∧ (∀ c ∈ pre, c.Name ≠ name) ∧ item.Name = name
          ∧ s.FindByName get name = (some item, s, [.findByName .serverClusterTemplates name]))
    ∧ (∀ (s : ServerClusterTemplateStorage) (get : Except String (List RemoteServerClusterTemplate))
        (id : Int), (∃ c ∈ s.Templates, c.ID = id) →
        ∃ item pre post, s.Templates = pre ++ item :: post
          ∧ (∀ c ∈ pre, c.ID ≠ id) ∧ item.ID = id
          ∧ s.FindByID get id = (some item, s, [.findByID .serverClusterTemplates id])) := by
  refine ⟨?_, ?_, ?_, ?_⟩
  · intro s get name h
    obtain ⟨item, pre, post, hl, hpre, hp, hfind⟩ :=
      find?_first (fun c : RemoteServerCluster => c.Name == name) s.Clusters
        (by obtain ⟨c, hc, hn⟩ := h; exact ⟨c, hc, by simp [hn]⟩)
    refine ⟨item, pre, post, hl, ?_, by simpa using hp, ?_⟩
    · intro c hc
      simpa using hpre c hc
    · have hf : s.findByName name = some item := hfind
      simp only [ServerClusterStorage.FindByName, hf]
  · intro s get id h
    obtain ⟨item, pre, post, hl, hpre, hp, hfind⟩ :=
      find?_first (fun c : RemoteServerCluster => c.ID == id) s.Clusters
        (by obtain ⟨c, hc, hn⟩ := h; exact ⟨c, hc, by simp [hn]⟩)
    refine ⟨item, pre, post, hl, ?_, by simpa using hp, ?_⟩
    · intro c hc
      simpa using hpre c hc
    · have hf : s.findByID id = some item := hfind
      simp only [ServerClusterStorage.FindByID, hf]
  · intro s get name h
    obtain ⟨item, pre, post, hl, hpre, hp, hfind⟩ :=
      find?_first (fun c : RemoteServerClusterTemplate => c.Name == name) s.Templates
        (by obtain ⟨c, hc, hn⟩ := h; exact ⟨c, hc, by simp [hn]⟩)
    refine ⟨item, pre, post, hl, ?_, by simpa using hp, ?_⟩
    · intro c hc
      simpa using hpre c hc
    · have hf : s.findByName name = some item := hfind
      simp only [ServerClusterTemplateStorage.FindByName, hf]
  · intro s get id h
    obtain ⟨item, pre, post, hl, hpre, hp, hfind⟩ :=
      find?_first (fun c : RemoteServerClusterTemplate => c.ID == id) s.Templates
        (by obtain ⟨c, hc, hn⟩ := h; exact ⟨c, hc, by simp [hn]⟩)
    refine ⟨item, pre, post, hl, ?_, by simpa using hp, ?_⟩
    · intro c hc
      simpa using hpre c hc
    · have hf : s.findByID id = some item := hfind
      simp only [ServerClusterTemplateStorage.FindByID, hf]

/-- The theorem of C18 at a cluster cache that holds the clusters 5 and 6, both named "c1":
the lookup of "c1" returns the cluster 5, the first one, with no download, although the
remote side no longer holds any cluster. -/
theorem cache_hit_no_download_witness :
    ({ Clusters := [Scenario.remoteCluster 5, Scenario.remoteCluster 6] } :
        ServerClusterStorage).FindByName (.ok []) "c1"
      = (some (Scenario.remoteCluster 5),
          { Clusters := [Scenario.remoteCluster 5, Scenario.remoteCluster 6] },
          [.findByName .serverClusters "c1"]) := by
  obtain ⟨item, pre, post, hl, hpre, hname, hres⟩ := cache_hit_no_download.1
    { Clusters := [Scenario.remoteCluster 5, Scenario.remoteCluster 6] } (.ok []) "c1"
    ⟨Scenario.remoteCluster 5, by simp, rfl⟩
  rw [hres]
  have : some item = some (Scenario.remoteCluster 5) := by
    have h := congrArg (fun t => t.1) hres
    exact h.symm.trans rfl
  rw [this]

/-! ## C19: a download replaces the snapshot in full -/

/-- C19 (`ServerClusterStorage`, `ServerClusterTemplateStorage`): a successful `Download`
returns no error, makes the one download call and replaces the snapshot in full: `GetAll` on
the cache it leaves returns exactly the downloaded list, whatever the previous snapshot held.
`GetAll` returns the current snapshot, makes no call, in particular no download, and leaves the
cache as it was. -/
theorem download_replaces_snapshot :
    (∀ (s : ServerClusterStorage) (items : List RemoteServerCluster),
        (s.Download (.ok items)).2.1 = none
        ∧ (s.Download (.ok items)).2.2 = [.download .serverClusters]
        ∧ ((s.Download (.ok items)).1.GetAll).1 = items
        ∧ (s.Download (.ok items)).1 = { Clusters := items })
    ∧ (∀ (s : ServerClusterStorage),
        s.GetAll.1 = s.Clusters ∧ s.GetAll.2.1 = s ∧ s.GetAll.2.2 = [])
    ∧ (∀ (s : ServerClusterTemplateStorage) (items : List RemoteServerClusterTemplate),
        (s.Download (.ok items)).2.1 = none
        ∧ (s.Download (.ok items)).2.2 = [.download .serverClusterTemplates]
        ∧ ((s.Download (.ok items)).1.GetAll).1 = items
        ∧ (s.Download (.ok items)).1 = { Templates := items })
    ∧ (∀ (s : ServerClusterTemplateStorage),
        s.GetAll.1 = s.Templates ∧ s.GetAll.2.1 = s ∧ s.GetAll.2.2 = []) := by
  refine ⟨?_, ?_, ?_, ?_⟩
  · intro s items
    exact ⟨rfl, rfl, rfl, rfl⟩
  · intro s
    exact ⟨rfl, rfl, rfl⟩
  · intro s items
    exact ⟨rfl, rfl, rfl, rfl⟩
  · intro s
    exact ⟨rfl, rfl, rfl⟩

/-! ## C20: when the twin is stale -/

/-- The method `deleteInventoryServer` on an existing twin issues no `Update` of a twin. -/
theorem InventoryServerReconciler.deleteInventoryServer_keeps_twin (r : InventoryServerReconciler)
    (cr : InventoryServer) (m : InventoryServerMeta) :
    ∀ t, Event.updateMeta t ∉ (r.deleteInventoryServer cr (some m)).trace := by
  intro t ht
  by_cases hg : 0 < m.Spec.ID ∧ m.Spec.Reclaim = false
  · rw [r.deleteInventoryServer_remote cr m hg.1 hg.2] at ht
    split at ht
    · simp at ht
    · simp only [Step.after, r.deleteCRs_trace_inventoryServer cr m] at ht
      cases hd : r.Client.DeleteMeta m <;> simp [hd] at ht
  · have hs : ¬ (0 < m.Spec.ID) ∨ m.Spec.Reclaim = true := by
      by_cases h1 : 0 < m.Spec.ID
      · right
        cases hr : m.Spec.Reclaim with
        | true => rfl
        | false => exact absurd ⟨h1, hr⟩ hg
      · exact Or.inl h1
    rw [r.deleteInventoryServer_skip cr m hs, r.deleteCRs_trace_inventoryServer cr m] at ht
    cases hd : r.Client.DeleteMeta m <;> simp [hd] at ht

/-- The method `deleteServerCluster` on an existing twin issues no `Update` of a twin. -/
theorem ServerClusterReconciler.deleteServerCluster_keeps_twin (r : ServerClusterReconciler)
    (cr : ServerCluster) (m : ServerClusterMeta) :
    ∀ t, Event.updateMeta t ∉ (r.deleteServerCluster cr (some m)).trace := by
  intro t ht
  by_cases hg : 0 < m.Spec.ID ∧ m.Spec.Reclaim = false
  · rw [r.deleteServerCluster_remote cr m hg.1 hg.2] at ht
    split at ht
    · simp at ht
    · simp only [Step.after, r.deleteCRs_trace_serverCluster cr m] at ht
      cases hd : r.Client.DeleteMeta m <;> simp [hd] at ht
  · have hs : ¬ (0 < m.Spec.ID) ∨ m.Spec.Reclaim = true := by
      by_cases h1 : 0 < m.Spec.ID
      · right
        cases hr : m.Spec.Reclaim with
        | true => rfl
        | false => exact absurd ⟨h1, hr⟩ hg
      · exact Or.inl h1
    rw [r.deleteServerCluster_skip cr m hs, r.deleteCRs_trace_serverCluster cr m] at ht
    cases hd : r.Client.DeleteMeta m <;> simp [hd] at ht

/-- The method `deleteServerClusterTemplate` on an existing twin issues no `Update` of a twin. -/
theorem ServerClusterTemplateReconciler.deleteServerClusterTemplate_keeps_twin
    (r : ServerClusterTemplateReconciler)
    (cr : ServerClusterTemplate) (m : ServerClusterTemplateMeta) :
    ∀ t, Event.updateMeta t ∉ (r.deleteServerClusterTemplate cr (some m)).trace := by
  intro t ht
  by_cases hg : 0 < m.Spec.ID ∧ m.Spec.Reclaim = false
  · rw [r.deleteServerClusterTemplate_remote cr m hg.1 hg.2] at ht
    split at ht
    · simp at ht
    · simp only [Step.after, r.deleteCRs_trace_template cr m] at ht
      cases hd : r.Client.DeleteMeta m <;> simp [hd] at ht
  · have hs : ¬ (0 < m.Spec.ID) ∨ m.Spec.Reclaim = true := by
      by_cases h1 : 0 < m.Spec.ID
      · right
        cases hr : m.Spec.Reclaim with
        | true => rfl
        | false => exact absurd ⟨h1, hr⟩ hg
      · exact Or.inl h1
    rw [r.deleteServerClusterTemplate_skip cr m hs, r.deleteCRs_trace_template cr m] at ht
    cases hd : r.Client.DeleteMeta m <;> simp [hd] at ht

/-- The flags the comparisons compute from the annotations: the import annotation is present
and equals "true", the reclaim policy annotation is present and equals "retain". -/
theorem importedOf_reclaimOf_eq (o : ObjectMeta) :
    importedOf o = decide (mapGet o.Annotations importAnnotation = some "true")
    ∧ reclaimOf o = decide (mapGet o.Annotations reclaimAnnotation = some "retain") := by
  unfold importedOf reclaimOf
  constructor
  · cases mapGet o.Annotations importAnnotation with
    | none => simp
    | some i => by_cases h : i = "true" <;> simp [h]
  · cases mapGet o.Annotations reclaimAnnotation with
    | none => simp
    | some i => by_cases h : i = "retain" <;> simp [h]

/-- C20 (InventoryServer, ServerCluster, ServerClusterTemplate, VPC): the function
`xCompareFieldsForNewMeta` returns true (twin stale) if and only if the generation of the
desired resource differs from the source generation of the twin, or (import annotation equals
"true") differs from `Imported` of the twin, or (reclaim policy annotation equals "retain")
differs from `Reclaim` of the twin.  When it returns false on the desired resource and the
twin a CR-phase `Reconcile` has loaded (InventoryServer, ServerCluster,
ServerClusterTemplate), no `Update` of a twin is among the calls of that reconcile. -/
theorem twin_stale_iff_generation_or_flags :
    (∀ (cr : InventoryServer) (twin : InventoryServerMeta),
        inventoryServerCompareFieldsForNewMeta cr twin = true
          ↔ cr.ObjectMeta.Generation ≠ twin.Spec.InventoryServerCRGeneration
            ∨ decide (mapGet cr.ObjectMeta.Annotations importAnnotation = some "true")
                ≠ twin.Spec.Imported
            ∨ decide (mapGet cr.ObjectMeta.Annotations reclaimAnnotation = some "retain")
                ≠ twin.Spec.Reclaim)
    ∧ (∀ (cr : ServerCluster) (twin : ServerClusterMeta),
        serverClusterCompareFieldsForNewMeta cr twin = true
          ↔ cr.ObjectMeta.Generation ≠ twin.Spec.ServerClusterCRGeneration
            ∨ decide (mapGet cr.ObjectMeta.Annotations importAnnotation = some "true")
                ≠ twin.Spec.Imported
            ∨ decide (mapGet cr.ObjectMeta.Annotations reclaimAnnotation = some "retain")
                ≠ twin.Spec.Reclaim)
    ∧ (∀ (cr : ServerClusterTemplate) (twin : ServerClusterTemplateMeta),
        serverClusterTemplateCompareFieldsForNewMeta cr twin = true
          ↔ cr.ObjectMeta.Generation ≠ twin.Spec.ServerClusterTemplateCRGeneration
            ∨ decide (mapGet cr.ObjectMeta.Annotations importAnnotation = some "true")
                ≠ twin.Spec.Imported
            ∨ decide (mapGet cr.ObjectMeta.Annotations reclaimAnnotation = some "retain")
                ≠ twin.Spec.Reclaim)
    ∧ (∀ (cr : VPC) (twin : VPCMeta),
        vpcCompareFieldsForNewMeta cr twin = true
          ↔ cr.ObjectMeta.Generation ≠ twin.Spec.VPCCRGeneration
            ∨ decide (mapGet cr.ObjectMeta.Annotations importAnnotation = some "true")
                ≠ twin.Spec.Imported
            ∨ decide (mapGet cr.ObjectMeta.Annotations reclaimAnnotation = some "retain")
                ≠ twin.Spec.Reclaim)
    ∧ (∀ (r : InventoryServerReconciler) (req : NamespacedName) (cr : InventoryServer)
        (twin : InventoryServerMeta),
        r.Client.GetCR req = .found cr →
        r.Client.GetMeta { req with Name := cr.ObjectMeta.UID } = .found twin →
        inventoryServerCompareFieldsForNewMeta cr twin = false →
        ∀ t, Event.updateMeta t ∉ (r.Reconcile req).trace)
    ∧ (∀ (r : ServerClusterReconciler) (req : NamespacedName) (cr : ServerCluster)
        (twin : ServerClusterMeta),
        r.Client.GetCR req = .found cr →
        r.Client.GetMeta { req with Name := cr.ObjectMeta.UID } = .found twin →
        serverClusterCompareFieldsForNewMeta cr twin = false →
        ∀ t, Event.updateMeta t ∉ (r.Reconcile req).1.trace)
    ∧ (∀ (r : ServerClusterTemplateReconciler) (req : NamespacedName) (cr : ServerClusterTemplate)
        (twin : ServerClusterTemplateMeta),
        r.Client.GetCR req = .found cr →
        r.Client.GetMeta { req with Name := cr.ObjectMeta.UID } = .found twin →
        serverClusterTemplateCompareFieldsForNewMeta cr twin = false →
        ∀ t, Event.updateMeta t ∉ (r.Reconcile req).trace) := by
  refine ⟨?_, ?_, ?_, ?_, ?_, ?_, ?_⟩
  · intro cr twin
    simp only [inventoryServerCompareFieldsForNewMeta, (importedOf_reclaimOf_eq cr.ObjectMeta).1,
      (importedOf_reclaimOf_eq cr.ObjectMeta).2, Bool.or_eq_true, bne_iff_ne, ne_eq, or_assoc]
  · intro cr twin
    simp only [serverClusterCompareFieldsForNewMeta, (importedOf_reclaimOf_eq cr.ObjectMeta).1,
      (importedOf_reclaimOf_eq cr.ObjectMeta).2, Bool.or_eq_true, bne_iff_ne, ne_eq, or_assoc]
  · intro cr twin
    simp only
        [serverClusterTemplateCompareFieldsForNewMeta, (importedOf_reclaimOf_eq cr.ObjectMeta).1,
      (importedOf_reclaimOf_eq cr.ObjectMeta).2, Bool.or_eq_true, bne_iff_ne, ne_eq, or_assoc]
  · intro cr twin
    simp only [vpcCompareFieldsForNewMeta, (importedOf_reclaimOf_eq cr.ObjectMeta).1,
      (importedOf_reclaimOf_eq cr.ObjectMeta).2, Bool.or_eq_true, bne_iff_ne, ne_eq, or_assoc]
  · intro r req cr twin hCR hTwin hCmp t ht
    simp only
        [InventoryServerReconciler.Reconcile, hCR, hTwin, InventoryServerReconciler.reconcileLoaded]
        at ht
    split at ht
    · split at ht
      · simp only [Outcome.after, uniReconciler.patchInventoryServerStatus, List.mem_append,
          List.mem_singleton] at ht
        rcases ht with ht | ht
        · exact r.deleteInventoryServer_keeps_twin cr twin t ht
        · cases ht
      · exact r.deleteInventoryServer_keeps_twin cr twin t ht
    · split at ht
      · split at ht <;> simp at ht
      · simp only [InventoryServerReconciler.reconcileFound, hCmp, Bool.false_eq_true,
          ↓reduceIte] at ht
        simp at ht
  · intro r req cr twin hCR hTwin hCmp t ht
    simp only [ServerClusterReconciler.Reconcile, hCR, hTwin,
      ServerClusterReconciler.reconcileLoaded] at ht
    split at ht
    · split at ht
      · simp only [Outcome.after, uniReconciler.patchServerClusterStatus, List.mem_append,
          List.mem_singleton] at ht
        rcases ht with ht | ht
        · exact r.deleteServerCluster_keeps_twin cr twin t ht
        · cases ht
      · exact r.deleteServerCluster_keeps_twin cr twin t ht
    · split at ht
      · split at ht <;> simp at ht
      · simp only [ServerClusterReconciler.reconcileFound, hCmp, Bool.false_eq_true, ↓reduceIte] at ht
        simp at ht
  · intro r req cr twin hCR hTwin hCmp t ht
    simp only
        [ServerClusterTemplateReconciler.Reconcile, hCR, hTwin,
        ServerClusterTemplateReconciler.reconcileLoaded] at ht
    split at ht
    · split at ht
      · simp only [Outcome.after, uniReconciler.patchServerClusterTemplateStatus, List.mem_append,
          List.mem_singleton] at ht
        rcases ht with ht | ht
        · exact r.deleteServerClusterTemplate_keeps_twin cr twin t ht
        · cases ht
      · exact r.deleteServerClusterTemplate_keeps_twin cr twin t ht
    · split at ht
      · split at ht <;> simp at ht
      · simp only [ServerClusterTemplateReconciler.reconcileFound, hCmp,
          Bool.false_eq_true, ↓reduceIte] at ht
        simp at ht

/-- The theorem of C20 at an InventoryServer of generation 2 with the annotations import
"false" and reclaim policy "delete" whose twin has the source generation 2 and both flags
false: the twin is not stale and the reconcile issues no `Update` of a twin; the same twin is
stale for the desired resource of generation 3. -/
theorem twin_stale_iff_generation_or_flags_witness :
    inventoryServerCompareFieldsForNewMeta (Scenario.inventoryServer "sfo1" "d" 2 false)
        (Scenario.inventoryServerMeta 7 2 "d" "" false false) = false
    ∧ (∀ t, Event.updateMeta t ∉
        ((Scenario.inventoryServerReconciler (Scenario.inventoryServer "sfo1" "d" 2 false)
          (some (Scenario.inventoryServerMeta 7 2 "d" "" false false)) none 200).Reconcile
            (Scenario.request "srv1")).trace)
    ∧ inventoryServerCompareFieldsForNewMeta (Scenario.inventoryServer "sfo1" "d" 3 false)
        (Scenario.inventoryServerMeta 7 2 "d" "" false false) = true :=
  ⟨rfl,
    twin_stale_iff_generation_or_flags.2.2.2.2.1
      (Scenario.inventoryServerReconciler (Scenario.inventoryServer "sfo1" "d" 2 false)
        (some (Scenario.inventoryServerMeta 7 2 "d" "" false false)) none 200)
      (Scenario.request "srv1") _ _ rfl rfl rfl,
    (twin_stale_iff_generation_or_flags.1 (Scenario.inventoryServer "sfo1" "d" 3 false)
      (Scenario.inventoryServerMeta 7 2 "d" "" false false)).2 (Or.inl (by decide))⟩

/-! ## Go maps as association lists -/

/-- Removing the bindings of `key` does not change what another key is bound to. -/
theorem lookup_filter_other (l : List (String × String)) (key other : String)
    (h : other ≠ key) :
    (l.filter (fun p => p.1 != key)).lookup other = l.lookup other := by
  induction l with
  | nil => rfl
  | cons p rest ih =>
    obtain ⟨k, v⟩ := p
    by_cases hk : k = key
    · subst hk
      have hne : (other == k) = false := by simpa using h
      simp [List.filter, List.lookup, hne, ih]
    · have hkeep : (k != key) = true := by simpa using hk
      by_cases ho : other = k
      · subst ho
        simp [List.filter, List.lookup, hkeep]
      · have hne : (other == k) = false := by simpa using ho
        simp [List.filter, List.lookup, hkeep, hne, ih]

/-- After the map write `m[key] = value` the key is bound to the value. -/
theorem mapGet_mapSet_self (l : List (String × String)) (key value : String) :
    mapGet (some (mapSet l key value)) key = some value := by
  simp [mapGet, mapSet, List.lookup]

/-- After the map write `m[key] = value` every other key keeps its binding. -/
theorem mapGet_mapSet_other (l : List (String × String)) (key value other : String)
    (h : other ≠ key) :
    mapGet (some (mapSet l key value)) other = mapGet (some l) other := by
  have hne : (other == key) = false := by simpa using h
  simp only [mapGet, mapSet, List.lookup, hne]
  exact lookup_filter_other l key other h

/-- The two annotation keys differ. -/
theorem importAnnotation_ne_reclaimAnnotation : importAnnotation ≠ reclaimAnnotation := by
  decide

/-- What the key `other` is bound to in a nil map and in the empty map made for it. -/
theorem mapGet_none_eq_nil (other : String) :
    mapGet (some []) other = mapGet none other := rfl

/-- The annotations after `xUpdateDefaultAnnotations`: the import annotation is "true" when it
was "true" and "false" otherwise, the reclaim policy annotation is "retain" when it was
"retain" and "delete" otherwise, and every other key keeps its binding. -/
theorem updateDefaultAnnotations_get (o : ObjectMeta) :
    mapGet (updateDefaultAnnotations o).Annotations importAnnotation
      = some (if mapGet o.Annotations importAnnotation = some "true" then "true" else "false")
    ∧ mapGet (updateDefaultAnnotations o).Annotations reclaimAnnotation
      = some (if mapGet o.Annotations reclaimAnnotation = some "retain" then "retain"
          else "delete")
    ∧ ∀ other, other ≠ importAnnotation → other ≠ reclaimAnnotation →
        mapGet (updateDefaultAnnotations o).Annotations other = mapGet o.Annotations other := by
  have hflags := importedOf_reclaimOf_eq o
  refine ⟨?_, ?_, ?_⟩
  · simp only [updateDefaultAnnotations]
    rw [mapGet_mapSet_other _ _ _ _ importAnnotation_ne_reclaimAnnotation, mapGet_mapSet_self,
      hflags.1]
    by_cases h : mapGet o.Annotations importAnnotation = some "true" <;> simp [h]
  · simp only [updateDefaultAnnotations]
    rw [mapGet_mapSet_self, hflags.2]
    by_cases h : mapGet o.Annotations reclaimAnnotation = some "retain" <;> simp [h]
  · intro other h1 h2
    simp only [updateDefaultAnnotations]
    rw [mapGet_mapSet_other _ _ _ _ h2, mapGet_mapSet_other _ _ _ _ h1]
    cases o.Annotations <;> rfl

/-! ## C21: when the annotations need defaults -/

/-- The body shared by the functions `xMustUpdateAnnotations` returns true exactly when the
annotation of the import flag is absent or neither "true" nor "false", or the reclaim policy
annotation is absent or neither "retain" nor "delete". -/
theorem mustUpdateAnnotations_iff (o : ObjectMeta) :
    mustUpdateAnnotations o = true
      ↔ (mapGet o.Annotations importAnnotation = none
          ∨ ∃ i, mapGet o.Annotations importAnnotation = some i ∧ i ≠ "true" ∧ i ≠ "false")
        ∨ (mapGet o.Annotations reclaimAnnotation = none
          ∨ ∃ i, mapGet o.Annotations reclaimAnnotation = some i
              ∧ i ≠ "retain" ∧ i ≠ "delete") := by
  unfold mustUpdateAnnotations
  cases hi : mapGet o.Annotations importAnnotation with
  | none =>
    cases hr : mapGet o.Annotations reclaimAnnotation with
    | none => simp
    | some j => by_cases h1 : j = "retain" <;> by_cases h2 : j = "delete" <;> simp [h1, h2]
  | some i =>
    cases hr : mapGet o.Annotations reclaimAnnotation with
    | none => simp
    | some j =>
      by_cases h1 : j = "retain" <;> by_cases h2 : j = "delete" <;>
        by_cases h3 : i = "true" <;> by_cases h4 : i = "false" <;> simp [h1, h2, h3, h4]

/-- C21 (InventoryServer, ServerCluster, ServerClusterTemplate, VPC): the function
`xMustUpdateAnnotations` returns true if and only if the import annotation is absent or is
neither "true" nor "false", or the reclaim policy annotation is absent or is neither "retain"
nor "delete". -/
theorem must_update_annotations_iff :
    (∀ cr : InventoryServer,
        inventoryServerMustUpdateAnnotations cr = true
          ↔ (mapGet cr.ObjectMeta.Annotations importAnnotation = none
              ∨ ∃ i, mapGet cr.ObjectMeta.Annotations importAnnotation = some i
                  ∧ i ≠ "true" ∧ i ≠ "false")
            ∨ (mapGet cr.ObjectMeta.Annotations reclaimAnnotation = none
              ∨ ∃ i, mapGet cr.ObjectMeta.Annotations reclaimAnnotation = some i
                  ∧ i ≠ "retain" ∧ i ≠ "delete"))
    ∧ (∀ cr : ServerCluster,
        serverClusterMustUpdateAnnotations cr = true
          ↔ (mapGet cr.ObjectMeta.Annotations importAnnotation = none
              ∨ ∃ i, mapGet cr.ObjectMeta.Annotations importAnnotation = some i
                  ∧ i ≠ "true" ∧ i ≠ "false")
            ∨ (mapGet cr.ObjectMeta.Annotations reclaimAnnotation = none
              ∨ ∃ i, mapGet cr.ObjectMeta.Annotations reclaimAnnotation = some i
                  ∧ i ≠ "retain" ∧ i ≠ "delete"))
    ∧ (∀ cr : ServerClusterTemplate,
        serverClusterTemplateMustUpdateAnnotations cr = true
          ↔ (mapGet cr.ObjectMeta.Annotations importAnnotation = none
              ∨ ∃ i, mapGet cr.ObjectMeta.Annotations importAnnotation = some i
                  ∧ i ≠ "true" ∧ i ≠ "false")
            ∨ (mapGet cr.ObjectMeta.Annotations reclaimAnnotation = none
              ∨ ∃ i, mapGet cr.ObjectMeta.Annotations reclaimAnnotation = some i
                  ∧ i ≠ "retain" ∧ i ≠ "delete"))
    ∧ (∀ cr : VPC,
        vpcMustUpdateAnnotations cr = true
          ↔ (mapGet cr.ObjectMeta.Annotations importAnnotation = none
              ∨ ∃ i, mapGet cr.ObjectMeta.Annotations importAnnotation = some i
                  ∧ i ≠ "true" ∧ i ≠ "false")
            ∨ (mapGet cr.ObjectMeta.Annotations reclaimAnnotation = none
              ∨ ∃ i, mapGet cr.ObjectMeta.Annotations reclaimAnnotation = some i
                  ∧ i ≠ "retain" ∧ i ≠ "delete")) :=
  ⟨fun cr => mustUpdateAnnotations_iff cr.ObjectMeta,
    fun cr => mustUpdateAnnotations_iff cr.ObjectMeta,
    fun cr => mustUpdateAnnotations_iff cr.ObjectMeta,
    fun cr => mustUpdateAnnotations_iff cr.ObjectMeta⟩

/-! ## C22: the default annotations -/

/-- C22 (InventoryServer, ServerCluster, ServerClusterTemplate, VPC): the function
`xUpdateDefaultAnnotations` changes the annotations of the resource and nothing else, and the
annotations it leaves are these: a recognized value of the annotation import ("true" /
"false") and of the annotation reclaimPolicy ("retain" / "delete") is kept as it was, an
absent or unrecognized one is set to its default ("false", "delete"), and every other
annotation is left as it was. -/
theorem update_default_annotations_sets_defaults :
    (∀ o : ObjectMeta,
        (∀ v, mapGet o.Annotations importAnnotation = some v → (v = "true" ∨ v = "false") →
          mapGet (updateDefaultAnnotations o).Annotations importAnnotation = some v)
        ∧ ((mapGet o.Annotations importAnnotation = none
            ∨ ∃ v, mapGet o.Annotations importAnnotation = some v
                ∧ v ≠ "true" ∧ v ≠ "false") →
          mapGet (updateDefaultAnnotations o).Annotations importAnnotation = some "false")
        ∧ (∀ v, mapGet o.Annotations reclaimAnnotation = some v →
          (v = "retain" ∨ v = "delete") →
          mapGet (updateDefaultAnnotations o).Annotations reclaimAnnotation = some v)
        ∧ ((mapGet o.Annotations reclaimAnnotation = none
            ∨ ∃ v, mapGet o.Annotations reclaimAnnotation = some v
                ∧ v ≠ "retain" ∧ v ≠ "delete") →
          mapGet (updateDefaultAnnotations o).Annotations reclaimAnnotation = some "delete")
        ∧ (∀ other, other ≠ importAnnotation → other ≠ reclaimAnnotation →
          mapGet (updateDefaultAnnotations o).Annotations other = mapGet o.Annotations other)
        ∧ updateDefaultAnnotations o
          = { o with Annotations := (updateDefaultAnnotations o).Annotations })
    ∧ (∀ cr : InventoryServer,
        inventoryServerUpdateDefaultAnnotations cr
          = { cr with ObjectMeta := updateDefaultAnnotations cr.ObjectMeta })
    ∧ (∀ cr : ServerCluster,
        serverClusterUpdateDefaultAnnotations cr
          = { cr with ObjectMeta := updateDefaultAnnotations cr.ObjectMeta })
    ∧ (∀ cr : ServerClusterTemplate,
        serverClusterTemplateUpdateDefaultAnnotations cr
          = { cr with ObjectMeta := updateDefaultAnnotations cr.ObjectMeta })
    ∧ (∀ cr : VPC,
        vpcUpdateDefaultAnnotations cr
          = { cr with ObjectMeta := updateDefaultAnnotations cr.ObjectMeta }) := by
  refine ⟨?_, fun _ => rfl, fun _ => rfl, fun _ => rfl, fun _ => rfl⟩
  intro o
  obtain ⟨hi, hr, ho⟩ := updateDefaultAnnotations_get o
  refine ⟨?_, ?_, ?_, ?_, ho, rfl⟩
  · rintro v hv (rfl | rfl)
    · rw [hi, hv]
      simp
    · rw [hi, hv]
      simp
  · rintro (h | ⟨v, hv, h1, h2⟩)
    · rw [hi, h]
      simp
    · rw [hi, hv]
      simp [h1]
  · rintro v hv (rfl | rfl)
    · rw [hr, hv]
      simp
    · rw [hr, hv]
      simp
  · rintro (h | ⟨v, hv, h1, h2⟩)
    · rw [hr, h]
      simp
    · rw [hr, hv]
      simp [h1]

/-- The theorem of C22 at an InventoryServer with the annotations team "net" and an
unrecognized value "yes" of the first key, and no reclaim policy: the first key becomes
"false", the reclaim policy "delete", and the annotation team stays "net". -/
theorem update_default_annotations_sets_defaults_witness :
    mapGet (inventoryServerUpdateDefaultAnnotations
        { Scenario.inventoryServer "sfo1" "d" 2 false with
          ObjectMeta := { (Scenario.inventoryServer "sfo1" "d" 2 false).ObjectMeta with
            Annotations := some [( importAnnotation, "yes"), ("team", "net")] } }
        ).ObjectMeta.Annotations "resource.k8s.netris.ai/import" = some "false"
    ∧ mapGet (inventoryServerUpdateDefaultAnnotations
        { Scenario.inventoryServer "sfo1" "d" 2 false with
          ObjectMeta := { (Scenario.inventoryServer "sfo1" "d" 2 false).ObjectMeta with
            Annotations := some [( importAnnotation, "yes"), ("team", "net")] } }
        ).ObjectMeta.Annotations "resource.k8s.netris.ai/reclaimPolicy" = some "delete"
    ∧ mapGet (inventoryServerUpdateDefaultAnnotations
        { Scenario.inventoryServer "sfo1" "d" 2 false with
          ObjectMeta := { (Scenario.inventoryServer "sfo1" "d" 2 false).ObjectMeta with
            Annotations := some [( importAnnotation, "yes"), ("team", "net")] } }
        ).ObjectMeta.Annotations "team" = some "net" := by
  have h := update_default_annotations_sets_defaults.1
    { (Scenario.inventoryServer "sfo1" "d" 2 false).ObjectMeta with
      Annotations := some [( importAnnotation, "yes"), ("team", "net")] }
  exact ⟨h.2.1 (Or.inr ⟨"yes", rfl, by decide, by decide⟩), h.2.2.2.1 (Or.inl rfl),
    (h.2.2.2.2.1 "team" (by decide) (by decide)).trans rfl⟩

/-! ## The CR-phase reconcile of a loaded desired resource -/

/-- When the desired resource is found and the lookup of its twin answers with the twin or
with NotFound, `Reconcile` is `reconcileLoaded` on the two. -/
theorem InventoryServerReconciler.Reconcile_twin_inventoryServer (r : InventoryServerReconciler)
    (req : NamespacedName) (cr : InventoryServer) (twin : Option InventoryServerMeta)
    (msg : String) (hCR : r.Client.GetCR req = .found cr)
    (hTwin : r.Client.GetMeta { req with Name := cr.ObjectMeta.UID }
      = match twin with
        | some m => .found m
        | none => .notFound msg) :
    r.Reconcile req = r.reconcileLoaded cr twin := by
  cases twin <;> simp only [InventoryServerReconciler.Reconcile, hCR, hTwin]

/-- When the desired resource is found and the lookup of its twin answers with the twin or
with NotFound, `Reconcile` is `reconcileLoaded` on the two. -/
theorem ServerClusterReconciler.Reconcile_twin_serverCluster (r : ServerClusterReconciler)
    (req : NamespacedName) (cr : ServerCluster) (twin : Option ServerClusterMeta)
    (msg : String) (hCR : r.Client.GetCR req = .found cr)
    (hTwin : r.Client.GetMeta { req with Name := cr.ObjectMeta.UID }
      = match twin with
        | some m => .found m
        | none => .notFound msg) :
    r.Reconcile req = r.reconcileLoaded cr twin := by
  cases twin <;> simp only [ServerClusterReconciler.Reconcile, hCR, hTwin]

/-- When the desired resource is found and the lookup of its twin answers with the twin or
with NotFound, `Reconcile` is `reconcileLoaded` on the two. -/
theorem ServerClusterTemplateReconciler.Reconcile_twin_template
    (r : ServerClusterTemplateReconciler) (req : NamespacedName) (cr : ServerClusterTemplate)
    (twin : Option ServerClusterTemplateMeta) (msg : String)
    (hCR : r.Client.GetCR req = .found cr)
    (hTwin : r.Client.GetMeta { req with Name := cr.ObjectMeta.UID }
      = match twin with
        | some m => .found m
        | none => .notFound msg) :
    r.Reconcile req = r.reconcileLoaded cr twin := by
  cases twin <;> simp only [ServerClusterTemplateReconciler.Reconcile, hCR, hTwin]

/-- What `reconcileFound` returns. -/
theorem InventoryServerReconciler.reconcileFound_ret_inventoryServer (r : InventoryServerReconciler)
    (cr : InventoryServer) (m : InventoryServerMeta) :
    (r.reconcileFound cr m).ret = .returned (Result.after r.requeueInterval) none := by
  unfold InventoryServerReconciler.reconcileFound
  split
  · simp only []
    rcases h : r.InventoryServerToInventoryServerMeta cr with ⟨res, calls⟩
    cases res with
    | error err => rfl
    | ok newMeta =>
      simp only []
      split <;> rfl
  · rfl

/-- What `reconcileNotFound` returns when the finalizer list is not nil. -/
theorem InventoryServerReconciler.reconcileNotFound_ret_inventoryServer
    (r : InventoryServerReconciler)
    (cr : InventoryServer) (h : cr.ObjectMeta.Finalizers ≠ none) :
    (r.reconcileNotFound cr).ret = .returned (Result.after r.requeueInterval) none := by
  unfold InventoryServerReconciler.reconcileNotFound
  rw [if_neg h]
  rcases h : r.InventoryServerToInventoryServerMeta cr with ⟨res, calls⟩
  cases res with
  | error err => rfl
  | ok newMeta =>
    simp only []
    split <;> rfl

/-- What `reconcileFound` returns. -/
theorem ServerClusterReconciler.reconcileFound_ret_serverCluster (r : ServerClusterReconciler)
    (cr : ServerCluster) (m : ServerClusterMeta) :
    (r.reconcileFound cr m).1.ret = .returned (Result.after r.requeueInterval) none := by
  unfold ServerClusterReconciler.reconcileFound
  split
  · simp only []
    rcases h : r.ServerClusterToMeta cr with ⟨⟨res, calls⟩, storage⟩
    cases res with
    | error err => rfl
    | ok newMeta =>
      simp only []
      split <;> rfl
  · rfl

/-- What `reconcileNotFound` returns when the finalizer list is not nil. -/
theorem ServerClusterReconciler.reconcileNotFound_ret_serverCluster (r : ServerClusterReconciler)
    (cr : ServerCluster) (h : cr.ObjectMeta.Finalizers ≠ none) :
    (r.reconcileNotFound cr).1.ret = .returned (Result.after r.requeueInterval) none := by
  unfold ServerClusterReconciler.reconcileNotFound
  rw [if_neg h]
  rcases h : r.ServerClusterToMeta cr with ⟨⟨res, calls⟩, storage⟩
  cases res with
  | error err => rfl
  | ok newMeta =>
    simp only []
    split <;> rfl

/-- What `reconcileFound` returns. -/
theorem ServerClusterTemplateReconciler.reconcileFound_ret_template
    (r : ServerClusterTemplateReconciler) (cr : ServerClusterTemplate)
    (m : ServerClusterTemplateMeta) :
    (r.reconcileFound cr m).ret = .returned (Result.after r.requeueInterval) none := by
  unfold ServerClusterTemplateReconciler.reconcileFound
  split
  · simp only []
    rcases h : r.ServerClusterTemplateToMeta cr with ⟨res, calls⟩
    cases res with
    | error err => rfl
    | ok newMeta =>
      simp only []
      split <;> rfl
  · rfl

/-- What `reconcileNotFound` returns when the finalizer list is not nil. -/
theorem ServerClusterTemplateReconciler.reconcileNotFound_ret_template
    (r : ServerClusterTemplateReconciler) (cr : ServerClusterTemplate)
    (h : cr.ObjectMeta.Finalizers ≠ none) :
    (r.reconcileNotFound cr).ret = .returned (Result.after r.requeueInterval) none := by
  unfold ServerClusterTemplateReconciler.reconcileNotFound
  rw [if_neg h]
  rcases h : r.ServerClusterTemplateToMeta cr with ⟨res, calls⟩
  cases res with
  | error err => rfl
  | ok newMeta =>
    simp only []
    split <;> rfl

/-- What `reconcileNotFound` returns when the finalizer list is nil. -/
theorem InventoryServerReconciler.reconcileNotFound_ret_nil_inventoryServer
    (r : InventoryServerReconciler)
    (cr : InventoryServer) (h : cr.ObjectMeta.Finalizers = none) :
    (r.reconcileNotFound cr).ret
      = if r.Client.PatchCR
            { cr with ObjectMeta :=
              { cr.ObjectMeta with Finalizers := some [deleteFinalizer] } } = none then
          .returned Result.empty none
        else .returned (Result.after r.requeueInterval) none := by
  unfold InventoryServerReconciler.reconcileNotFound
  rw [if_pos h]
  simp only []
  cases r.Client.PatchCR
    { cr with ObjectMeta :=
      { cr.ObjectMeta with Finalizers := some [deleteFinalizer] } } <;> simp

/-- What `reconcileLoaded` returns for a desired resource without deletion marker. -/
theorem InventoryServerReconciler.reconcileLoaded_ret_inventoryServer
    (r : InventoryServerReconciler)
    (cr : InventoryServer) (twin : Option InventoryServerMeta)
    (hLive : cr.ObjectMeta.DeletionTimestamp = none) :
    (r.reconcileLoaded cr twin).ret
      = if inventoryServerMustUpdateAnnotations cr = true then
          if r.Client.PatchCR (inventoryServerUpdateDefaultAnnotations cr) = none then
            .returned Result.empty none
          else .returned (Result.after r.requeueInterval) none
        else if twin.isNone = true ∧ cr.ObjectMeta.Finalizers = none
            ∧ r.Client.PatchCR
                { cr with ObjectMeta :=
                  { cr.ObjectMeta with Finalizers := some [deleteFinalizer] } } = none then
          .returned Result.empty none
        else .returned (Result.after r.requeueInterval) none := by
  have hl : ¬ (cr.ObjectMeta.DeletionTimestamp.isSome = true) := by
    rw [hLive]
    simp
  unfold InventoryServerReconciler.reconcileLoaded
  rw [if_neg hl]
  by_cases hAnn : inventoryServerMustUpdateAnnotations cr = true
  · rw [if_pos hAnn, if_pos hAnn]
    cases r.Client.PatchCR (inventoryServerUpdateDefaultAnnotations cr) <;> simp
  · rw [if_neg hAnn, if_neg hAnn]
    cases twin with
    | some m =>
      show (r.reconcileFound cr m).ret = _
      rw [r.reconcileFound_ret_inventoryServer cr m]
      simp
    | none =>
      show (r.reconcileNotFound cr).ret = _
      by_cases hF : cr.ObjectMeta.Finalizers = none
      · rw [r.reconcileNotFound_ret_nil_inventoryServer cr hF]
        simp [hF]
      · rw [r.reconcileNotFound_ret_inventoryServer cr hF]
        simp [hF]

/-- What `reconcileNotFound` returns when the finalizer list is nil. -/
theorem ServerClusterReconciler.reconcileNotFound_ret_nil_serverCluster
    (r : ServerClusterReconciler)
    (cr : ServerCluster) (h : cr.ObjectMeta.Finalizers = none) :
    (r.reconcileNotFound cr).1.ret
      = if r.Client.PatchCR
            { cr with ObjectMeta :=
              { cr.ObjectMeta with Finalizers := some [deleteFinalizer] } } = none then
          .returned Result.empty none
        else .returned (Result.after r.requeueInterval) none := by
  unfold ServerClusterReconciler.reconcileNotFound
  rw [if_pos h]
  simp only []
  cases r.Client.PatchCR
    { cr with ObjectMeta :=
      { cr.ObjectMeta with Finalizers := some [deleteFinalizer] } } <;> simp

/-- What `reconcileLoaded` returns for a desired resource without deletion marker. -/
theorem ServerClusterReconciler.reconcileLoaded_ret_serverCluster (r : ServerClusterReconciler)
    (cr : ServerCluster) (twin : Option ServerClusterMeta)
    (hLive : cr.ObjectMeta.DeletionTimestamp = none) :
    (r.reconcileLoaded cr twin).1.ret
      = if serverClusterMustUpdateAnnotations cr = true then
          if r.Client.PatchCR (serverClusterUpdateDefaultAnnotations cr) = none then
            .returned Result.empty none
          else .returned (Result.after r.requeueInterval) none
        else if twin.isNone = true ∧ cr.ObjectMeta.Finalizers = none
            ∧ r.Client.PatchCR
                { cr with ObjectMeta :=
                  { cr.ObjectMeta with Finalizers := some [deleteFinalizer] } } = none then
          .returned Result.empty none
        else .returned (Result.after r.requeueInterval) none := by
  have hl : ¬ (cr.ObjectMeta.DeletionTimestamp.isSome = true) := by
    rw [hLive]
    simp
  unfold ServerClusterReconciler.reconcileLoaded
  rw [if_neg hl]
  by_cases hAnn : serverClusterMustUpdateAnnotations cr = true
  · rw [if_pos hAnn, if_pos hAnn]
    cases r.Client.PatchCR (serverClusterUpdateDefaultAnnotations cr) <;> simp
  · rw [if_neg hAnn, if_neg hAnn]
    cases twin with
    | some m =>
      show (r.reconcileFound cr m).1.ret = _
      rw [r.reconcileFound_ret_serverCluster cr m]
      simp
    | none =>
      show (r.reconcileNotFound cr).1.ret = _
      by_cases hF : cr.ObjectMeta.Finalizers = none
      · rw [r.reconcileNotFound_ret_nil_serverCluster cr hF]
        simp [hF]
      · rw [r.reconcileNotFound_ret_serverCluster cr hF]
        simp [hF]

/-- What `reconcileNotFound` returns when the finalizer list is nil. -/
theorem ServerClusterTemplateReconciler.reconcileNotFound_ret_nil_template
    (r : ServerClusterTemplateReconciler)
    (cr : ServerClusterTemplate) (h : cr.ObjectMeta.Finalizers = none) :
    (r.reconcileNotFound cr).ret
      = if r.Client.PatchCR
            { cr with ObjectMeta :=
              { cr.ObjectMeta with Finalizers := some [deleteFinalizer] } } = none then
          .returned Result.empty none
        else .returned (Result.after r.requeueInterval) none := by
  unfold ServerClusterTemplateReconciler.reconcileNotFound
  rw [if_pos h]
  simp only []
  cases r.Client.PatchCR
    { cr with ObjectMeta :=
      { cr.ObjectMeta with Finalizers := some [deleteFinalizer] } } <;> simp

/-- What `reconcileLoaded` returns for a desired resource without deletion marker. -/
theorem ServerClusterTemplateReconciler.reconcileLoaded_ret_template
    (r : ServerClusterTemplateReconciler)
    (cr : ServerClusterTemplate) (twin : Option ServerClusterTemplateMeta)
    (hLive : cr.ObjectMeta.DeletionTimestamp = none) :
    (r.reconcileLoaded cr twin).ret
      = if serverClusterTemplateMustUpdateAnnotations cr = true then
          if r.Client.PatchCR (serverClusterTemplateUpdateDefaultAnnotations cr) = none then
            .returned Result.empty none
          else .returned (Result.after r.requeueInterval) none
        else if twin.isNone = true ∧ cr.ObjectMeta.Finalizers = none
            ∧ r.Client.PatchCR
                { cr with ObjectMeta :=
                  { cr.ObjectMeta with Finalizers := some [deleteFinalizer] } } = none then
          .returned Result.empty none
        else .returned (Result.after r.requeueInterval) none := by
  have hl : ¬ (cr.ObjectMeta.DeletionTimestamp.isSome = true) := by
    rw [hLive]
    simp
  unfold ServerClusterTemplateReconciler.reconcileLoaded
  rw [if_neg hl]
  by_cases hAnn : serverClusterTemplateMustUpdateAnnotations cr = true
  · rw [if_pos hAnn, if_pos hAnn]
    cases r.Client.PatchCR (serverClusterTemplateUpdateDefaultAnnotations cr) <;> simp
  · rw [if_neg hAnn, if_neg hAnn]
    cases twin with
    | some m =>
      show (r.reconcileFound cr m).ret = _
      rw [r.reconcileFound_ret_template cr m]
      simp
    | none =>
      show (r.reconcileNotFound cr).ret = _
      by_cases hF : cr.ObjectMeta.Finalizers = none
      · rw [r.reconcileNotFound_ret_nil_template cr hF]
        simp [hF]
      · rw [r.reconcileNotFound_ret_template cr hF]
        simp [hF]

/-! ## C23: what a CR-phase reconcile of a live desired resource returns -/

/-- C23, as the code has it (InventoryServer, ServerCluster, ServerClusterTemplate): a CR-phase
`Reconcile` that finds the desired resource without deletion marker, and whose lookup of the
twin answers with the twin or with NotFound, returns no error, and its result is the
`ctrl.Result` with `RequeueAfter` set to `requeueInterval` except in two cases, in which it is
the empty `ctrl.Result` that schedules nothing: the reconcile that sets the default
annotations and whose patch succeeds, and the reconcile that attaches the finalizer (valid
annotations, twin absent, nil finalizer list) and whose patch succeeds. -/
theorem cr_reconcile_requeues_unless_patched :
    (∀ (r : InventoryServerReconciler) (req : NamespacedName) (cr : InventoryServer)
        (twin : Option InventoryServerMeta) (msg : String),
        r.Client.GetCR req = .found cr →
        (r.Client.GetMeta { req with Name := cr.ObjectMeta.UID }
          = match twin with
            | some m => .found m
            | none => .notFound msg) →
        cr.ObjectMeta.DeletionTimestamp = none →
        (r.Reconcile req).ret
          = if inventoryServerMustUpdateAnnotations cr = true then
              if r.Client.PatchCR (inventoryServerUpdateDefaultAnnotations cr) = none then
                .returned Result.empty none
              else .returned (Result.after r.requeueInterval) none
            else if twin.isNone = true ∧ cr.ObjectMeta.Finalizers = none
                ∧ r.Client.PatchCR
                    { cr with ObjectMeta :=
                      { cr.ObjectMeta with Finalizers := some [deleteFinalizer] } } = none then
              .returned Result.empty none
            else .returned (Result.after r.requeueInterval) none)
    ∧ (∀ (r : ServerClusterReconciler) (req : NamespacedName) (cr : ServerCluster)
        (twin : Option ServerClusterMeta) (msg : String),
        r.Client.GetCR req = .found cr →
        (r.Client.GetMeta { req with Name := cr.ObjectMeta.UID }
          = match twin with
            | some m => .found m
            | none => .notFound msg) →
        cr.ObjectMeta.DeletionTimestamp = none →
        (r.Reconcile req).1.ret
          = if serverClusterMustUpdateAnnotations cr = true then
              if r.Client.PatchCR (serverClusterUpdateDefaultAnnotations cr) = none then
                .returned Result.empty none
              else .returned (Result.after r.requeueInterval) none
            else if twin.isNone = true ∧ cr.ObjectMeta.Finalizers = none
                ∧ r.Client.PatchCR
                    { cr with ObjectMeta :=
                      { cr.ObjectMeta with Finalizers := some [deleteFinalizer] } } = none then
              .returned Result.empty none
            else .returned (Result.after r.requeueInterval) none)
    ∧ (∀ (r : ServerClusterTemplateReconciler) (req : NamespacedName)
        (cr : ServerClusterTemplate) (twin : Option ServerClusterTemplateMeta) (msg : String),
        r.Client.GetCR req = .found cr →
        (r.Client.GetMeta { req with Name := cr.ObjectMeta.UID }
          = match twin with
            | some m => .found m
            | none => .notFound msg) →
        cr.ObjectMeta.DeletionTimestamp = none →
        (r.Reconcile req).ret
          = if serverClusterTemplateMustUpdateAnnotations cr = true then
              if r.Client.PatchCR (serverClusterTemplateUpdateDefaultAnnotations cr) = none then
                .returned Result.empty none
              else .returned (Result.after r.requeueInterval) none
            else if twin.isNone = true ∧ cr.ObjectMeta.Finalizers = none
                ∧ r.Client.PatchCR
                    { cr with ObjectMeta :=
                      { cr.ObjectMeta with Finalizers := some [deleteFinalizer] } } = none then
              .returned Result.empty none
            else .returned (Result.after r.requeueInterval) none) := by
  refine ⟨?_, ?_, ?_⟩
  · intro r req cr twin msg hCR hTwin hLive
    rw [r.Reconcile_twin_inventoryServer req cr twin msg hCR hTwin]
    exact r.reconcileLoaded_ret_inventoryServer cr twin hLive
  · intro r req cr twin msg hCR hTwin hLive
    rw [r.Reconcile_twin_serverCluster req cr twin msg hCR hTwin]
    exact r.reconcileLoaded_ret_serverCluster cr twin hLive
  · intro r req cr twin msg hCR hTwin hLive
    rw [r.Reconcile_twin_template req cr twin msg hCR hTwin]
    exact r.reconcileLoaded_ret_template cr twin hLive

/-- Witness of C23: with the twin present and in step, the reconcile of a live desired
resource returns the poll interval 10 and no error. -/
theorem cr_reconcile_requeues_unless_patched_witness :
    ((Scenario.inventoryServerReconciler (Scenario.inventoryServer "sfo1" "d" 1 false)
        (some (Scenario.inventoryServerMeta 7 1 "d" "" false false)) none 200).Reconcile
        (Scenario.request "srv1")).ret = .returned (Result.after 10) none
    ∧ ((Scenario.serverClusterReconciler (Scenario.serverCluster "sfo1" 1 false)
        (some (Scenario.serverClusterMeta 7 1 false false)) none 200).Reconcile
        (Scenario.request "c1")).1.ret = .returned (Result.after 10) none
    ∧ ((Scenario.templateReconciler (Scenario.template 1 false)
        (some (Scenario.templateMeta 7 1 false false)) none 200).Reconcile
        (Scenario.request "t1")).ret = .returned (Result.after 10) none :=
  ⟨(cr_reconcile_requeues_unless_patched.1
      (Scenario.inventoryServerReconciler (Scenario.inventoryServer "sfo1" "d" 1 false)
        (some (Scenario.inventoryServerMeta 7 1 "d" "" false false)) none 200)
      (Scenario.request "srv1") _ (some (Scenario.inventoryServerMeta 7 1 "d" "" false false))
      "" rfl rfl rfl).trans (by decide),
    (cr_reconcile_requeues_unless_patched.2.1
      (Scenario.serverClusterReconciler (Scenario.serverCluster "sfo1" 1 false)
        (some (Scenario.serverClusterMeta 7 1 false false)) none 200)
      (Scenario.request "c1") _ (some (Scenario.serverClusterMeta 7 1 false false))
      "" rfl rfl rfl).trans (by decide),
    (cr_reconcile_requeues_unless_patched.2.2
      (Scenario.templateReconciler (Scenario.template 1 false)
        (some (Scenario.templateMeta 7 1 false false)) none 200)
      (Scenario.request "t1") _ (some (Scenario.templateMeta 7 1 false false))
      "" rfl rfl rfl).trans (by decide)⟩

/-- Counterexample to C23 as stated: with the poll interval 10, the reconcile that only sets
the default annotations (desired resource without annotations) and the reconcile that only
attaches the finalizer (valid annotations, twin absent, nil finalizer list) both patch the
desired resource and return the empty result, whose `RequeueAfter` is 0. -/
theorem cr_reconcile_requeue_counterexample :
    (Scenario.inventoryServerReconciler
        (Scenario.inventoryServerWith (some [deleteFinalizer]) none) none none 200
      ).requeueInterval = 10
    ∧ ((Scenario.inventoryServerReconciler
        (Scenario.inventoryServerWith (some [deleteFinalizer]) none) none none 200).Reconcile
        (Scenario.request "srv1"))
      = { ret := .returned { Requeue := false, RequeueAfter := 0 } none
          trace := [.patchCR (inventoryServerUpdateDefaultAnnotations
            (Scenario.inventoryServerWith (some [deleteFinalizer]) none))] }
    ∧ ((Scenario.inventoryServerReconciler
        (Scenario.inventoryServerWith none Scenario.validAnnotations) none none 200).Reconcile
        (Scenario.request "srv1"))
      = { ret := .returned { Requeue := false, RequeueAfter := 0 } none
          trace := [.patchCR (Scenario.inventoryServerWith (some [deleteFinalizer])
            Scenario.validAnnotations)] }
    ∧ ((Scenario.serverClusterReconciler
        (Scenario.serverClusterWith (some [deleteFinalizer]) none) none none 200).Reconcile
        (Scenario.request "c1")).1
      = { ret := .returned { Requeue := false, RequeueAfter := 0 } none
          trace := [.patchCR (serverClusterUpdateDefaultAnnotations
            (Scenario.serverClusterWith (some [deleteFinalizer]) none))] }
    ∧ ((Scenario.serverClusterReconciler
        (Scenario.serverClusterWith none Scenario.validAnnotations) none none 200).Reconcile
        (Scenario.request "c1")).1
      = { ret := .returned { Requeue := false, RequeueAfter := 0 } none
          trace := [.patchCR (Scenario.serverClusterWith (some [deleteFinalizer])
            Scenario.validAnnotations)] } := by
  refine ⟨rfl, ?_, ?_, ?_, ?_⟩ <;> rfl

/-! ## The branch of the CR-phase reconcile with the twin absent -/

/-- A live desired resource with valid annotations and no twin is handled by
`reconcileNotFound`. -/
theorem InventoryServerReconciler.reconcileLoaded_absent_inventoryServer
    (r : InventoryServerReconciler)
    (cr : InventoryServer) (hLive : cr.ObjectMeta.DeletionTimestamp = none)
    (hAnn : inventoryServerMustUpdateAnnotations cr = false) :
    r.reconcileLoaded cr none = r.reconcileNotFound cr := by
  have hl : ¬ (cr.ObjectMeta.DeletionTimestamp.isSome = true) := by
    rw [hLive]
    simp
  have ha : ¬ (inventoryServerMustUpdateAnnotations cr = true) := by
    rw [hAnn]
    simp
  unfold InventoryServerReconciler.reconcileLoaded
  rw [if_neg hl, if_neg ha]

/-- The calls of `reconcileNotFound` on a nil finalizer list: the patch of the desired
resource with the finalizer token as its only finalizer. -/
theorem InventoryServerReconciler.reconcileNotFound_trace_nil_inventoryServer
    (r : InventoryServerReconciler)
    (cr : InventoryServer) (h : cr.ObjectMeta.Finalizers = none) :
    (r.reconcileNotFound cr).trace
      = [.patchCR
          { cr with ObjectMeta :=
            { cr.ObjectMeta with Finalizers := some [deleteFinalizer] } }] := by
  unfold InventoryServerReconciler.reconcileNotFound
  rw [if_pos h]
  simp only []
  cases r.Client.PatchCR
    { cr with ObjectMeta :=
      { cr.ObjectMeta with Finalizers := some [deleteFinalizer] } } <;> rfl

/-- The calls of `reconcileNotFound` on a finalizer list that is not nil, when the
translation succeeds: the cache calls and the `Create` of the twin. -/
theorem InventoryServerReconciler.reconcileNotFound_trace_ok_inventoryServer
    (r : InventoryServerReconciler)
    (cr : InventoryServer) (newTwin : InventoryServerMeta) (calls : List CacheCall)
    (h : cr.ObjectMeta.Finalizers ≠ none)
    (hRes : r.InventoryServerToInventoryServerMeta cr = (.ok newTwin, calls)) :
    (r.reconcileNotFound cr).trace
      = calls.map .cache
        ++ [.createMeta
            { newTwin with
              Spec := { newTwin.Spec with
                InventoryServerCRGeneration := cr.ObjectMeta.Generation } }] := by
  unfold InventoryServerReconciler.reconcileNotFound
  rw [if_neg h, hRes]
  simp only []
  split <;> rfl

/-- On a finalizer list that is not nil `reconcileNotFound` does not patch the desired
resource. -/
theorem InventoryServerReconciler.reconcileNotFound_no_patch_inventoryServer
    (r : InventoryServerReconciler)
    (cr : InventoryServer) (h : cr.ObjectMeta.Finalizers ≠ none) :
    ∀ c, Event.patchCR c ∉ (r.reconcileNotFound cr).trace := by
  intro c
  unfold InventoryServerReconciler.reconcileNotFound
  rw [if_neg h]
  rcases hres : r.InventoryServerToInventoryServerMeta cr with ⟨res, calls⟩
  cases res with
  | error err => simp [uniReconciler.patchInventoryServerStatus, Outcome.after]
  | ok newMeta =>
    simp only []
    split <;> simp

/-- A live desired resource with valid annotations and no twin is handled by
`reconcileNotFound`. -/
theorem ServerClusterReconciler.reconcileLoaded_absent_serverCluster (r : ServerClusterReconciler)
    (cr : ServerCluster) (hLive : cr.ObjectMeta.DeletionTimestamp = none)
    (hAnn : serverClusterMustUpdateAnnotations cr = false) :
    r.reconcileLoaded cr none = r.reconcileNotFound cr := by
  have hl : ¬ (cr.ObjectMeta.DeletionTimestamp.isSome = true) := by
    rw [hLive]
    simp
  have ha : ¬ (serverClusterMustUpdateAnnotations cr = true) := by
    rw [hAnn]
    simp
  unfold ServerClusterReconciler.reconcileLoaded
  rw [if_neg hl, if_neg ha]

/-- The calls of `reconcileNotFound` on a nil finalizer list: the patch of the desired
resource with the finalizer token as its only finalizer. -/
theorem ServerClusterReconciler.reconcileNotFound_trace_nil_serverCluster
    (r : ServerClusterReconciler)
    (cr : ServerCluster) (h : cr.ObjectMeta.Finalizers = none) :
    (r.reconcileNotFound cr).1.trace
      = [.patchCR
          { cr with ObjectMeta :=
            { cr.ObjectMeta with Finalizers := some [deleteFinalizer] } }] := by
  unfold ServerClusterReconciler.reconcileNotFound
  rw [if_pos h]
  simp only []
  cases r.Client.PatchCR
    { cr with ObjectMeta :=
      { cr.ObjectMeta with Finalizers := some [deleteFinalizer] } } <;> rfl

/-- The calls of `reconcileNotFound` on a finalizer list that is not nil, when the
translation succeeds: the cache calls and the `Create` of the twin. -/
theorem ServerClusterReconciler.reconcileNotFound_trace_ok_serverCluster
    (r : ServerClusterReconciler)
    (cr : ServerCluster) (newTwin : ServerClusterMeta) (calls : List CacheCall)
    (h : cr.ObjectMeta.Finalizers ≠ none)
    (hRes : (r.ServerClusterToMeta cr).1 = (.ok newTwin, calls)) :
    (r.reconcileNotFound cr).1.trace
      = calls.map .cache
        ++ [.createMeta
            { newTwin with
              Spec := { newTwin.Spec with
                ServerClusterCRGeneration := cr.ObjectMeta.Generation } }] := by
  unfold ServerClusterReconciler.reconcileNotFound
  rw [if_neg h]
  rcases hres : r.ServerClusterToMeta cr with ⟨⟨res, calls0⟩, storage⟩
  rw [hres] at hRes
  change (res, calls0) = _ at hRes
  cases hRes
  simp only []
  split <;> rfl

/-- On a finalizer list that is not nil `reconcileNotFound` does not patch the desired
resource. -/
theorem ServerClusterReconciler.reconcileNotFound_no_patch_serverCluster
    (r : ServerClusterReconciler)
    (cr : ServerCluster) (h : cr.ObjectMeta.Finalizers ≠ none) :
    ∀ c, Event.patchCR c ∉ (r.reconcileNotFound cr).1.trace := by
  intro c
  unfold ServerClusterReconciler.reconcileNotFound
  rw [if_neg h]
  rcases hres : r.ServerClusterToMeta cr with ⟨⟨res, calls⟩, storage⟩
  cases res with
  | error err => simp [uniReconciler.patchServerClusterStatus, Outcome.after]
  | ok newMeta =>
    simp only []
    split <;> simp

/-- A live desired resource with valid annotations and no twin is handled by
`reconcileNotFound`. -/
theorem ServerClusterTemplateReconciler.reconcileLoaded_absent_template
    (r : ServerClusterTemplateReconciler)
    (cr : ServerClusterTemplate) (hLive : cr.ObjectMeta.DeletionTimestamp = none)
    (hAnn : serverClusterTemplateMustUpdateAnnotations cr = false) :
    r.reconcileLoaded cr none = r.reconcileNotFound cr := by
  have hl : ¬ (cr.ObjectMeta.DeletionTimestamp.isSome = true) := by
    rw [hLive]
    simp
  have ha : ¬ (serverClusterTemplateMustUpdateAnnotations cr = true) := by
    rw [hAnn]
    simp
  unfold ServerClusterTemplateReconciler.reconcileLoaded
  rw [if_neg hl, if_neg ha]

/-- The calls of `reconcileNotFound` on a nil finalizer list: the patch of the desired
resource with the finalizer token as its only finalizer. -/
theorem ServerClusterTemplateReconciler.reconcileNotFound_trace_nil_template
    (r : ServerClusterTemplateReconciler)
    (cr : ServerClusterTemplate) (h : cr.ObjectMeta.Finalizers = none) :
    (r.reconcileNotFound cr).trace
      = [.patchCR
          { cr with ObjectMeta :=
            { cr.ObjectMeta with Finalizers := some [deleteFinalizer] } }] := by
  unfold ServerClusterTemplateReconciler.reconcileNotFound
  rw [if_pos h]
  simp only []
  cases r.Client.PatchCR
    { cr with ObjectMeta :=
      { cr.ObjectMeta with Finalizers := some [deleteFinalizer] } } <;> rfl

/-- The calls of `reconcileNotFound` on a finalizer list that is not nil, when the
translation succeeds: the cache calls and the `Create` of the twin. -/
theorem ServerClusterTemplateReconciler.reconcileNotFound_trace_ok_template
    (r : ServerClusterTemplateReconciler)
    (cr : ServerClusterTemplate) (newTwin : ServerClusterTemplateMeta) (calls : List CacheCall)
    (h : cr.ObjectMeta.Finalizers ≠ none)
    (hRes : r.ServerClusterTemplateToMeta cr = (.ok newTwin, calls)) :
    (r.reconcileNotFound cr).trace
      = calls.map .cache
        ++ [.createMeta
            { newTwin with
              Spec := { newTwin.Spec with
                ServerClusterTemplateCRGeneration := cr.ObjectMeta.Generation } }] := by
  unfold ServerClusterTemplateReconciler.reconcileNotFound
  rw [if_neg h, hRes]
  simp only []
  split <;> rfl

/-- On a finalizer list that is not nil `reconcileNotFound` does not patch the desired
resource. -/
theorem ServerClusterTemplateReconciler.reconcileNotFound_no_patch_template
    (r : ServerClusterTemplateReconciler)
    (cr : ServerClusterTemplate) (h : cr.ObjectMeta.Finalizers ≠ none) :
    ∀ c, Event.patchCR c ∉ (r.reconcileNotFound cr).trace := by
  intro c
  unfold ServerClusterTemplateReconciler.reconcileNotFound
  rw [if_neg h]
  rcases hres : r.ServerClusterTemplateToMeta cr with ⟨res, calls⟩
  cases res with
  | error err => simp [uniReconciler.patchServerClusterTemplateStatus, Outcome.after]
  | ok newMeta =>
    simp only []
    split <;> simp

/-! ## C24: the finalizer is attached before the twin is created -/

/-- C24, as the code has it (InventoryServer, ServerCluster, ServerClusterTemplate): in the CR
phase with the twin absent, no deletion marker and valid annotations, the test is whether the
finalizer list is nil, not whether it holds the token "resource.k8s.netris.ai/delete".  On a
nil list the reconcile sets the list to the token alone and its only call is the patch of the
desired resource, so no twin is created; on a list that is not nil, whatever it holds, the
reconcile never patches the desired resource and, when the translation succeeds, creates the
twin after the cache calls.  A twin is created only in a reconcile whose desired resource
has a finalizer list that is not nil. -/
theorem finalizer_attached_when_list_nil :
    (∀ (r : InventoryServerReconciler) (req : NamespacedName) (cr : InventoryServer)
        (msg : String),
        r.Client.GetCR req = .found cr →
        r.Client.GetMeta { req with Name := cr.ObjectMeta.UID } = .notFound msg →
        cr.ObjectMeta.DeletionTimestamp = none →
        inventoryServerMustUpdateAnnotations cr = false →
        (cr.ObjectMeta.Finalizers = none →
          (r.Reconcile req).trace
            = [.patchCR
                { cr with ObjectMeta :=
                  { cr.ObjectMeta with Finalizers := some [deleteFinalizer] } }])
        ∧ (cr.ObjectMeta.Finalizers ≠ none →
          (∀ c, Event.patchCR c ∉ (r.Reconcile req).trace)
          ∧ ∀ (newTwin : InventoryServerMeta) (calls : List CacheCall),
              r.InventoryServerToInventoryServerMeta cr = (.ok newTwin, calls) →
              (r.Reconcile req).trace
                = calls.map .cache
                  ++ [.createMeta
                      { newTwin with
                        Spec := { newTwin.Spec with
                          InventoryServerCRGeneration := cr.ObjectMeta.Generation } }])
        ∧ (∀ m, Event.createMeta m ∈ (r.Reconcile req).trace →
          cr.ObjectMeta.Finalizers ≠ none))
    ∧ (∀ (r : ServerClusterReconciler) (req : NamespacedName) (cr : ServerCluster)
        (msg : String),
        r.Client.GetCR req = .found cr →
        r.Client.GetMeta { req with Name := cr.ObjectMeta.UID } = .notFound msg →
        cr.ObjectMeta.DeletionTimestamp = none →
        serverClusterMustUpdateAnnotations cr = false →
        (cr.ObjectMeta.Finalizers = none →
          (r.Reconcile req).1.trace
            = [.patchCR
                { cr with ObjectMeta :=
                  { cr.ObjectMeta with Finalizers := some [deleteFinalizer] } }])
        ∧ (cr.ObjectMeta.Finalizers ≠ none →
          (∀ c, Event.patchCR c ∉ (r.Reconcile req).1.trace)
          ∧ ∀ (newTwin : ServerClusterMeta) (calls : List CacheCall),
              (r.ServerClusterToMeta cr).1 = (.ok newTwin, calls) →
              (r.Reconcile req).1.trace
                = calls.map .cache
                  ++ [.createMeta
                      { newTwin with
                        Spec := { newTwin.Spec with
                          ServerClusterCRGeneration := cr.ObjectMeta.Generation } }])
        ∧ (∀ m, Event.createMeta m ∈ (r.Reconcile req).1.trace →
          cr.ObjectMeta.Finalizers ≠ none))
    ∧ (∀ (r : ServerClusterTemplateReconciler) (req : NamespacedName) (cr : ServerClusterTemplate)
        (msg : String),
        r.Client.GetCR req = .found cr →
        r.Client.GetMeta { req with Name := cr.ObjectMeta.UID } = .notFound msg →
        cr.ObjectMeta.DeletionTimestamp = none →
        serverClusterTemplateMustUpdateAnnotations cr = false →
        (cr.ObjectMeta.Finalizers = none →
          (r.Reconcile req).trace
            = [.patchCR
                { cr with ObjectMeta :=
                  { cr.ObjectMeta with Finalizers := some [deleteFinalizer] } }])
        ∧ (cr.ObjectMeta.Finalizers ≠ none →
          (∀ c, Event.patchCR c ∉ (r.Reconcile req).trace)
          ∧ ∀ (newTwin : ServerClusterTemplateMeta) (calls : List CacheCall),
              r.ServerClusterTemplateToMeta cr = (.ok newTwin, calls) →
              (r.Reconcile req).trace
                = calls.map .cache
                  ++ [.createMeta
                      { newTwin with
                        Spec := { newTwin.Spec with
                          ServerClusterTemplateCRGeneration := cr.ObjectMeta.Generation } }])
        ∧ (∀ m, Event.createMeta m ∈ (r.Reconcile req).trace →
          cr.ObjectMeta.Finalizers ≠ none)) := by
  refine ⟨?_, ?_, ?_⟩
  · intro r req cr msg hCR hTwin hLive hAnn
    rw [r.Reconcile_twin_inventoryServer req cr none msg hCR hTwin,
      r.reconcileLoaded_absent_inventoryServer cr hLive hAnn]
    refine ⟨fun hF => r.reconcileNotFound_trace_nil_inventoryServer cr hF,
      fun hF => ⟨r.reconcileNotFound_no_patch_inventoryServer cr hF,
        fun newTwin calls hRes =>
          r.reconcileNotFound_trace_ok_inventoryServer cr newTwin calls hF hRes⟩,
      ?_⟩
    intro m hm hF
    rw [r.reconcileNotFound_trace_nil_inventoryServer cr hF] at hm
    simp at hm
  · intro r req cr msg hCR hTwin hLive hAnn
    rw [r.Reconcile_twin_serverCluster req cr none msg hCR hTwin,
      r.reconcileLoaded_absent_serverCluster cr hLive hAnn]
    refine ⟨fun hF => r.reconcileNotFound_trace_nil_serverCluster cr hF,
      fun hF => ⟨r.reconcileNotFound_no_patch_serverCluster cr hF,
        fun newTwin calls hRes =>
          r.reconcileNotFound_trace_ok_serverCluster cr newTwin calls hF hRes⟩,
      ?_⟩
    intro m hm hF
    rw [r.reconcileNotFound_trace_nil_serverCluster cr hF] at hm
    simp at hm
  · intro r req cr msg hCR hTwin hLive hAnn
    rw [r.Reconcile_twin_template req cr none msg hCR hTwin,
      r.reconcileLoaded_absent_template cr hLive hAnn]
    refine ⟨fun hF => r.reconcileNotFound_trace_nil_template cr hF,
      fun hF => ⟨r.reconcileNotFound_no_patch_template cr hF,
        fun newTwin calls hRes =>
          r.reconcileNotFound_trace_ok_template cr newTwin calls hF hRes⟩,
      ?_⟩
    intro m hm hF
    rw [r.reconcileNotFound_trace_nil_template cr hF] at hm
    simp at hm

/-- Witness of C24: a ServerClusterTemplate without twin is patched with the token when its
finalizer list is nil, and its twin "uid-3" is created when the token is attached. -/
theorem finalizer_attached_when_list_nil_witness :
    ((Scenario.templateReconciler (Scenario.templateWith none Scenario.validAnnotations) none
        none 200).Reconcile (Scenario.request "t1")).trace
      = [.patchCR (Scenario.templateWith (some ["resource.k8s.netris.ai/delete"])
          Scenario.validAnnotations)]
    ∧ ((Scenario.templateReconciler (Scenario.template 1 false) none none 200).Reconcile
        (Scenario.request "t1")).trace
      = [.createMeta (Scenario.templateMeta 0 1 false false)] :=
  ⟨((finalizer_attached_when_list_nil.2.2
      (Scenario.templateReconciler (Scenario.templateWith none Scenario.validAnnotations) none
        none 200) (Scenario.request "t1") _ "not found" rfl rfl rfl rfl).1 rfl).trans rfl,
    (((finalizer_attached_when_list_nil.2.2
      (Scenario.templateReconciler (Scenario.template 1 false) none none 200)
      (Scenario.request "t1") _ "not found" rfl rfl rfl rfl).2.1 (by decide)).2
        _ _ rfl).trans rfl⟩

/-- Counterexample to C24 as stated: the finalizer list of the desired resource is not nil
and does not contain the token; with the twin absent and valid annotations the reconcile
does not attach the token and does not stop: it creates the twin. -/
theorem finalizer_missing_twin_created_counterexample :
    deleteFinalizer ∉ ["kubernetes"]
    ∧ (∃ m, ((Scenario.inventoryServerReconciler
          (Scenario.inventoryServerWith (some ["kubernetes"]) Scenario.validAnnotations)
          none none 200).Reconcile (Scenario.request "srv1")).trace
        = [.cache (.findByName .sites "sfo1"), .cache (.findByName .tenants "admin"),
           .cache (.download .inventoryProfiles),
           .cache (.findByName .ports "swp1@leaf01"), .createMeta m])
    ∧ (∃ m, ((Scenario.serverClusterReconciler
          (Scenario.serverClusterWith (some ["kubernetes"]) Scenario.validAnnotations)
          none none 200).Reconcile (Scenario.request "c1")).1.trace
        = [.cache (.findByName .sites "sfo1"),
           .cache (.findByName .serverClusterTemplates "t1"),
           .cache (.findByName .tenants "admin"), .createMeta m])
    ∧ ((Scenario.templateReconciler
          (Scenario.templateWith (some ["kubernetes"]) Scenario.validAnnotations)
          none none 200).Reconcile (Scenario.request "t1")).trace
        = [.createMeta (Scenario.templateMeta 0 1 false false)] :=
  ⟨by decide, ⟨_, rfl⟩, ⟨_, rfl⟩, rfl⟩

/-! ## The key of the twin and the lookup of the CR-phase reconcile -/

/-- The object metadata of the twin `InventoryServerToInventoryServerMeta` builds. -/
theorem InventoryServerReconciler.InventoryServerToInventoryServerMeta_objectMeta
    (r : InventoryServerReconciler) (cr : InventoryServer) (m : InventoryServerMeta)
    (h : (r.InventoryServerToInventoryServerMeta cr).1 = .ok m) :
    m.ObjectMeta = ObjectMeta.named cr.ObjectMeta.UID cr.ObjectMeta.Namespace := by
  unfold InventoryServerReconciler.InventoryServerToInventoryServerMeta at h
  obtain ⟨_, _, h⟩ := Resolved.andThen_ok _ _ _ h
  obtain ⟨_, _, h⟩ := Resolved.andThen_ok _ _ _ h
  obtain ⟨_, _, h⟩ := Resolved.andThen_ok _ _ _ h
  obtain ⟨_, _, h⟩ := Resolved.andThen_ok _ _ _ h
  cases h
  rfl

/-- The object metadata of the twin `ServerClusterToMeta` builds. -/
theorem ServerClusterReconciler.ServerClusterToMeta_objectMeta
    (r : ServerClusterReconciler) (cr : ServerCluster) (m : ServerClusterMeta)
    (h : (r.ServerClusterToMeta cr).1.1 = .ok m) :
    m.ObjectMeta = ObjectMeta.named cr.ObjectMeta.UID cr.ObjectMeta.Namespace := by
  unfold ServerClusterReconciler.ServerClusterToMeta at h
  obtain ⟨_, _, h⟩ := Resolved.andThen_ok _ _ _ h
  obtain ⟨_, _, h⟩ := Resolved.andThen_ok _ _ _ h
  obtain ⟨_, _, h⟩ := Resolved.andThen_ok _ _ _ h
  obtain ⟨_, _, h⟩ := Resolved.andThen_ok _ _ _ h
  obtain ⟨_, _, h⟩ := Resolved.andThen_ok _ _ _ h
  cases h
  rfl

/-- The object metadata of the twin `ServerClusterTemplateToMeta` builds. -/
theorem ServerClusterTemplateReconciler.ServerClusterTemplateToMeta_objectMeta
    (r : ServerClusterTemplateReconciler) (cr : ServerClusterTemplate)
    (m : ServerClusterTemplateMeta) (h : (r.ServerClusterTemplateToMeta cr).1 = .ok m) :
    m.ObjectMeta = ObjectMeta.named cr.ObjectMeta.UID cr.ObjectMeta.Namespace := by
  unfold ServerClusterTemplateReconciler.ServerClusterTemplateToMeta at h
  cases h
  rfl

/-- The object metadata of the twin `VPCToMeta` builds. -/
theorem VPCReconciler.VPCToMeta_objectMeta (r : VPCReconciler) (cr : VPC) (m : VPCMeta)
    (h : (r.VPCToMeta cr).1 = .ok m) :
    m.ObjectMeta = ObjectMeta.named cr.ObjectMeta.UID cr.ObjectMeta.Namespace := by
  unfold VPCReconciler.VPCToMeta at h
  obtain ⟨_, _, h⟩ := Resolved.andThen_ok _ _ _ h
  obtain ⟨_, _, h⟩ := Resolved.andThen_ok _ _ _ h
  cases h
  rfl

/-- The loop over the links reads the caches only. -/
theorem InventoryServerReconciler.resolveLinks_frame (r r2 : InventoryServerReconciler)
    (h : r2.NStorage = r.NStorage) (links : List InventoryServerLink) :
    r2.resolveLinks links = r.resolveLinks links := by
  induction links with
  | nil => rfl
  | cons link rest ih =>
    simp only [InventoryServerReconciler.resolveLinks, h, ih]

/-- The loop over the servers reads the caches only. -/
theorem ServerClusterReconciler.resolveServers_frame (r r2 : ServerClusterReconciler)
    (h : r2.NStorage = r.NStorage) (servers : List ServerClusterServer) :
    r2.resolveServers servers = r.resolveServers servers := by
  induction servers with
  | nil => rfl
  | cons srv rest ih =>
    simp only [ServerClusterReconciler.resolveServers, h, ih]

/-- After the desired resource and the twin are loaded, the reconcile does not read the twin
store again: `reconcileLoaded` is the same whatever `Get` of a twin answers. -/
theorem InventoryServerReconciler.reconcileLoaded_frame_inventoryServer
    (r : InventoryServerReconciler) (g : NamespacedName → GetResult InventoryServerMeta)
    (cr : InventoryServer) (twin : Option InventoryServerMeta) :
    ({ r with Client := { r.Client with GetMeta := g } }
        : InventoryServerReconciler).reconcileLoaded cr twin
      = r.reconcileLoaded cr twin := by
  have hT : ({ r with Client := { r.Client with GetMeta := g } }
      : InventoryServerReconciler).InventoryServerToInventoryServerMeta cr
      = r.InventoryServerToInventoryServerMeta cr := by
    unfold InventoryServerReconciler.InventoryServerToInventoryServerMeta
    rw [InventoryServerReconciler.resolveLinks_frame r
      { r with Client := { r.Client with GetMeta := g } } rfl]
    rfl
  cases twin with
  | none =>
    unfold InventoryServerReconciler.reconcileLoaded InventoryServerReconciler.reconcileNotFound
    rw [hT]
    rfl
  | some m =>
    unfold InventoryServerReconciler.reconcileLoaded InventoryServerReconciler.reconcileFound
    rw [hT]
    rfl

/-- After the desired resource and the twin are loaded, the reconcile does not read the twin
store again: `reconcileLoaded` is the same whatever `Get` of a twin answers. -/
theorem ServerClusterReconciler.reconcileLoaded_frame_serverCluster
    (r : ServerClusterReconciler) (g : NamespacedName → GetResult ServerClusterMeta)
    (cr : ServerCluster) (twin : Option ServerClusterMeta) :
    ({ r with Client := { r.Client with GetMeta := g } }
        : ServerClusterReconciler).reconcileLoaded cr twin
      = r.reconcileLoaded cr twin := by
  have hT : ({ r with Client := { r.Client with GetMeta := g } }
      : ServerClusterReconciler).ServerClusterToMeta cr
      = r.ServerClusterToMeta cr := by
    unfold ServerClusterReconciler.ServerClusterToMeta
    rw [ServerClusterReconciler.resolveServers_frame r
      { r with Client := { r.Client with GetMeta := g } } rfl]
    rfl
  cases twin with
  | none =>
    unfold ServerClusterReconciler.reconcileLoaded ServerClusterReconciler.reconcileNotFound
    rw [hT]
    rfl
  | some m =>
    unfold ServerClusterReconciler.reconcileLoaded ServerClusterReconciler.reconcileFound
    rw [hT]
    rfl

/-- After the desired resource and the twin are loaded, the reconcile does not read the twin
store again: `reconcileLoaded` is the same whatever `Get` of a twin answers. -/
theorem ServerClusterTemplateReconciler.reconcileLoaded_frame_template
    (r : ServerClusterTemplateReconciler)
    (g : NamespacedName → GetResult ServerClusterTemplateMeta)
    (cr : ServerClusterTemplate) (twin : Option ServerClusterTemplateMeta) :
    ({ r with Client := { r.Client with GetMeta := g } }
        : ServerClusterTemplateReconciler).reconcileLoaded cr twin
      = r.reconcileLoaded cr twin := rfl

/-! ## C25: the twin is keyed by the identity of the desired resource -/

/-- C25 (InventoryServer, ServerCluster, ServerClusterTemplate, VPC): every twin built by
`InventoryServerToInventoryServerMeta`, `ServerClusterToMeta`, `ServerClusterTemplateToMeta`
and `VPCToMeta` has the UID of the desired resource as its object name and the namespace of
the desired resource as its namespace, so the twins of two desired resources with the same
UID and namespace, whatever their names, have the same key.  The CR-phase `Reconcile` of a
desired resource it found reads the twin store at the one key made of the namespace of the
request and the UID of the desired resource: its outcome is the same for every twin store
that answers alike at that key. -/
theorem twin_keyed_by_uid :
    (∀ (r : InventoryServerReconciler) (cr : InventoryServer)
        (m : InventoryServerMeta),
        (r.InventoryServerToInventoryServerMeta cr).1 = .ok m →
        (m.ObjectMeta.Name = cr.ObjectMeta.UID
          ∧ m.ObjectMeta.Namespace = cr.ObjectMeta.Namespace)
        ∧ (∀ cr2 m2, cr2.ObjectMeta.UID = cr.ObjectMeta.UID →
          cr2.ObjectMeta.Namespace = cr.ObjectMeta.Namespace →
          (r.InventoryServerToInventoryServerMeta cr2).1 = .ok m2 →
          m2.ObjectMeta.Name = m.ObjectMeta.Name
            ∧ m2.ObjectMeta.Namespace = m.ObjectMeta.Namespace))
    ∧ (∀ (r : ServerClusterReconciler) (cr : ServerCluster)
        (m : ServerClusterMeta),
        (r.ServerClusterToMeta cr).1.1 = .ok m →
        (m.ObjectMeta.Name = cr.ObjectMeta.UID
          ∧ m.ObjectMeta.Namespace = cr.ObjectMeta.Namespace)
        ∧ (∀ cr2 m2, cr2.ObjectMeta.UID = cr.ObjectMeta.UID →
          cr2.ObjectMeta.Namespace = cr.ObjectMeta.Namespace →
          (r.ServerClusterToMeta cr2).1.1 = .ok m2 →
          m2.ObjectMeta.Name = m.ObjectMeta.Name
            ∧ m2.ObjectMeta.Namespace = m.ObjectMeta.Namespace))
    ∧ (∀ (r : ServerClusterTemplateReconciler) (cr : ServerClusterTemplate)
        (m : ServerClusterTemplateMeta),
        (r.ServerClusterTemplateToMeta cr).1 = .ok m →
        (m.ObjectMeta.Name = cr.ObjectMeta.UID
          ∧ m.ObjectMeta.Namespace = cr.ObjectMeta.Namespace)
        ∧ (∀ cr2 m2, cr2.ObjectMeta.UID = cr.ObjectMeta.UID →
          cr2.ObjectMeta.Namespace = cr.ObjectMeta.Namespace →
          (r.ServerClusterTemplateToMeta cr2).1 = .ok m2 →
          m2.ObjectMeta.Name = m.ObjectMeta.Name
            ∧ m2.ObjectMeta.Namespace = m.ObjectMeta.Namespace))
    ∧ (∀ (r : VPCReconciler) (cr : VPC)
        (m : VPCMeta),
        (r.VPCToMeta cr).1 = .ok m →
        (m.ObjectMeta.Name = cr.ObjectMeta.UID
          ∧ m.ObjectMeta.Namespace = cr.ObjectMeta.Namespace)
        ∧ (∀ cr2 m2, cr2.ObjectMeta.UID = cr.ObjectMeta.UID →
          cr2.ObjectMeta.Namespace = cr.ObjectMeta.Namespace →
          (r.VPCToMeta cr2).1 = .ok m2 →
          m2.ObjectMeta.Name = m.ObjectMeta.Name
            ∧ m2.ObjectMeta.Namespace = m.ObjectMeta.Namespace))
    ∧ (∀ (r : InventoryServerReconciler) (req : NamespacedName) (cr : InventoryServer)
        (g : NamespacedName → GetResult InventoryServerMeta),
        r.Client.GetCR req = .found cr →
        g { Namespace := req.Namespace, Name := cr.ObjectMeta.UID }
          = r.Client.GetMeta { Namespace := req.Namespace, Name := cr.ObjectMeta.UID } →
        ({ r with Client := { r.Client with GetMeta := g } }
            : InventoryServerReconciler).Reconcile req
          = r.Reconcile req)
    ∧ (∀ (r : ServerClusterReconciler) (req : NamespacedName) (cr : ServerCluster)
        (g : NamespacedName → GetResult ServerClusterMeta),
        r.Client.GetCR req = .found cr →
        g { Namespace := req.Namespace, Name := cr.ObjectMeta.UID }
          = r.Client.GetMeta { Namespace := req.Namespace, Name := cr.ObjectMeta.UID } →
        ({ r with Client := { r.Client with GetMeta := g } }
            : ServerClusterReconciler).Reconcile req
          = r.Reconcile req)
    ∧ (∀ (r : ServerClusterTemplateReconciler) (req : NamespacedName) (cr : ServerClusterTemplate)
        (g : NamespacedName → GetResult ServerClusterTemplateMeta),
        r.Client.GetCR req = .found cr →
        g { Namespace := req.Namespace, Name := cr.ObjectMeta.UID }
          = r.Client.GetMeta { Namespace := req.Namespace, Name := cr.ObjectMeta.UID } →
        ({ r with Client := { r.Client with GetMeta := g } }
            : ServerClusterTemplateReconciler).Reconcile req
          = r.Reconcile req) := by
  refine ⟨?_, ?_, ?_, ?_, ?_, ?_, ?_⟩
  · intro r cr m h
    have hm := r.InventoryServerToInventoryServerMeta_objectMeta cr m h
    refine ⟨⟨by rw [hm]; rfl, by rw [hm]; rfl⟩, fun cr2 m2 hUID hNS h2 => ?_⟩
    have hm2 := r.InventoryServerToInventoryServerMeta_objectMeta cr2 m2 h2
    rw [hm, hm2, hUID, hNS]
    exact ⟨rfl, rfl⟩
  · intro r cr m h
    have hm := r.ServerClusterToMeta_objectMeta cr m h
    refine ⟨⟨by rw [hm]; rfl, by rw [hm]; rfl⟩, fun cr2 m2 hUID hNS h2 => ?_⟩
    have hm2 := r.ServerClusterToMeta_objectMeta cr2 m2 h2
    rw [hm, hm2, hUID, hNS]
    exact ⟨rfl, rfl⟩
  · intro r cr m h
    have hm := r.ServerClusterTemplateToMeta_objectMeta cr m h
    refine ⟨⟨by rw [hm]; rfl, by rw [hm]; rfl⟩, fun cr2 m2 hUID hNS h2 => ?_⟩
    have hm2 := r.ServerClusterTemplateToMeta_objectMeta cr2 m2 h2
    rw [hm, hm2, hUID, hNS]
    exact ⟨rfl, rfl⟩
  · intro r cr m h
    have hm := r.VPCToMeta_objectMeta cr m h
    refine ⟨⟨by rw [hm]; rfl, by rw [hm]; rfl⟩, fun cr2 m2 hUID hNS h2 => ?_⟩
    have hm2 := r.VPCToMeta_objectMeta cr2 m2 h2
    rw [hm, hm2, hUID, hNS]
    exact ⟨rfl, rfl⟩
  · intro r req cr g hCR hG
    unfold InventoryServerReconciler.Reconcile
    simp only [hCR, hG]
    cases r.Client.GetMeta { Namespace := req.Namespace, Name := cr.ObjectMeta.UID } with
    | found m => exact r.reconcileLoaded_frame_inventoryServer g cr (some m)
    | notFound msg => exact r.reconcileLoaded_frame_inventoryServer g cr none
    | error err => rfl
  · intro r req cr g hCR hG
    unfold ServerClusterReconciler.Reconcile
    simp only [hCR, hG]
    cases r.Client.GetMeta { Namespace := req.Namespace, Name := cr.ObjectMeta.UID } with
    | found m => exact r.reconcileLoaded_frame_serverCluster g cr (some m)
    | notFound msg => exact r.reconcileLoaded_frame_serverCluster g cr none
    | error err => rfl
  · intro r req cr g hCR hG
    unfold ServerClusterTemplateReconciler.Reconcile
    simp only [hCR, hG]
    cases r.Client.GetMeta { Namespace := req.Namespace, Name := cr.ObjectMeta.UID } with
    | found m => exact r.reconcileLoaded_frame_template g cr (some m)
    | notFound msg => exact r.reconcileLoaded_frame_template g cr none
    | error err => rfl

/-- Witness of C25: the twin of the InventoryServer "srv1" with UID "uid-1" is named "uid-1"
in the namespace "default", also when the desired resource is renamed to "srv2"; and the
reconcile of "srv1" is the same on a twin store that answers alike at the key of "uid-1" and
with an error at every other key. -/
theorem twin_keyed_by_uid_witness :
    (∃ m m2,
      ((Scenario.inventoryServerReconciler (Scenario.inventoryServer "sfo1" "d" 1 false) none
        none 200).InventoryServerToInventoryServerMeta
          (Scenario.inventoryServer "sfo1" "d" 1 false)).1 = .ok m
      ∧ ((Scenario.inventoryServerReconciler (Scenario.inventoryServer "sfo1" "d" 1 false) none
        none 200).InventoryServerToInventoryServerMeta
          { Scenario.inventoryServer "sfo1" "d" 1 false with
            ObjectMeta := { (Scenario.inventoryServer "sfo1" "d" 1 false).ObjectMeta with
              Name := "srv2" } }).1 = .ok m2
      ∧ (m.ObjectMeta.Name = "uid-1" ∧ m.ObjectMeta.Namespace = "default")
      ∧ m2.ObjectMeta.Name = m.ObjectMeta.Name
      ∧ m2.ObjectMeta.Namespace = m.ObjectMeta.Namespace)
    ∧ ({ Scenario.inventoryServerReconciler (Scenario.inventoryServer "sfo1" "d" 2 false)
          (some (Scenario.inventoryServerMeta 7 1 "d" "" false false)) none 200 with
        Client :=
          { (Scenario.inventoryServerReconciler (Scenario.inventoryServer "sfo1" "d" 2 false)
              (some (Scenario.inventoryServerMeta 7 1 "d" "" false false)) none 200).Client with
            GetMeta := fun key =>
              if key = { Namespace := "default", Name := "uid-1" } then
                .found (Scenario.inventoryServerMeta 7 1 "d" "" false false)
              else .error "another key" } }
        : InventoryServerReconciler).Reconcile (Scenario.request "srv1")
      = (Scenario.inventoryServerReconciler (Scenario.inventoryServer "sfo1" "d" 2 false)
          (some (Scenario.inventoryServerMeta 7 1 "d" "" false false)) none 200).Reconcile
          (Scenario.request "srv1") :=
  ⟨⟨_, _, rfl, rfl,
      (twin_keyed_by_uid.1
        (Scenario.inventoryServerReconciler (Scenario.inventoryServer "sfo1" "d" 1 false) none
          none 200) (Scenario.inventoryServer "sfo1" "d" 1 false) _ rfl).1,
      (twin_keyed_by_uid.1
        (Scenario.inventoryServerReconciler (Scenario.inventoryServer "sfo1" "d" 1 false) none
          none 200) (Scenario.inventoryServer "sfo1" "d" 1 false) _ rfl).2
        { Scenario.inventoryServer "sfo1" "d" 1 false with
          ObjectMeta := { (Scenario.inventoryServer "sfo1" "d" 1 false).ObjectMeta with
            Name := "srv2" } } _ rfl rfl rfl⟩,
    twin_keyed_by_uid.2.2.2.2.1
      (Scenario.inventoryServerReconciler (Scenario.inventoryServer "sfo1" "d" 2 false)
        (some (Scenario.inventoryServerMeta 7 1 "d" "" false false)) none 200)
      (Scenario.request "srv1") (Scenario.inventoryServer "sfo1" "d" 2 false) _ rfl rfl⟩

/-! ## C26: the back-fill of the desired InventoryServer -/

/-- The desired resource after the assignments of `updateInventoryServerIfNecessary`: each of
`MainIP`, `MgmtIP` and `ASN` is the value of the twin where the desired resource left it
blank and is unchanged otherwise; nothing else changes. -/
theorem backfill_fst (cr : InventoryServer) (m : InventoryServerMeta) :
    (backfill cr m).1
      = { cr with
          Spec := { cr.Spec with
            MainIP := if cr.Spec.MainIP = "" then m.Spec.MainIP else cr.Spec.MainIP
            MgmtIP := if cr.Spec.MgmtIP = "" then m.Spec.MgmtIP else cr.Spec.MgmtIP
            ASN := if cr.Spec.ASN = 0 then m.Spec.ASN else cr.Spec.ASN } } := by
  obtain ⟨o, spec, status⟩ := cr
  obtain ⟨tenant, description, site, profile, mainIP, mgmtIP, asn, portsCount, uuid, links,
    customData, tags, role⟩ := spec
  have e1 : ("" = m.Spec.MainIP) = (m.Spec.MainIP = "") := propext eq_comm
  have e2 : ("" = m.Spec.MgmtIP) = (m.Spec.MgmtIP = "") := propext eq_comm
  have e3 : ((0 : Int) = m.Spec.ASN) = (m.Spec.ASN = 0) := propext eq_comm
  unfold backfill
  by_cases h1 : mainIP = "" <;> by_cases h2 : mgmtIP = "" <;> by_cases h3 : asn = 0 <;>
    by_cases h4 : m.Spec.MainIP = "" <;> by_cases h5 : m.Spec.MgmtIP = "" <;>
    by_cases h6 : m.Spec.ASN = 0 <;>
    simp [h1, h2, h3, h4, h5, h6, e1, e2, e3]

/-- The flag `shouldUpdateCR` of `updateInventoryServerIfNecessary` is set exactly when a
blank field of the desired resource is not blank in the twin. -/
theorem backfill_snd (cr : InventoryServer) (m : InventoryServerMeta) :
    (backfill cr m).2 = true
      ↔ (cr.Spec.MainIP = "" ∧ m.Spec.MainIP ≠ "")
        ∨ (cr.Spec.MgmtIP = "" ∧ m.Spec.MgmtIP ≠ "")
        ∨ (cr.Spec.ASN = 0 ∧ m.Spec.ASN ≠ 0) := by
  obtain ⟨o, spec, status⟩ := cr
  obtain ⟨tenant, description, site, profile, mainIP, mgmtIP, asn, portsCount, uuid, links,
    customData, tags, role⟩ := spec
  have e1 : ("" = m.Spec.MainIP) = (m.Spec.MainIP = "") := propext eq_comm
  have e2 : ("" = m.Spec.MgmtIP) = (m.Spec.MgmtIP = "") := propext eq_comm
  have e3 : ((0 : Int) = m.Spec.ASN) = (m.Spec.ASN = 0) := propext eq_comm
  unfold backfill
  by_cases h1 : mainIP = "" <;> by_cases h2 : mgmtIP = "" <;> by_cases h3 : asn = 0 <;>
    by_cases h4 : m.Spec.MainIP = "" <;> by_cases h5 : m.Spec.MgmtIP = "" <;>
    by_cases h6 : m.Spec.ASN = 0 <;>
    simp [h1, h2, h3, h4, h5, h6, e1, e2, e3]

/-- The desired resource `updateInventoryServerIfNecessary` leaves. -/
theorem uniReconciler.updateInventoryServerIfNecessary_obj
    (u : uniReconciler InventoryServer InventoryServerMeta) (cr : InventoryServer)
    (m : InventoryServerMeta) :
    (u.updateInventoryServerIfNecessary cr m).obj = (backfill cr m).1 := by
  unfold uniReconciler.updateInventoryServerIfNecessary
  split
  · split <;> rfl
  · rfl

/-- The calls of `updateInventoryServerIfNecessary`: the calls of `patchInventoryServer` on
the desired resource after the assignments when `shouldUpdateCR` is set, none otherwise. -/
theorem uniReconciler.updateInventoryServerIfNecessary_calls
    (u : uniReconciler InventoryServer InventoryServerMeta) (cr : InventoryServer)
    (m : InventoryServerMeta) :
    (u.updateInventoryServerIfNecessary cr m).trace
      = if (backfill cr m).2 = true then (u.patchInventoryServer (backfill cr m).1).trace
        else [] := by
  unfold uniReconciler.updateInventoryServerIfNecessary
  split
  · split <;> rfl
  · rfl

/-- C26: `updateInventoryServerIfNecessary` copies the MainIP, MgmtIP and ASN of the twin onto
the desired resource only where the desired resource left them blank ("" or 0): a non-blank
MainIP, MgmtIP or ASN is never changed, every other field of the desired resource is
unchanged, and the desired resource is patched, by one call of `patchInventoryServer` on the
desired resource so filled, if and only if at least one blank field received a non-blank
value. -/
theorem backfill_fills_blank_fields_only
    (u : uniReconciler InventoryServer InventoryServerMeta) (cr : InventoryServer)
    (m : InventoryServerMeta) :
    ((u.updateInventoryServerIfNecessary cr m).obj.Spec.MainIP
        = if cr.Spec.MainIP = "" then m.Spec.MainIP else cr.Spec.MainIP)
    ∧ ((u.updateInventoryServerIfNecessary cr m).obj.Spec.MgmtIP
        = if cr.Spec.MgmtIP = "" then m.Spec.MgmtIP else cr.Spec.MgmtIP)
    ∧ ((u.updateInventoryServerIfNecessary cr m).obj.Spec.ASN
        = if cr.Spec.ASN = 0 then m.Spec.ASN else cr.Spec.ASN)
    ∧ (cr.Spec.MainIP ≠ "" →
        (u.updateInventoryServerIfNecessary cr m).obj.Spec.MainIP = cr.Spec.MainIP)
    ∧ (cr.Spec.MgmtIP ≠ "" →
        (u.updateInventoryServerIfNecessary cr m).obj.Spec.MgmtIP = cr.Spec.MgmtIP)
    ∧ (cr.Spec.ASN ≠ 0 →
        (u.updateInventoryServerIfNecessary cr m).obj.Spec.ASN = cr.Spec.ASN)
    ∧ (u.updateInventoryServerIfNecessary cr m).obj
        = { cr with
            Spec := { cr.Spec with
              MainIP := (u.updateInventoryServerIfNecessary cr m).obj.Spec.MainIP
              MgmtIP := (u.updateInventoryServerIfNecessary cr m).obj.Spec.MgmtIP
              ASN := (u.updateInventoryServerIfNecessary cr m).obj.Spec.ASN } }
    ∧ ((∃ c, Event.patchCR c ∈ (u.updateInventoryServerIfNecessary cr m).trace)
        ↔ (cr.Spec.MainIP = "" ∧ m.Spec.MainIP ≠ "")
          ∨ (cr.Spec.MgmtIP = "" ∧ m.Spec.MgmtIP ≠ "")
          ∨ (cr.Spec.ASN = 0 ∧ m.Spec.ASN ≠ 0))
    ∧ (u.updateInventoryServerIfNecessary cr m).trace
        = if (cr.Spec.MainIP = "" ∧ m.Spec.MainIP ≠ "")
            ∨ (cr.Spec.MgmtIP = "" ∧ m.Spec.MgmtIP ≠ "")
            ∨ (cr.Spec.ASN = 0 ∧ m.Spec.ASN ≠ 0) then
            [.patchCR (u.updateInventoryServerIfNecessary cr m).obj]
          else [] := by
  have hobj := u.updateInventoryServerIfNecessary_obj cr m
  have hfst := backfill_fst cr m
  have hsnd := backfill_snd cr m
  have hcalls := u.updateInventoryServerIfNecessary_calls cr m
  rw [hobj, hcalls]
  refine ⟨by rw [hfst], by rw [hfst], by rw [hfst], ?_, ?_, ?_, by rw [hfst], ?_, ?_⟩
  · intro h
    rw [hfst]
    simp [h]
  · intro h
    rw [hfst]
    simp [h]
  · intro h
    rw [hfst]
    simp [h]
  · by_cases hb : (backfill cr m).2 = true
    · rw [if_pos hb]
      exact ⟨fun _ => hsnd.1 hb, fun _ => ⟨_, List.mem_singleton.2 rfl⟩⟩
    · rw [if_neg hb]
      exact ⟨fun ⟨c, hc⟩ => by simp at hc, fun h => absurd (hsnd.2 h) hb⟩
  · by_cases hb : (backfill cr m).2 = true
    · rw [if_pos hb, if_pos (hsnd.1 hb)]
      rfl
    · rw [if_neg hb, if_neg (fun h => hb (hsnd.2 h))]

/-- Witness of C26: the InventoryServer "srv1" with blank addresses and ASN receives the
address "10.0.0.7" and the ASN 65000 of its twin and is patched; with the given description
unchanged. -/
theorem backfill_fills_blank_fields_only_witness :
    ((Scenario.inventoryServerMetaReconciler (Scenario.inventoryServer "sfo1" "d" 2 false)
        (Scenario.inventoryServerMeta 7 2 "d" "10.0.0.7" false false) none 200
        []).uni.updateInventoryServerIfNecessary (Scenario.inventoryServer "sfo1" "d" 2 false)
        (Scenario.inventoryServerMeta 7 2 "d" "10.0.0.7" false false)).trace
      = [.patchCR
          { Scenario.inventoryServer "sfo1" "d" 2 false with
            Spec := { (Scenario.inventoryServer "sfo1" "d" 2 false).Spec with
              MainIP := "10.0.0.7", MgmtIP := "10.0.0.7", ASN := 65000 } }]
    ∧ ((Scenario.inventoryServerMetaReconciler
        { Scenario.inventoryServer "sfo1" "d" 2 false with
          Spec := { (Scenario.inventoryServer "sfo1" "d" 2 false).Spec with
            MainIP := "192.168.0.1" } }
        (Scenario.inventoryServerMeta 7 2 "d" "10.0.0.7" false false) none 200
        []).uni.updateInventoryServerIfNecessary
        { Scenario.inventoryServer "sfo1" "d" 2 false with
          Spec := { (Scenario.inventoryServer "sfo1" "d" 2 false).Spec with
            MainIP := "192.168.0.1" } }
        (Scenario.inventoryServerMeta 7 2 "d" "10.0.0.7" false false)).obj.Spec.MainIP
      = "192.168.0.1" :=
  ⟨(backfill_fills_blank_fields_only _ (Scenario.inventoryServer "sfo1" "d" 2 false)
      (Scenario.inventoryServerMeta 7 2 "d" "10.0.0.7" false false)).2.2.2.2.2.2.2.2.trans rfl,
    (backfill_fills_blank_fields_only _
      { Scenario.inventoryServer "sfo1" "d" 2 false with
        Spec := { (Scenario.inventoryServer "sfo1" "d" 2 false).Spec with
          MainIP := "192.168.0.1" } }
      (Scenario.inventoryServerMeta 7 2 "d" "10.0.0.7" false false)).2.2.2.1 (by decide)⟩

/-! ## C27: blank values of the twin are sent as "auto" -/

/-- C27: for every twin `InventoryServerMetaToNetris` and `InventoryServerMetaToNetrisUpdate`
return no error and the same payload, whose `MainAddress` is "auto" when the MainIP of the
twin is empty and the MainIP of the twin otherwise, whose `MgmtAddress` is likewise made from
the MgmtIP, and whose `Asn` is the string "auto" when the ASN of the twin is 0 and the integer
ASN of the twin otherwise. -/
theorem payload_requests_auto_for_blank (m : InventoryServerMeta) :
    ∃ p : HWServer,
      InventoryServerMetaToNetris m = .ok p
      ∧ InventoryServerMetaToNetrisUpdate m = .ok p
      ∧ p.MainAddress = (if m.Spec.MainIP = "" then "auto" else m.Spec.MainIP)
      ∧ p.MgmtAddress = (if m.Spec.MgmtIP = "" then "auto" else m.Spec.MgmtIP)
      ∧ p.Asn = (if m.Spec.ASN = 0 then AsnValue.str "auto" else AsnValue.int m.Spec.ASN) := by
  refine ⟨_, rfl, rfl, ?_, ?_, ?_⟩
  · by_cases h : m.Spec.MainIP = "" <;> simp [h]
  · by_cases h : m.Spec.MgmtIP = "" <;> simp [h]
  · by_cases h : m.Spec.ASN = 0 <;> simp [h]

/-! ## The default annotations are a fixed point -/

/-- Writing two different keys twice leaves the map the first two writes made. -/
theorem mapSet_mapSet_idem (base : List (String × String)) (k1 k2 v1 v2 : String)
    (h : k1 ≠ k2) :
    mapSet (mapSet (mapSet (mapSet base k1 v1) k2 v2) k1 v1) k2 v2
      = mapSet (mapSet base k1 v1) k2 v2 := by
  have h12 : (k1 != k2) = true := by simpa using h
  have h21 : (k2 != k1) = true := by simpa using Ne.symm h
  have h11 : (k1 != k1) = false := by simp
  have h22 : (k2 != k2) = false := by simp
  simp only [mapSet, List.filter_cons, h12, h21, h11, h22, ↓reduceIte, Bool.false_eq_true,
    List.filter_filter]
  congr 2
  apply List.filter_congr
  intro p _
  cases (p.1 != k1) <;> cases (p.1 != k2) <;> rfl

/-- After `xUpdateDefaultAnnotations` the annotations need no defaults. -/
theorem mustUpdateAnnotations_updateDefaultAnnotations (o : ObjectMeta) :
    mustUpdateAnnotations (updateDefaultAnnotations o) = false := by
  have h := updateDefaultAnnotations_get o
  rw [Bool.eq_false_iff]
  intro hm
  rw [mustUpdateAnnotations_iff, h.1, h.2.1] at hm
  by_cases a : mapGet o.Annotations importAnnotation = some "true" <;>
    by_cases b : mapGet o.Annotations reclaimAnnotation = some "retain" <;>
    simp [a, b] at hm

/-- The flags read from the annotations are the same after `xUpdateDefaultAnnotations`. -/
theorem importedOf_reclaimOf_updateDefaultAnnotations (o : ObjectMeta) :
    importedOf (updateDefaultAnnotations o) = importedOf o
    ∧ reclaimOf (updateDefaultAnnotations o) = reclaimOf o := by
  have h := updateDefaultAnnotations_get o
  have h1 := importedOf_reclaimOf_eq o
  have h2 := importedOf_reclaimOf_eq (updateDefaultAnnotations o)
  rw [h1.1, h1.2, h2.1, h2.2, h.1, h.2.1]
  by_cases a : mapGet o.Annotations importAnnotation = some "true" <;>
    by_cases b : mapGet o.Annotations reclaimAnnotation = some "retain" <;>
    simp [a, b]

/-- The result of `xUpdateDefaultAnnotations` in one expression; a nil map is read as the
empty map made for it. -/
theorem updateDefaultAnnotations_eq (o : ObjectMeta) :
    updateDefaultAnnotations o
      = { o with
          Annotations := some (mapSet
            (mapSet (o.Annotations.getD []) importAnnotation
              (if importedOf o then "true" else "false"))
            reclaimAnnotation (if reclaimOf o then "retain" else "delete")) } := by
  unfold updateDefaultAnnotations
  cases o.Annotations <;> rfl

/-- Applying `xUpdateDefaultAnnotations` twice gives what applying it once gives. -/
theorem updateDefaultAnnotations_idem (o : ObjectMeta) :
    updateDefaultAnnotations (updateDefaultAnnotations o) = updateDefaultAnnotations o := by
  have hf := importedOf_reclaimOf_updateDefaultAnnotations o
  have hne := importAnnotation_ne_reclaimAnnotation
  rw [updateDefaultAnnotations_eq (updateDefaultAnnotations o), hf.1, hf.2,
    updateDefaultAnnotations_eq o]
  simp only [Option.getD_some, mapSet_mapSet_idem _ _ _ _ _ hne]

/-! ## The CR-phase reconcile of a desired resource with valid annotations -/

/-- A live desired resource with valid annotations is handled by `reconcileFound` when its
twin exists and by `reconcileNotFound` otherwise. -/
theorem InventoryServerReconciler.reconcileLoaded_valid_inventoryServer
    (r : InventoryServerReconciler)
    (cr : InventoryServer) (twin : Option InventoryServerMeta)
    (hLive : cr.ObjectMeta.DeletionTimestamp = none)
    (hAnn : inventoryServerMustUpdateAnnotations cr = false) :
    r.reconcileLoaded cr twin
      = match twin with
        | some m => r.reconcileFound cr m
        | none => r.reconcileNotFound cr := by
  have hl : ¬ (cr.ObjectMeta.DeletionTimestamp.isSome = true) := by
    rw [hLive]
    simp
  have ha : ¬ (inventoryServerMustUpdateAnnotations cr = true) := by
    rw [hAnn]
    simp
  cases twin <;>
    (unfold InventoryServerReconciler.reconcileLoaded
     rw [if_neg hl, if_neg ha])

/-- A live desired resource with valid annotations is handled by `reconcileFound` when its
twin exists and by `reconcileNotFound` otherwise. -/
theorem ServerClusterReconciler.reconcileLoaded_valid_serverCluster (r : ServerClusterReconciler)
    (cr : ServerCluster) (twin : Option ServerClusterMeta)
    (hLive : cr.ObjectMeta.DeletionTimestamp = none)
    (hAnn : serverClusterMustUpdateAnnotations cr = false) :
    r.reconcileLoaded cr twin
      = match twin with
        | some m => r.reconcileFound cr m
        | none => r.reconcileNotFound cr := by
  have hl : ¬ (cr.ObjectMeta.DeletionTimestamp.isSome = true) := by
    rw [hLive]
    simp
  have ha : ¬ (serverClusterMustUpdateAnnotations cr = true) := by
    rw [hAnn]
    simp
  cases twin <;>
    (unfold ServerClusterReconciler.reconcileLoaded
     rw [if_neg hl, if_neg ha])

/-- A live desired resource with valid annotations is handled by `reconcileFound` when its
twin exists and by `reconcileNotFound` otherwise. -/
theorem ServerClusterTemplateReconciler.reconcileLoaded_valid_template
    (r : ServerClusterTemplateReconciler)
    (cr : ServerClusterTemplate) (twin : Option ServerClusterTemplateMeta)
    (hLive : cr.ObjectMeta.DeletionTimestamp = none)
    (hAnn : serverClusterTemplateMustUpdateAnnotations cr = false) :
    r.reconcileLoaded cr twin
      = match twin with
        | some m => r.reconcileFound cr m
        | none => r.reconcileNotFound cr := by
  have hl : ¬ (cr.ObjectMeta.DeletionTimestamp.isSome = true) := by
    rw [hLive]
    simp
  have ha : ¬ (serverClusterTemplateMustUpdateAnnotations cr = true) := by
    rw [hAnn]
    simp
  cases twin <;>
    (unfold ServerClusterTemplateReconciler.reconcileLoaded
     rw [if_neg hl, if_neg ha])

/-! ## C28: the default annotations are set once -/

/-- C28 (InventoryServer, ServerCluster, ServerClusterTemplate, VPC): for every desired
resource `xMustUpdateAnnotations` returns false on the result of `xUpdateDefaultAnnotations`,
and `xUpdateDefaultAnnotations` is idempotent.  Hence the CR-phase `Reconcile`
(InventoryServer, ServerCluster, ServerClusterTemplate) that finds the desired resource as
`xUpdateDefaultAnnotations` left it, without deletion marker, does not take the
default-annotation branch again: it goes on to the branch of the twin found or not found. -/
theorem default_annotations_set_once :
    (∀ cr : InventoryServer,
        inventoryServerMustUpdateAnnotations (inventoryServerUpdateDefaultAnnotations cr) = false
        ∧ inventoryServerUpdateDefaultAnnotations (inventoryServerUpdateDefaultAnnotations cr)
          = inventoryServerUpdateDefaultAnnotations cr)
    ∧ (∀ cr : ServerCluster,
        serverClusterMustUpdateAnnotations (serverClusterUpdateDefaultAnnotations cr) = false
        ∧ serverClusterUpdateDefaultAnnotations (serverClusterUpdateDefaultAnnotations cr)
          = serverClusterUpdateDefaultAnnotations cr)
    ∧ (∀ cr : ServerClusterTemplate,
        serverClusterTemplateMustUpdateAnnotations
            (serverClusterTemplateUpdateDefaultAnnotations cr) = false
        ∧ serverClusterTemplateUpdateDefaultAnnotations
            (serverClusterTemplateUpdateDefaultAnnotations cr)
          = serverClusterTemplateUpdateDefaultAnnotations cr)
    ∧ (∀ cr : VPC,
        vpcMustUpdateAnnotations (vpcUpdateDefaultAnnotations cr) = false
        ∧ vpcUpdateDefaultAnnotations (vpcUpdateDefaultAnnotations cr)
          = vpcUpdateDefaultAnnotations cr)
    ∧ (∀ (r : InventoryServerReconciler) (req : NamespacedName) (cr : InventoryServer)
        (twin : Option InventoryServerMeta) (msg : String),
        r.Client.GetCR req = .found (inventoryServerUpdateDefaultAnnotations cr) →
        (r.Client.GetMeta { req with Name := cr.ObjectMeta.UID }
          = match twin with
            | some m => .found m
            | none => .notFound msg) →
        cr.ObjectMeta.DeletionTimestamp = none →
        r.Reconcile req
          = match twin with
            | some m => r.reconcileFound (inventoryServerUpdateDefaultAnnotations cr) m
            | none => r.reconcileNotFound (inventoryServerUpdateDefaultAnnotations cr))
    ∧ (∀ (r : ServerClusterReconciler) (req : NamespacedName) (cr : ServerCluster)
        (twin : Option ServerClusterMeta) (msg : String),
        r.Client.GetCR req = .found (serverClusterUpdateDefaultAnnotations cr) →
        (r.Client.GetMeta { req with Name := cr.ObjectMeta.UID }
          = match twin with
            | some m => .found m
            | none => .notFound msg) →
        cr.ObjectMeta.DeletionTimestamp = none →
        r.Reconcile req
          = match twin with
            | some m => r.reconcileFound (serverClusterUpdateDefaultAnnotations cr) m
            | none => r.reconcileNotFound (serverClusterUpdateDefaultAnnotations cr))
    ∧ (∀ (r : ServerClusterTemplateReconciler) (req : NamespacedName) (cr : ServerClusterTemplate)
        (twin : Option ServerClusterTemplateMeta) (msg : String),
        r.Client.GetCR req = .found (serverClusterTemplateUpdateDefaultAnnotations cr) →
        (r.Client.GetMeta { req with Name := cr.ObjectMeta.UID }
          = match twin with
            | some m => .found m
            | none => .notFound msg) →
        cr.ObjectMeta.DeletionTimestamp = none →
        r.Reconcile req
          = match twin with
            | some m => r.reconcileFound (serverClusterTemplateUpdateDefaultAnnotations cr) m
            | none => r.reconcileNotFound (serverClusterTemplateUpdateDefaultAnnotations cr)) := by
  refine ⟨?_, ?_, ?_, ?_, ?_, ?_, ?_⟩
  · intro cr
    refine ⟨mustUpdateAnnotations_updateDefaultAnnotations cr.ObjectMeta, ?_⟩
    show ({ cr with ObjectMeta :=
        updateDefaultAnnotations (updateDefaultAnnotations cr.ObjectMeta) }
      : InventoryServer) = _
    rw [updateDefaultAnnotations_idem]
    rfl
  · intro cr
    refine ⟨mustUpdateAnnotations_updateDefaultAnnotations cr.ObjectMeta, ?_⟩
    show ({ cr with ObjectMeta :=
        updateDefaultAnnotations (updateDefaultAnnotations cr.ObjectMeta) }
      : ServerCluster) = _
    rw [updateDefaultAnnotations_idem]
    rfl
  · intro cr
    refine ⟨mustUpdateAnnotations_updateDefaultAnnotations cr.ObjectMeta, ?_⟩
    show ({ cr with ObjectMeta :=
        updateDefaultAnnotations (updateDefaultAnnotations cr.ObjectMeta) }
      : ServerClusterTemplate) = _
    rw [updateDefaultAnnotations_idem]
    rfl
  · intro cr
    refine ⟨mustUpdateAnnotations_updateDefaultAnnotations cr.ObjectMeta, ?_⟩
    show ({ cr with ObjectMeta :=
        updateDefaultAnnotations (updateDefaultAnnotations cr.ObjectMeta) }
      : VPC) = _
    rw [updateDefaultAnnotations_idem]
    rfl
  · intro r req cr twin msg hCR hTwin hLive
    rw [r.Reconcile_twin_inventoryServer req
      (inventoryServerUpdateDefaultAnnotations cr) twin msg hCR hTwin]
    exact r.reconcileLoaded_valid_inventoryServer _ twin hLive
      (mustUpdateAnnotations_updateDefaultAnnotations cr.ObjectMeta)
  · intro r req cr twin msg hCR hTwin hLive
    rw [r.Reconcile_twin_serverCluster req
      (serverClusterUpdateDefaultAnnotations cr) twin msg hCR hTwin]
    exact r.reconcileLoaded_valid_serverCluster _ twin hLive
      (mustUpdateAnnotations_updateDefaultAnnotations cr.ObjectMeta)
  · intro r req cr twin msg hCR hTwin hLive
    rw [r.Reconcile_twin_template req
      (serverClusterTemplateUpdateDefaultAnnotations cr) twin msg hCR hTwin]
    exact r.reconcileLoaded_valid_template _ twin hLive
      (mustUpdateAnnotations_updateDefaultAnnotations cr.ObjectMeta)

/-- Witness of C28: the InventoryServer "srv1" without annotations, once patched with the
default annotations, is reconciled against its twin in step without another patch: no call
is made and the poll interval 10 is returned. -/
theorem default_annotations_set_once_witness :
    (Scenario.inventoryServerReconciler
        (inventoryServerUpdateDefaultAnnotations
          (Scenario.inventoryServerWith (some [deleteFinalizer]) none))
        (some (Scenario.inventoryServerMeta 7 1 "d" "" false false)) none 200).Reconcile
        (Scenario.request "srv1")
      = { ret := .returned (Result.after 10) none, trace := [] } :=
  (default_annotations_set_once.2.2.2.2.1
    (Scenario.inventoryServerReconciler
      (inventoryServerUpdateDefaultAnnotations
        (Scenario.inventoryServerWith (some [deleteFinalizer]) none))
      (some (Scenario.inventoryServerMeta 7 1 "d" "" false false)) none 200)
    (Scenario.request "srv1") (Scenario.inventoryServerWith (some [deleteFinalizer]) none)
    (some (Scenario.inventoryServerMeta 7 1 "d" "" false false)) "" rfl rfl rfl).trans rfl

/-! ## C29: a twin address "auto" is compared literally -/

/-- The twin after the assignments of the Meta-phase `Reconcile` before the comparison: an
empty `MainIP`, an empty `MgmtIP` and a zero `ASN` take the remote value, nothing else
changes. -/
theorem InventoryServerMetaReconciler.fillFromAPI_eq (twin : InventoryServerMeta) (api : HW) :
    InventoryServerMetaReconciler.fillFromAPI twin api
      = { twin with
          Spec := { twin.Spec with
            MainIP := if twin.Spec.MainIP = "" then api.MainIP.Address else twin.Spec.MainIP
            MgmtIP := if twin.Spec.MgmtIP = "" then api.MgmtIP.Address else twin.Spec.MgmtIP
            ASN := if twin.Spec.ASN = 0 then api.Asn else twin.Spec.ASN } } := by
  obtain ⟨om, spec⟩ := twin
  unfold InventoryServerMetaReconciler.fillFromAPI
  by_cases h1 : spec.MainIP = "" <;> by_cases h2 : spec.MgmtIP = "" <;>
    by_cases h3 : spec.ASN = 0 <;> simp [h1, h2, h3]

/-- When `compareInventoryServerMetaAPIServer` returns true the remote addresses equal the
addresses of the twin. -/
theorem compareInventoryServerMetaAPIServer_addresses (m : InventoryServerMeta) (api : HW)
    (h : compareInventoryServerMetaAPIServer m api = true) :
    api.MainIP.Address = m.Spec.MainIP ∧ api.MgmtIP.Address = m.Spec.MgmtIP := by
  simp only [compareInventoryServerMetaAPIServer, bne_iff_ne, ne_eq, ite_not,
    Bool.if_false_right, Bool.if_true_left, Bool.and_eq_true, Bool.or_eq_true,
    decide_eq_true_eq, Bool.decide_eq_true, Bool.if_false_left, Bool.not_eq_true',
    decide_eq_false_iff_not, Bool.and_true, Bool.true_and] at h
  exact ⟨h.2.2.2.2.2.1, h.2.2.2.2.2.2.1⟩

/-- A twin whose MainIP or MgmtIP is "auto" differs, after the assignments of `Reconcile`,
from every remote server whose address is not "auto". -/
theorem compareInventoryServerMetaAPIServer_auto (twin : InventoryServerMeta) (api : HW)
    (h : (twin.Spec.MainIP = "auto" ∧ api.MainIP.Address ≠ "auto")
      ∨ (twin.Spec.MgmtIP = "auto" ∧ api.MgmtIP.Address ≠ "auto")) :
    compareInventoryServerMetaAPIServer (InventoryServerMetaReconciler.fillFromAPI twin api) api
      = false := by
  rw [Bool.eq_false_iff]
  intro hc
  have ha := compareInventoryServerMetaAPIServer_addresses _ _ hc
  rw [InventoryServerMetaReconciler.fillFromAPI_eq] at ha
  rcases h with ⟨h1, h2⟩ | ⟨h1, h2⟩
  · have := ha.1
    simp [h1] at this
    exact h2 this
  · have := ha.2
    simp [h1] at this
    exact h2 this

/-- The calls of the branch of the InventoryServerMeta `Reconcile` that found the remote
server by id and found it different: the remote Update call with the id of the twin and the
payload of the twin after the assignments is among them. -/
theorem InventoryServerMetaReconciler.syncFound_updates (r : InventoryServerMetaReconciler)
    (cr : InventoryServer) (m : InventoryServerMeta) (api : HW)
    (pre : List InventoryServerEvent) (payload : HWServer)
    (hcmp : compareInventoryServerMetaAPIServer
      (InventoryServerMetaReconciler.fillFromAPI m api) api = false)
    (hPayload : InventoryServerMetaToNetrisUpdate
      (InventoryServerMetaReconciler.fillFromAPI m api) = .ok payload) :
    Event.remoteUpdate m.Spec.ID payload ∈ (r.syncFound cr m api pre).trace := by
  have hid : (InventoryServerMetaReconciler.fillFromAPI m api).Spec.ID = m.Spec.ID := by
    rw [InventoryServerMetaReconciler.fillFromAPI_eq]
  have hc := updateInventoryServer_calls m.Spec.ID payload r.Cred
  simp only [InventoryServerMetaReconciler.syncFound, hcmp, hPayload, hid, Bool.false_eq_true,
    ↓reduceIte]
  rcases hu : updateInventoryServer m.Spec.ID payload r.Cred with ⟨res, calls⟩
  rw [hu] at hc
  simp only at hc
  subst hc
  cases res with
  | some errs => simp [Outcome.after]
  | none =>
    simp only []
    obtain ⟨tail, ht, _⟩ := r.finish_calls cr
      (InventoryServerMetaReconciler.fillFromAPI m api)
      (pre ++ [.remoteUpdate m.Spec.ID payload])
    rw [ht]
    simp

/-- C29: in the InventoryServerMeta `Reconcile` with `ID != 0` and the remote server found,
only an empty MainIP, an empty MgmtIP and a zero ASN of the twin are replaced by the remote
values before the comparison.  A twin whose MainIP (or MgmtIP) is the literal "auto" is
compared literally: for every remote server whose address is not the string "auto"
`compareInventoryServerMetaAPIServer` returns false and the reconcile issues the remote
Update with the payload of the twin.  That reconcile writes nothing to the twin, so the same
holds on every later reconcile that finds a remote address other than "auto". -/
theorem auto_address_updated_on_every_reconcile :
    (∀ (twin : InventoryServerMeta) (api : HW),
        InventoryServerMetaReconciler.fillFromAPI twin api
          = { twin with
              Spec := { twin.Spec with
                MainIP :=
                  if twin.Spec.MainIP = "" then api.MainIP.Address else twin.Spec.MainIP
                MgmtIP :=
                  if twin.Spec.MgmtIP = "" then api.MgmtIP.Address else twin.Spec.MgmtIP
                ASN := if twin.Spec.ASN = 0 then api.Asn else twin.Spec.ASN } })
    ∧ (∀ (twin : InventoryServerMeta) (api : HW),
        (twin.Spec.MainIP = "auto" ∧ api.MainIP.Address ≠ "auto")
          ∨ (twin.Spec.MgmtIP = "auto" ∧ api.MgmtIP.Address ≠ "auto") →
        compareInventoryServerMetaAPIServer
          (InventoryServerMetaReconciler.fillFromAPI twin api) api = false)
    ∧ (∀ (r : InventoryServerMetaReconciler) (req : NamespacedName) (cr : InventoryServer)
        (twin : InventoryServerMeta) (api : HW),
        r.Client.GetMeta req = .found twin →
        r.Client.GetCR { req with Name := twin.Spec.InventoryServerName } = .found cr →
        twin.ObjectMeta.DeletionTimestamp = none →
        twin.Spec.ID ≠ 0 →
        r.NStorage.HWsStorage.FindServerByID twin.Spec.ID = some api →
        (twin.Spec.MainIP = "auto" ∧ api.MainIP.Address ≠ "auto")
          ∨ (twin.Spec.MgmtIP = "auto" ∧ api.MgmtIP.Address ≠ "auto") →
        (∃ payload,
          InventoryServerMetaToNetrisUpdate
              (InventoryServerMetaReconciler.fillFromAPI twin api) = .ok payload
          ∧ Event.remoteUpdate twin.Spec.ID payload ∈ (r.Reconcile req).trace)
        ∧ ∀ m, Event.patchMeta m ∉ (r.Reconcile req).trace
            ∧ Event.updateMeta m ∉ (r.Reconcile req).trace) := by
  refine ⟨InventoryServerMetaReconciler.fillFromAPI_eq, compareInventoryServerMetaAPIServer_auto,
    ?_⟩
  intro r req cr twin api hTwin hCR hLive hID hFind hAuto
  have hne : (twin.Spec.ID == 0) = false := by simpa using hID
  have hrec : r.Reconcile req
      = r.syncFound cr twin api [.cache (.findByID .hws twin.Spec.ID)] := by
    rw [r.Reconcile_loaded_inventoryServerMeta req cr twin hTwin hCR]
    simp only [InventoryServerMetaReconciler.reconcileLoaded, hLive, hne, hFind,
      Option.isSome_none, Bool.false_eq_true, ↓reduceIte]
  rw [hrec]
  refine ⟨⟨_, rfl, r.syncFound_updates cr twin api _ _
    (compareInventoryServerMetaAPIServer_auto twin api hAuto) rfl⟩, ?_⟩
  intro m
  obtain ⟨tail, ht, htail⟩ := r.syncFound_calls_inventoryServerMeta cr twin api
    [.cache (.findByID .hws twin.Spec.ID)]
  rw [ht]
  constructor
  · intro hm
    rcases List.mem_append.1 hm with hm | hm
    · simp at hm
    · rcases htail _ hm with ⟨_, _, _, h⟩ | ⟨_, h⟩ | ⟨_, _, h⟩ <;> cases h
  · intro hm
    rcases List.mem_append.1 hm with hm | hm
    · simp at hm
    · rcases htail _ hm with ⟨_, _, _, h⟩ | ⟨_, h⟩ | ⟨_, _, h⟩ <;> cases h

/-- Witness of C29: the twin 7 with the addresses "auto" against the remote server 7 with
the address "10.0.0.7": the comparison returns false and the reconcile issues the remote
Update of the server 7 with the main address "auto". -/
theorem auto_address_updated_on_every_reconcile_witness :
    compareInventoryServerMetaAPIServer
        (InventoryServerMetaReconciler.fillFromAPI
          (Scenario.inventoryServerMeta 7 2 "d" "auto" false false)
          (Scenario.hw 7 "d" "10.0.0.7"))
        (Scenario.hw 7 "d" "10.0.0.7") = false
    ∧ ∃ payload, payload.MainAddress = "auto"
        ∧ Event.remoteUpdate 7 payload ∈
          ((Scenario.inventoryServerMetaReconciler (Scenario.inventoryServer "sfo1" "d" 2 false)
            (Scenario.inventoryServerMeta 7 2 "d" "auto" false false) none 200
            [Scenario.hw 7 "d" "10.0.0.7"]).Reconcile (Scenario.request "uid-1")).trace := by
  refine ⟨auto_address_updated_on_every_reconcile.2.1 _ _ (Or.inl ⟨rfl, by decide⟩), ?_⟩
  obtain ⟨⟨payload, hp, hmem⟩, _⟩ := auto_address_updated_on_every_reconcile.2.2
    (Scenario.inventoryServerMetaReconciler (Scenario.inventoryServer "sfo1" "d" 2 false)
      (Scenario.inventoryServerMeta 7 2 "d" "auto" false false) none 200
      [Scenario.hw 7 "d" "10.0.0.7"]) (Scenario.request "uid-1")
    (Scenario.inventoryServer "sfo1" "d" 2 false)
    (Scenario.inventoryServerMeta 7 2 "d" "auto" false false) (Scenario.hw 7 "d" "10.0.0.7")
    rfl rfl rfl (by decide) rfl (Or.inl ⟨rfl, by decide⟩)
  refine ⟨payload, ?_, hmem⟩
  cases hp
  rfl

/-! ## C30: the payload of a template -/

/-- The bindings of the gateway map: each key is present exactly when its field is set. -/
theorem gatewayMap_lookup (g : ServerClusterTemplateVNetGateway) :
    (gatewayMap g).lookup "assignType"
      = (if g.AssignType = "" then none else some (.str g.AssignType))
    ∧ (gatewayMap g).lookup "allocation"
      = (if g.Allocation = "" then none else some (.str g.Allocation))
    ∧ (gatewayMap g).lookup "childSubnetPrefixLength"
      = (if 0 < g.ChildSubnetPrefixLength then some (.int g.ChildSubnetPrefixLength) else none)
    ∧ (gatewayMap g).lookup "hostnum"
      = (if 0 < g.Hostnum then some (.int g.Hostnum) else none)
    ∧ ((gatewayMap g).length > 0
      ↔ g.AssignType ≠ "" ∨ g.Allocation ≠ "" ∨ 0 < g.ChildSubnetPrefixLength
        ∨ 0 < g.Hostnum) := by
  unfold gatewayMap
  by_cases h1 : g.AssignType = "" <;> by_cases h2 : g.Allocation = "" <;>
    by_cases h3 : 0 < g.ChildSubnetPrefixLength <;> by_cases h4 : 0 < g.Hostnum <;>
    simp [h1, h2, h3, h4, List.lookup]

/-- The bindings of a gateway entry: the key `key` alone, bound when the gateway is not nil
and its map is not empty. -/
theorem gatewayEntry_lookup (key : String) (g : Option ServerClusterTemplateVNetGateway)
    (other : String) :
    (gatewayEntry key g).lookup other
      = if other = key then
          match g with
          | none => none
          | some g =>
            if (gatewayMap g).length > 0 then some (.gateway (gatewayMap g)) else none
        else none := by
  unfold gatewayEntry
  cases g with
  | none => simp [List.lookup]
  | some g =>
    by_cases hk : other = key
    · by_cases hl : (gatewayMap g).length > 0 <;> simp [hk, hl, List.lookup]
    · have hb : (other == key) = false := by simpa using hk
      by_cases hl : (gatewayMap g).length > 0 <;> simp [hk, hb, hl, List.lookup]

/-- The binding of a key in two maps written one after the other. -/
theorem lookup_append_vnet (l1 l2 : List (String × VNetValue)) (key : String) :
    (l1 ++ l2).lookup key = (l1.lookup key).orElse fun _ => l2.lookup key := by
  induction l1 with
  | nil => rfl
  | cons p rest ih =>
    obtain ⟨k, v⟩ := p
    by_cases h : key = k
    · subst h
      simp [List.lookup]
    · have hb : (key == k) = false := by simpa using h
      simp [List.lookup, hb, ih]

/-- The bindings of the map of a VNet. -/
theorem vnetMap_lookup (vnet : ServerClusterTemplateVNet) :
    (vnetMap vnet).lookup "postfix" = some (.str vnet.Postfix)
    ∧ (vnetMap vnet).lookup "type" = some (.str vnet.Type_)
    ∧ (vnetMap vnet).lookup "serverNics" = some (.strs vnet.ServerNics)
    ∧ (vnetMap vnet).lookup "vlan" = (if vnet.Vlan = "" then none else some (.str vnet.Vlan))
    ∧ (vnetMap vnet).lookup "vlanID"
      = (if vnet.VlanID = "" then none else some (.str vnet.VlanID))
    ∧ (vnetMap vnet).lookup "ipv4DhcpEnabled"
      = (if vnet.IPv4DhcpEnabled = true then some (.bool true) else none)
    ∧ (vnetMap vnet).lookup "ipv6DhcpEnabled"
      = (if vnet.IPv6DhcpEnabled = true then some (.bool true) else none)
    ∧ (vnetMap vnet).lookup "ipv4Gateway"
      = (match vnet.IPv4Gateway with
        | none => none
        | some g =>
          if (gatewayMap g).length > 0 then some (.gateway (gatewayMap g)) else none)
    ∧ (vnetMap vnet).lookup "ipv6Gateway"
      = (match vnet.IPv6Gateway with
        | none => none
        | some g =>
          if (gatewayMap g).length > 0 then some (.gateway (gatewayMap g)) else none) := by
  unfold vnetMap
  simp only [lookup_append_vnet, gatewayEntry_lookup]
  by_cases h1 : vnet.Vlan = "" <;> by_cases h2 : vnet.VlanID = "" <;>
    by_cases h3 : vnet.IPv4DhcpEnabled = true <;> by_cases h4 : vnet.IPv6DhcpEnabled = true <;>
    simp [h1, h2, h3, h4, List.lookup, lookup_append_vnet]

/-- The gateway map is not empty exactly when a field of the gateway is set. -/
theorem gatewayMap_length_pos (g : ServerClusterTemplateVNetGateway) :
    ((gatewayMap g).length > 0)
      = (g.AssignType ≠ "" ∨ g.Allocation ≠ "" ∨ 0 < g.ChildSubnetPrefixLength
        ∨ 0 < g.Hostnum) :=
  propext (gatewayMap_lookup g).2.2.2.2

/-- C30: `ServerClusterTemplateMetaToNetris` returns a payload whose name is the template
name of the twin and whose `Vnets` has the length and the order of the VNets of the twin: the
element at each index is the map of the VNet at that index.  That map always binds postfix,
type and serverNics to the values of the VNet; it binds vlan / vlanID only when the string is
not empty, ipv4DhcpEnabled / ipv6DhcpEnabled only when true, and ipv4Gateway / ipv6Gateway
only when the gateway is not nil and has a field set (a gateway with all fields empty or
zero is left out).  In a gateway map assignType and allocation are bound only when not
empty, childSubnetPrefixLength and hostnum only when greater than 0. -/
theorem template_payload_vnets (m : ServerClusterTemplateMeta) :
    (ServerClusterTemplateMetaToNetris m).Name = m.Spec.ServerClusterTemplateName
    ∧ (ServerClusterTemplateMetaToNetris m).Vnets.length = m.Spec.VNets.length
    ∧ (∀ (i : Nat) (vnet : ServerClusterTemplateVNet), m.Spec.VNets[i]? = some vnet →
        ∃ e, (ServerClusterTemplateMetaToNetris m).Vnets[i]? = some e
          ∧ e.lookup "postfix" = some (.str vnet.Postfix)
          ∧ e.lookup "type" = some (.str vnet.Type_)
          ∧ e.lookup "serverNics" = some (.strs vnet.ServerNics)
          ∧ e.lookup "vlan" = (if vnet.Vlan = "" then none else some (.str vnet.Vlan))
          ∧ e.lookup "vlanID" = (if vnet.VlanID = "" then none else some (.str vnet.VlanID))
          ∧ e.lookup "ipv4DhcpEnabled"
            = (if vnet.IPv4DhcpEnabled = true then some (.bool true) else none)
          ∧ e.lookup "ipv6DhcpEnabled"
            = (if vnet.IPv6DhcpEnabled = true then some (.bool true) else none)
          ∧ e.lookup "ipv4Gateway"
            = (match vnet.IPv4Gateway with
              | none => none
              | some g =>
                if g.AssignType ≠ "" ∨ g.Allocation ≠ "" ∨ 0 < g.ChildSubnetPrefixLength
                    ∨ 0 < g.Hostnum then
                  some (.gateway (gatewayMap g))
                else none)
          ∧ e.lookup "ipv6Gateway"
            = (match vnet.IPv6Gateway with
              | none => none
              | some g =>
                if g.AssignType ≠ "" ∨ g.Allocation ≠ "" ∨ 0 < g.ChildSubnetPrefixLength
                    ∨ 0 < g.Hostnum then
                  some (.gateway (gatewayMap g))
                else none))
    ∧ (∀ g : ServerClusterTemplateVNetGateway,
        (gatewayMap g).lookup "assignType"
          = (if g.AssignType = "" then none else some (.str g.AssignType))
        ∧ (gatewayMap g).lookup "allocation"
          = (if g.Allocation = "" then none else some (.str g.Allocation))
        ∧ (gatewayMap g).lookup "childSubnetPrefixLength"
          = (if 0 < g.ChildSubnetPrefixLength then some (.int g.ChildSubnetPrefixLength)
            else none)
        ∧ (gatewayMap g).lookup "hostnum"
          = (if 0 < g.Hostnum then some (.int g.Hostnum) else none)) := by
  refine ⟨rfl, by simp [ServerClusterTemplateMetaToNetris], ?_, fun g =>
    ⟨(gatewayMap_lookup g).1, (gatewayMap_lookup g).2.1, (gatewayMap_lookup g).2.2.1,
      (gatewayMap_lookup g).2.2.2.1⟩⟩
  intro i vnet hi
  refine ⟨vnetMap vnet, by simp [ServerClusterTemplateMetaToNetris, hi], ?_⟩
  have h := vnetMap_lookup vnet
  simp only [gatewayMap_length_pos] at h
  exact h

/-- Witness of C30: a twin with the VNet "east" followed by a VNet "west" that has DHCP for
IPv4, an IPv4 gateway with the host number 1 and an IPv6 gateway with no field set.  The
second element of the payload binds postfix to "west", ipv4DhcpEnabled to true and
ipv4Gateway to the map with hostnum 1 alone, and binds neither vlan nor ipv6Gateway. -/
theorem template_payload_vnets_witness :
    ∃ e, (ServerClusterTemplateMetaToNetris
        { Scenario.templateMeta 7 1 false false with
          Spec := { (Scenario.templateMeta 7 1 false false).Spec with
            VNets := [Scenario.vnet,
              { Scenario.vnet with
                Postfix := "west", Vlan := "", IPv4DhcpEnabled := true
                IPv4Gateway := some
                  { AssignType := "", Allocation := "", ChildSubnetPrefixLength := 0
                    Hostnum := 1 }
                IPv6Gateway := some
                  { AssignType := "", Allocation := "", ChildSubnetPrefixLength := 0
                    Hostnum := 0 } }] } }).Vnets[1]? = some e
      ∧ e.lookup "postfix" = some (.str "west")
      ∧ e.lookup "vlan" = none
      ∧ e.lookup "ipv4DhcpEnabled" = some (.bool true)
      ∧ e.lookup "ipv4Gateway" = some (.gateway [("hostnum", .int 1)])
      ∧ e.lookup "ipv6Gateway" = none := by
  obtain ⟨e, he, h1, _, _, h4, _, h6, _, h8, h9⟩ :=
    (template_payload_vnets
      { Scenario.templateMeta 7 1 false false with
        Spec := { (Scenario.templateMeta 7 1 false false).Spec with
          VNets := [Scenario.vnet,
            { Scenario.vnet with
              Postfix := "west", Vlan := "", IPv4DhcpEnabled := true
              IPv4Gateway := some
                { AssignType := "", Allocation := "", ChildSubnetPrefixLength := 0
                  Hostnum := 1 }
              IPv6Gateway := some
                { AssignType := "", Allocation := "", ChildSubnetPrefixLength := 0
                  Hostnum := 0 } }] } }).2.2.1 1 _ rfl
  exact ⟨e, he, h1, h4, h6, h8.trans (by decide), h9.trans (by decide)⟩

end NetrisOperator
